import Mathlib

/-!
# Weather-station node firmware: verification development

Shallow embedding of parts of the firmware (`post_client.c`, `eeprom.c`,
`davis.c`) and theorems about them.

Conventions of the embedding.

* The target is a Rabbit micro-controller: `int` and `unsigned int` are 16 bits
  wide, `long` is 32 bits wide, `char` is an unsigned 8-bit byte (the
  library comment of `i2c_read_byte` returns a `char` as "Read byte (0-255)").
  Machine integers are natural numbers / integers, reduced `% 65536` where
  the source computes in `unsigned int`.
* A C string is the list of its bytes; a zero byte or the end of the list is
  the terminator.
* Memory reached through a pointer is a function from byte offsets to bytes.
-/

namespace Wx

/-! ## Common helpers -/

/-- Reduction of a value to `unsigned int` (16 bits on the target). -/
def u16 (n : Nat) : Nat := n % 65536

/-- Store the bytes `l` into memory `m` from offset `p` on (as `sprintf` and
`memcpy` do); every other cell keeps its content. -/
def mem_write (m : Nat → Nat) (p : Nat) (l : List Nat) : Nat → Nat :=
  fun i => if p ≤ i then (l[i - p]?).getD (m i) else m i

/-- The `n` bytes of memory `m` from offset `p` on. -/
def mem_read (m : Nat → Nat) (p n : Nat) : List Nat :=
  (List.range n).map (fun i => m (p + i))

/-- The bytes of a C string: those before the first zero byte. -/
def c_str (s : List Nat) : List Nat := s.takeWhile (fun c => c != 0)

/-- Library `isalnum` in the "C" locale. -/
def isalnum (c : Nat) : Bool :=
  (48 ≤ c && c ≤ 57) || (65 ≤ c && c ≤ 90) || (97 ≤ c && c ≤ 122)

/-- Library `tolower` in the "C" locale. -/
def tolower (c : Nat) : Nat := if 65 ≤ c ∧ c ≤ 90 then c + 32 else c

/-- One upper-case hexadecimal digit, as printed by `%X`. -/
def hex_digit_upper (n : Nat) : Nat := if n < 10 then 48 + n else 55 + n

/-! ## post_client.c : state -/

/-- Values of `enum state_value` in post_client.c. -/
inductive PostStateValue where
  | POST_IDLE
  | POST_STARTING
  | POST_RESOLVING
  | POST_OPENING
  | POST_AWAITING_ESTAB
  | POST_SENDING_COMMAND
  | POST_SENDING_BODY
  | POST_READING_STATUS
  | POST_READING_HEADERS
  | POST_CHECKING_BODY
  | POST_READING_BODY
  deriving DecidableEq, Repr

/-- Numeric value of a state, as stored in `bb_post_error_state_num`. -/
def PostStateValue.toNat : PostStateValue → Nat
  | .POST_IDLE => 0
  | .POST_STARTING => 1
  | .POST_RESOLVING => 2
  | .POST_OPENING => 3
  | .POST_AWAITING_ESTAB => 4
  | .POST_SENDING_COMMAND => 5
  | .POST_SENDING_BODY => 6
  | .POST_READING_STATUS => 7
  | .POST_READING_HEADERS => 8
  | .POST_CHECKING_BODY => 9
  | .POST_READING_BODY => 10

def POST_SUCCESS : Int := 1
def POST_PENDING : Int := 0
def POST_NOT_STARTED : Int := -1
def POST_CANNOT_START : Int := -2
def POST_TIMEOUT : Int := -3
def POST_ABORTED : Int := -4
def POST_DNS_ERR : Int := -5
def POST_SOCKET_ERR : Int := -6
def POST_CONNECTION_LOST : Int := -7
def POST_SEND_ERR : Int := -8
def POST_RESP_ERR : Int := -9
def POST_SERVER_ERR : Int := -10
def POST_BAD_ID : Int := -11
def POST_REJECTED : Int := -12
def POST_BAD_STATE : Int := -13

def RESP_SUCCESS : Nat := 1
def RESP_BAD_ID : Nat := 2
def RESP_BAD_DATA : Nat := 3
def RESP_REJECTED : Nat := 4

/-- LED colours of wx_board.h, as far as the POST client and collector use them. -/
inductive LedColour where
  | LED_OFF
  | LED_RED
  | LED_GREEN
  | LED_AMBER
  deriving DecidableEq, Repr

/-- The variable `post_state` of post_client.c, together with the globals the
POST client writes (`bb_post_error_str`, `bb_post_error_state_num`,
`rtc_validated`, the real-time clock, the two status LEDs). The socket and
the resolver are outside the program; what they report is an input of
`post_tick`. -/
structure PostState where
  state : PostStateValue
  condition : Int
  resp_class : Nat
  resp_result : Nat
  dns : Int
  timeout : Nat
  sock_opened : Bool
  servers_set : Bool
  server_host : List Nat
  server_path : List Nat
  server_port : Nat
  request_host : List Nat
  request_ip : Nat
  request_port : Nat
  abs_uri_prefix : List Nat
  abs_uri_host : List Nat
  cached_ip : Nat
  cache_timeout : Nat
  msg_len : Nat
  msg_pos : Nat
  cmd_buf : List Nat
  body_buf : Nat → Nat
  body_buf_size : Nat
  body_pos : Nat
  body_overflow : Nat
  bb_post_error_str : String
  bb_post_error_state_num : Int
  rtc_validated : Bool
  rtc : Nat
  led_post : LedColour
  led_davis : LedColour

/-- The body text: the `body_pos` bytes at the start of the body buffer. -/
def body_text (s : PostState) : List Nat := mem_read s.body_buf 0 s.body_pos

/-! ## post_client.c : building the body -/

/-- The two formats `add_body_char` hands to `farsprintf`. -/
inductive BodyFmt where
  | fmt_c
  | fmt_pct_02X
  deriving DecidableEq, Repr

/-- Text produced by `farsprintf(dst, fmt, ch)` for the two formats, without
the terminator: `"%c"` gives the character, `"%%%02X"` gives a percent sign
and the two upper-case hexadecimal digits of the (unsigned) character. -/
def farsprintf_out (fmt : BodyFmt) (ch : Nat) : List Nat :=
  match fmt with
  | .fmt_c => [ch]
  | .fmt_pct_02X => [37, hex_digit_upper (ch / 16 % 16), hex_digit_upper (ch % 16)]

/-- Embedding of `add_body_char`. -/
def add_body_char (s : PostState) (ch : Nat) (url_encode : Bool) : PostState × Int :=
  let enc : Bool := url_encode && !isalnum ch
  let ch1 : Nat := if enc && ch == 32 then 43 else ch
  let fmt : BodyFmt := if enc && ch != 32 then .fmt_pct_02X else .fmt_c
  let inc : Nat := if enc && ch != 32 then 3 else 1
  if u16 (s.body_pos + inc) ≥ s.body_buf_size then (s, -1)
  else
    ({ s with
        body_buf := mem_write s.body_buf s.body_pos (farsprintf_out fmt ch1 ++ [0])
        body_pos := u16 (s.body_pos + inc) }, 0)

/-- Embedding of `add_body_string`: the loop runs over the bytes of `str`
up to its terminator. -/
def add_body_string (s : PostState) : List Nat → PostState × Int
  | [] => (s, 0)
  | c :: cs =>
    if c = 0 then (s, 0)
    else if (add_body_char s c true).2 < 0 then ((add_body_char s c true).1, -1)
    else add_body_string (add_body_char s c true).1 cs

/-- Embedding of `nibb_to_hex`. -/
def nibb_to_hex (nibble : Nat) : Nat :=
  let n := nibble &&& 0x0F
  if n ≤ 9 then n + 48 else n + 65 - 10

/-- The `while (len--)` loop of `add_body_hexstring`: each round stores the two
digits of the next byte at `body_ptr` and moves both pointers on. A byte
read beyond the end of the list `bytes` reads as 0. -/
def hexstring_loop (m : Nat → Nat) (body_ptr : Nat) (bytes : List Nat) : Nat → (Nat → Nat) × Nat
  | 0 => (m, body_ptr)
  | len + 1 =>
    let b := bytes.headD 0
    let m1 := mem_write m body_ptr [nibb_to_hex (b >>> 4)]
    let m2 := mem_write m1 (body_ptr + 1) [nibb_to_hex b]
    hexstring_loop m2 (body_ptr + 2) bytes.tail len

/-- Embedding of `add_body_hexstring`. The sum `body_pos + (len * 2)` is an
`unsigned int` sum. -/
def add_body_hexstring (s : PostState) (bytes : List Nat) (len : Nat) : PostState × Int :=
  if u16 (s.body_pos + u16 (len * 2)) ≥ s.body_buf_size then (s, -1)
  else
    let r := hexstring_loop s.body_buf s.body_pos bytes len
    ({ s with
        body_buf := mem_write r.1 r.2 [0]
        body_pos := u16 (s.body_pos + u16 (len * 2)) }, 0)

/-- Embedding of `post_clear_body`. -/
def post_clear_body (s : PostState) : PostState :=
  { s with body_pos := 0, body_overflow := 0, body_buf := mem_write s.body_buf 0 [0] }

/-- The exception handler `no_room` of `post_add_variable`. -/
def no_room (s : PostState) (start_pos : Nat) : PostState × Int :=
  ({ s with
      body_pos := start_pos
      body_buf := mem_write s.body_buf start_pos [0]
      body_overflow := 1 }, -1)

/-- Embedding of `post_add_variable`. -/
def post_add_variable (s : PostState) (name value : List Nat) (hexlen : Nat) : PostState × Int :=
  if name.headD 0 = 0 then (s, -2)
  else if hexlen = 0 ∧ value.headD 0 = 0 then (s, -3)
  else
    let start_pos := s.body_pos
    let r1 := if s.body_pos ≠ 0 then add_body_char s 38 false else (s, 0)
    if r1.2 < 0 then no_room r1.1 start_pos
    else
      let r2 := add_body_string r1.1 name
      if r2.2 < 0 then no_room r2.1 start_pos
      else
        let r3 := add_body_char r2.1 61 false
        if r3.2 < 0 then no_room r3.1 start_pos
        else if hexlen = 0 then
          let r4 := add_body_string r3.1 value
          if r4.2 < 0 then no_room r4.1 start_pos else (r4.1, 0)
        else
          let r4 := add_body_hexstring r3.1 value hexlen
          if r4.2 < 0 then no_room r4.1 start_pos else (r4.1, 0)

/-- Embedding of `post_check_overflow`. -/
def post_check_overflow (s : PostState) : Nat := s.body_overflow

/-! ## Specification-side vocabulary for the body -/

/-- The url-encoding of one character, in the words of the specification: an
alphanumeric character is itself, a space is `+`, any other character is `%`
followed by the two upper-case hexadecimal digits of its code. -/
def enc_char (c : Nat) : List Nat :=
  if isalnum c then [c]
  else if c = 32 then [43]
  else [37, hex_digit_upper (c / 16), hex_digit_upper (c % 16)]

/-- The url-encoding of a C string. -/
def enc (str : List Nat) : List Nat := (c_str str).flatMap enc_char

/-- Upper-case hexadecimal text of a byte sequence: two digits for each byte,
high nibble first. -/
def hex_text (bytes : List Nat) : List Nat :=
  bytes.flatMap (fun b => [hex_digit_upper (b / 16), hex_digit_upper (b % 16)])

/-- The text of one pair, `enc(name) '=' v`. -/
def pair_text (name value : List Nat) (hexlen : Nat) : List Nat :=
  enc name ++ [61] ++ (if hexlen = 0 then enc value else hex_text (value.take hexlen))

/-- Text that `farsprintf` produces inside `add_body_char (ch, url_encode)`:
the format and the character are chosen as in the source. -/
def char_out (ch : Nat) (url_encode : Bool) : List Nat :=
  if (url_encode && !isalnum ch) && ch != 32 then farsprintf_out .fmt_pct_02X ch
  else farsprintf_out .fmt_c (if (url_encode && !isalnum ch) && ch == 32 then 43 else ch)

/-- The separator `post_add_variable` puts before a pair: nothing at the
start of the body, `&` otherwise. -/
def sep (s : PostState) : List Nat := if s.body_pos = 0 then [] else [38]

/-- State `t` is state `s` after the exception handler `no_room` ran: position,
size and the bytes below the position are those of `s`, the terminator stands
at the position and the overflow flag is set. -/
structure Restored (s t : PostState) : Prop where
  pos : t.body_pos = s.body_pos
  size : t.body_buf_size = s.body_buf_size
  ovf : t.body_overflow = 1
  below : ∀ i, i < s.body_pos → t.body_buf i = s.body_buf i
  nul : t.body_buf t.body_pos = 0

/-- State `t` is state `s` with the text `out` appended to its body: the
position has moved on by the length of `out`, the bytes below the old position
are untouched, `out` stands from the old position on and is followed by the
terminator, and the size and the overflow flag are unchanged. -/
structure Appended (s t : PostState) (out : List Nat) : Prop where
  pos : t.body_pos = s.body_pos + out.length
  size : t.body_buf_size = s.body_buf_size
  ovf : t.body_overflow = s.body_overflow
  below : ∀ i, i < s.body_pos → t.body_buf i = s.body_buf i
  text : mem_read t.body_buf s.body_pos out.length = out
  nul : t.body_buf t.body_pos = 0
  room : t.body_pos < t.body_buf_size

/-- The value of a hexadecimal digit (upper or lower case); 0 for any other
character. -/
def hex_val (c : Nat) : Nat :=
  if 48 ≤ c ∧ c ≤ 57 then c - 48
  else if 65 ≤ c ∧ c ≤ 70 then c - 55
  else if 97 ≤ c ∧ c ≤ 102 then c - 87
  else 0

/-- One of the characters 0-9, A-F. -/
def is_upper_hex (c : Nat) : Bool := (48 ≤ c && c ≤ 57) || (65 ≤ c && c ≤ 70)

/-- Url-decoding: `+` gives a space, `%HH` gives the byte with the hexadecimal
code HH, any other character gives itself. -/
def url_decode : List Nat → List Nat
  | [] => []
  | c :: h :: l :: rest =>
    if c = 37 then (16 * hex_val h + hex_val l) :: url_decode rest
    else if c = 43 then 32 :: url_decode (h :: l :: rest)
    else c :: url_decode (h :: l :: rest)
  | c :: rest => if c = 43 then 32 :: url_decode rest else c :: url_decode rest
termination_by l => l.length

/-- The text consists only of letters, digits, `+` and `%HH` triplets with
upper-case hexadecimal digits. -/
def url_safe : List Nat → Bool
  | [] => true
  | c :: h :: l :: rest =>
    if c = 37 then is_upper_hex h && is_upper_hex l && url_safe rest
    else (isalnum c || c == 43) && url_safe (h :: l :: rest)
  | c :: rest => (isalnum c || c == 43) && url_safe rest
termination_by l => l.length

/-- Decoding of hexadecimal text, two digits for each byte, high nibble
first. -/
def hex_decode : List Nat → List Nat
  | h :: l :: rest => (16 * hex_val h + hex_val l) :: hex_decode rest
  | _ => []

/-! ## crc.h -/

/-- One shift step of the CCITT-16 register: the register moves one bit to
the left and, when the bit moved out is set, the polynomial 0x1021 is
added. -/
def crc_bit (c : Nat) : Nat :=
  if 32768 ≤ c % 65536 then (c * 2 % 65536) ^^^ 0x1021 else c * 2 % 65536

/-- One byte step of the CCITT-16 register: the byte is added to the high half
of the register, then the register is shifted eight times. -/
def crc_byte (c b : Nat) : Nat := crc_bit^[8] (c ^^^ (b * 256))

/-- Modelled from the spec: `crc_calculate` is declared in crc.h, its body
(crc.c) is not among the sources. The specification calls it CCITT-16, "the
16-bit polynomial CRC (polynomial 0x1021, initial value 0) used by the Davis
protocol": the register starts at 0 and takes the bytes of the block in
order, high bit first. -/
def crc_calculate (blk : List Nat) : Nat := blk.foldl crc_byte 0

/-! ## i2c.h : block transfers -/

def I2C_SUCCESS : Int := 0
def I2C_CLK_TIMEOUT : Int := -1
def I2C_NAK : Int := -2
def I2C_TOO_MANY_RETRIES : Int := -3
def I2C_COMPARE_MISMATCH : Int := 1
def I2C_MIN_ERR : Int := I2C_TOO_MANY_RETRIES
def I2C_MAX_ERR : Int := I2C_COMPARE_MISMATCH

/-- The errors the bus primitives (`i2c_start_tx`, `i2c_write_char`,
`i2c_read_char`, `i2c_send_ack`, `i2c_send_nak`) report, as listed in i2c.h. -/
inductive I2cErr where
  | CLK_TIMEOUT
  | NAK
  | TOO_MANY_RETRIES
  deriving DecidableEq, Repr

/-- The return value of a bus primitive that reports the error. -/
def I2cErr.code : I2cErr → Int
  | .CLK_TIMEOUT => I2C_CLK_TIMEOUT
  | .NAK => I2C_NAK
  | .TOO_MANY_RETRIES => I2C_TOO_MANY_RETRIES

/-- The serial EEPROM at the far end of the I2C bus. `cells` is the content of
the device by subaddress. `fault` is what the bus primitives do during a
transaction: `none` when they all succeed, `some (e, k)` when a primitive
reports the error `e` after `k` bytes of the block went through (or at the end
of the block, when it is shorter). -/
structure I2cBus where
  cells : Nat → Nat
  fault : Option (I2cErr × Nat)

/-- Embedding of `i2c_read_blk` (`i2c_action` with `I2C_READ`) for a
non-empty block: the bytes read are stored at `blk_ptr` one by one, until
the block is complete or a primitive fails. -/
def i2c_read_blk (bus : I2cBus) (subaddr : Nat) (blk : Nat → Nat) (count : Nat) :
    Int × (Nat → Nat) :=
  match bus.fault with
  | none => (I2C_SUCCESS, mem_write blk 0 (mem_read bus.cells subaddr count))
  | some (e, k) => (e.code, mem_write blk 0 (mem_read bus.cells subaddr (min k count)))

/-- Embedding of `i2c_write_blk` (`i2c_action` with `I2C_WRITE`) for a
non-empty block of `count` bytes that starts at offset `ptr` of `blk`. -/
def i2c_write_blk (bus : I2cBus) (subaddr : Nat) (blk : Nat → Nat) (ptr count : Nat) :
    Int × I2cBus :=
  match bus.fault with
  | none => (I2C_SUCCESS, { bus with cells := mem_write bus.cells subaddr (mem_read blk ptr count) })
  | some (e, k) =>
    (e.code, { bus with cells := mem_write bus.cells subaddr (mem_read blk ptr (min k count)) })

/-- Embedding of `i2c_compare_blk` (`i2c_action` with `I2C_COMPARE`) for a
non-empty block: the bytes read are compared with the block one by one; the
first difference ends the transaction with `I2C_COMPARE_MISMATCH`. -/
def i2c_compare_blk (bus : I2cBus) (subaddr : Nat) (blk : Nat → Nat) (count : Nat) : Int :=
  match bus.fault with
  | none =>
    if mem_read bus.cells subaddr count = mem_read blk 0 count then I2C_SUCCESS
    else I2C_COMPARE_MISMATCH
  | some (e, k) =>
    if mem_read bus.cells subaddr (min k count) = mem_read blk 0 (min k count) then e.code
    else I2C_COMPARE_MISMATCH

/-! ## eeprom.h / eeprom.c -/

def EE_POST_STR_MAX_LEN : Nat := 64

def EE_BAD_CRC : Int := I2C_MAX_ERR + 2
def EE_BAD_MARKER : Int := I2C_MAX_ERR + 1
def EE_SUCCESS : Int := 0
def EE_BAD_BLK_SIZE : Int := I2C_MIN_ERR - 1

def EE_LOC_LAN_INFO : Nat := 0
def EE_LOC_POST_INFO : Nat := 1
def EE_LOC_POST_HOST : Nat := 2
def EE_LOC_POST_PATH : Nat := 6
def EE_LOC_POST_PROXY : Nat := 10
def EE_LOC_UNIT_INFO : Nat := 14

def EE_PAGE_SIZE : Nat := 32
def EE_BLK_MARKER : Nat := 0x55AA

/-- Size `sizeof(unsigned int)` on the target. -/
def EE_CRC_SIZE : Nat := 2

/-- Size `sizeof(int) + EE_CRC_SIZE + 1`. -/
def EE_BLK_MIN_SIZE : Nat := 2 + EE_CRC_SIZE + 1

/-- Size `sizeof(EeLanInfo_t)`: marker, `int`, four `longword`, crc. -/
def sizeof_EeLanInfo_t : Nat := 2 + 2 + 4 + 4 + 4 + 4 + 2

/-- Size `sizeof(EePostInfo_t)`: marker, `int`, two `word`, crc. -/
def sizeof_EePostInfo_t : Nat := 2 + 2 + 2 + 2 + 2

/-- Size `sizeof(EePostStr_t)`: marker, `char str[EE_POST_STR_MAX_LEN + 1]`, crc. -/
def sizeof_EePostStr_t : Nat := 2 + (EE_POST_STR_MAX_LEN + 1) + 2

/-- Size `sizeof(EeUnitInfo_t)`: marker, four `word`, crc. -/
def sizeof_EeUnitInfo_t : Nat := 2 + 2 + 2 + 2 + 2 + 2

/-- The `unsigned int` stored at offset `p` (low byte first). -/
def rd16 (m : Nat → Nat) (p : Nat) : Nat := m p + 256 * m (p + 1)

/-- Store the `unsigned int` `v` at offset `p` (low byte first). -/
def wr16 (m : Nat → Nat) (p v : Nat) : Nat → Nat := mem_write m p [v % 256, v / 256 % 256]

/-- Library `memset(m + p, c, n)`. -/
def memset (m : Nat → Nat) (p c n : Nat) : Nat → Nat := mem_write m p (List.replicate n c)

/-- Embedding of `ee_read_blk`. The function `crc` stands for `crc_calculate`,
whose result is an `unsigned int`. -/
def ee_read_blk (crc : List Nat → Nat) (bus : I2cBus) (ee_loc : Nat) (blk_base : Nat → Nat)
    (blk_size : Nat) : Int × (Nat → Nat) :=
  if blk_size < EE_BLK_MIN_SIZE then (EE_BAD_BLK_SIZE, blk_base)
  else
    let info_size := blk_size - EE_CRC_SIZE
    let subaddr := u16 (ee_loc * EE_PAGE_SIZE)
    let r := i2c_read_blk bus subaddr blk_base blk_size
    if r.1 ≠ 0 then (r.1, memset r.2 0 0 info_size)
    else if rd16 r.2 0 ≠ EE_BLK_MARKER then (EE_BAD_MARKER, memset r.2 0 0 info_size)
    else
      let crc_calc := u16 (crc (mem_read r.2 0 info_size))
      if rd16 r.2 info_size ≠ crc_calc then (EE_BAD_CRC, memset r.2 0 0 info_size)
      else (EE_SUCCESS, r.2)

/-- Embedding of `ee_compare_blk`. -/
def ee_compare_blk (bus : I2cBus) (ee_loc : Nat) (blk_base : Nat → Nat) (blk_size : Nat) : Int :=
  let subaddr := u16 (ee_loc * EE_PAGE_SIZE)
  i2c_compare_blk bus subaddr blk_base blk_size

/-- The page loop of `ee_write_blk`. Every round writes at least one byte, so
`count` rounds are enough: the first argument counts the rounds left and starts
at `count`. -/
def ee_write_pages (blk_base : Nat → Nat) : Nat → I2cBus → Nat → Nat → Nat → Int × I2cBus
  | 0, bus, _, _, _ => (EE_SUCCESS, bus)
  | rounds + 1, bus, subaddr, ptr, count =>
    if count > 0 then
      let len := if count > EE_PAGE_SIZE then EE_PAGE_SIZE else count
      let r := i2c_write_blk bus subaddr blk_base ptr len
      if r.1 ≠ 0 then r
      else ee_write_pages blk_base rounds r.2 (u16 (subaddr + len)) (ptr + len) (count - len)
    else (EE_SUCCESS, bus)

/-- Embedding of `ee_write_blk`: the result is the return value, the block in
memory (marker and CRC filled in) and the device. -/
def ee_write_blk (crc : List Nat → Nat) (bus : I2cBus) (ee_loc : Nat) (blk_base : Nat → Nat)
    (blk_size : Nat) : Int × (Nat → Nat) × I2cBus :=
  if blk_size < EE_BLK_MIN_SIZE then (EE_BAD_BLK_SIZE, blk_base, bus)
  else
    let info_size := blk_size - EE_CRC_SIZE
    let blk1 := wr16 blk_base 0 EE_BLK_MARKER
    let crc_calc := u16 (crc (mem_read blk1 0 info_size))
    let blk2 := wr16 blk1 info_size crc_calc
    let subaddr := u16 (ee_loc * EE_PAGE_SIZE)
    let w := ee_write_pages blk2 blk_size bus subaddr 0 blk_size
    if w.1 ≠ 0 then (w.1, blk2, w.2)
    else if ee_compare_blk w.2 ee_loc blk2 blk_size ≠ 0 then
      (ee_compare_blk w.2 ee_loc blk2 blk_size, blk2, w.2)
    else (EE_SUCCESS, blk2, w.2)

/-- Library `strncpy(dst + p, src, n)`: the bytes of the string `src`, at most
`n` of them, then zero bytes up to `n` bytes in all. -/
def strncpy (dst : Nat → Nat) (p : Nat) (src : List Nat) (n : Nat) : Nat → Nat :=
  mem_write dst p ((c_str src).take n ++ List.replicate (n - ((c_str src).take n).length) 0)

/-- Offset of the member `str` in `EePostStr_t`. -/
def EePostStr_str : Nat := 2

/-- Embedding of `ee_read_post_str`. -/
def ee_read_post_str (crc : List Nat → Nat) (bus : I2cBus) (ee_loc : Nat) (ptr : Nat → Nat) :
    Int × (Nat → Nat) :=
  let r := ee_read_blk crc bus ee_loc ptr sizeof_EePostStr_t
  (r.1, mem_write r.2 (EePostStr_str + EE_POST_STR_MAX_LEN) [0])

/-- Embedding of `ee_write_post_str`. -/
def ee_write_post_str (crc : List Nat → Nat) (bus : I2cBus) (ee_loc : Nat) (ptr : Nat → Nat)
    (src : List Nat) : Int × (Nat → Nat) × I2cBus :=
  let p1 := memset ptr EePostStr_str 0 EE_POST_STR_MAX_LEN
  let p2 := strncpy p1 EePostStr_str src EE_POST_STR_MAX_LEN
  let p3 := mem_write p2 (EePostStr_str + EE_POST_STR_MAX_LEN) [0]
  ee_write_blk crc bus ee_loc p3 sizeof_EePostStr_t

/-- The parameter blocks of eeprom.c. -/
inductive EeBlock where
  | lan_info
  | post_info
  | post_host
  | post_path
  | post_proxy
  | unit_info
  deriving DecidableEq, Repr

/-- The location of a parameter block, as the callers of `ee_read_blk` and
`ee_write_blk` pass it. -/
def EeBlock.loc : EeBlock → Nat
  | .lan_info => EE_LOC_LAN_INFO
  | .post_info => EE_LOC_POST_INFO
  | .post_host => EE_LOC_POST_HOST
  | .post_path => EE_LOC_POST_PATH
  | .post_proxy => EE_LOC_POST_PROXY
  | .unit_info => EE_LOC_UNIT_INFO

/-- The size of a parameter block, as the callers of `ee_read_blk` and
`ee_write_blk` pass it. -/
def EeBlock.size : EeBlock → Nat
  | .lan_info => sizeof_EeLanInfo_t
  | .post_info => sizeof_EePostInfo_t
  | .post_host => sizeof_EePostStr_t
  | .post_path => sizeof_EePostStr_t
  | .post_proxy => sizeof_EePostStr_t
  | .unit_info => sizeof_EeUnitInfo_t

/-- The block in memory as `ee_write_blk` leaves it: the marker stored at the
front, the CRC of marker and payload stored in the last two bytes. -/
def ee_fill (crc : List Nat → Nat) (blk_base : Nat → Nat) (blk_size : Nat) : Nat → Nat :=
  wr16 (wr16 blk_base 0 EE_BLK_MARKER) (blk_size - EE_CRC_SIZE)
    (u16 (crc (mem_read (wr16 blk_base 0 EE_BLK_MARKER) 0 (blk_size - EE_CRC_SIZE))))

/-- The `blk_size` bytes the device holds at location `ee_loc`, by offset. -/
def ee_stored (bus : I2cBus) (ee_loc : Nat) : Nat → Nat :=
  fun i => bus.cells (u16 (ee_loc * EE_PAGE_SIZE) + i)

/-- The device with the byte at offset `j` of the block at location `ee_loc`
changed to `v`. -/
def ee_change_byte (bus : I2cBus) (ee_loc j v : Nat) : I2cBus :=
  { bus with cells := fun a => if a = u16 (ee_loc * EE_PAGE_SIZE) + j then v else bus.cells a }

/-! ## timeout.h -/

/-- Macros `SET_TIMEOUT_UI_SECS(SECS)` and `SET_TIMEOUT_UI_MS(MS)`: the sum of the
free-running counter `now`, cut to `unsigned int`, and the interval. -/
def SET_TIMEOUT_UI (now interval : Nat) : Nat := u16 (u16 now + interval)

/-- Macros `CHK_TIMEOUT_UI_SECS(UI)` and `CHK_TIMEOUT_UI_MS(UI)`: the difference of the
counter and the stored value, read as a signed `int`, is not negative. -/
def CHK_TIMEOUT_UI (now ui : Nat) : Bool := u16 (u16 now + 65536 - u16 ui) < 32768

/-! ## davis.h / davis.c -/

def DAV_DATA_LEN : Nat := 99

def DAV_WRONG_TIME : Int := 2
def DAV_SUCCESS : Int := 1
def DAV_PENDING : Int := 0
def DAV_NOT_STARTED : Int := -1
def DAV_SERIAL_ERR : Int := -2
def DAV_TIMEOUT : Int := -3
def DAV_ABORTED : Int := -4
def DAV_NO_WAKEUP : Int := -5
def DAV_BAD_WAKEUP : Int := -6
def DAV_NO_ACK : Int := -7
def DAV_NEG_ACK : Int := -8
def DAV_BAD_ACK : Int := -9
def DAV_NO_DATA : Int := -10
def DAV_BAD_DATA : Int := -11
def DAV_BAD_CRC : Int := -12
def DAV_NO_TIME : Int := -13
def DAV_BAD_TIME : Int := -14
def DAV_BAD_STATE : Int := -15

def DAV_DATA_LOO : Nat := 0
def DAV_DATA_LF : Nat := 95
def DAV_DATA_CR : Nat := 96
def DAV_DATA_CRC_H : Nat := 97
def DAV_DATA_CRC_L : Nat := 98

def DAV_ACK : Nat := 0x06
def DAV_NAK : Nat := 0x21

/-- The bytes of `DAV_OK_STR`, "\n\rOK\n\r". -/
def DAV_OK_STR : List Nat := [10, 13, 79, 75, 10, 13]
def DAV_OK_LEN : Nat := 6

/-- Values of `enum state_value` in davis.c. -/
inductive DavStateValue where
  | DAV_IDLE
  | DAV_STARTING
  | DAV_AWAITING_LF
  | DAV_AWAITING_CR
  | DAV_AWAITING_ACK
  | DAV_AWAITING_DATA
  | DAV_CHECKING_DATA
  | DAV_AWAITING_OK
  | DAV_ECHOING_RESP
  | DAV_AWAITING_TIME
  deriving DecidableEq, Repr

/-- Values of `enum cmd_value` in davis.c. -/
inductive DavCmd where
  | DAV_CMD_COLLECT
  | DAV_CMD_SET_BAR
  | DAV_CMD_ECHO_RESP
  | DAV_CMD_CHK_TIME
  | DAV_CMD_SET_TIME
  | DAV_CMD_EXPECT_ACK
  deriving DecidableEq, Repr

def DAV_TIMEOUT_SECS : Nat := 20
def MAX_WAKEUP_ATTEMPTS : Nat := 5
def MAX_WAKEUP_MS : Nat := 1200
def MAX_RESP_MS : Nat := 2000
def MAX_DATA_MS : Nat := 2000
def MAX_ECHO_MS : Nat := 1000
def MAX_TIME_MS : Nat := 2000

def DAV_TIME_LEN : Nat := 8
def DAV_TIME_SEC : Nat := 0
def DAV_TIME_MIN : Nat := 1
def DAV_TIME_HOUR : Nat := 2
def DAV_TIME_DAY : Nat := 3
def DAV_TIME_MONTH : Nat := 4
def DAV_TIME_YEAR : Nat := 5
def DAV_TIME_CRC_H : Nat := 6
def DAV_TIME_CRC_L : Nat := 7

/-- Constant `MAX_DIFF_TIME_T` of davis.c. -/
def DAV_MAX_DIFF_TIME_T : Nat := 30

/-- Library `struct tm`, the members the collector uses. -/
structure Tm where
  tm_sec : Int
  tm_min : Int
  tm_hour : Int
  tm_mday : Int
  tm_mon : Int
  tm_year : Int
  deriving DecidableEq, Repr

/-- What lies outside the collector during one call of `dav_tick`: the two
free-running counters, the serial driver's error flag, the real-time clock
and the two calendar functions of the C library. -/
structure DavEnv where
  ms : Nat
  secs : Nat
  serial_error : Bool
  time_now : Nat
  gmtime : Nat → Tm
  mktime : Tm → Nat

/-- The variable `dav_state` of davis.c with the module's buffers
(`dav_data`, `dav_data_valid`, `dav_error_str`, `dav_time`), the serial
port E (`rx`: bytes received and not yet read; `tx`: bytes handed to the
driver), the console and the collector's LED. -/
structure DavState where
  state : DavStateValue
  condition : Int
  timeout : Nat
  cmd_id : DavCmd
  cmd_str : List Nat
  attempt_count : Nat
  resp_tout : Nat
  parm1 : Int
  parm2 : Int
  dav_data : List Nat
  dav_data_valid : Nat
  dav_error_str : String
  dav_time : List Nat
  rx : List Nat
  tx : List Nat
  console : List Nat
  led_davis : LedColour

/-- The bytes of a string literal. -/
def lit (s : String) : List Nat := s.toList.map Char.toNat

/-- Text of a signed decimal number, as `%d` prints it. -/
def fmt_d (n : Int) : List Nat :=
  if n < 0 then 45 :: lit (toString n.natAbs) else lit (toString n.natAbs)

/-- Text of an unsigned decimal number, as `%u` prints it. -/
def fmt_u (n : Nat) : List Nat := lit (toString n)

/-- Embedding of `dav_cleanup`: both serial buffers are flushed. -/
def dav_cleanup (s : DavState) : DavState := { s with rx := [] }

/-- Embedding of `dav_start`. -/
def dav_start (env : DavEnv) (s : DavState) (id : DavCmd) (str : List Nat) : DavState :=
  { dav_cleanup s with
      led_davis := .LED_AMBER
      state := .DAV_STARTING
      condition := DAV_PENDING
      cmd_id := id
      cmd_str := str
      parm1 := 0
      parm2 := 0
      timeout := SET_TIMEOUT_UI env.secs DAV_TIMEOUT_SECS }

/-- Embedding of `send_wakeup`: the state and the return value. -/
def send_wakeup (env : DavEnv) (s : DavState) : DavState × Nat :=
  if s.attempt_count = 0 then (s, 0)
  else
    ({ s with
        attempt_count := s.attempt_count - 1
        resp_tout := SET_TIMEOUT_UI env.ms MAX_WAKEUP_MS
        rx := []
        tx := s.tx ++ [10] }, 1)

/-- Embedding of `send_command`. -/
def send_command (env : DavEnv) (s : DavState) : DavState :=
  let out :=
    match s.cmd_id with
    | .DAV_CMD_SET_BAR => c_str s.cmd_str ++ [61] ++ fmt_d s.parm1 ++ [32] ++ fmt_d s.parm2
    | _ => c_str s.cmd_str
  { s with
      resp_tout := SET_TIMEOUT_UI env.ms MAX_RESP_MS
      rx := []
      tx := s.tx ++ out ++ [10] }

/-- Embedding of `dav_check_data_crc`. The function `crc` stands for
`crc_calculate`, whose result is an `unsigned int`. -/
def dav_check_data_crc (crc : List Nat → Nat) (s : DavState) : Bool :=
  let crc_calc := u16 (crc (s.dav_data.take (DAV_DATA_LEN - 2)))
  let crc_recv := u16 (s.dav_data.getD DAV_DATA_CRC_H 0 <<< 8) ||| s.dav_data.getD DAV_DATA_CRC_L 0
  crc_calc == crc_recv

/-- Embedding of `dav_check_ok_resp`: six bytes are read from the serial port
and compared with `DAV_OK_STR`. -/
def dav_check_ok_resp (s : DavState) : DavState × Bool :=
  ({ s with rx := s.rx.drop DAV_OK_LEN }, c_str (s.rx.take DAV_OK_LEN) == DAV_OK_STR)

/-- Embedding of `dav_echo_resp`. -/
def dav_echo_resp (env : DavEnv) (s : DavState) : DavState × Int :=
  match s.rx with
  | ch :: rest =>
    ({ s with rx := rest, resp_tout := SET_TIMEOUT_UI env.ms MAX_ECHO_MS,
              console := s.console ++ [ch] }, 1)
  | [] => if CHK_TIMEOUT_UI env.ms s.resp_tout then (s, -1) else (s, 0)

/-- Embedding of `dav_check_time_crc`. -/
def dav_check_time_crc (crc : List Nat → Nat) (s : DavState) : Bool :=
  let crc_calc := u16 (crc (s.dav_time.take (DAV_TIME_LEN - 2)))
  let crc_recv := u16 (s.dav_time.getD DAV_TIME_CRC_H 0 <<< 8) ||| s.dav_time.getD DAV_TIME_CRC_L 0
  crc_calc == crc_recv

/-- Embedding of `dav_calc_time_crc`. -/
def dav_calc_time_crc (crc : List Nat → Nat) (s : DavState) : DavState :=
  let crc_calc := u16 (crc (s.dav_time.take (DAV_TIME_LEN - 2)))
  { s with dav_time := s.dav_time.take (DAV_TIME_LEN - 2) ++
      [(crc_calc >>> 8) &&& 0xFF, crc_calc &&& 0xFF] }

/-- A value stored into an `unsigned char`. -/
def to_uchar (n : Int) : Nat := (n % 256).toNat

/-- Embedding of `dav_send_time`. -/
def dav_send_time (crc : List Nat → Nat) (env : DavEnv) (s : DavState) : DavState :=
  let now_ptr := env.gmtime env.time_now
  let fields : List Nat :=
    [to_uchar now_ptr.tm_sec, to_uchar now_ptr.tm_min, to_uchar now_ptr.tm_hour,
     to_uchar now_ptr.tm_mday, to_uchar (now_ptr.tm_mon + 1), to_uchar now_ptr.tm_year]
  let s1 := { s with dav_time := fields ++ s.dav_time.drop 6 }
  let s2 := dav_calc_time_crc crc s1
  { s2 with tx := s2.tx ++ s2.dav_time.take DAV_TIME_LEN }

/-- Embedding of `rtc_diff` (rtc_utils.c). -/
def rtc_diff (rtc_val comp_val : Nat) : Nat :=
  if rtc_val ≥ comp_val then rtc_val - comp_val else comp_val - rtc_val

/-- Embedding of `dav_check_time_diff`. -/
def dav_check_time_diff (env : DavEnv) (s : DavState) : Bool :=
  let cmp_time : Tm :=
    { tm_sec := s.dav_time.getD DAV_TIME_SEC 0
      tm_min := s.dav_time.getD DAV_TIME_MIN 0
      tm_hour := s.dav_time.getD DAV_TIME_HOUR 0
      tm_mday := s.dav_time.getD DAV_TIME_DAY 0
      tm_mon := (s.dav_time.getD DAV_TIME_MONTH 0 : Int) - 1
      tm_year := s.dav_time.getD DAV_TIME_YEAR 0 }
  let cmp_val := env.mktime cmp_time
  rtc_diff env.time_now cmp_val < DAV_MAX_DIFF_TIME_T

/-- Embedding of `set_post_cmd_state`. -/
def set_post_cmd_state (s : DavState) : DavState :=
  match s.cmd_id with
  | .DAV_CMD_SET_BAR => { s with state := .DAV_AWAITING_OK }
  | .DAV_CMD_ECHO_RESP => { s with state := .DAV_AWAITING_OK }
  | _ => { s with state := .DAV_AWAITING_ACK }

/-- Embedding of `set_post_ack_state`. -/
def set_post_ack_state (crc : List Nat → Nat) (env : DavEnv) (s : DavState) : DavState × Int :=
  match s.cmd_id with
  | .DAV_CMD_COLLECT =>
    ({ s with resp_tout := SET_TIMEOUT_UI env.ms MAX_DATA_MS, state := .DAV_AWAITING_DATA },
      DAV_PENDING)
  | .DAV_CMD_CHK_TIME =>
    ({ s with resp_tout := SET_TIMEOUT_UI env.ms MAX_TIME_MS, state := .DAV_AWAITING_TIME },
      DAV_PENDING)
  | .DAV_CMD_SET_TIME =>
    ({ dav_send_time crc env s with
        cmd_id := .DAV_CMD_EXPECT_ACK
        resp_tout := SET_TIMEOUT_UI env.ms MAX_TIME_MS
        state := .DAV_AWAITING_ACK }, DAV_PENDING)
  | _ => (s, DAV_SUCCESS)

/-- Embedding of `set_post_ok_state`. -/
def set_post_ok_state (env : DavEnv) (s : DavState) : DavState × Int :=
  match s.cmd_id with
  | .DAV_CMD_ECHO_RESP =>
    ({ s with resp_tout := SET_TIMEOUT_UI env.ms MAX_ECHO_MS, state := .DAV_ECHOING_RESP,
              console := s.console ++ lit "\r\n[Start of output]\r\n" }, DAV_PENDING)
  | _ => (s, DAV_SUCCESS)

/-- The exit `dav_successful` of `dav_tick`. -/
def dav_successful (s : DavState) : DavState × Int :=
  ({ s with dav_error_str := "Success", led_davis := .LED_GREEN, state := .DAV_IDLE,
            condition := DAV_SUCCESS }, DAV_SUCCESS)

/-- The exit `dav_time_mismatch` of `dav_tick`. -/
def dav_time_mismatch (s : DavState) : DavState × Int :=
  ({ s with led_davis := .LED_GREEN, state := .DAV_IDLE }, s.condition)

/-- The exit `dav_error` of `dav_tick`, entered with the error string and the
condition. -/
def dav_error (s : DavState) (str : String) (condition : Int) : DavState × Int :=
  ({ dav_cleanup s with dav_error_str := str, condition := condition, led_davis := .LED_RED,
                        state := .DAV_IDLE }, condition)

/-- The pending exit at the bottom of the `switch` of `dav_tick`. -/
def dav_pending (s : DavState) : DavState × Int :=
  ({ s with condition := DAV_PENDING }, DAV_PENDING)

/-- Library `RESET_TIMEOUT()` of davis.c. -/
def dav_reset_timeout (env : DavEnv) (s : DavState) : DavState :=
  { s with timeout := SET_TIMEOUT_UI env.secs DAV_TIMEOUT_SECS }

/-- Embedding of `dav_tick`. `SerialGetcE` takes the first byte of `rx` (an
empty `rx` gives `EOF`), `SerialRecvCountE` is the length of `rx`, `fread`
takes the bytes asked for. -/
def dav_tick (crc : List Nat → Nat) (env : DavEnv) (s : DavState) : DavState × Int :=
  if s.state = .DAV_IDLE then (dav_cleanup s, s.condition)
  else if env.serial_error then dav_error s "Serial port error" DAV_SERIAL_ERR
  else if CHK_TIMEOUT_UI env.secs s.timeout then dav_error s "Timed out" DAV_TIMEOUT
  else
    match s.state with
    | .DAV_IDLE => (dav_cleanup s, s.condition)
    | .DAV_STARTING =>
      let s1 := (send_wakeup env { s with attempt_count := MAX_WAKEUP_ATTEMPTS }).1
      dav_pending (dav_reset_timeout env { s1 with state := .DAV_AWAITING_LF })
    | .DAV_AWAITING_LF =>
      match s.rx with
      | 10 :: rest => dav_pending { s with rx := rest, state := .DAV_AWAITING_CR }
      | rx =>
        let s1 := { s with rx := rx.tail }
        if CHK_TIMEOUT_UI env.ms s1.resp_tout then
          if (send_wakeup env s1).2 = 0 then
            dav_error (send_wakeup env s1).1 "No wakeup response received" DAV_NO_WAKEUP
          else dav_pending (send_wakeup env s1).1
        else dav_pending s1
    | .DAV_AWAITING_CR =>
      match s.rx with
      | 13 :: rest =>
        let s1 := { s with rx := rest }
        dav_pending (dav_reset_timeout env (set_post_cmd_state (send_command env s1)))
      | rx =>
        let s1 := { s with rx := rx.tail }
        if (rx.head? = some 10 ∨ rx.head? = none) ∧ ¬ CHK_TIMEOUT_UI env.ms s1.resp_tout then
          dav_pending s1
        else if (send_wakeup env s1).2 ≠ 0 then
          dav_pending { (send_wakeup env s1).1 with state := .DAV_AWAITING_LF }
        else dav_error (send_wakeup env s1).1 "Bad wakeup response received" DAV_BAD_WAKEUP
    | .DAV_AWAITING_ACK =>
      match s.rx with
      | [] =>
        if CHK_TIMEOUT_UI env.ms s.resp_tout then
          dav_error s "No acknowledgement received" DAV_NO_ACK
        else dav_pending s
      | ch :: rest =>
        let s1 := { s with rx := rest }
        if ch = DAV_ACK then
          if (set_post_ack_state crc env s1).2 = DAV_SUCCESS then
            dav_successful (set_post_ack_state crc env s1).1
          else dav_pending (dav_reset_timeout env (set_post_ack_state crc env s1).1)
        else if ch = DAV_NAK then
          dav_error s1 "Negative acknowledgement received" DAV_NEG_ACK
        else dav_error s1 "Bad acknowledgement received" DAV_BAD_ACK
    | .DAV_AWAITING_DATA =>
      if s.rx.length ≥ DAV_DATA_LEN then
        dav_pending (dav_reset_timeout env
          { s with dav_data_valid := 0, dav_data := s.rx.take DAV_DATA_LEN,
                   rx := s.rx.drop DAV_DATA_LEN, state := .DAV_CHECKING_DATA })
      else if CHK_TIMEOUT_UI env.ms s.resp_tout then
        dav_error s "No data received" DAV_NO_DATA
      else dav_pending s
    | .DAV_CHECKING_DATA =>
      if c_str (s.dav_data.take 3) ≠ [76, 79, 79] then
        dav_error s "Data does not start with 'LOO'" DAV_BAD_DATA
      else if s.dav_data.getD DAV_DATA_LF 0 ≠ 10 ∨ s.dav_data.getD DAV_DATA_CR 0 ≠ 13 then
        dav_error s "Data does not contain LF, CR" DAV_BAD_DATA
      else if ¬ dav_check_data_crc crc s then
        dav_error s "Data failed CRC check" DAV_BAD_CRC
      else dav_successful { s with dav_data_valid := 1 }
    | .DAV_AWAITING_OK =>
      if s.rx.length ≥ DAV_OK_LEN then
        if (dav_check_ok_resp s).2 then
          if (set_post_ok_state env (dav_check_ok_resp s).1).2 = DAV_SUCCESS then
            dav_successful (set_post_ok_state env (dav_check_ok_resp s).1).1
          else dav_pending (dav_reset_timeout env (set_post_ok_state env (dav_check_ok_resp s).1).1)
        else dav_error (dav_check_ok_resp s).1 "Bad acknowledgement received" DAV_BAD_ACK
      else if CHK_TIMEOUT_UI env.ms s.resp_tout then
        dav_error s "No acknowledgement received" DAV_NO_ACK
      else dav_pending s
    | .DAV_ECHOING_RESP =>
      if (dav_echo_resp env s).2 < 0 then dav_successful (dav_echo_resp env s).1
      else dav_pending (dav_echo_resp env s).1
    | .DAV_AWAITING_TIME =>
      if s.rx.length ≥ DAV_TIME_LEN then
        let s1 := { s with dav_time := s.rx.take DAV_TIME_LEN, rx := s.rx.drop DAV_TIME_LEN }
        if ¬ dav_check_time_crc crc s1 then
          dav_error s1 "Time failed CRC check" DAV_BAD_TIME
        else if ¬ dav_check_time_diff env s1 then
          dav_time_mismatch { s1 with dav_error_str := "Time does not match Interface clock",
                                      condition := DAV_WRONG_TIME }
        else dav_successful s1
      else if CHK_TIMEOUT_UI env.ms s.resp_tout then
        dav_error s "No time received" DAV_NO_TIME
      else dav_pending s

/-- The frame of a LOOP packet is in place: bytes 0..2 are "LOO", byte 95 is
LF and byte 96 is CR. -/
abbrev loop_frame_ok (buf : List Nat) : Prop :=
  buf.take 3 = [76, 79, 79] ∧ buf.getD 95 0 = 10 ∧ buf.getD 96 0 = 13

/-- The CRC of a LOOP packet is right: the CRC over bytes 0..96 is the
big-endian word in bytes 97..98. -/
abbrev loop_crc_ok (crc : List Nat → Nat) (buf : List Nat) : Prop :=
  u16 (crc (buf.take 97)) = 256 * buf.getD 97 0 + buf.getD 98 0

/-- Embedding of `dav_start_collect`. -/
def dav_start_collect (env : DavEnv) (s : DavState) : DavState :=
  dav_start env s .DAV_CMD_COLLECT (lit "LOOP 1")

/-- Embedding of `dav_start_check_time`. -/
def dav_start_check_time (env : DavEnv) (s : DavState) : DavState :=
  dav_start env s .DAV_CMD_CHK_TIME (lit "GETTIME")

/-- Embedding of `dav_start_set_time`. -/
def dav_start_set_time (env : DavEnv) (s : DavState) : DavState :=
  dav_start env s .DAV_CMD_SET_TIME (lit "SETTIME")

/-- Embedding of `dav_get_status`. -/
def dav_get_status (s : DavState) : Int := s.condition

/-! ## Specification-side vocabulary for the collector -/

/-- What one call of `dav_tick` meets: the environment of the call and the
bytes that have arrived at the serial port since the call before. -/
structure DavInput where
  env : DavEnv
  arrived : List Nat

/-- One call of `dav_tick` after the bytes `i.arrived` have come in. -/
def dav_step (crc : List Nat → Nat) (i : DavInput) (s : DavState) : DavState × Int :=
  dav_tick crc i.env { s with rx := s.rx ++ i.arrived }

/-- The state after the calls of `dav_tick` with the inputs `ins`, in order. -/
def dav_run (crc : List Nat → Nat) (ins : List DavInput) (s : DavState) : DavState :=
  ins.foldl (fun st i => (dav_step crc i st).1) s

/-- The status the last of the calls of `dav_tick` with the inputs `ins`
returns (the stored condition when there is no call). -/
def dav_run_status (crc : List Nat → Nat) (ins : List DavInput) (s : DavState) : Int :=
  ins.foldl (fun (p : DavState × Int) i => dav_step crc i p.1) (s, s.condition) |>.2

/-- The CRC of a time packet is right: the CRC over bytes 0..5 is the
big-endian word in bytes 6..7. -/
abbrev time_crc_ok (crc : List Nat → Nat) (pkt : List Nat) : Prop :=
  u16 (crc (pkt.take 6)) = 256 * pkt.getD 6 0 + pkt.getD 7 0

/-- The calendar fields a time packet decodes to: seconds, minutes, hours,
day, month less one, year. -/
def station_tm (pkt : List Nat) : Tm :=
  { tm_sec := pkt.getD 0 0
    tm_min := pkt.getD 1 0
    tm_hour := pkt.getD 2 0
    tm_mday := pkt.getD 3 0
    tm_mon := (pkt.getD 4 0 : Int) - 1
    tm_year := pkt.getD 5 0 }

/-- The six calendar bytes `dav_send_time` stores for the clock reading of
`env`: seconds, minutes, hours, day, month plus one, year. -/
def time_fields (env : DavEnv) : List Nat :=
  [to_uchar (env.gmtime env.time_now).tm_sec, to_uchar (env.gmtime env.time_now).tm_min,
   to_uchar (env.gmtime env.time_now).tm_hour, to_uchar (env.gmtime env.time_now).tm_mday,
   to_uchar ((env.gmtime env.time_now).tm_mon + 1), to_uchar (env.gmtime env.time_now).tm_year]

/-- The 8-byte time packet: the six calendar bytes and their CRC, high byte
first. -/
def time_packet (crc : List Nat → Nat) (env : DavEnv) : List Nat :=
  time_fields env ++
    [(u16 (crc (time_fields env)) >>> 8) &&& 0xFF, u16 (crc (time_fields env)) &&& 0xFF]

/-- The bytes `send_command` hands to the serial port: the command text and
a line feed. -/
def command_line (s : DavState) : List Nat :=
  (match s.cmd_id with
   | .DAV_CMD_SET_BAR => c_str s.cmd_str ++ [61] ++ fmt_d s.parm1 ++ [32] ++ fmt_d s.parm2
   | _ => c_str s.cmd_str) ++ [10]

/-- Number of expiries of the wakeup timer over the calls `ins` when the last
wakeup was sent at the millisecond count `w`: each expiry sends the next
wakeup, which starts the timer again. -/
def wakeup_expiries (w : Nat) : List DavInput → Nat
  | [] => 0
  | i :: ins =>
    if CHK_TIMEOUT_UI i.env.ms (SET_TIMEOUT_UI w MAX_WAKEUP_MS) then
      wakeup_expiries i.env.ms ins + 1
    else wakeup_expiries w ins

/-- The millisecond count at which the last wakeup was sent, after the calls
`ins` (see `wakeup_expiries`). -/
def last_wakeup_ms (w : Nat) : List DavInput → Nat
  | [] => w
  | i :: ins =>
    if CHK_TIMEOUT_UI i.env.ms (SET_TIMEOUT_UI w MAX_WAKEUP_MS) then last_wakeup_ms i.env.ms ins
    else last_wakeup_ms w ins

/-- The bytes sent are `tx0`, then `k` wakeup characters (at most 5), then
nothing or the command line and what follows it. -/
def wakeups_then_rest (tx0 line tx : List Nat) : Prop :=
  ∃ k more, k ≤ 5 ∧ tx = tx0 ++ List.replicate k 10 ++ more ∧ (more = [] ∨ line <+: more)

/-- The bytes sent are `tx0`, then `k` wakeup characters (at most 5), then
the command line and what follows it. -/
def wakeups_then_command (tx0 line tx : List Nat) : Prop :=
  ∃ k more, k ≤ 5 ∧ tx = tx0 ++ List.replicate k 10 ++ line ++ more

/-- What a command that started with `tx0` sent and the command line `line`
to send has handed to the serial port, by state: nothing before the first
tick; one wakeup for each attempt used while the station is being woken; the
wakeups and the command line once the command has been sent. -/
def sent_shape (tx0 line : List Nat) (s : DavState) : Prop :=
  match s.state with
  | .DAV_STARTING => s.tx = tx0 ∧ command_line s = line
  | .DAV_AWAITING_LF =>
    s.attempt_count ≤ 4 ∧ s.tx = tx0 ++ List.replicate (5 - s.attempt_count) 10 ∧
      command_line s = line
  | .DAV_AWAITING_CR =>
    s.attempt_count ≤ 4 ∧ s.tx = tx0 ++ List.replicate (5 - s.attempt_count) 10 ∧
      command_line s = line
  | .DAV_IDLE => wakeups_then_rest tx0 line s.tx
  | _ => wakeups_then_command tx0 line s.tx

/-- Each calendar field of `t` fits the byte `dav_send_time` stores for it:
seconds, minutes, hours, day, month plus one and year (less 1900) lie in
0..255. -/
abbrev tm_in_bytes (t : Tm) : Prop :=
  (0 ≤ t.tm_sec ∧ t.tm_sec < 256) ∧ (0 ≤ t.tm_min ∧ t.tm_min < 256) ∧
  (0 ≤ t.tm_hour ∧ t.tm_hour < 256) ∧ (0 ≤ t.tm_mday ∧ t.tm_mday < 256) ∧
  (0 ≤ t.tm_mon + 1 ∧ t.tm_mon + 1 < 256) ∧ (0 ≤ t.tm_year ∧ t.tm_year < 256)


/-! ## post_client.c : the transaction -/

def MAX_HOST_LEN : Nat := 64
def MAX_PATH_LEN : Nat := 64
def CMD_BUF_SIZE : Nat := 350
def DEF_BODY_BUF_SIZE : Nat := 512

/-- Constant `MAX_DIFF_TIME_T` of post_client.c. -/
def POST_MAX_DIFF_TIME_T : Nat := 40
def DNS_CACHE_SECS : Nat := 3600
def POST_TIMEOUT_SECS : Nat := 20
def ULONG_MAX : Nat := 4294967295

/-- The table `post_resp`: "Success!", "Bad ID!", "Bad data!", "Reject!". -/
def post_resp : List (List Nat) :=
  [[83, 117, 99, 99, 101, 115, 115, 33],
   [66, 97, 100, 32, 73, 68, 33],
   [66, 97, 100, 32, 100, 97, 116, 97, 33],
   [82, 101, 106, 101, 99, 116, 33]]

/-- The label `RESP_LABEL_TIME_T`, "Server time =". -/
def RESP_LABEL_TIME_T : List Nat := [83, 101, 114, 118, 101, 114, 32, 116, 105, 109, 101, 32, 61]

/-- The text "HTTP/". -/
def HTTP_SLASH : List Nat := [72, 84, 84, 80, 47]

/-- Library `strnicmp(a, b, n) == 0`: the first `n` characters of the two
strings (fewer where a string ends before) are the same up to case. -/
def strnicmp_eq (a b : List Nat) (n : Nat) : Bool :=
  ((c_str a).take n).map tolower == ((c_str b).take n).map tolower

/-- Library `isspace` in the "C" locale. -/
def isspace (c : Nat) : Bool := c == 32 || (9 ≤ c && c ≤ 13)

/-- Library `isdigit`. -/
def isdigit (c : Nat) : Bool := 48 ≤ c && c ≤ 57

/-- Library `strtoul(str, NULL, 10)` as the C standard describes it: white
space is skipped, a sign is taken, the decimal digits that follow give the value
(0 when there is none); a value beyond `ULONG_MAX` gives `ULONG_MAX`; after a
minus sign the value is negated in `unsigned long`. -/
def strtoul (str : List Nat) : Nat :=
  let s1 := (c_str str).dropWhile isspace
  let s2 := if s1.head? = some 45 ∨ s1.head? = some 43 then s1.tail else s1
  let v := (s2.takeWhile isdigit).foldl (fun acc d => acc * 10 + (d - 48)) 0
  if v > ULONG_MAX then ULONG_MAX
  else if s1.head? = some 45 then (ULONG_MAX + 1 - v) % (ULONG_MAX + 1)
  else v

/-- What the resolver reports through `resolve_name_check`. -/
inductive ResolveRc where
  | RESOLVE_SUCCESS
  | RESOLVE_AGAIN
  | RESOLVE_FAILED
  | other (rc : Int)
  deriving DecidableEq, Repr

/-- What lies outside the POST client during one call of `post_tick`: the
seconds counter and the answers of the TCP/IP library to the calls the tick
may make. -/
structure PostEnv where
  secs : Nat
  tcp_tick : Bool
  inet_addr : List Nat → Nat
  resolve_name_start : Int
  resolve_name_check : ResolveRc
  resolved_ip : Nat
  tcp_open : Bool
  sock_established : Bool
  sock_xfastwrite : Int
  sock_bytesready : Int
  sock_gets : List Nat

/-- Library `RESET_TIMEOUT()` of post_client.c. -/
def post_reset_timeout (env : PostEnv) (s : PostState) : PostState :=
  { s with timeout := SET_TIMEOUT_UI env.secs POST_TIMEOUT_SECS }

/-- Embedding of `check_direct_ip`. -/
def check_direct_ip (env : PostEnv) (s : PostState) (name : List Nat) : PostState × Nat :=
  if env.inet_addr name = 0 then (s, 0)
  else ({ s with request_ip := env.inet_addr name }, 1)

/-- Embedding of `get_response`: `sock_gets` stores one line, cut to the size
of the command buffer. -/
def get_response (env : PostEnv) (s : PostState) : PostState × Nat :=
  if env.sock_bytesready = -1 then (s, 0)
  else ({ s with cmd_buf := (c_str env.sock_gets).take (CMD_BUF_SIZE - 1) }, 1)

/-- Embedding of `send_message`. -/
def send_message (env : PostEnv) (s : PostState) : PostState × Int :=
  if env.sock_xfastwrite < 0 then
    ({ s with bb_post_error_str := "sock_xfastwrite() failed" }, -1)
  else
    let s1 := { s with msg_pos := u16 (s.msg_pos + env.sock_xfastwrite.toNat) }
    if s1.msg_pos = s1.msg_len then (s1, 1) else (s1, 0)

/-- Embedding of `check_resp_status`. -/
def check_resp_status (s : PostState) : PostState × Int :=
  let ptr := c_str s.cmd_buf
  if ¬ strnicmp_eq ptr HTTP_SLASH 5 then
    ({ s with bb_post_error_str := "HTTP header not found in status response" }, -1)
  else
    let ptr1 := ptr.dropWhile (fun c => !(c == 32 || c == 9))
    if ptr1 = [] then
      ({ s with bb_post_error_str := "Delimiting space not found in status response" }, -2)
    else
      let count := (ptr1.takeWhile (fun c => c == 32 || c == 9)).length
      if count ≤ 0 then
        ({ s with bb_post_error_str := "Unable to skip past space in status response" }, -3)
      else
        let cls := (ptr1.drop count).headD 0
        if cls < 49 ∨ cls > 53 then
          ({ s with bb_post_error_str := "Unexpected class digit" }, -4)
        else ({ s with resp_class := cls - 48 }, 0)

/-- The `for` loop of `check_resp_result` from index `i` on, over the rest
`tbl` of the table. -/
def check_resp_result_loop (s : PostState) : List (List Nat) → Nat → PostState × Nat
  | [], _ => (s, 0)
  | kw :: tbl, i =>
    if strnicmp_eq s.cmd_buf kw kw.length then ({ s with resp_result := i + 1 }, i + 1)
    else check_resp_result_loop s tbl (i + 1)

/-- Embedding of `check_resp_result`. -/
def check_resp_result (s : PostState) : PostState × Nat :=
  check_resp_result_loop s post_resp 0

/-- Embedding of `check_resp_time_t`; `time(NULL)` reads the real-time clock
`rtc`, `rtc_update` sets it. -/
def check_resp_time_t (s : PostState) : PostState × Int :=
  if ¬ strnicmp_eq s.cmd_buf RESP_LABEL_TIME_T RESP_LABEL_TIME_T.length then (s, -1)
  else
    let value := strtoul ((c_str s.cmd_buf).drop RESP_LABEL_TIME_T.length)
    if value = 0 then (s, -2)
    else if value = ULONG_MAX then (s, -3)
    else if rtc_diff s.rtc value < POST_MAX_DIFF_TIME_T then ({ s with rtc_validated := true }, 0)
    else ({ s with rtc := value, rtc_validated := false }, 1)

/-- Embedding of `post_cleanup`. -/
def post_cleanup (s : PostState) : PostState :=
  let s1 := if s.dns > 0 then { s with dns := 0 } else s
  if s1.sock_opened then { s1 with sock_opened := false } else s1

/-- Embedding of `post_start`. -/
def post_start (env : PostEnv) (s : PostState) : PostState × Int :=
  let s1 := post_cleanup s
  if ¬ s1.servers_set then
    ({ s1 with led_post := .LED_RED, state := .POST_IDLE, condition := POST_CANNOT_START }, -1)
  else if s1.body_pos = 0 then
    ({ s1 with led_post := .LED_RED, state := .POST_IDLE, condition := POST_CANNOT_START }, -2)
  else
    (post_reset_timeout env
      { s1 with led_post := .LED_AMBER, state := .POST_STARTING, condition := POST_PENDING,
                resp_class := 0, resp_result := 0 }, 0)

/-- Embedding of `post_abort`. -/
def post_abort (s : PostState) : PostState :=
  { post_cleanup s with
      led_post := .LED_RED
      bb_post_error_str := "Aborted"
      bb_post_error_state_num := -1
      state := .POST_IDLE
      condition := POST_ABORTED }

/-- Embedding of `post_get_status`. -/
def post_get_status (s : PostState) : Int := s.condition

/-- Embedding of `post_get_resp_class`. -/
def post_get_resp_class (s : PostState) : Nat := s.resp_class

/-- The exit `post_error` of `post_tick`, entered with the condition set. -/
def post_error (s : PostState) : PostState × Int :=
  let s1 := post_cleanup s
  ({ s1 with
      led_post := .LED_RED
      bb_post_error_state_num := (s1.state.toNat : Int)
      cached_ip := 0
      state := .POST_IDLE }, s1.condition)

/-- The pending exit at the bottom of the `switch` of `post_tick`. -/
def post_pending (s : PostState) : PostState × Int :=
  ({ s with condition := POST_PENDING }, POST_PENDING)

/-- The command header `sprintf` builds from `post_fmt`. -/
def post_header (s : PostState) : List Nat :=
  lit "POST " ++ c_str s.abs_uri_prefix ++ c_str s.abs_uri_host ++ c_str s.server_path ++
    lit " HTTP/1.1\r\n" ++
    lit "Connection: close\r\n" ++
    lit "Host: " ++ c_str s.server_host ++ [58] ++ fmt_u s.server_port ++ lit "\r\n" ++
    lit "User-Agent: Rabbit\r\n" ++
    lit "Content-Type: application/x-www-form-urlencoded\r\n" ++
    lit "Content-Length: " ++ fmt_u s.body_pos ++ lit "\r\n" ++
    lit "\r\n"

/-- The `switch` of `post_tick`, after the checks for a lost connection and
for the timeout. -/
def post_tick_switch (env : PostEnv) (s : PostState) : PostState × Int :=
  match s.state with
  | .POST_IDLE => (s, s.condition)
  | .POST_STARTING =>
    if s.cached_ip ≠ 0 ∧ ¬ CHK_TIMEOUT_UI env.secs s.cache_timeout then
      post_pending (post_reset_timeout env
        { s with request_ip := s.cached_ip, state := .POST_OPENING })
    else if (check_direct_ip env s s.request_host).2 ≠ 0 then
      post_pending (post_reset_timeout env
        { (check_direct_ip env s s.request_host).1 with state := .POST_OPENING })
    else
      let s1 : PostState :=
        { (check_direct_ip env s s.request_host).1 with dns := env.resolve_name_start }
      if s1.dns ≤ 0 then
        post_error { s1 with bb_post_error_str := "Error starting resolve",
                             condition := POST_DNS_ERR }
      else post_pending (post_reset_timeout env { s1 with state := .POST_RESOLVING })
  | .POST_RESOLVING =>
    match env.resolve_name_check with
    | .RESOLVE_SUCCESS =>
      post_pending (post_reset_timeout env
        { s with request_ip := env.resolved_ip, dns := 0, cached_ip := env.resolved_ip,
                 cache_timeout := SET_TIMEOUT_UI env.secs DNS_CACHE_SECS,
                 state := .POST_OPENING })
    | .RESOLVE_AGAIN => post_pending s
    | .RESOLVE_FAILED =>
      post_error { s with bb_post_error_str := "Resolve failed - host name does not exist",
                          dns := 0, condition := POST_DNS_ERR }
    | .other _ =>
      post_error { s with bb_post_error_str := "Error during resolve",
                          dns := 0, condition := POST_DNS_ERR }
  | .POST_OPENING =>
    if ¬ env.tcp_open then
      post_error { s with bb_post_error_str := "Error opening socket",
                          condition := POST_SOCKET_ERR }
    else
      post_pending (post_reset_timeout env
        { s with sock_opened := true, state := .POST_AWAITING_ESTAB })
  | .POST_AWAITING_ESTAB =>
    if env.sock_established then
      post_pending (post_reset_timeout env
        { s with cmd_buf := post_header s, msg_len := (c_str (post_header s)).length,
                 msg_pos := 0, state := .POST_SENDING_COMMAND })
    else post_pending s
  | .POST_SENDING_COMMAND =>
    if (send_message env s).2 = 1 then
      post_pending (post_reset_timeout env
        { (send_message env s).1 with msg_len := s.body_pos, msg_pos := 0,
                                      state := .POST_SENDING_BODY })
    else if (send_message env s).2 = 0 then post_pending (send_message env s).1
    else post_error { (send_message env s).1 with condition := POST_SEND_ERR }
  | .POST_SENDING_BODY =>
    if (send_message env s).2 = 1 then
      post_pending (post_reset_timeout env
        { (send_message env s).1 with state := .POST_READING_STATUS })
    else if (send_message env s).2 = 0 then post_pending (send_message env s).1
    else post_error { (send_message env s).1 with condition := POST_SEND_ERR }
  | .POST_READING_STATUS =>
    if (get_response env s).2 ≠ 0 then
      let s1 := (get_response env s).1
      if (check_resp_status s1).2 ≠ 0 then
        post_error { (check_resp_status s1).1 with condition := POST_RESP_ERR }
      else
        let s2 := (check_resp_status s1).1
        if s2.resp_class ≠ 1 ∧ s2.resp_class ≠ 2 then
          post_error { s2 with bb_post_error_str := "Remote server returned error class",
                               condition := POST_SERVER_ERR }
        else post_pending (post_reset_timeout env { s2 with state := .POST_READING_HEADERS })
    else post_pending (get_response env s).1
  | .POST_READING_HEADERS =>
    if (get_response env s).2 ≠ 0 then
      let s1 := (get_response env s).1
      if s1.cmd_buf.headD 0 = 0 then
        if s1.resp_class = 1 then
          post_pending (post_reset_timeout env { s1 with state := .POST_READING_STATUS })
        else post_pending (post_reset_timeout env { s1 with state := .POST_CHECKING_BODY })
      else post_pending s1
    else post_pending (get_response env s).1
  | .POST_CHECKING_BODY =>
    if (get_response env s).2 ≠ 0 then
      let s1 := (check_resp_time_t (get_response env s).1).1
      if (check_resp_result s1).2 > 0 then
        post_pending (post_reset_timeout env
          { (check_resp_result s1).1 with state := .POST_READING_BODY })
      else post_pending (check_resp_result s1).1
    else post_pending (get_response env s).1
  | .POST_READING_BODY =>
    if ¬ env.tcp_tick then
      let s1 := { s with sock_opened := false }
      if s1.resp_result = RESP_SUCCESS then
        ({ s1 with led_post := .LED_GREEN, bb_post_error_str := "Succeeded",
                   bb_post_error_state_num := (s1.state.toNat : Int), state := .POST_IDLE,
                   condition := POST_SUCCESS }, POST_SUCCESS)
      else if s1.resp_result = RESP_BAD_ID then
        post_error { s1 with bb_post_error_str := "Station ID rejected by server",
                             condition := POST_BAD_ID }
      else if s1.resp_result = RESP_BAD_DATA then
        ({ s1 with led_davis := .LED_OFF, led_post := .LED_GREEN,
                   bb_post_error_str := "Succeeded",
                   bb_post_error_state_num := (s1.state.toNat : Int), state := .POST_IDLE,
                   condition := POST_SUCCESS }, POST_SUCCESS)
      else
        post_error { s1 with bb_post_error_str := "Transaction rejected by server",
                             condition := POST_REJECTED }
    else post_pending (get_response env s).1

/-- Embedding of `post_tick`. -/
def post_tick (env : PostEnv) (s : PostState) : PostState × Int :=
  if s.state = .POST_IDLE then (s, s.condition)
  else if s.sock_opened ∧ s.state ≠ .POST_READING_BODY ∧ ¬ env.tcp_tick then
    post_error { s with bb_post_error_str := "Socket closed unexpectedly", sock_opened := false,
                        condition := POST_CONNECTION_LOST }
  else if CHK_TIMEOUT_UI env.secs s.timeout then
    post_error { s with bb_post_error_str := "Timed out", condition := POST_TIMEOUT }
  else post_tick_switch env s

/-! ## Specification-side vocabulary for the response -/

/-- The line `l` begins, ignoring case, with the text `kw`. -/
def begins_nocase (l kw : List Nat) : Bool :=
  (l.take kw.length).map tolower == kw.map tolower

/-- A space or a tab. -/
def is_blank (c : Nat) : Bool := c == 32 || c == 9

/-- The character after the first run of spaces and tabs of the line `l`:
`none` when the line has no space or tab, 0 (the terminator) when the line ends
with the run. -/
def after_first_blank_run (l : List Nat) : Option Nat :=
  match l.dropWhile (fun c => !is_blank c) with
  | [] => none
  | rest => some ((rest.dropWhile is_blank).headD 0)

/-- The line `get_response` stores in the command buffer when the socket
delivers the line `sock_gets`. -/
def received_line (env : PostEnv) : List Nat := (c_str env.sock_gets).take (CMD_BUF_SIZE - 1)

/-- The index in `post_resp` (from `i` on, over the rest `tbl` of the table) of
the first keyword the line `l` begins with, ignoring case. -/
def line_keyword_from (l : List Nat) : List (List Nat) → Nat → Option Nat
  | [], _ => none
  | kw :: tbl, i => if begins_nocase l kw then some i else line_keyword_from l tbl (i + 1)

/-- The index in `post_resp` of the keyword the line `l` begins with: 0 for
Success!, 1 for Bad ID!, 2 for Bad data!, 3 for Reject!. -/
def line_keyword (l : List Nat) : Option Nat := line_keyword_from l post_resp 0

/-- The state after the ticks with the environments `envs`, in order. -/
def post_run (envs : List PostEnv) (s : PostState) : PostState :=
  envs.foldl (fun st e => (post_tick e st).1) s

/-- The decimal value the line `l` carries after the label "Server time =",
as `strtoul` reads it. -/
def server_time_value (l : List Nat) : Nat := strtoul (l.drop RESP_LABEL_TIME_T.length)

/-! ## post_client.c : initialisation and server set-up -/

/-- An `unsigned int` value read as an `int`. -/
def i16 (n : Nat) : Int :=
  if n % 65536 < 32768 then ((n % 65536 : Nat) : Int) else ((n % 65536 : Nat) : Int) - 65536

/-- Embedding of `post_init`. The `memset` clears every member of
`post_state`; `xalloc_ok` says whether `xalloc` delivered a buffer, whose
bytes are those of `s.body_buf` until the first one is cleared. The globals
outside `post_state` keep their values, except `rtc_validated`. -/
def post_init (xalloc_ok : Bool) (body_max_size : Nat) (s : PostState) : PostState × Int :=
  let s1 : PostState :=
    { s with
        state := .POST_IDLE, condition := POST_NOT_STARTED, resp_class := 0, resp_result := 0,
        dns := 0, timeout := 0, sock_opened := false, servers_set := false,
        server_host := [], server_path := [], server_port := 0,
        request_host := [], request_ip := 0, request_port := 0,
        abs_uri_prefix := [], abs_uri_host := [], cached_ip := 0, cache_timeout := 0,
        msg_len := 0, msg_pos := 0, cmd_buf := [], body_pos := 0, body_overflow := 0,
        rtc_validated := false,
        body_buf_size := if u16 body_max_size ≠ 0 then u16 body_max_size else DEF_BODY_BUF_SIZE }
  if ¬ xalloc_ok then (s1, -1)
  else ({ s1 with body_buf := mem_write s1.body_buf 0 [0] }, 0)

/-- The end of `post_set_server`: the choice of the port and the flag. -/
def post_set_server_port (s : PostState) (port proxy_port : Nat) : PostState × Int :=
  ({ s with request_port := if proxy_port ≠ 0 then proxy_port else port, servers_set := true }, 0)

/-- Embedding of `post_set_server`; a null `proxy_host` is `none`. The value
of `strlen` is stored in the `int` variable `len`. -/
def post_set_server (s : PostState) (host : List Nat) (port : Nat) (path : List Nat)
    (proxy_host : Option (List Nat)) (proxy_port : Nat) : PostState × Int :=
  let s1 : PostState := { s with servers_set := false, cached_ip := 0 }
  if i16 (c_str host).length = 0 ∨ i16 (c_str host).length > MAX_HOST_LEN then (s1, -1)
  else if i16 (c_str path).length = 0 ∨ i16 (c_str path).length > MAX_PATH_LEN then (s1, -2)
  else
    let s2 : PostState :=
      { s1 with server_host := host, server_path := path, server_port := port }
    match proxy_host with
    | some ph =>
      if i16 (c_str ph).length = 0 ∨ i16 (c_str ph).length > MAX_HOST_LEN then (s2, -3)
      else
        post_set_server_port
          { s2 with request_host := ph, abs_uri_prefix := lit "http://", abs_uri_host := host }
          port proxy_port
    | none =>
      post_set_server_port
        { s2 with request_host := host, abs_uri_prefix := [], abs_uri_host := [] }
        port proxy_port

/-- One call of the POST client's interface during a run: `post_start` or
`post_tick`, with what lies outside the client at that moment. -/
inductive PostCall where
  | start (env : PostEnv)
  | tick (env : PostEnv)

/-- The environment of a call. -/
def PostCall.env : PostCall → PostEnv
  | .start env => env
  | .tick env => env

/-- The POST client after one call. -/
def post_call (c : PostCall) (s : PostState) : PostState :=
  match c with
  | .start env => (post_start env s).1
  | .tick env => (post_tick env s).1

/-- The POST client after the calls `cs`, in order. -/
def post_calls (cs : List PostCall) (s : PostState) : PostState :=
  cs.foldl (fun st c => post_call c st) s

/-- The request host `post_set_server` chooses: the proxy host when there is
one, the server host otherwise. -/
def request_host_of (host : List Nat) (proxy_host : Option (List Nat)) : List Nat :=
  match proxy_host with
  | some ph => ph
  | none => host

/-- The 16-bit cache timer, set at second `t0`, is found run out at second
`t0 + e`. -/
def dns_cache_expired (t0 e : Nat) : Bool :=
  CHK_TIMEOUT_UI (t0 + e) (SET_TIMEOUT_UI t0 DNS_CACHE_SECS)

/-- The POST client `t` has the set-up of `s` (servers flag, request host and
port), its state, its cached address, its socket flag and its resolve
handle. -/
def post_same_setup (s t : PostState) : Prop :=
  t.servers_set = s.servers_set ∧ t.request_host = s.request_host ∧
  t.request_port = s.request_port ∧ t.state = s.state ∧ t.cached_ip = s.cached_ip ∧
  t.sock_opened = s.sock_opened ∧ t.dns = s.dns


/-! ## timeout.h : the 32-bit timers -/

/-- A value cut to `unsigned long`. -/
def u32 (n : Nat) : Nat := n % 4294967296

/-- A value cut to `unsigned char`. -/
def u8 (n : Nat) : Nat := n % 256

/-- Macro `SET_TIMEOUT_UL_SECS(SECS)`: the sum of the seconds counter and the
interval, in `unsigned long`. -/
def SET_TIMEOUT_UL (now interval : Nat) : Nat := u32 (u32 now + interval)

/-- Macro `CHK_TIMEOUT_UL_SECS(UL)`: the difference of the counter and the
stored value, read as a signed `long`, is not negative. -/
def CHK_TIMEOUT_UL (now ul : Nat) : Bool := u32 (u32 now + 4294967296 - u32 ul) < 2147483648

/-! ## wx_main.h, bb_vars.h, bb_vars.c -/

def VER_MAJOR : Nat := 1
def VER_MINOR : Nat := 25

def BB_MAGIC_NUMBER : Nat := 0xFACE55AA

/-- The text `BB_BAD_POST_ERR_STR`. -/
def BB_BAD_POST_ERR_STR : String := "Invalid POST error string"

/-! ## tasks.h, tasks.c -/

def TASKS_MENU : Int := 1
def TASKS_OK : Int := 0
def TASKS_POST_START_ERR : Int := -1
def TASKS_ETH_DOWN : Int := -2
def TASKS_LAN_DOWN : Int := -3
def TASKS_COLLECT_FAIL : Int := -4
def TASKS_POST_FAIL : Int := -5
def TASKS_BAD_STATE : Int := -6

def TASKS_MAX_UPDATE_SECS : Nat := 3600

def INIT_COLLECT_SECS : Nat := 30
def FAST_COLLECT_SECS : Nat := 60
def SLOW_COLLECT_SECS : Nat := 300
def INIT_TIME_CHK_SECS : Nat := 120
def BACKOFF_TIME_CHK_SECS : Nat := 300
def NEXT_TIME_CHK_SECS : Nat := 86400

def MAX_COLLECT_ERRS : Nat := 10
def MAX_POST_ERRS : Nat := 10

def SEQ_NUM_MSK : Nat := 0x7FFFFFFF

def LAN_OK : Int := 0
def LAN_ETH_DOWN : Int := -1
def MENU_ESC : Int := 0x1B
def EOF : Int := -1

/-- Values of `enum state_value` in tasks.c. -/
inductive TasksStateValue where
  | TASKS_IDLE
  | TASKS_COLLECTING
  | TASKS_PROCESSING
  | TASKS_DELIVERING
  | TASKS_TIME_CHECKING
  | TASKS_TIME_SETTING
  deriving DecidableEq, Repr

/-- The variable `tasks_state` of tasks.c. -/
structure TasksState where
  state : TasksStateValue
  collect_tmr : Nat
  time_chk_tmr : Nat
  new_data : Nat
  collect_err_ctr : Nat
  post_err_ctr : Nat

/-- The variables of the program the supervisor works on: its own state, the
collector, the POST client (which holds `bb_post_error_str`,
`bb_post_error_state_num` and `rtc_validated`), the other battery-backed
variables of bb_vars.c, the two members of `ee_unit_info` and the two switch
states of wx_board.c that tasks.c reads. -/
structure Node where
  tasks_state : TasksState
  dav : DavState
  post : PostState
  bb_mem_flag : Nat
  bb_seq_num : Nat
  bb_ver_major : Nat
  bb_ver_minor : Nat
  bb_post_error_flag : Nat
  id_base : Nat
  update_secs : Nat
  wx_rotary_sel : Nat
  wx_switch_3 : Nat

/-- What lies outside the program during one call of `tasks_run`: the seconds
counter, the environments of the collector and of the POST client, the console
character `inchar` returns, the answer of `lan_check_ok`, the byte
`GET_SWITCHES` reads and the address `lan_get_network_ip` returns. -/
structure TasksEnv where
  secs : Nat
  dav : DavEnv
  post : PostEnv
  inchar : Int
  lan_check_ok : Int
  switches : Nat
  network_ip : Nat

/-- Embedding of `bb_init`. -/
def bb_init (n : Node) : Node :=
  let n1 : Node :=
    if n.bb_mem_flag ≠ BB_MAGIC_NUMBER then
      { n with bb_mem_flag := BB_MAGIC_NUMBER, bb_seq_num := 0, bb_ver_major := 0,
               bb_ver_minor := 0 }
    else n
  if n1.bb_ver_major ≠ VER_MAJOR ∨ n1.bb_ver_minor ≠ VER_MINOR then
    { n1 with
        bb_ver_major := VER_MAJOR
        bb_ver_minor := VER_MINOR
        bb_post_error_flag := 0
        post := { n1.post with bb_post_error_str := BB_BAD_POST_ERR_STR,
                               bb_post_error_state_num := -1 } }
  else n1

/-- Embedding of `wx_get_switches` (wx_board.c), for the two values tasks.c
reads; `raw` is the byte `GET_SWITCHES` delivers. -/
def wx_get_switches (raw : Nat) (n : Node) : Node :=
  let wx_dip_state := 255 - raw % 256
  { n with
      wx_rotary_sel := (wx_dip_state >>> 4) &&& 0x0F
      wx_switch_3 := if wx_dip_state &&& 4 ≠ 0 then 1 else 0 }

/-- Embedding of `get_station_id` (wx_main.c). -/
def get_station_id (n : Node) : Nat := u16 (n.id_base + n.wx_rotary_sel)

/-- Embedding of `check_str_len`. -/
def check_str_len (str : List Nat) : Nat → Int
  | 0 => -1
  | too_long + 1 => if str.headD 0 = 0 then 0 else check_str_len str.tail too_long

/-- A call of `post_add_variable` on the POST client of the node. -/
def node_add_variable (n : Node) (name value : List Nat) (hexlen : Nat) : Node × Int :=
  ({ n with post := (post_add_variable n.post name value hexlen).1 },
    (post_add_variable n.post name value hexlen).2)

/-- Embedding of `add_station_id`. -/
def add_station_id (n : Node) : Node × Int :=
  node_add_variable n (lit "station") (fmt_u (get_station_id n)) 0

/-- Embedding of `add_collected_data`. -/
def add_collected_data (n : Node) : Node × Int :=
  if n.tasks_state.new_data ≠ 0 then node_add_variable n (lit "data") n.dav.dav_data DAV_DATA_LEN
  else node_add_variable n (lit "sererr") (lit n.dav.dav_error_str) 0

/-- The text `sprintf(buffer, "%s (state %d)", ...)` builds in
`add_post_error`. -/
def post_error_text (str : List Nat) (state_num : Int) : List Nat :=
  c_str str ++ lit " (state " ++ fmt_d state_num ++ lit ")"

/-- Embedding of `add_post_error`; `sizeof(buffer) - 15` is 49. -/
def add_post_error (n : Node) : Node × Int :=
  if check_str_len (lit n.post.bb_post_error_str) (64 - 15) ≠ 0 then
    node_add_variable n (lit "posterr") (lit BB_BAD_POST_ERR_STR) 0
  else
    node_add_variable n (lit "posterr")
      (post_error_text (lit n.post.bb_post_error_str) n.post.bb_post_error_state_num) 0

/-- Embedding of `add_seq_num`. -/
def add_seq_num (n : Node) : Node × Int :=
  node_add_variable n (lit "seq") (fmt_u (n.bb_seq_num &&& SEQ_NUM_MSK)) 0

/-- The four bytes of a `longword` in memory, lowest byte first. -/
def longword_bytes (v : Nat) : List Nat :=
  [v % 256, v / 256 % 256, v / 65536 % 256, v / 16777216 % 256]

/-- Embedding of `add_my_ip`; `my_ip` is what `lan_get_network_ip` returned. -/
def add_my_ip (my_ip : Nat) (n : Node) : Node × Int :=
  node_add_variable n (lit "localip") (longword_bytes my_ip) 4

/-- The text `STR_VERSION`: `XSTR(VER_MAJOR) XSTR(VER_MINOR)`, the two
numbers as they are written in wx_main.h, side by side. -/
def STR_VERSION : List Nat := lit "1" ++ lit "25"

/-- Embedding of `add_firmware_version`. -/
def add_firmware_version (n : Node) : Node × Int :=
  node_add_variable n (lit "ver") STR_VERSION 0

/-- Embedding of `set_post_body`. -/
def set_post_body (env : TasksEnv) (n : Node) : Node × Int :=
  let n1 : Node := { n with bb_seq_num := u32 (n.bb_seq_num + 1) }
  let n2 : Node := { n1 with post := post_clear_body n1.post }
  if (add_station_id n2).2 < 0 then ((add_station_id n2).1, -1)
  else
    let n3 := (add_station_id n2).1
    if (add_collected_data n3).2 < 0 then ((add_collected_data n3).1, -2)
    else
      let n4 := (add_collected_data n3).1
      let r5 : Node × Int := if n4.bb_post_error_flag ≠ 0 then add_post_error n4 else (n4, 0)
      if n4.bb_post_error_flag ≠ 0 ∧ r5.2 < 0 then (r5.1, -3)
      else if (add_seq_num r5.1).2 < 0 then ((add_seq_num r5.1).1, -4)
      else
        let n6 := (add_seq_num r5.1).1
        if (add_my_ip env.network_ip n6).2 < 0 then ((add_my_ip env.network_ip n6).1, -5)
        else
          let n7 := (add_my_ip env.network_ip n6).1
          if (add_firmware_version n7).2 < 0 then ((add_firmware_version n7).1, -6)
          else ((add_firmware_version n7).1, 0)

/-- Embedding of `set_next_collection_time`. -/
def set_next_collection_time (env : TasksEnv) (n : Node) : Node :=
  let interval_secs :=
    if u16 (n.update_secs + 65535) < TASKS_MAX_UPDATE_SECS then n.update_secs
    else if n.wx_switch_3 ≠ 0 then SLOW_COLLECT_SECS else FAST_COLLECT_SECS
  { n with tasks_state :=
      { n.tasks_state with collect_tmr := SET_TIMEOUT_UI env.secs interval_secs } }

/-- The node with the supervisor in state `st`. -/
def Node.goto (n : Node) (st : TasksStateValue) : Node :=
  { n with tasks_state := { n.tasks_state with state := st } }

/-- The start of a collection in `TASKS_IDLE`: `set_next_collection_time`,
`dav_start_collect` and the move to `TASKS_COLLECTING`. -/
def tasks_start_collection (env : TasksEnv) (n : Node) : Node :=
  let n1 := set_next_collection_time env n
  Node.goto { n1 with dav := dav_start_collect env.dav n1.dav } .TASKS_COLLECTING

/-- Embedding of `tasks_run`, case `TASKS_IDLE`. -/
def tasks_run_idle (crc : List Nat → Nat) (env : TasksEnv) (n : Node) : Node × Int :=
  let n1 : Node := { n with dav := (dav_tick crc env.dav n.dav).1 }
  if CHK_TIMEOUT_UI env.secs n1.tasks_state.collect_tmr then
    (tasks_start_collection env n1, TASKS_OK)
  else if CHK_TIMEOUT_UL env.secs n1.tasks_state.time_chk_tmr then
    let n2 : Node := { n1 with tasks_state :=
      { n1.tasks_state with time_chk_tmr := SET_TIMEOUT_UL env.secs BACKOFF_TIME_CHK_SECS } }
    if n2.post.rtc_validated then
      (Node.goto { n2 with dav := dav_start_check_time env.dav n2.dav } .TASKS_TIME_CHECKING,
        TASKS_OK)
    else (n2, TASKS_OK)
  else
    let n2 := wx_get_switches env.switches n1
    if env.inchar = MENU_ESC then (n2, TASKS_MENU)
    else
      let n3 := if env.inchar = EOF then n2 else tasks_start_collection env n2
      if env.lan_check_ok = LAN_OK then (n3, TASKS_OK)
      else if env.lan_check_ok = LAN_ETH_DOWN then (n3, TASKS_ETH_DOWN)
      else (n3, TASKS_LAN_DOWN)

/-- Embedding of `tasks_run`, case `TASKS_COLLECTING`. -/
def tasks_run_collecting (crc : List Nat → Nat) (env : TasksEnv) (n : Node) : Node × Int :=
  let n1 : Node := { n with dav := (dav_tick crc env.dav n.dav).1 }
  if (dav_tick crc env.dav n.dav).2 ≠ DAV_PENDING then
    if dav_get_status n1.dav = DAV_SUCCESS then
      (Node.goto { n1 with tasks_state :=
          { n1.tasks_state with new_data := 1, collect_err_ctr := 0 } } .TASKS_PROCESSING,
        TASKS_OK)
    else
      let n2 : Node :=
        if n1.dav.dav_data_valid = 0 then
          { n1 with tasks_state := { n1.tasks_state with new_data := 0 } }
        else n1
      let n3 : Node := { n2 with tasks_state :=
        { n2.tasks_state with collect_err_ctr := u8 (n2.tasks_state.collect_err_ctr + 1) } }
      if n3.tasks_state.collect_err_ctr ≥ MAX_COLLECT_ERRS then (n3, TASKS_COLLECT_FAIL)
      else (Node.goto n3 .TASKS_PROCESSING, TASKS_OK)
  else (n1, TASKS_OK)

/-- Embedding of `tasks_run`, case `TASKS_PROCESSING`. -/
def tasks_run_processing (crc : List Nat → Nat) (env : TasksEnv) (n : Node) : Node × Int :=
  let n1 : Node := { n with dav := (dav_tick crc env.dav n.dav).1 }
  let n2 := (set_post_body env n1).1
  let n3 : Node := { n2 with post := (post_start env.post n2.post).1 }
  if (post_start env.post n2.post).2 < 0 then (n3, TASKS_POST_START_ERR)
  else (Node.goto n3 .TASKS_DELIVERING, TASKS_OK)

/-- Embedding of `tasks_run`, case `TASKS_DELIVERING`. -/
def tasks_run_delivering (crc : List Nat → Nat) (env : TasksEnv) (n : Node) : Node × Int :=
  let n1 : Node := { n with dav := (dav_tick crc env.dav n.dav).1 }
  let n2 : Node := { n1 with post := (post_tick env.post n1.post).1 }
  if (post_tick env.post n1.post).2 ≠ POST_PENDING then
    if post_get_status n2.post = POST_SUCCESS then
      (Node.goto { n2 with
          bb_post_error_flag := 0
          tasks_state := { n2.tasks_state with new_data := 0, post_err_ctr := 0 } } .TASKS_IDLE,
        TASKS_OK)
    else
      let n3 : Node := { n2 with
        bb_post_error_flag := 1
        tasks_state := { n2.tasks_state with post_err_ctr := u8 (n2.tasks_state.post_err_ctr + 1) } }
      if n3.tasks_state.post_err_ctr ≥ MAX_POST_ERRS then (n3, TASKS_POST_FAIL)
      else (Node.goto n3 .TASKS_IDLE, TASKS_OK)
  else (n2, TASKS_OK)

/-- Embedding of `tasks_run`, case `TASKS_TIME_CHECKING`. -/
def tasks_run_time_checking (crc : List Nat → Nat) (env : TasksEnv) (n : Node) : Node × Int :=
  let n1 : Node := { n with dav := (dav_tick crc env.dav n.dav).1 }
  if (dav_tick crc env.dav n.dav).2 ≠ DAV_PENDING then
    if dav_get_status n1.dav = DAV_SUCCESS then
      (Node.goto { n1 with tasks_state :=
          { n1.tasks_state with time_chk_tmr := SET_TIMEOUT_UL env.secs NEXT_TIME_CHK_SECS } }
        .TASKS_IDLE, TASKS_OK)
    else if dav_get_status n1.dav = DAV_WRONG_TIME then
      if n1.post.rtc_validated then
        (Node.goto { n1 with dav := dav_start_set_time env.dav n1.dav } .TASKS_TIME_SETTING,
          TASKS_OK)
      else (Node.goto n1 .TASKS_IDLE, TASKS_OK)
    else (Node.goto n1 .TASKS_IDLE, TASKS_OK)
  else (n1, TASKS_OK)

/-- Embedding of `tasks_run`, case `TASKS_TIME_SETTING`. -/
def tasks_run_time_setting (crc : List Nat → Nat) (env : TasksEnv) (n : Node) : Node × Int :=
  let n1 : Node := { n with dav := (dav_tick crc env.dav n.dav).1 }
  if (dav_tick crc env.dav n.dav).2 ≠ DAV_PENDING then (Node.goto n1 .TASKS_IDLE, TASKS_OK)
  else (n1, TASKS_OK)

/-- Embedding of `tasks_run`: the `switch` over the six states. The function
`crc` stands for `crc_calculate`. -/
def tasks_run (crc : List Nat → Nat) (env : TasksEnv) (n : Node) : Node × Int :=
  match n.tasks_state.state with
  | .TASKS_IDLE => tasks_run_idle crc env n
  | .TASKS_COLLECTING => tasks_run_collecting crc env n
  | .TASKS_PROCESSING => tasks_run_processing crc env n
  | .TASKS_DELIVERING => tasks_run_delivering crc env n
  | .TASKS_TIME_CHECKING => tasks_run_time_checking crc env n
  | .TASKS_TIME_SETTING => tasks_run_time_setting crc env n

/-- The node after the calls of `tasks_run` with the environments `envs`, in
order. -/
def tasks_steps (crc : List Nat → Nat) (envs : List TasksEnv) (n : Node) : Node :=
  envs.foldl (fun st e => (tasks_run crc e st).1) n

/-! ## Specification-side vocabulary for the POST body -/

/-- The value of the `posterr` field: the recorded error string with the
state number, or the fixed text when the string is too long. -/
def post_error_value (n : Node) : List Nat :=
  if check_str_len (lit n.post.bb_post_error_str) (64 - 15) ≠ 0 then lit BB_BAD_POST_ERR_STR
  else post_error_text (lit n.post.bb_post_error_str) n.post.bb_post_error_state_num

/-- The sequence number a POST body carries: the low 31 bits of
`bb_seq_num`. -/
def seq_sent (n : Node) : Nat := n.bb_seq_num &&& SEQ_NUM_MSK

/-- The `data` field: the 99 bytes of `dav_data` as 198 hexadecimal
characters. -/
def data_field (n : Node) : List Nat :=
  lit "data=" ++ hex_text (n.dav.dav_data.take DAV_DATA_LEN)

/-- The `sererr` field: the collector's error string, url-encoded. -/
def sererr_field (n : Node) : List Nat := lit "sererr=" ++ enc (lit n.dav.dav_error_str)

/-- The `posterr` field. -/
def posterr_field (n : Node) : List Nat := lit "posterr=" ++ enc (post_error_value n)

/-- The fields of the POST body, in order, that `set_post_body` is to build
when it is entered with the node `n`: `station`, then `data` or `sererr`, then
`posterr` when the flag is set, then `seq` (the number after the increment),
`localip` and `ver`. -/
def post_body_fields (env : TasksEnv) (n : Node) : List (List Nat) :=
  [lit "station=" ++ fmt_u (get_station_id n),
   if n.tasks_state.new_data ≠ 0 then data_field n else sererr_field n] ++
  (if n.bb_post_error_flag ≠ 0 then [posterr_field n] else []) ++
  [lit "seq=" ++ fmt_u (u32 (n.bb_seq_num + 1) &&& SEQ_NUM_MSK),
   lit "localip=" ++ hex_text (longword_bytes env.network_ip),
   lit "ver=" ++ STR_VERSION]

/-- The fields joined by single `&` characters. -/
def join_amp : List (List Nat) → List Nat
  | [] => []
  | [x] => x
  | x :: y :: rest => x ++ [38] ++ join_amp (y :: rest)

/-- While `set_post_body` works on the node `n`: the node `m` is `n` with the
sequence number stepped on and with a POST client whose body is the cleared
body of `n` followed by the text `o`; the recorded POST error is that of `n`. -/
structure BodyBuilt (n m : Node) (o : List Nat) : Prop where
  rest : m = { n with bb_seq_num := u32 (n.bb_seq_num + 1), post := m.post }
  str : m.post.bb_post_error_str = n.post.bb_post_error_str
  num : m.post.bb_post_error_state_num = n.post.bb_post_error_state_num
  app : Appended (post_clear_body n.post) m.post o

/-- The node `b` has the supervisor's variables, the collector, the POST
error flag and the sequence number of the node `a`. -/
def same_outside_post (a b : Node) : Prop :=
  b.tasks_state = a.tasks_state ∧ b.dav = a.dav ∧
  b.bb_post_error_flag = a.bb_post_error_flag ∧ b.bb_seq_num = a.bb_seq_num

/-- The conditions under which every field of the POST body finds room and is
accepted by `post_add_variable`: a body buffer of 456 to 32768 bytes (455
characters and the terminator; `tasks_init` asks for 2048); when there is new
data, a data buffer of 99 bytes; when there is none, a non-empty collector
error string of at most 64 characters; when the POST error flag is set, a state
number that is a 16-bit `int`; and only 8-bit characters in the strings. -/
abbrev post_body_inputs_ok (n : Node) : Prop :=
  456 ≤ n.post.body_buf_size ∧ n.post.body_buf_size ≤ 32768 ∧
  (n.tasks_state.new_data ≠ 0 →
    n.dav.dav_data.length = DAV_DATA_LEN ∧ ∀ b ∈ n.dav.dav_data, b < 256) ∧
  (n.tasks_state.new_data = 0 →
    (∀ c ∈ lit n.dav.dav_error_str, c < 256) ∧ (lit n.dav.dav_error_str).headD 0 ≠ 0 ∧
    (c_str (lit n.dav.dav_error_str)).length ≤ 64) ∧
  (n.bb_post_error_flag ≠ 0 →
    (∀ c ∈ lit n.post.bb_post_error_str, c < 256) ∧
    -32768 ≤ n.post.bb_post_error_state_num ∧ n.post.bb_post_error_state_num ≤ 32767)


/-! ## lan.h, lan.c : the liveness check -/

def LAN_IF_DOWN : Int := -2
def LAN_DHCP_DOWN : Int := -3

/-- What `lan_check_ok` asks the TCP/IP library and the module's flag
`lan_dhcp_used`: the answers of `pd_havelink` and `ifstatus`, the result of
`ifconfig(IFG_DHCP_OK)` and the value it stores in `dhcp_ok`. -/
structure LanEnv where
  pd_havelink : Bool
  ifstatus : Bool
  lan_dhcp_used : Bool
  ifconfig_result : Int
  dhcp_ok : Bool

/-- Embedding of `lan_check_ok`, for the value it returns. -/
def lan_check_ok (l : LanEnv) : Int :=
  if ¬ l.pd_havelink then LAN_ETH_DOWN
  else if ¬ l.ifstatus then LAN_IF_DOWN
  else if l.lan_dhcp_used then
    if l.ifconfig_result = 0 then
      if ¬ l.dhcp_ok then LAN_DHCP_DOWN else LAN_OK
    else LAN_OK
  else LAN_OK

/-- Embedding of `convert_millibars_to_thousanths` (menu.c): the parameter is
an `unsigned int`, the accumulator an `unsigned long`. -/
def convert_millibars_to_thousanths (millibars : Nat) : Nat :=
  let acc := u32 (u16 millibars)
  let acc := u32 (u32 (acc * 1935276) + 32768) >>> 16
  u16 acc


/-- One call of the body interface of the POST client: `post_clear_body` or
`post_add_variable`. -/
inductive BodyCall where
  | clear
  | add (name value : List Nat) (hexlen : Nat)

/-- The POST client after one call of the body interface. -/
def body_call (c : BodyCall) (s : PostState) : PostState :=
  match c with
  | .clear => post_clear_body s
  | .add name value hexlen => (post_add_variable s name value hexlen).1

/-- The POST client after the calls `cs`, in order. -/
def body_calls (cs : List BodyCall) (s : PostState) : PostState :=
  cs.foldl (fun st c => body_call c st) s

/-- The arguments of a call keep the 16-bit sums of the room checks from
wrapping on a buffer of `size` bytes: 8-bit characters, and in hex mode a
length within the value and with `size + 2 * hexlen` at most 65536. -/
def BodyCall.plain (size : Nat) : BodyCall → Prop
  | .clear => True
  | .add name value hexlen =>
    (∀ c ∈ name, c < 256) ∧ (∀ c ∈ value, c < 256) ∧ hexlen ≤ value.length ∧
    size + 2 * hexlen ≤ 65536



/-- Embedding of `dav_init_all`; `serial_ok` is what `dav_init_serial`
returns. The `memset` calls clear `dav_state` (state 0 is `DAV_IDLE`, command 0
is `DAV_CMD_COLLECT`, the null command string is empty) and the two buffers. -/
def dav_init_all (serial_ok : Bool) (s : DavState) : DavState × Int :=
  if ¬ serial_ok then ({ s with dav_error_str := "Cannot initialise serial port" }, -1)
  else
    ({ s with
        dav_error_str := "Serial port initialised okay"
        state := .DAV_IDLE, condition := DAV_NOT_STARTED, timeout := 0
        cmd_id := .DAV_CMD_COLLECT, cmd_str := [], attempt_count := 0, resp_tout := 0
        parm1 := 0, parm2 := 0
        dav_data := List.replicate DAV_DATA_LEN 0, dav_data_valid := 0
        dav_time := List.replicate DAV_TIME_LEN 0 }, 0)

/-- Embedding of `dav_abort`. -/
def dav_abort (s : DavState) : DavState :=
  { dav_cleanup s with
      led_davis := .LED_RED
      state := .DAV_IDLE
      condition := DAV_ABORTED
      dav_error_str := "Aborted" }

/-- The collector is at rest exactly when its status is not Pending. -/
abbrev dav_settled (s : DavState) : Prop := s.state = .DAV_IDLE ↔ s.condition ≠ DAV_PENDING

/-- The POST client is at rest exactly when its status is not Pending. -/
abbrev post_settled (s : PostState) : Prop := s.state = .POST_IDLE ↔ s.condition ≠ POST_PENDING

/-- The states a `LOOP 1` command passes through. -/
def dav_collect_path : DavStateValue → Bool
  | .DAV_STARTING => true
  | .DAV_AWAITING_LF => true
  | .DAV_AWAITING_CR => true
  | .DAV_AWAITING_ACK => true
  | .DAV_AWAITING_DATA => true
  | .DAV_CHECKING_DATA => true
  | _ => false

/-- The packet in `dav_data` passes the three tests of `DAV_CHECKING_DATA`:
it starts with "LOO", has LF and CR at offsets 95 and 96, and its CRC is
right. -/
abbrev dav_data_checked (crc : List Nat → Nat) (s : DavState) : Prop :=
  c_str (s.dav_data.take 3) = [76, 79, 79] ∧ s.dav_data.getD DAV_DATA_LF 0 = 10 ∧
  s.dav_data.getD DAV_DATA_CR 0 = 13 ∧ dav_check_data_crc crc s = true

/-- What the supervisor and the collector keep between them about the data
buffer: the buffer has 99 bytes; when `dav_data_valid` is set the packet in it
passed the tests; in `TASKS_COLLECTING` the collector works on a `LOOP 1`
command or is at rest without Success; in `TASKS_PROCESSING` the collector is
at rest and `new_data` is set only with `dav_data_valid` set. -/
abbrev data_inv (crc : List Nat → Nat) (n : Node) : Prop :=
  n.dav.dav_data.length = DAV_DATA_LEN ∧
  (n.dav.dav_data_valid ≠ 0 → dav_data_checked crc n.dav) ∧
  (n.tasks_state.state = .TASKS_COLLECTING →
    (n.dav.cmd_id = .DAV_CMD_COLLECT ∧ dav_collect_path n.dav.state = true) ∨
    (n.dav.state = .DAV_IDLE ∧ n.dav.condition ≠ DAV_SUCCESS)) ∧
  (n.tasks_state.state = .TASKS_PROCESSING →
    n.dav.state = .DAV_IDLE ∧ (n.tasks_state.new_data ≠ 0 → n.dav.dav_data_valid ≠ 0))

/-- A message is a non-empty text of at most 48 characters of 8 bits. -/
abbrev message_ok (m : String) : Prop :=
  (∀ c ∈ lit m, c < 256) ∧ (lit m).headD 0 ≠ 0 ∧ (c_str (lit m)).length ≤ 48

/-! ## Concrete inputs -/

/-- An environment of the collector: both counters at `t`, no serial error,
the calendar functions constant. -/
def dav_env_at (t : Nat) : DavEnv :=
  { ms := t, secs := t, serial_error := false, time_now := 0,
    gmtime := fun _ => ⟨0, 0, 0, 1, 0, 100⟩, mktime := fun _ => 0 }

/-- A 99-byte packet with the frame of a LOOP packet in place ("LOO", LF at
95, CR at 96), a payload of zero bytes and the CRC bytes given. -/
def loop_packet (crc_h crc_l : Nat) : List Nat :=
  [76, 79, 79] ++ List.replicate 92 0 ++ [10, 13, crc_h, crc_l]

/-- The collector waiting for the data of a `LOOP 1` command, started at
time 0, with the bytes `rx` received. -/
def dav_awaiting_data (rx : List Nat) : DavState :=
  { state := .DAV_AWAITING_DATA, condition := DAV_PENDING,
    timeout := SET_TIMEOUT_UI 0 DAV_TIMEOUT_SECS, cmd_id := .DAV_CMD_COLLECT,
    cmd_str := [76, 79, 79, 80, 32, 49], attempt_count := 4,
    resp_tout := SET_TIMEOUT_UI 0 MAX_DATA_MS, parm1 := 0, parm2 := 0,
    dav_data := List.replicate 99 0, dav_data_valid := 1, dav_error_str := "Success",
    dav_time := List.replicate 8 0, rx := rx, tx := [], console := [], led_davis := .LED_AMBER }

/-- An environment of the collector at the millisecond count `ms` (the
seconds counter goes with it), with the real-time clock at `now`. -/
def dav_env_ms (ms now : Nat) : DavEnv :=
  { dav_env_at 0 with ms := ms, secs := ms / 1000, time_now := now }

/-- The collector as `dav_init_all` leaves it. -/
def dav_initial : DavState :=
  { state := .DAV_IDLE, condition := DAV_NOT_STARTED, timeout := 0, cmd_id := .DAV_CMD_COLLECT,
    cmd_str := [], attempt_count := 0, resp_tout := 0, parm1 := 0, parm2 := 0,
    dav_data := List.replicate 99 0, dav_data_valid := 0,
    dav_error_str := "Serial port initialised okay", dav_time := List.replicate 8 0, rx := [],
    tx := [], console := [], led_davis := .LED_OFF }

/-- The collector waiting for an ACK under the command `cmd`, started at
time 0, with the bytes `rx` received. -/
def dav_awaiting_ack (cmd : DavCmd) (rx : List Nat) : DavState :=
  { dav_awaiting_data rx with state := .DAV_AWAITING_ACK, cmd_id := cmd }

/-- The collector waiting for the time packet of a `GETTIME` command, started
at time 0, with the bytes `rx` received. -/
def dav_awaiting_time (rx : List Nat) : DavState :=
  { dav_awaiting_data rx with state := .DAV_AWAITING_TIME, cmd_id := .DAV_CMD_CHK_TIME }

/-- A time packet (12:15:30 on 1 January 2006) with its CRC, 0x7901. -/
def time_packet_2006 : List Nat := [30, 15, 12, 1, 1, 106, 121, 1]

/-- Three calls of `dav_tick` with nothing received, 1200 ms apart: each
finds the wakeup timer run out. -/
def dav_three_expiries : List DavInput :=
  [⟨dav_env_ms 1200 0, []⟩, ⟨dav_env_ms 2400 0, []⟩, ⟨dav_env_ms 3600 0, []⟩]

/-- An environment of the POST client at second `t`: the socket alive or
closed as `alive` says, the line `line` ready to be read, no other answer of
interest. -/
def post_env_line (t : Nat) (alive : Bool) (line : List Nat) : PostEnv :=
  { secs := t, tcp_tick := alive, inet_addr := fun _ => 0, resolve_name_start := 1,
    resolve_name_check := .RESOLVE_AGAIN, resolved_ip := 0, tcp_open := true,
    sock_established := true, sock_xfastwrite := 0, sock_bytesready := 0, sock_gets := line }

/-- The POST client in the middle of a transaction started at second 0, in
the state `st`, with an empty 512-byte body buffer. -/
def post_state_in (st : PostStateValue) : PostState :=
  { state := st, condition := POST_PENDING, resp_class := 2, resp_result := 0, dns := 0,
    timeout := SET_TIMEOUT_UI 0 POST_TIMEOUT_SECS, sock_opened := true, servers_set := true,
    server_host := [119, 120], server_path := [47], server_port := 80,
    request_host := [119, 120], request_ip := 0, request_port := 80,
    abs_uri_prefix := [], abs_uri_host := [], cached_ip := 0, cache_timeout := 0,
    msg_len := 0, msg_pos := 0, cmd_buf := [], body_buf := fun _ => 0,
    body_buf_size := 512, body_pos := 0, body_overflow := 0,
    bb_post_error_str := "", bb_post_error_state_num := 0, rtc_validated := false, rtc := 0,
    led_post := .LED_AMBER, led_davis := .LED_GREEN }

/-- The POST client after `post_init(65534)` and `post_clear_body()`: an
empty body in a buffer of 65534 bytes. -/
def post_body_64k_cleared : PostState :=
  post_clear_body { post_state_in .POST_IDLE with body_buf_size := 65534 }

/-- The state `post_body_64k_cleared` after the name "A" and the equals sign
have been added. -/
def post_body_64k_named : PostState :=
  (add_body_char (add_body_string post_body_64k_cleared [65]).1 61 false).1

/-- The POST client with a body buffer of 65534 bytes that holds the pair
"A=AA...A" of 65532 characters, as after `post_init(65534)`,
`post_clear_body()` and `post_add_variable("A", value, 32765)` with a value of
32765 bytes 0xAA (theorem `post_body_near_64k_reached`). -/
def post_body_near_64k : PostState :=
  { post_state_in .POST_IDLE with
      body_buf := fun i => if i = 1 then 61 else if i < 65532 then 65 else 0
      body_buf_size := 65534
      body_pos := 65532 }

/-- The POST client with a cleared body buffer of 2048 bytes, the size
`tasks_init` asks for. -/
def post_body_2048 : PostState :=
  post_clear_body { post_state_in .POST_IDLE with body_buf_size := 2048 }

/-- An environment of the supervisor at second `t`: no serial error and no
console key, the network up, the POST socket alive or closed as `alive` says;
`lan_get_network_ip` returns the address 192.168.0.5 in network order (in
memory the bytes C0, A8, 00, 05). -/
def tasks_env_at (t : Nat) (alive : Bool) : TasksEnv :=
  { secs := t, dav := dav_env_at t, post := post_env_line t alive [], inchar := EOF,
    lan_check_ok := LAN_OK, switches := 255, network_ip := 0x0500A8C0 }

/-- A node in the supervisor state `st` with the collector `dav` and the POST
client `post`: a collection result is queued (`new_data` is 1), both error
counters and the POST error flag are clear, the battery-backed variables are
valid and the stored sequence number is 41. -/
def node_in (st : TasksStateValue) (dav : DavState) (post : PostState) : Node :=
  { tasks_state := { state := st, collect_tmr := 60, time_chk_tmr := 120, new_data := 1,
                     collect_err_ctr := 0, post_err_ctr := 0 },
    dav := dav, post := post, bb_mem_flag := BB_MAGIC_NUMBER, bb_seq_num := 41,
    bb_ver_major := VER_MAJOR, bb_ver_minor := VER_MINOR, bb_post_error_flag := 0,
    id_base := 100, update_secs := 0, wx_rotary_sel := 3, wx_switch_3 := 0 }

/-- The collector in `DAV_CHECKING_DATA` after 99 zero bytes have been read
into the data buffer: `dav_data_valid` is 0 and the packet does not start with
"LOO". -/
def dav_checking_zeros : DavState :=
  { dav_awaiting_data [] with state := .DAV_CHECKING_DATA, dav_data_valid := 0 }

/-- The collector at rest after a successful collection. -/
def dav_collected : DavState :=
  { dav_initial with condition := DAV_SUCCESS, dav_data := loop_packet 0 0, dav_data_valid := 1,
                     dav_error_str := "Success", led_davis := .LED_GREEN }

/-- The POST client in `POST_READING_BODY`, with a 2048-byte body buffer,
after the server's answer named a bad station ID. -/
def post_reading_bad_id : PostState :=
  { post_state_in .POST_READING_BODY with resp_result := RESP_BAD_ID, body_buf_size := 2048 }

/-- The POST client at rest with a 2048-byte body buffer and the record of a
POST that timed out in state 7. -/
def post_timed_out : PostState :=
  { post_state_in .POST_IDLE with body_buf_size := 2048, condition := POST_TIMEOUT,
                                  bb_post_error_str := "Timed out", bb_post_error_state_num := 7 }

/-- The node about to build a POST body: new data collected, the previous
POST timed out. -/
def node_processing : Node :=
  { node_in .TASKS_PROCESSING dav_collected post_timed_out with bb_post_error_flag := 1 }

/-- The node about to build a POST body with the stored sequence number
2147483646. -/
def node_seq_wrap : Node :=
  { node_in .TASKS_PROCESSING dav_collected post_timed_out with bb_seq_num := 0x7FFFFFFE }

/-- The node at a restart after a failed POST, when the firmware has gone from
version 1.24 to 1.25: the magic number is in place, the POST error flag is
set. -/
def node_after_upgrade : Node :=
  { node_in .TASKS_IDLE dav_initial post_timed_out with bb_ver_minor := 24,
                                                         bb_post_error_flag := 1 }

/-- The library's answers when the Ethernet link is down. -/
def lan_link_down : LanEnv :=
  { pd_havelink := false, ifstatus := false, lan_dhcp_used := true, ifconfig_result := 0,
    dhcp_ok := false }

/-- The environment `tasks_env_at t true` with the Ethernet link down: a call
of `lan_check_ok` returns `LAN_ETH_DOWN`. -/
def tasks_env_link_down (t : Nat) : TasksEnv :=
  { tasks_env_at t true with lan_check_ok := lan_check_ok lan_link_down }

/-- The environment of the supervisor at the millisecond count `ms`, with the
real-time clock the collector reads at `now`. -/
def tasks_env_clock (ms now : Nat) : TasksEnv :=
  { tasks_env_at (ms / 1000) true with dav := dav_env_ms ms now }


/-- An environment of the POST client at second `t` in which `inet_addr`
reads every host text as the address 10.0.0.1. -/
def post_env_numeric (t : Nat) : PostEnv :=
  { post_env_line t true [] with inet_addr := fun _ => 0x0A000001 }

/-- The POST client at rest with the pair "a=b" in its body. -/
def post_ready : PostState :=
  (post_add_variable post_timed_out (lit "a") (lit "b") 0).1

/-- The POST client in `POST_STARTING` at second `t`, as `post_start` leaves
it, holding the address 10.0.0.1 cached by a resolve at second 0. -/
def post_starting_cached (t : Nat) : PostState :=
  { post_state_in .POST_STARTING with
      sock_opened := false, cached_ip := 0x0A000001
      cache_timeout := SET_TIMEOUT_UI 0 DNS_CACHE_SECS
      timeout := SET_TIMEOUT_UI t POST_TIMEOUT_SECS }

/-- The collector in `DAV_CHECKING_DATA` under `LOOP 1` after the packet
`loop_packet 0 0` has been read into the data buffer. -/
def dav_checking_loop : DavState :=
  { dav_awaiting_data [] with state := .DAV_CHECKING_DATA, dav_data := loop_packet 0 0,
                              dav_data_valid := 0 }

/-- A CRC function that gives 0 for every block: under it the packet
`loop_packet 0 0` has the right CRC. -/
def crc_zero (_ : List Nat) : Nat := 0

/-- The supervisor in `TASKS_COLLECTING` with no collection result queued
(`new_data` is 0), the collector as in `dav_checking_loop`. -/
def node_collecting_loop : Node :=
  { node_in .TASKS_COLLECTING dav_checking_loop post_timed_out with
      tasks_state := { state := .TASKS_COLLECTING, collect_tmr := 60, time_chk_tmr := 120,
                       new_data := 0, collect_err_ctr := 0, post_err_ctr := 0 } }

/-! # Theorems -/

/-! ## Memory helpers and the body builder -/

theorem mem_write_below (m : Nat → Nat) (p : Nat) (l : List Nat) (i : Nat) (h : i < p) :
    mem_write m p l i = m i := by
  simp [mem_write, Nat.not_le.mpr h]

theorem mem_write_above (m : Nat → Nat) (p : Nat) (l : List Nat) (i : Nat) (h : p + l.length ≤ i) :
    mem_write m p l i = m i := by
  unfold mem_write
  split
  · have : l.length ≤ i - p := by omega
    simp [List.getElem?_eq_none this]
  · rfl

theorem mem_write_at (m : Nat → Nat) (p : Nat) (l : List Nat) (j : Nat) (h : j < l.length) :
    mem_write m p l (p + j) = l[j] := by
  simp [mem_write, List.getElem?_eq_getElem h]

theorem mem_read_length (m : Nat → Nat) (p n : Nat) : (mem_read m p n).length = n := by
  simp [mem_read]

theorem mem_read_at (m : Nat → Nat) (p n i : Nat) (_ : i < n)
    (hl : i < (mem_read m p n).length) :
    (mem_read m p n)[i] = m (p + i) := by
  simp [mem_read]

theorem mem_read_append (m : Nat → Nat) (p a b : Nat) :
    mem_read m p (a + b) = mem_read m p a ++ mem_read m (p + a) b := by
  simp only [mem_read, List.range_add, List.map_append, List.map_map]
  congr 1
  apply List.map_congr_left
  intro i _
  simp [Nat.add_assoc]

theorem mem_read_congr (m m' : Nat → Nat) (p n : Nat) (h : ∀ i, p ≤ i → i < p + n → m' i = m i) :
    mem_read m' p n = mem_read m p n := by
  simp only [mem_read]
  apply List.map_congr_left
  intro i hi
  have := List.mem_range.mp hi
  exact h (p + i) (by omega) (by omega)

theorem mem_read_write (m : Nat → Nat) (p : Nat) (l : List Nat) :
    mem_read (mem_write m p l) p l.length = l := by
  apply List.ext_getElem
  · simp [mem_read]
  · intro i h1 h2
    simp only [mem_read, List.getElem_map, List.getElem_range]
    exact mem_write_at m p l i h2

theorem mem_read_write_prefix (m : Nat → Nat) (p : Nat) (l t : List Nat) :
    mem_read (mem_write m p (l ++ t)) p l.length = l := by
  apply List.ext_getElem
  · simp [mem_read]
  · intro i h1 h2
    simp only [mem_read, List.getElem_map, List.getElem_range]
    rw [mem_write_at m p (l ++ t) i (by simp; omega)]
    exact List.getElem_append_left h2


theorem Appended.refl (s : PostState) (h0 : s.body_buf s.body_pos = 0)
    (hr : s.body_pos < s.body_buf_size) : Appended s s [] :=
  ⟨rfl, rfl, rfl, fun _ _ => rfl, rfl, h0, hr⟩

theorem Appended.trans {s t u : PostState} {o1 o2 : List Nat}
    (h1 : Appended s t o1) (h2 : Appended t u o2) : Appended s u (o1 ++ o2) := by
  refine ⟨?_, ?_, ?_, ?_, ?_, h2.nul, h2.room⟩
  · rw [h2.pos, h1.pos, List.length_append]; omega
  · rw [h2.size, h1.size]
  · rw [h2.ovf, h1.ovf]
  · intro i hi
    rw [h2.below i (by rw [h1.pos]; omega), h1.below i hi]
  · rw [List.length_append, mem_read_append]
    congr 1
    · rw [mem_read_congr t.body_buf u.body_buf]
      · exact h1.text
      · intro i _ hi
        exact h2.below i (by rw [h1.pos]; omega)
    · rw [← h1.pos]; exact h2.text

theorem Appended.text_eq {s t : PostState} {o : List Nat} (h : Appended s t o) :
    body_text t = body_text s ++ o := by
  unfold Wx.body_text
  rw [h.pos, mem_read_append, Nat.zero_add, h.text]
  congr 1
  apply mem_read_congr
  intro i _ hi
  exact h.below i (by omega)


/-- Text that one call of `add_body_char` emits. -/
theorem char_out_enc (ch : Nat) (h : ch < 256) : char_out ch true = enc_char ch := by
  unfold char_out enc_char
  by_cases ha : isalnum ch = true
  · simp [ha, farsprintf_out]
  · by_cases hs : ch = 32
    · subst hs; simp [farsprintf_out, isalnum]
    · have : ch / 16 % 16 = ch / 16 := Nat.mod_eq_of_lt (by omega)
      simp [ha, hs, farsprintf_out, this]

theorem char_out_plain (ch : Nat) : char_out ch false = [ch] := by
  simp [char_out, farsprintf_out]

theorem char_out_length (ch : Nat) (ue : Bool) :
    1 ≤ (char_out ch ue).length ∧ (char_out ch ue).length ≤ 3 := by
  unfold char_out
  split <;> simp [farsprintf_out]

theorem add_body_char_eq (s : PostState) (ch : Nat) (ue : Bool) :
    add_body_char s ch ue =
      if u16 (s.body_pos + (char_out ch ue).length) ≥ s.body_buf_size then (s, -1)
      else ({ s with
                body_buf := mem_write s.body_buf s.body_pos (char_out ch ue ++ [0])
                body_pos := u16 (s.body_pos + (char_out ch ue).length) }, 0) := by
  unfold add_body_char char_out
  by_cases h : (ue && !isalnum ch && ch != 32) = true
  · have h32 : (ch == 32) = false := by
      simp only [Bool.and_eq_true, bne_iff_ne, ne_eq] at h
      simpa using h.2
    simp only [h, h32, Bool.and_false, if_true, farsprintf_out, List.length_cons, List.length_nil]
    rfl
  · simp only [h, if_false, farsprintf_out, List.length_cons, List.length_nil]
    rfl

theorem add_body_char_ret (s : PostState) (ch : Nat) (ue : Bool) :
    (add_body_char s ch ue).2 = 0 ∨ add_body_char s ch ue = (s, -1) := by
  rw [add_body_char_eq]
  split
  · right; rfl
  · left; rfl

theorem add_body_char_ok (s : PostState) (ch : Nat) (ue : Bool)
    (hok : (add_body_char s ch ue).2 = 0) (hw : s.body_pos + 3 < 65536) :
    Appended s (add_body_char s ch ue).1 (char_out ch ue) := by
  have hlen := char_out_length ch ue
  rw [add_body_char_eq] at hok ⊢
  have hu : u16 (s.body_pos + (char_out ch ue).length) = s.body_pos + (char_out ch ue).length :=
    Nat.mod_eq_of_lt (by omega)
  rw [hu] at hok ⊢
  split at hok
  · simp at hok
  · rename_i hlt
    rw [if_neg hlt]
    refine ⟨rfl, rfl, rfl, ?_, ?_, ?_, by simpa using hlt⟩
    · intro i hi; exact mem_write_below _ _ _ _ hi
    · exact mem_read_write_prefix _ _ (char_out ch ue) [0]
    · show mem_write s.body_buf s.body_pos (char_out ch ue ++ [0])
        (s.body_pos + (char_out ch ue).length) = 0
      rw [mem_write_at _ _ (char_out ch ue ++ [0]) (char_out ch ue).length (by simp)]
      simp


theorem c_str_cons_zero (cs : List Nat) : c_str (0 :: cs) = [] := by
  simp [c_str]

theorem c_str_cons_ne (c : Nat) (cs : List Nat) (h : c ≠ 0) : c_str (c :: cs) = c :: c_str cs := by
  simp [c_str, h]

theorem enc_nil : enc [] = [] := by simp [enc, c_str]

theorem enc_cons_zero (cs : List Nat) : enc (0 :: cs) = [] := by
  simp [enc, c_str_cons_zero]

theorem enc_cons_ne (c : Nat) (cs : List Nat) (h : c ≠ 0) : enc (c :: cs) = enc_char c ++ enc cs := by
  simp [enc, c_str_cons_ne c cs h]

/-- What `add_body_string` does when the room check cannot wrap: it appends
a prefix of the encoding, the whole encoding exactly when it returns 0, and
it returns -1 only when the encoding does not fit. -/
theorem add_body_string_spec (str : List Nat) : ∀ (s : PostState),
    s.body_buf_size ≤ 65533 → s.body_pos < s.body_buf_size → s.body_buf s.body_pos = 0 →
    (∀ c ∈ str, c < 256) →
    ∃ out, Appended s (add_body_string s str).1 out ∧
      (((add_body_string s str).2 = 0 ∧ out = enc str) ∨
       ((add_body_string s str).2 = -1 ∧ s.body_buf_size ≤ s.body_pos + (enc str).length)) := by
  induction str with
  | nil =>
    intro s _ hp h0 _
    exact ⟨[], Appended.refl s h0 hp, Or.inl ⟨rfl, enc_nil.symm⟩⟩
  | cons c cs ih =>
    intro s hs hp h0 hb
    by_cases hc : c = 0
    · subst hc
      refine ⟨[], ?_, Or.inl ⟨?_, (enc_cons_zero cs).symm⟩⟩
      · simpa [add_body_string] using Appended.refl s h0 hp
      · simp [add_body_string]
    · have hc256 : c < 256 := hb c (List.mem_cons_self _ _)
      have hlen := char_out_length c true
      rcases add_body_char_ret s c true with hok | hfail
      · have hA := add_body_char_ok s c true hok (by omega)
        have hstep : add_body_string s (c :: cs) = add_body_string (add_body_char s c true).1 cs := by
          simp [add_body_string, hc, hok]
        obtain ⟨out, hB, hres⟩ := ih (add_body_char s c true).1 (by rw [hA.size]; exact hs)
          hA.room hA.nul (fun x hx => hb x (List.mem_cons_of_mem _ hx))
        rw [hstep]
        refine ⟨char_out c true ++ out, hA.trans hB, ?_⟩
        rw [enc_cons_ne c cs hc, ← char_out_enc c hc256]
        rcases hres with ⟨h1, h2⟩ | ⟨h1, h2⟩
        · exact Or.inl ⟨h1, by rw [h2]⟩
        · refine Or.inr ⟨h1, ?_⟩
          rw [hA.size, hA.pos] at h2
          rw [List.length_append]; omega
      · have hstep : add_body_string s (c :: cs) = (s, -1) := by
          simp [add_body_string, hc, hfail]
        rw [hstep]
        refine ⟨[], Appended.refl s h0 hp, Or.inr ⟨rfl, ?_⟩⟩
        rw [enc_cons_ne c cs hc, ← char_out_enc c hc256, List.length_append]
        rw [add_body_char_eq] at hfail
        have hu : u16 (s.body_pos + (char_out c true).length) = s.body_pos + (char_out c true).length :=
          Nat.mod_eq_of_lt (by omega)
        rw [hu] at hfail
        split at hfail
        · rename_i hge
          have : s.body_buf_size ≤ s.body_pos + (char_out c true).length := hge
          omega
        · simp at hfail


theorem nibb_to_hex_eq (n : Nat) : nibb_to_hex n = hex_digit_upper (n % 16) := by
  have h : n &&& 0x0F = n % 16 := Nat.and_pow_two_sub_one_eq_mod n 4
  unfold nibb_to_hex hex_digit_upper
  simp only [h]
  have : n % 16 < 16 := Nat.mod_lt _ (by decide)
  split <;> split <;> omega

theorem hex_text_cons (b : Nat) (bs : List Nat) :
    hex_text (b :: bs) = [hex_digit_upper (b / 16), hex_digit_upper (b % 16)] ++ hex_text bs := by
  simp [hex_text]

theorem hex_text_length (bs : List Nat) : (hex_text bs).length = 2 * bs.length := by
  induction bs with
  | nil => simp [hex_text]
  | cons b bs ih => rw [hex_text_cons, List.length_append, ih]; simp; omega

/-- The loop of `add_body_hexstring` stores the hexadecimal text of the
first `len` bytes from `body_ptr` on and touches nothing else. -/
theorem hexstring_loop_spec (len : Nat) : ∀ (m : Nat → Nat) (ptr : Nat) (bytes : List Nat),
    len ≤ bytes.length → (∀ b ∈ bytes, b < 256) →
    (hexstring_loop m ptr bytes len).2 = ptr + 2 * len ∧
    (∀ i, i < ptr → (hexstring_loop m ptr bytes len).1 i = m i) ∧
    (∀ i, ptr + 2 * len ≤ i → (hexstring_loop m ptr bytes len).1 i = m i) ∧
    mem_read (hexstring_loop m ptr bytes len).1 ptr (2 * len) = hex_text (bytes.take len) := by
  induction len with
  | zero =>
    intro m ptr bytes _ _
    simp [hexstring_loop, mem_read, hex_text]
  | succ n ih =>
    intro m ptr bytes hlen hb
    cases bytes with
    | nil => simp at hlen
    | cons b bs =>
      have hb256 : b < 256 := hb b (List.mem_cons_self _ _)
      obtain ⟨h1, h2, h3, h4⟩ := ih
        (mem_write (mem_write m ptr [nibb_to_hex (b >>> 4)]) (ptr + 1) [nibb_to_hex b]) (ptr + 2) bs
        (by simpa using hlen) (fun x hx => hb x (List.mem_cons_of_mem _ hx))
      simp only [hexstring_loop, List.headD_cons, List.tail_cons]
      refine ⟨by rw [h1]; omega, ?_, ?_, ?_⟩
      · intro i hi
        rw [h2 i (by omega), mem_write_below _ _ _ _ (by omega), mem_write_below _ _ _ _ hi]
      · intro i hi
        rw [h3 i (by omega), mem_write_above _ _ _ _ (by simp; omega),
          mem_write_above _ _ _ _ (by simp; omega)]
      · have e : 2 * (n + 1) = 2 + 2 * n := by omega
        rw [e, mem_read_append, List.take_succ_cons, hex_text_cons, h4]
        congr 1
        have e0 : mem_read (hexstring_loop
            (mem_write (mem_write m ptr [nibb_to_hex (b >>> 4)]) (ptr + 1) [nibb_to_hex b])
            (ptr + 2) bs n).1 ptr 2 =
            mem_read (mem_write (mem_write m ptr [nibb_to_hex (b >>> 4)]) (ptr + 1)
              [nibb_to_hex b]) ptr 2 := by
          apply mem_read_congr
          intro i _ hi
          exact h2 i (by omega)
        rw [e0]
        have hd : b >>> 4 % 16 = b / 16 := by
          rw [Nat.shiftRight_eq_div_pow]
          exact Nat.mod_eq_of_lt (by omega)
        simp only [mem_read, List.range_succ, List.range_zero, List.nil_append, List.map_cons,
          List.map_nil, List.singleton_append, Nat.add_zero]
        have a0 : mem_write (mem_write m ptr [nibb_to_hex (b >>> 4)]) (ptr + 1) [nibb_to_hex b] ptr
            = nibb_to_hex (b >>> 4) := by
          rw [mem_write_below _ _ _ _ (by omega)]
          exact mem_write_at m ptr [nibb_to_hex (b >>> 4)] 0 (by simp)
        have a1 : mem_write (mem_write m ptr [nibb_to_hex (b >>> 4)]) (ptr + 1) [nibb_to_hex b]
            (ptr + 1) = nibb_to_hex b :=
          mem_write_at _ (ptr + 1) [nibb_to_hex b] 0 (by simp)
        rw [a0, a1, nibb_to_hex_eq, nibb_to_hex_eq, hd]

theorem u16_le (n : Nat) : u16 n ≤ n := Nat.mod_le _ _

theorem add_body_hexstring_ret (s : PostState) (bytes : List Nat) (len : Nat) :
    (add_body_hexstring s bytes len).2 = 0 ∨
      (add_body_hexstring s bytes len = (s, -1) ∧ s.body_buf_size ≤ s.body_pos + 2 * len) := by
  unfold add_body_hexstring
  split
  · rename_i h
    right
    refine ⟨rfl, ?_⟩
    have h1 := u16_le (s.body_pos + u16 (len * 2))
    have h2 := u16_le (len * 2)
    have : s.body_buf_size ≤ u16 (s.body_pos + u16 (len * 2)) := h
    omega
  · left; rfl

theorem add_body_hexstring_ok (s : PostState) (bytes : List Nat) (len : Nat)
    (hok : (add_body_hexstring s bytes len).2 = 0) (hw : s.body_pos + 2 * len < 65536)
    (hlen : len ≤ bytes.length) (hb : ∀ b ∈ bytes, b < 256) :
    Appended s (add_body_hexstring s bytes len).1 (hex_text (bytes.take len)) := by
  have hu : u16 (s.body_pos + u16 (len * 2)) = s.body_pos + 2 * len := by
    have : u16 (len * 2) = 2 * len := by unfold u16; omega
    rw [this]; unfold u16; omega
  obtain ⟨h1, h2, h3, h4⟩ := hexstring_loop_spec len s.body_buf s.body_pos bytes hlen hb
  have hl : (hex_text (bytes.take len)).length = 2 * len := by
    rw [hex_text_length, List.length_take, Nat.min_eq_left hlen]
  unfold add_body_hexstring at hok ⊢
  rw [hu] at hok ⊢
  split at hok
  · simp at hok
  · rename_i hlt
    rw [if_neg hlt]
    refine ⟨by simp only [hl], rfl, rfl, ?_, ?_, ?_, by simpa using hlt⟩
    · intro i hi
      show mem_write _ _ [0] i = _
      rw [mem_write_below _ _ _ _ (by rw [h1]; omega)]
      exact h2 i hi
    · show mem_read (mem_write _ _ [0]) _ _ = _
      rw [hl, ← h4]
      apply mem_read_congr
      intro i _ hi
      exact mem_write_below _ _ _ _ (by rw [h1]; omega)
    · show mem_write _ _ [0] _ = _
      rw [h1]
      exact mem_write_at _ (s.body_pos + 2 * len) [0] 0 (by simp)


theorem no_room_restored {s t : PostState} {o : List Nat} (h : Appended s t o) :
    Restored s (no_room t s.body_pos).1 ∧ (no_room t s.body_pos).2 = -1 := by
  refine ⟨⟨rfl, h.size, rfl, ?_, ?_⟩, rfl⟩
  · intro i hi
    show mem_write t.body_buf s.body_pos [0] i = _
    rw [mem_write_below _ _ _ _ hi]
    exact h.below i hi
  · show mem_write t.body_buf s.body_pos [0] (s.body_pos + 0) = 0
    exact mem_write_at _ _ [0] 0 (by simp)

theorem Restored.text_same {s t : PostState} (h : Restored s t) : body_text t = body_text s := by
  unfold Wx.body_text
  rw [h.pos]
  apply mem_read_congr
  intro i _ hi
  exact h.below i (by omega)

/-- What `post_add_variable` does on a buffer of at most 65533 bytes, where the
`unsigned int` sums of the room checks of `add_body_char` cannot wrap. -/
theorem post_add_variable_spec (s : PostState) (name value : List Nat) (hexlen : Nat)
    (hs : s.body_buf_size ≤ 65533) (hp : s.body_pos < s.body_buf_size)
    (h0 : s.body_buf s.body_pos = 0)
    (hn : ∀ c ∈ name, c < 256) (hv : ∀ c ∈ value, c < 256) :
    ((post_add_variable s name value hexlen).2 = 0 ∧ name.headD 0 ≠ 0 ∧
        ¬ (hexlen = 0 ∧ value.headD 0 = 0) ∧
        (hexlen ≤ value.length → s.body_buf_size + 2 * hexlen ≤ 65536 →
          Appended s (post_add_variable s name value hexlen).1
            (sep s ++ pair_text name value hexlen))) ∨
    ((post_add_variable s name value hexlen).2 = -1 ∧
        Restored s (post_add_variable s name value hexlen).1 ∧
        (hexlen ≤ value.length →
          s.body_buf_size ≤ s.body_pos + (sep s ++ pair_text name value hexlen).length)) ∨
    (post_add_variable s name value hexlen = (s, -2) ∧ name.headD 0 = 0) ∨
    (post_add_variable s name value hexlen = (s, -3) ∧ name.headD 0 ≠ 0 ∧
        hexlen = 0 ∧ value.headD 0 = 0) := by
  by_cases hname : name.headD 0 = 0
  · right; right; left
    exact ⟨by unfold post_add_variable; rw [if_pos hname], hname⟩
  by_cases hval : hexlen = 0 ∧ value.headD 0 = 0
  · right; right; right
    exact ⟨by unfold post_add_variable; rw [if_neg hname, if_pos hval], hname, hval.1, hval.2⟩
  -- the separator
  have h1 : ∃ r1 : PostState × Int,
      r1 = (if s.body_pos ≠ 0 then add_body_char s 38 false else (s, 0)) ∧
      ((r1.2 = 0 ∧ Appended s r1.1 (sep s)) ∨
       (r1 = (s, -1) ∧ s.body_buf_size ≤ s.body_pos + (sep s).length)) := by
    refine ⟨_, rfl, ?_⟩
    by_cases hz : s.body_pos = 0
    · left
      simp only [hz, ne_eq, not_true_eq_false, if_false, sep, if_true]
      exact ⟨trivial, by simpa [hz] using Appended.refl s h0 hp⟩
    · simp only [ne_eq, hz, not_false_eq_true, if_true, sep, if_false]
      rcases add_body_char_ret s 38 false with hok | hfail
      · left
        have := add_body_char_ok s 38 false hok (by omega)
        rw [char_out_plain] at this
        exact ⟨hok, this⟩
      · right
        refine ⟨hfail, ?_⟩
        rw [add_body_char_eq, char_out_plain] at hfail
        have hu : u16 (s.body_pos + [38].length) = s.body_pos + 1 := Nat.mod_eq_of_lt (by simp; omega)
        rw [hu] at hfail
        split at hfail
        · rename_i hge
          have : s.body_buf_size ≤ s.body_pos + 1 := hge
          simpa using this
        · simp at hfail
  obtain ⟨r1, hr1, hcase1⟩ := h1
  have hunf : post_add_variable s name value hexlen =
      if r1.2 < 0 then no_room r1.1 s.body_pos
      else if (add_body_string r1.1 name).2 < 0 then no_room (add_body_string r1.1 name).1 s.body_pos
      else if (add_body_char (add_body_string r1.1 name).1 61 false).2 < 0 then
        no_room (add_body_char (add_body_string r1.1 name).1 61 false).1 s.body_pos
      else if hexlen = 0 then
        if (add_body_string (add_body_char (add_body_string r1.1 name).1 61 false).1 value).2 < 0
        then no_room (add_body_string (add_body_char (add_body_string r1.1 name).1 61 false).1
          value).1 s.body_pos
        else ((add_body_string (add_body_char (add_body_string r1.1 name).1 61 false).1 value).1, 0)
      else
        if (add_body_hexstring (add_body_char (add_body_string r1.1 name).1 61 false).1 value
          hexlen).2 < 0
        then no_room (add_body_hexstring (add_body_char (add_body_string r1.1 name).1 61 false).1
          value hexlen).1 s.body_pos
        else ((add_body_hexstring (add_body_char (add_body_string r1.1 name).1 61 false).1 value
          hexlen).1, 0) := by
    rw [hr1]
    unfold post_add_variable
    rw [if_neg hname, if_neg hval]
  rw [hunf]
  have hlenpair : ∀ v : List Nat, (sep s ++ (enc name ++ [61] ++ v)).length =
      (sep s).length + (enc name).length + 1 + v.length := by
    intro v; simp only [List.length_append, List.length_singleton]; omega
  rcases hcase1 with ⟨hok1, hA1⟩ | ⟨hf1, hno1⟩
  swap
  · -- no room for the separator
    right; left
    rw [hf1]
    simp only [show ((-1 : Int) < 0) from by decide, if_true]
    have := no_room_restored (Appended.refl s h0 hp)
    refine ⟨this.2, this.1, fun _ => ?_⟩
    unfold pair_text
    rw [hlenpair]; omega
  rw [if_neg (by omega)]
  -- the name
  obtain ⟨o2, hA2, hcase2⟩ := add_body_string_spec name r1.1 (by rw [hA1.size]; exact hs)
    hA1.room hA1.nul hn
  have hA12 := hA1.trans hA2
  rcases hcase2 with ⟨hok2, ho2⟩ | ⟨hf2, hno2⟩
  swap
  · right; left
    rw [if_pos (by omega)]
    have := no_room_restored hA12
    refine ⟨this.2, this.1, fun _ => ?_⟩
    rw [hA1.size, hA1.pos] at hno2
    unfold pair_text
    rw [hlenpair]; omega
  rw [if_neg (by omega)]
  subst ho2
  -- the equals sign
  have hs2 : (add_body_string r1.1 name).1.body_buf_size = s.body_buf_size := hA12.size
  have hp2 : (add_body_string r1.1 name).1.body_pos = s.body_pos + (sep s ++ enc name).length :=
    hA12.pos
  rcases add_body_char_ret (add_body_string r1.1 name).1 61 false with hok3 | hf3
  swap
  · right; left
    rw [hf3]
    simp only [show ((-1 : Int) < 0) from by decide, if_true]
    have := no_room_restored hA12
    refine ⟨this.2, this.1, fun _ => ?_⟩
    rw [add_body_char_eq, char_out_plain] at hf3
    have hroom := hA12.room
    have hu : u16 ((add_body_string r1.1 name).1.body_pos + [61].length) =
        (add_body_string r1.1 name).1.body_pos + 1 := Nat.mod_eq_of_lt (by simp; omega)
    rw [hu] at hf3
    split at hf3
    · rename_i hge
      have hge' : (add_body_string r1.1 name).1.body_buf_size ≤
          (add_body_string r1.1 name).1.body_pos + 1 := hge
      rw [hs2, hp2, List.length_append] at hge'
      unfold pair_text
      rw [hlenpair]; omega
    · simp at hf3
  rw [if_neg (by omega)]
  have hA3 := add_body_char_ok (add_body_string r1.1 name).1 61 false hok3
    (by have := hA12.room; omega)
  rw [char_out_plain] at hA3
  have hA123 := hA12.trans hA3
  have hp3 := hA123.pos
  have hs3 := hA123.size
  by_cases hx : hexlen = 0
  · -- string value
    rw [if_pos hx]
    obtain ⟨o4, hA4, hcase4⟩ := add_body_string_spec value
      (add_body_char (add_body_string r1.1 name).1 61 false).1 (by rw [hs3]; exact hs)
      hA123.room hA123.nul hv
    have hA := hA123.trans hA4
    rcases hcase4 with ⟨hok4, ho4⟩ | ⟨hf4, hno4⟩
    · left
      rw [if_neg (by omega)]
      refine ⟨rfl, hname, hval, fun _ _ => ?_⟩
      subst ho4
      have e : sep s ++ pair_text name value hexlen = sep s ++ enc name ++ [61] ++ enc value := by
        simp [pair_text, hx]
      rw [e]; exact hA
    · right; left
      rw [if_pos (by omega)]
      have := no_room_restored hA
      refine ⟨this.2, this.1, fun _ => ?_⟩
      rw [hs3, hp3] at hno4
      simp only [List.length_append, List.length_singleton] at hno4
      unfold pair_text
      rw [hlenpair, if_pos hx]; omega
  · -- hexadecimal value
    rw [if_neg hx]
    rcases add_body_hexstring_ret (add_body_char (add_body_string r1.1 name).1 61 false).1 value
      hexlen with hok4 | ⟨hf4, hno4⟩
    · left
      rw [if_neg (by omega)]
      refine ⟨rfl, hname, hval, fun hl hh => ?_⟩
      have hA4 := add_body_hexstring_ok _ value hexlen hok4
        (by have := hA123.room; rw [hs3] at this; omega) hl hv
      have e : sep s ++ pair_text name value hexlen =
          sep s ++ enc name ++ [61] ++ hex_text (value.take hexlen) := by
        simp [pair_text, hx]
      rw [e]; exact hA123.trans hA4
    · right; left
      rw [hf4]
      simp only [show ((-1 : Int) < 0) from by decide, if_true]
      have := no_room_restored hA123
      refine ⟨this.2, this.1, fun hl => ?_⟩
      rw [hs3, hp3] at hno4
      simp only [List.length_append, List.length_singleton] at hno4
      unfold pair_text
      rw [hlenpair, if_neg hx, hex_text_length, List.length_take, Nat.min_eq_left hl]; omega

/-! ## Decoding the body -/

theorem hex_val_digit (n : Nat) (h : n < 16) : hex_val (hex_digit_upper n) = n := by
  unfold hex_val hex_digit_upper
  split <;> split <;> try omega
  all_goals (split <;> try omega)

theorem is_upper_hex_digit (n : Nat) (h : n < 16) : is_upper_hex (hex_digit_upper n) = true := by
  unfold is_upper_hex hex_digit_upper
  split
  · simp; omega
  · simp; omega

theorem url_decode_cons_plain (c : Nat) (t : List Nat) (h1 : c ≠ 37) (h2 : c ≠ 43) :
    url_decode (c :: t) = c :: url_decode t := by
  match t with
  | [] => simp [url_decode, h2]
  | [a] => simp [url_decode, h2]
  | a :: b :: r => simp [url_decode, h1, h2]

theorem url_decode_cons_plus (t : List Nat) : url_decode (43 :: t) = 32 :: url_decode t := by
  match t with
  | [] => simp [url_decode]
  | [a] => simp [url_decode]
  | a :: b :: r => simp [url_decode]

theorem url_decode_cons_pct (h l : Nat) (t : List Nat) :
    url_decode (37 :: h :: l :: t) = (16 * hex_val h + hex_val l) :: url_decode t := by
  rw [url_decode]; simp

theorem url_safe_cons_plain (c : Nat) (t : List Nat) (h1 : c ≠ 37)
    (h2 : (isalnum c || c == 43) = true) : url_safe (c :: t) = url_safe t := by
  match t with
  | [] => simp [url_safe, h2]
  | [a] => simp [url_safe, h2]
  | a :: b :: r =>
    rw [url_safe, if_neg h1, h2, Bool.true_and]

theorem url_safe_cons_pct (h l : Nat) (t : List Nat) (hh : is_upper_hex h = true)
    (hl : is_upper_hex l = true) : url_safe (37 :: h :: l :: t) = url_safe t := by
  rw [url_safe]; simp [hh, hl]

theorem isalnum_ne (c : Nat) (h : isalnum c = true) : c ≠ 37 ∧ c ≠ 43 := by
  unfold isalnum at h
  simp only [Bool.or_eq_true, Bool.and_eq_true, decide_eq_true_eq] at h
  omega

theorem url_decode_enc_char (c : Nat) (t : List Nat) (hc : c < 256) :
    url_decode (enc_char c ++ t) = c :: url_decode t := by
  unfold enc_char
  by_cases ha : isalnum c = true
  · obtain ⟨h1, h2⟩ := isalnum_ne c ha
    simp only [ha, if_true, List.singleton_append]
    exact url_decode_cons_plain c t h1 h2
  · by_cases hs : c = 32
    · subst hs
      simp only [ha, Bool.false_eq_true, if_false, if_true, List.singleton_append]
      exact url_decode_cons_plus t
    · simp only [ha, Bool.false_eq_true, if_false, hs, List.cons_append, List.nil_append]
      rw [url_decode_cons_pct, hex_val_digit _ (by omega), hex_val_digit _ (by omega)]
      congr 1
      omega

theorem url_safe_enc_char (c : Nat) (t : List Nat) (hc : c < 256) :
    url_safe (enc_char c ++ t) = url_safe t := by
  unfold enc_char
  by_cases ha : isalnum c = true
  · obtain ⟨h1, _⟩ := isalnum_ne c ha
    simp only [ha, if_true, List.singleton_append]
    exact url_safe_cons_plain c t h1 (by simp [ha])
  · by_cases hs : c = 32
    · subst hs
      simp only [ha, Bool.false_eq_true, if_false, if_true, List.singleton_append]
      exact url_safe_cons_plain 43 t (by decide) (by decide)
    · simp only [ha, Bool.false_eq_true, if_false, hs, List.cons_append, List.nil_append]
      exact url_safe_cons_pct _ _ t (is_upper_hex_digit _ (by omega)) (is_upper_hex_digit _ (by omega))

theorem url_decode_flatMap (l : List Nat) (h : ∀ c ∈ l, c < 256) :
    url_decode (l.flatMap enc_char) = l := by
  induction l with
  | nil => simp [url_decode]
  | cons c t ih =>
    rw [List.flatMap_cons, url_decode_enc_char c _ (h c (List.mem_cons_self _ _)),
      ih (fun x hx => h x (List.mem_cons_of_mem _ hx))]

theorem url_safe_flatMap (l : List Nat) (h : ∀ c ∈ l, c < 256) :
    url_safe (l.flatMap enc_char) = true := by
  induction l with
  | nil => simp [url_safe]
  | cons c t ih =>
    rw [List.flatMap_cons, url_safe_enc_char c _ (h c (List.mem_cons_self _ _)),
      ih (fun x hx => h x (List.mem_cons_of_mem _ hx))]

theorem List.mem_of_mem_takeWhile_local (l : List Nat) (c : Nat)
    (h : c ∈ l.takeWhile (fun c => c != 0)) : c ∈ l :=
  (List.takeWhile_sublist _).subset h

theorem c_str_lt (l : List Nat) (h : ∀ c ∈ l, c < 256) : ∀ c ∈ c_str l, c < 256 :=
  fun c hc => h c (List.mem_of_mem_takeWhile_local _ _ hc)

/-- Url-decoding the encoding of a string gives the string back. -/
theorem url_decode_enc (str : List Nat) (h : ∀ c ∈ str, c < 256) :
    url_decode (enc str) = c_str str :=
  url_decode_flatMap (c_str str) (c_str_lt str h)

/-- The encoding of a string consists of letters, digits, `+` and `%HH`
triplets only. -/
theorem url_safe_enc (str : List Nat) (h : ∀ c ∈ str, c < 256) : url_safe (enc str) = true :=
  url_safe_flatMap (c_str str) (c_str_lt str h)

/-- Decoding the hexadecimal text of a byte sequence gives the bytes back. -/
theorem hex_decode_hex_text (bytes : List Nat) (h : ∀ b ∈ bytes, b < 256) :
    hex_decode (hex_text bytes) = bytes := by
  induction bytes with
  | nil => simp [hex_text, hex_decode]
  | cons b t ih =>
    have hb := h b (List.mem_cons_self _ _)
    rw [hex_text_cons]
    simp only [List.cons_append, List.nil_append, hex_decode]
    rw [hex_val_digit _ (by omega), hex_val_digit _ (by omega)]
    have := ih (fun x hx => h x (List.mem_cons_of_mem _ hx))
    congr 1
    omega

/-- The hexadecimal text of a byte sequence consists of the characters 0-9 and
A-F only. -/
theorem hex_text_upper (bytes : List Nat) (h : ∀ b ∈ bytes, b < 256) :
    ∀ x ∈ hex_text bytes, is_upper_hex x = true := by
  induction bytes with
  | nil => intro x hx; simp [hex_text] at hx
  | cons b t ih =>
    have hb := h b (List.mem_cons_self _ _)
    intro x hx
    rw [hex_text_cons] at hx
    simp only [List.cons_append, List.nil_append, List.mem_cons] at hx
    rcases hx with rfl | rfl | hx
    · exact is_upper_hex_digit _ (by omega)
    · exact is_upper_hex_digit _ (by omega)
    · exact ih (fun y hy => h y (List.mem_cons_of_mem _ hy)) x hx


/-- What `add_body_hexstring` stores when it returns 0, whether or not the
`unsigned int` sum of its room check wrapped. -/
theorem add_body_hexstring_mem (s : PostState) (bytes : List Nat) (len : Nat)
    (hok : (add_body_hexstring s bytes len).2 = 0) (hlen : len ≤ bytes.length)
    (hb : ∀ b ∈ bytes, b < 256) :
    mem_read (add_body_hexstring s bytes len).1.body_buf s.body_pos (2 * len) =
      hex_text (bytes.take len) ∧
    (∀ i, i < s.body_pos → (add_body_hexstring s bytes len).1.body_buf i = s.body_buf i) ∧
    (add_body_hexstring s bytes len).1.body_buf (s.body_pos + 2 * len) = 0 := by
  obtain ⟨h1, h2, _, h4⟩ := hexstring_loop_spec len s.body_buf s.body_pos bytes hlen hb
  unfold add_body_hexstring at hok ⊢
  split at hok
  · simp at hok
  · rename_i hlt
    rw [if_neg hlt]
    refine ⟨?_, ?_, ?_⟩
    · show mem_read (mem_write _ _ [0]) _ _ = _
      rw [← h4]
      apply mem_read_congr
      intro i _ hi
      exact mem_write_below _ _ _ _ (by rw [h1]; omega)
    · intro i hi
      show mem_write _ _ [0] i = _
      rw [mem_write_below _ _ _ _ (by rw [h1]; omega)]
      exact h2 i hi
    · show mem_write _ _ [0] _ = _
      rw [h1]
      exact mem_write_at _ (s.body_pos + 2 * len) [0] 0 (by simp)

/-- The first part of `post_add_variable`, up to the equals sign, on a buffer
of at most 65533 bytes: either separator, name and equals sign are appended
and the value is added to the state reached, or there is no room and the
result is -1. -/
theorem post_add_variable_head (s : PostState) (name value : List Nat) (hexlen : Nat)
    (hs : s.body_buf_size ≤ 65533) (hp : s.body_pos < s.body_buf_size)
    (h0 : s.body_buf s.body_pos = 0) (hn : ∀ c ∈ name, c < 256)
    (hname : name.headD 0 ≠ 0) (hval : ¬ (hexlen = 0 ∧ value.headD 0 = 0)) :
    (∃ s3, Appended s s3 (sep s ++ enc name ++ [61]) ∧
      post_add_variable s name value hexlen =
        if hexlen = 0 then
          if (add_body_string s3 value).2 < 0 then no_room (add_body_string s3 value).1 s.body_pos
          else ((add_body_string s3 value).1, 0)
        else
          if (add_body_hexstring s3 value hexlen).2 < 0 then
            no_room (add_body_hexstring s3 value hexlen).1 s.body_pos
          else ((add_body_hexstring s3 value hexlen).1, 0)) ∨
    (post_add_variable s name value hexlen).2 = -1 := by
  have h1 : ∃ r1 : PostState × Int,
      r1 = (if s.body_pos ≠ 0 then add_body_char s 38 false else (s, 0)) ∧
      ((r1.2 = 0 ∧ Appended s r1.1 (sep s)) ∨ r1 = (s, -1)) := by
    refine ⟨_, rfl, ?_⟩
    by_cases hz : s.body_pos = 0
    · left
      simp only [hz, ne_eq, not_true_eq_false, if_false, sep, if_true]
      exact ⟨trivial, by simpa [hz] using Appended.refl s h0 hp⟩
    · simp only [ne_eq, hz, not_false_eq_true, if_true, sep, if_false]
      rcases add_body_char_ret s 38 false with hok | hfail
      · left
        have := add_body_char_ok s 38 false hok (by omega)
        rw [char_out_plain] at this
        exact ⟨hok, this⟩
      · right; exact hfail
  obtain ⟨r1, hr1, hcase1⟩ := h1
  have hunf : post_add_variable s name value hexlen =
      if r1.2 < 0 then no_room r1.1 s.body_pos
      else if (add_body_string r1.1 name).2 < 0 then no_room (add_body_string r1.1 name).1 s.body_pos
      else if (add_body_char (add_body_string r1.1 name).1 61 false).2 < 0 then
        no_room (add_body_char (add_body_string r1.1 name).1 61 false).1 s.body_pos
      else if hexlen = 0 then
        if (add_body_string (add_body_char (add_body_string r1.1 name).1 61 false).1 value).2 < 0
        then no_room (add_body_string (add_body_char (add_body_string r1.1 name).1 61 false).1
          value).1 s.body_pos
        else ((add_body_string (add_body_char (add_body_string r1.1 name).1 61 false).1 value).1, 0)
      else
        if (add_body_hexstring (add_body_char (add_body_string r1.1 name).1 61 false).1 value
          hexlen).2 < 0
        then no_room (add_body_hexstring (add_body_char (add_body_string r1.1 name).1 61 false).1
          value hexlen).1 s.body_pos
        else ((add_body_hexstring (add_body_char (add_body_string r1.1 name).1 61 false).1 value
          hexlen).1, 0) := by
    rw [hr1]
    unfold post_add_variable
    rw [if_neg hname, if_neg hval]
  rw [hunf]
  rcases hcase1 with ⟨hok1, hA1⟩ | hf1
  swap
  · right
    rw [hf1]
    simp only [show ((-1 : Int) < 0) from by decide, if_true]
    rfl
  rw [if_neg (by omega)]
  obtain ⟨o2, hA2, hcase2⟩ := add_body_string_spec name r1.1 (by rw [hA1.size]; exact hs)
    hA1.room hA1.nul hn
  have hA12 := hA1.trans hA2
  rcases hcase2 with ⟨hok2, ho2⟩ | ⟨hf2, _⟩
  swap
  · right
    rw [if_pos (by omega)]
    rfl
  rw [if_neg (by omega)]
  subst ho2
  rcases add_body_char_ret (add_body_string r1.1 name).1 61 false with hok3 | hf3
  swap
  · right
    rw [hf3]
    simp only [show ((-1 : Int) < 0) from by decide, if_true]
    rfl
  rw [if_neg (by omega)]
  have hA3 := add_body_char_ok (add_body_string r1.1 name).1 61 false hok3
    (by have := hA12.room; have := hA12.size; omega)
  rw [char_out_plain] at hA3
  left
  exact ⟨_, hA12.trans hA3, rfl⟩

theorem pair_text_length_hex (name value : List Nat) (hexlen : Nat) (h1 : hexlen ≠ 0)
    (hl : hexlen ≤ value.length) :
    (pair_text name value hexlen).length = (enc name).length + 1 + 2 * hexlen := by
  unfold pair_text
  rw [if_neg h1]
  simp only [List.length_append, List.length_singleton, hex_text_length, List.length_take,
    Nat.min_eq_left hl]

theorem hex_text_replicate_AA (n : Nat) :
    hex_text (List.replicate n 170) = List.replicate (2 * n) 65 := by
  induction n with
  | zero => rfl
  | succ n ih =>
    rw [List.replicate_succ, hex_text_cons, ih, show 2 * (n + 1) = (2 * n + 1) + 1 from by omega,
      List.replicate_succ, List.replicate_succ]
    rfl

/-- On the cleared 65534-byte buffer the call `post_add_variable("A", value,
32765)` passes every room check up to the hexadecimal value. -/
theorem post_body_64k_call :
    post_add_variable post_body_64k_cleared [65] (List.replicate 32765 170) 32765 =
      add_body_hexstring (add_body_char (add_body_string post_body_64k_cleared [65]).1 61 false).1
        (List.replicate 32765 170) 32765 := by
  unfold post_add_variable
  rw [if_neg (show ¬ ([65] : List Nat).headD 0 = 0 from by decide),
    if_neg (show ¬ (32765 = 0 ∧ (List.replicate 32765 170).headD 0 = 0) from by decide)]
  simp only
  rw [if_neg (show ¬ post_body_64k_cleared.body_pos ≠ 0 from by decide)]
  rw [if_neg (show ¬ ((post_body_64k_cleared, (0:Int)).2 < 0) from by decide)]
  rw [if_neg (show ¬ ((add_body_string (post_body_64k_cleared, (0:Int)).1 [65]).2 < 0) from by decide)]
  rw [if_neg (show ¬ ((add_body_char (add_body_string (post_body_64k_cleared, (0:Int)).1 [65]).1 61 false).2 < 0) from by decide)]
  rw [if_neg (show ¬ (32765 = 0) from by decide)]
  rw [if_neg (show ¬ ((add_body_hexstring (add_body_char (add_body_string (post_body_64k_cleared, (0:Int)).1 [65]).1 61 false).1 (List.replicate 32765 170) 32765).2 < 0) from by decide)]
  exact Prod.ext rfl (by symm; decide)

/-- The body buffer after that call, byte by byte. -/
theorem post_body_64k_buf (i : Nat) :
    mem_write (hexstring_loop post_body_64k_named.body_buf 2 (List.replicate 32765 170) 32765).1
      (hexstring_loop post_body_64k_named.body_buf 2 (List.replicate 32765 170) 32765).2 [0] i
      = if i = 1 then 61 else if i < 65532 then 65 else 0 := by
  obtain ⟨h1, h2, h3, h4⟩ := hexstring_loop_spec 32765 post_body_64k_named.body_buf 2 (List.replicate 32765 170)
    (by rw [List.length_replicate]) (by intro b hb; rw [List.eq_of_mem_replicate hb]; decide)
  rw [h1]
  rw [List.take_of_length_le (by rw [List.length_replicate]), hex_text_replicate_AA] at h4
  by_cases hi : i < 65532
  · rw [mem_write_below _ _ _ _ (by omega)]
    by_cases hi2 : i < 2
    · rw [h2 i hi2]
      have : i = 0 ∨ i = 1 := by omega
      rcases this with rfl | rfl <;> decide
    · have := mem_read_at (hexstring_loop post_body_64k_named.body_buf 2 (List.replicate 32765 170) 32765).1 2
        (2 * 32765) (i - 2) (by omega) (by rw [mem_read_length]; omega)
      rw [show 2 + (i - 2) = i from by omega] at this
      rw [← this, if_neg (by omega), if_pos hi]
      simp only [h4, List.getElem_replicate]
  · rw [if_neg (by omega), if_neg hi]
    by_cases he : i = 65532
    · subst he
      exact mem_write_at _ _ [0] 0 (by simp)
    · rw [mem_write_above _ _ _ _ (by simp; omega), h3 i (by omega)]
      have hb : post_body_64k_named.body_buf =
          mem_write (mem_write (mem_write (fun _ => 0) 0 [0]) 0 [65, 0]) 1 [61, 0] := rfl
      rw [hb, mem_write_above _ _ _ _ (by simp; omega), mem_write_above _ _ _ _ (by simp; omega),
        mem_write_above _ _ _ _ (by simp; omega)]

/-- The state `post_body_near_64k` is the result of `post_init(65534)`,
`post_clear_body()` and one accepted call of `post_add_variable`. -/
theorem post_body_near_64k_reached :
    post_add_variable post_body_64k_cleared [65] (List.replicate 32765 170) 32765 = (post_body_near_64k, 0) := by
  rw [post_body_64k_call]
  show add_body_hexstring post_body_64k_named _ _ = _
  unfold add_body_hexstring
  rw [if_neg (show ¬ (u16 (post_body_64k_named.body_pos + u16 (32765 * 2)) ≥ post_body_64k_named.body_buf_size) from by decide)]
  refine Prod.ext ?_ rfl
  show ({ post_body_64k_named with
        body_buf := mem_write (hexstring_loop post_body_64k_named.body_buf post_body_64k_named.body_pos (List.replicate 32765 170) 32765).1
          (hexstring_loop post_body_64k_named.body_buf post_body_64k_named.body_pos (List.replicate 32765 170) 32765).2 [0]
        body_pos := u16 (post_body_64k_named.body_pos + u16 (32765 * 2)) } : PostState) = post_body_near_64k
  have hf := funext post_body_64k_buf
  rw [show post_body_64k_named.body_pos = 2 from rfl, hf]
  rfl

/-- C1, evaluated at a failing input: on a 65534-byte body buffer that holds
65532 characters after one accepted call from the cleared state,
`post_add_variable("!", value, 32767)` returns -1 and sets
the overflow flag, the position is restored to 65532, but the first two bytes
of the body text have changed from "A=" to "=" and a terminator: the sum
`body_pos + inc` of `add_body_char` wrapped at 65536 while the name was
added, so the equals sign went to the start of the buffer. -/
theorem post_add_variable_wrap_changes_text :
    post_add_variable post_body_64k_cleared [65] (List.replicate 32765 170) 32765
      = (post_body_near_64k, 0) ∧
    (post_add_variable post_body_near_64k [33] (List.replicate 32767 0) 32767).2 = -1 ∧
    post_check_overflow
      (post_add_variable post_body_near_64k [33] (List.replicate 32767 0) 32767).1 = 1 ∧
    (post_add_variable post_body_near_64k [33] (List.replicate 32767 0) 32767).1.body_pos
      = post_body_near_64k.body_pos ∧
    post_body_near_64k.body_buf 0 = 65 ∧
    (post_add_variable post_body_near_64k [33] (List.replicate 32767 0) 32767).1.body_buf 0
      = 61 ∧
    post_body_near_64k.body_buf 1 = 61 ∧
    (post_add_variable post_body_near_64k [33] (List.replicate 32767 0) 32767).1.body_buf 1
      = 0 := by
  refine ⟨post_body_near_64k_reached, ?_, ?_, ?_, ?_, ?_, ?_, ?_⟩ <;> decide

/-- C6, evaluated at a failing input: on the cleared 2048-byte body buffer,
`post_add_variable("a", value, 32767)` with a value of 32767 bytes returns 0,
yet leaves `body_pos` at 0 and so an empty body text, while the text of the
pair has 65536 characters: the sum `body_pos + (len * 2)` of
`add_body_hexstring` wrapped at 65536. -/
theorem post_add_variable_hex_wrap_accepts :
    (post_add_variable post_body_2048 [97] (List.replicate 32767 0) 32767).2 = 0 ∧
    (post_add_variable post_body_2048 [97] (List.replicate 32767 0) 32767).1.body_pos = 0 ∧
    body_text (post_add_variable post_body_2048 [97] (List.replicate 32767 0) 32767).1 = [] ∧
    (pair_text [97] (List.replicate 32767 0) 32767).length = 65536 := by
  refine ⟨by decide, by decide, by decide, ?_⟩
  rw [pair_text_length_hex [97] (List.replicate 32767 0) 32767 (by decide)
    (by rw [List.length_replicate])]
  decide


/-- C7: for every pair that `post_add_variable` accepts in string mode
(`hexlen = 0`) on a body buffer of at most 65533 bytes, the body text grows by
the separator, the encoded name, the equals sign and the text `enc value`;
that text consists only of letters, digits, `+` and `%HH` triplets, and
url-decoding it gives the original value. -/
theorem post_string_value_roundtrip (s : PostState) (name value : List Nat)
    (hs : s.body_buf_size ≤ 65533) (hp : s.body_pos < s.body_buf_size)
    (h0 : s.body_buf s.body_pos = 0)
    (hn : ∀ c ∈ name, c < 256) (hv : ∀ c ∈ value, c < 256)
    (hacc : (post_add_variable s name value 0).2 = 0) :
    body_text (post_add_variable s name value 0).1 =
      body_text s ++ (sep s ++ enc name ++ [61]) ++ enc value ∧
    url_safe (enc value) = true ∧
    url_decode (enc value) = c_str value := by
  refine ⟨?_, url_safe_enc value hv, url_decode_enc value hv⟩
  rcases post_add_variable_spec s name value 0 hs hp h0 hn hv with
    ⟨_, _, _, h⟩ | ⟨h, _⟩ | ⟨h, _⟩ | ⟨h, _⟩
  · have hA := h (Nat.zero_le _) (by omega)
    rw [hA.text_eq]
    simp [pair_text, List.append_assoc]
  · rw [hacc] at h; exact absurd h (by decide)
  · rw [h] at hacc; simp at hacc
  · rw [h] at hacc; simp at hacc

/-- C7, at a concrete input: the pair ("t", "a b&c") added to the cleared
2048-byte buffer. -/
theorem post_string_value_roundtrip_witness :
    url_decode (enc [97, 32, 98, 38, 99]) = c_str [97, 32, 98, 38, 99] :=
  (post_string_value_roundtrip post_body_2048 [116] [97, 32, 98, 38, 99]
    (by decide) (by decide) (by decide) (by decide) (by decide) (by decide)).2.2

/-- C8: for every byte sequence of length `hexlen >= 1` that
`post_add_variable` accepts in hex mode on a body buffer of at most 65533
bytes, the value stored after the separator, the encoded name and the equals
sign is exactly `2 * hexlen` characters drawn from 0-9 and A-F, two for each
byte with the high nibble first (the text `hex_text`), followed by the
terminator, and decoding it as hexadecimal gives the original bytes, whatever
they are (zero bytes and bytes from 0x80 on included). -/
theorem post_hex_value_roundtrip (s : PostState) (name value : List Nat) (hexlen : Nat)
    (hs : s.body_buf_size ≤ 65533) (hp : s.body_pos < s.body_buf_size)
    (h0 : s.body_buf s.body_pos = 0)
    (hn : ∀ c ∈ name, c < 256) (hv : ∀ b ∈ value, b < 256)
    (h1 : 1 ≤ hexlen) (hl : hexlen ≤ value.length)
    (hacc : (post_add_variable s name value hexlen).2 = 0) :
    mem_read (post_add_variable s name value hexlen).1.body_buf
      (s.body_pos + (sep s ++ enc name ++ [61]).length) (2 * hexlen)
        = hex_text (value.take hexlen) ∧
    (post_add_variable s name value hexlen).1.body_buf
      (s.body_pos + (sep s ++ enc name ++ [61]).length + 2 * hexlen) = 0 ∧
    mem_read (post_add_variable s name value hexlen).1.body_buf 0
      (s.body_pos + (sep s ++ enc name ++ [61]).length)
        = body_text s ++ (sep s ++ enc name ++ [61]) ∧
    (hex_text (value.take hexlen)).length = 2 * hexlen ∧
    (∀ x ∈ hex_text (value.take hexlen), is_upper_hex x = true) ∧
    (∀ b bs, hex_text (b :: bs) =
      [hex_digit_upper (b / 16), hex_digit_upper (b % 16)] ++ hex_text bs) ∧
    hex_decode (hex_text (value.take hexlen)) = value.take hexlen := by
  have hvt : ∀ b ∈ value.take hexlen, b < 256 := fun b hb => hv b (List.mem_of_mem_take hb)
  have hname : name.headD 0 ≠ 0 := by
    intro h
    have : post_add_variable s name value hexlen = (s, -2) := by
      unfold post_add_variable; rw [if_pos h]
    rw [this] at hacc
    simp at hacc
  have hval : ¬ (hexlen = 0 ∧ value.headD 0 = 0) := fun h => by omega
  refine ⟨?_, ?_, ?_, ?_, hex_text_upper _ hvt, hex_text_cons, hex_decode_hex_text _ hvt⟩
  rotate_right
  · rw [hex_text_length, List.length_take, Nat.min_eq_left hl]
  all_goals
    rcases post_add_variable_head s name value hexlen hs hp h0 hn hname hval with
      ⟨s3, hA, heq⟩ | hfail
    swap
    · rw [hfail] at hacc; exact absurd hacc (by decide)
    rw [if_neg (by omega)] at heq
    have hok : (add_body_hexstring s3 value hexlen).2 = 0 := by
      rcases add_body_hexstring_ret s3 value hexlen with h | ⟨h, _⟩
      · exact h
      · rw [h] at heq
        simp only [show ((-1 : Int) < 0) from by decide, if_true] at heq
        rw [heq] at hacc
        simp [no_room] at hacc
    rw [if_neg (by omega)] at heq
    obtain ⟨m1, m2, m3⟩ := add_body_hexstring_mem s3 value hexlen hok hl hv
    rw [heq]
    simp only []
    rw [← hA.pos]
  · exact m1
  · exact m3
  · rw [hA.pos, mem_read_append, Nat.zero_add]
    have e1 : mem_read (add_body_hexstring s3 value hexlen).1.body_buf 0 s.body_pos =
        body_text s := by
      unfold body_text
      apply mem_read_congr
      intro i _ hi
      rw [m2 i (by rw [hA.pos]; omega), hA.below i (by omega)]
    have e2 : mem_read (add_body_hexstring s3 value hexlen).1.body_buf s.body_pos
        (sep s ++ enc name ++ [61]).length = sep s ++ enc name ++ [61] :=
      (mem_read_congr s3.body_buf _ s.body_pos _
        (fun i _ hi => m2 i (by rw [hA.pos]; omega))).trans hA.text
    rw [e1, e2]

/-- C8, at a concrete input: the three bytes 0x00, 0x80, 0xFF added under the
name "d" to the cleared 2048-byte buffer. -/
theorem post_hex_value_roundtrip_witness :
    hex_decode (hex_text ([0, 128, 255].take 3)) = [0, 128, 255].take 3 :=
  (post_hex_value_roundtrip post_body_2048 [100] [0, 128, 255] 3
    (by decide) (by decide) (by decide) (by decide) (by decide) (by decide) (by decide)
    (by decide)).2.2.2.2.2.2

/-! ## The parameter store -/

theorem mem_write_append (m : Nat → Nat) (p : Nat) (l1 l2 : List Nat) :
    mem_write (mem_write m p l1) (p + l1.length) l2 = mem_write m p (l1 ++ l2) := by
  funext i
  unfold mem_write
  by_cases h1 : p ≤ i
  · by_cases h2 : p + l1.length ≤ i
    · have e : i - p = l1.length + (i - (p + l1.length)) := by omega
      have hn : l1[i - p]? = none := List.getElem?_eq_none (by omega)
      rw [if_pos h2, if_pos h1, if_pos h1, hn]
      conv_rhs => rw [e, List.getElem?_append_right (by omega)]
      simp
    · rw [if_neg h2, if_pos h1, if_pos h1, List.getElem?_append_left (by omega)]
  · rw [if_neg (by omega), if_neg h1, if_neg h1]

theorem mem_write_read_at (m c : Nat → Nat) (q p n i : Nat) (h : i < n) :
    mem_write m q (mem_read c p n) (q + i) = c (p + i) := by
  rw [mem_write_at _ _ _ i (by rw [mem_read_length]; exact h), mem_read_at _ _ _ _ h]

theorem mem_read_mem_write_read (m c : Nat → Nat) (q p n k : Nat) (h : k ≤ n) :
    mem_read (mem_write m q (mem_read c p n)) q k = mem_read c p k := by
  apply List.ext_getElem
  · simp [mem_read_length]
  · intro i h1 _
    rw [mem_read_length] at h1
    rw [mem_read_at _ _ _ _ h1, mem_read_at _ _ _ _ h1, mem_write_read_at _ _ _ _ _ _ (by omega)]

/-- On a bus without fault the page loop of `ee_write_blk` ends with success
and has stored the `count` bytes from `ptr` on at `subaddr`. -/
theorem ee_write_pages_ok (blk : Nat → Nat) (rounds : Nat) :
    ∀ (bus : I2cBus) (subaddr ptr count : Nat), bus.fault = none → count ≤ rounds →
      subaddr + count < 65536 →
      ee_write_pages blk rounds bus subaddr ptr count =
        (EE_SUCCESS, { bus with cells := mem_write bus.cells subaddr (mem_read blk ptr count) }) := by
  induction rounds with
  | zero =>
    intro bus subaddr ptr count _ hc _
    have : count = 0 := by omega
    subst this
    have : mem_write bus.cells subaddr (mem_read blk ptr 0) = bus.cells := by
      funext i; simp [mem_write, mem_read]
    simp [ee_write_pages, this]
  | succ n ih =>
    intro bus subaddr ptr count hf hc hs
    by_cases h0 : count = 0
    · subst h0
      have : mem_write bus.cells subaddr (mem_read blk ptr 0) = bus.cells := by
        funext i; simp [mem_write, mem_read]
      simp [ee_write_pages, this]
    · have hpos : count > 0 := by omega
      simp only [ee_write_pages, hpos, if_true]
      generalize hlen : (if count > EE_PAGE_SIZE then EE_PAGE_SIZE else count) = len
      have hl1 : 1 ≤ len ∧ len ≤ count := by
        rw [← hlen]; unfold EE_PAGE_SIZE; split <;> omega
      have hw : i2c_write_blk bus subaddr blk ptr len =
          (I2C_SUCCESS, { bus with cells := mem_write bus.cells subaddr (mem_read blk ptr len) }) := by
        simp [i2c_write_blk, hf]
      rw [hw]
      simp only [I2C_SUCCESS, ne_eq, not_true_eq_false, if_false]
      rw [ih ⟨mem_write bus.cells subaddr (mem_read blk ptr len), bus.fault⟩ (u16 (subaddr + len))
        (ptr + len) (count - len) hf (by omega) (by unfold u16; omega)]
      have hu : u16 (subaddr + len) = subaddr + len := by unfold u16; omega
      have e : count = len + (count - len) := by omega
      congr 2
      simp only [hu]
      conv_rhs => rw [e, mem_read_append]
      rw [← mem_write_append, mem_read_length]


theorem mem_read_write_disjoint (m : Nat → Nat) (q : Nat) (l : List Nat) (p n : Nat)
    (h : q + l.length ≤ p ∨ p + n ≤ q) : mem_read (mem_write m q l) p n = mem_read m p n := by
  apply mem_read_congr
  intro i h1 h2
  rcases h with h | h
  · exact mem_write_above _ _ _ _ (by omega)
  · exact mem_write_below _ _ _ _ (by omega)

theorem rd16_congr (a b : Nat → Nat) (p : Nat) (h0 : a p = b p) (h1 : a (p + 1) = b (p + 1)) :
    rd16 a p = rd16 b p := by
  simp [rd16, h0, h1]

theorem rd16_wr16 (m : Nat → Nat) (p v : Nat) (hv : v < 65536) : rd16 (wr16 m p v) p = v := by
  have a0 : wr16 m p v p = v % 256 := by
    have := mem_write_at m p [v % 256, v / 256 % 256] 0 (by simp)
    simpa [wr16] using this
  have a1 : wr16 m p v (p + 1) = v / 256 % 256 := by
    have := mem_write_at m p [v % 256, v / 256 % 256] 1 (by simp)
    simpa [wr16] using this
  rw [rd16, a0, a1]
  omega

theorem wr16_other (m : Nat → Nat) (p v i : Nat) (h : i < p ∨ p + 2 ≤ i) : wr16 m p v i = m i := by
  unfold wr16
  rcases h with h | h
  · exact mem_write_below _ _ _ _ h
  · exact mem_write_above _ _ _ _ (by simpa using h)

/-- The block in memory as `ee_write_blk` leaves it: marker at the front, CRC of
marker and payload at the end. -/
theorem ee_write_blk_ok (crc : List Nat → Nat) (bus : I2cBus) (ee_loc : Nat) (blk : Nat → Nat)
    (n : Nat) (hf : bus.fault = none) (hn : 5 ≤ n) (hloc : ee_loc * 32 + n < 65536) :
    ee_write_blk crc bus ee_loc blk n =
      (EE_SUCCESS, ee_fill crc blk n,
        { bus with cells := mem_write bus.cells (ee_loc * 32) (mem_read (ee_fill crc blk n) 0 n) }) := by
  have hsa : u16 (ee_loc * EE_PAGE_SIZE) = ee_loc * 32 := by
    unfold u16 EE_PAGE_SIZE; omega
  unfold ee_write_blk
  rw [if_neg (by unfold EE_BLK_MIN_SIZE EE_CRC_SIZE; omega)]
  simp only [hsa]
  have hw := ee_write_pages_ok (ee_fill crc blk n) n bus (ee_loc * 32) 0 n hf (Nat.le_refl _) hloc
  have hfill : wr16 (wr16 blk 0 EE_BLK_MARKER) (n - EE_CRC_SIZE)
      (u16 (crc (mem_read (wr16 blk 0 EE_BLK_MARKER) 0 (n - EE_CRC_SIZE)))) = ee_fill crc blk n := rfl
  rw [hfill, hw]
  have hcmp : ee_compare_blk
      { bus with cells := mem_write bus.cells (ee_loc * 32) (mem_read (ee_fill crc blk n) 0 n) }
      ee_loc (ee_fill crc blk n) n = 0 := by
    unfold ee_compare_blk i2c_compare_blk
    simp only [hsa, hf]
    rw [mem_read_mem_write_read _ _ _ _ _ _ (Nat.le_refl _)]
    simp [I2C_SUCCESS]
  simp only [EE_SUCCESS, ne_eq, not_true_eq_false, if_false, hcmp]


theorem I2cErr.code_neg (e : I2cErr) : e.code < 0 := by
  cases e <;> decide

theorem memset_zero_below (m : Nat → Nat) (n i : Nat) (h : i < n) : memset m 0 0 n i = 0 := by
  unfold memset
  have := mem_write_at m 0 (List.replicate n 0) i (by simpa using h)
  simpa using this

theorem memset_above (m : Nat → Nat) (p c n i : Nat) (h : p + n ≤ i) : memset m p c n i = m i := by
  unfold memset
  exact mem_write_above _ _ _ _ (by simpa using h)

/-- The destination after a block transfer without fault holds the stored
bytes. -/
theorem i2c_read_blk_none (bus : I2cBus) (sa : Nat) (blk : Nat → Nat) (n : Nat)
    (hf : bus.fault = none) :
    i2c_read_blk bus sa blk n = (0, mem_write blk 0 (mem_read bus.cells sa n)) := by
  simp [i2c_read_blk, hf, I2C_SUCCESS]

theorem read_dst_at (m c : Nat → Nat) (p n i : Nat) (h : i < n) :
    mem_write m 0 (mem_read c p n) i = c (p + i) := by
  have := mem_write_read_at m c 0 p n i h
  simpa using this

/-- Function `ee_read_blk` on a bus without fault, by cases on the stored bytes. -/
theorem ee_read_blk_none (crc : List Nat → Nat) (bus : I2cBus) (ee_loc : Nat) (blk : Nat → Nat)
    (n : Nat) (hf : bus.fault = none) (hn : 5 ≤ n) :
    ee_read_blk crc bus ee_loc blk n =
      if rd16 (ee_stored bus ee_loc) 0 ≠ EE_BLK_MARKER then
        (EE_BAD_MARKER, memset (mem_write blk 0 (mem_read (ee_stored bus ee_loc) 0 n)) 0 0 (n - 2))
      else if rd16 (ee_stored bus ee_loc) (n - 2) ≠
          u16 (crc (mem_read (ee_stored bus ee_loc) 0 (n - 2))) then
        (EE_BAD_CRC, memset (mem_write blk 0 (mem_read (ee_stored bus ee_loc) 0 n)) 0 0 (n - 2))
      else (EE_SUCCESS, mem_write blk 0 (mem_read (ee_stored bus ee_loc) 0 n)) := by
  have hst : mem_read bus.cells (u16 (ee_loc * EE_PAGE_SIZE)) n = mem_read (ee_stored bus ee_loc) 0 n := by
    simp [mem_read, ee_stored]
  unfold ee_read_blk
  rw [if_neg (by unfold EE_BLK_MIN_SIZE EE_CRC_SIZE; omega)]
  simp only [i2c_read_blk_none _ _ _ _ hf, hst, ne_eq, not_true_eq_false, if_false, EE_CRC_SIZE]
  have hm : rd16 (mem_write blk 0 (mem_read (ee_stored bus ee_loc) 0 n)) 0 =
      rd16 (ee_stored bus ee_loc) 0 := by
    apply rd16_congr
    · rw [read_dst_at _ _ _ _ _ (by omega)]
    · rw [read_dst_at _ _ _ _ _ (by omega)]
  have hc : rd16 (mem_write blk 0 (mem_read (ee_stored bus ee_loc) 0 n)) (n - 2) =
      rd16 (ee_stored bus ee_loc) (n - 2) := by
    apply rd16_congr
    · rw [read_dst_at _ _ _ _ _ (by omega)]; simp
    · rw [read_dst_at _ _ _ _ _ (by omega)]; simp
  have hd : mem_read (mem_write blk 0 (mem_read (ee_stored bus ee_loc) 0 n)) 0 (n - 2) =
      mem_read (ee_stored bus ee_loc) 0 (n - 2) :=
    mem_read_mem_write_read _ _ _ _ _ _ (by omega)
  rw [hm, hc, hd]

/-- Function `ee_read_blk` on a bus with a fault. -/
theorem ee_read_blk_fault (crc : List Nat → Nat) (bus : I2cBus) (ee_loc : Nat) (blk : Nat → Nat)
    (n : Nat) (e : I2cErr) (k : Nat) (hf : bus.fault = some (e, k)) (hn : 5 ≤ n) :
    ee_read_blk crc bus ee_loc blk n =
      (e.code, memset (mem_write blk 0
        (mem_read bus.cells (u16 (ee_loc * EE_PAGE_SIZE)) (min k n))) 0 0 (n - 2)) := by
  have hne : e.code ≠ 0 := by have := e.code_neg; omega
  unfold ee_read_blk
  rw [if_neg (by unfold EE_BLK_MIN_SIZE EE_CRC_SIZE; omega)]
  simp only [i2c_read_blk, hf, ne_eq, hne, not_false_eq_true, if_true, EE_CRC_SIZE]


theorem ee_fill_marker (crc : List Nat → Nat) (blk : Nat → Nat) (n : Nat) (hn : 5 ≤ n) :
    rd16 (ee_fill crc blk n) 0 = EE_BLK_MARKER := by
  unfold ee_fill
  rw [rd16_congr _ (wr16 blk 0 EE_BLK_MARKER) 0 (wr16_other _ _ _ _ (by unfold EE_CRC_SIZE; omega))
    (wr16_other _ _ _ _ (by unfold EE_CRC_SIZE; omega))]
  exact rd16_wr16 _ _ _ (by decide)

theorem ee_fill_info (crc : List Nat → Nat) (blk : Nat → Nat) (n : Nat) :
    mem_read (ee_fill crc blk n) 0 (n - 2) = mem_read (wr16 blk 0 EE_BLK_MARKER) 0 (n - 2) := by
  apply mem_read_congr
  intro i _ hi
  exact wr16_other _ _ _ _ (by unfold EE_CRC_SIZE; omega)

theorem ee_fill_crc (crc : List Nat → Nat) (blk : Nat → Nat) (n : Nat) :
    rd16 (ee_fill crc blk n) (n - 2) = u16 (crc (mem_read (ee_fill crc blk n) 0 (n - 2))) := by
  rw [ee_fill_info]
  unfold ee_fill
  exact rd16_wr16 _ _ _ (Nat.mod_lt _ (by decide))

theorem ee_fill_payload (crc : List Nat → Nat) (blk : Nat → Nat) (n i : Nat)
    (h1 : 2 ≤ i) (h2 : i < n - 2) : ee_fill crc blk n i = blk i := by
  unfold ee_fill
  rw [wr16_other _ _ _ _ (by unfold EE_CRC_SIZE; omega), wr16_other _ _ _ _ (by omega)]

/-- The device after `ee_write_blk` holds the block as filled in. -/
theorem ee_stored_after_write (bus : I2cBus) (ee_loc : Nat) (m : Nat → Nat) (n i : Nat)
    (hloc : ee_loc * 32 + n < 65536) (hi : i < n) :
    ee_stored { bus with cells := mem_write bus.cells (ee_loc * 32) (mem_read m 0 n) } ee_loc i
      = m i := by
  have hsa : u16 (ee_loc * EE_PAGE_SIZE) = ee_loc * 32 := by
    unfold u16 EE_PAGE_SIZE; omega
  unfold ee_stored
  simp only [hsa]
  rw [mem_write_read_at _ _ _ _ _ _ hi]
  simp

/-- Write then read of one block over a bus without fault, for any block size
and location within the subaddress range. -/
theorem ee_write_read_general (crc : List Nat → Nat) (bus : I2cBus) (ee_loc : Nat)
    (blk dst : Nat → Nat) (n : Nat) (hf : bus.fault = none) (hn : 5 ≤ n)
    (hloc : ee_loc * 32 + n < 65536) :
    (ee_write_blk crc bus ee_loc blk n).1 = 0 ∧
    (ee_write_blk crc bus ee_loc blk n).2.1 = ee_fill crc blk n ∧
    (ee_read_blk crc (ee_write_blk crc bus ee_loc blk n).2.2 ee_loc dst n).1 = 0 ∧
    mem_read (ee_read_blk crc (ee_write_blk crc bus ee_loc blk n).2.2 ee_loc dst n).2 0 n =
      mem_read (ee_fill crc blk n) 0 n := by
  rw [ee_write_blk_ok crc bus ee_loc blk n hf hn hloc]
  refine ⟨rfl, rfl, ?_⟩
  simp only []
  have hst : ∀ k, k ≤ n → mem_read (ee_stored
      { bus with cells := mem_write bus.cells (ee_loc * 32) (mem_read (ee_fill crc blk n) 0 n) }
      ee_loc) 0 k = mem_read (ee_fill crc blk n) 0 k := by
    intro k hk
    apply mem_read_congr
    intro i _ hi
    exact ee_stored_after_write bus ee_loc _ n i hloc (by omega)
  have hm : rd16 (ee_stored
      { bus with cells := mem_write bus.cells (ee_loc * 32) (mem_read (ee_fill crc blk n) 0 n) }
      ee_loc) 0 = EE_BLK_MARKER := by
    rw [rd16_congr _ (ee_fill crc blk n) 0 (ee_stored_after_write bus ee_loc _ n 0 hloc (by omega))
      (ee_stored_after_write bus ee_loc _ n 1 hloc (by omega))]
    exact ee_fill_marker crc blk n hn
  have hc : rd16 (ee_stored
      { bus with cells := mem_write bus.cells (ee_loc * 32) (mem_read (ee_fill crc blk n) 0 n) }
      ee_loc) (n - 2) = u16 (crc (mem_read (ee_stored
      { bus with cells := mem_write bus.cells (ee_loc * 32) (mem_read (ee_fill crc blk n) 0 n) }
      ee_loc) 0 (n - 2))) := by
    rw [hst (n - 2) (by omega),
      rd16_congr _ (ee_fill crc blk n) (n - 2)
        (ee_stored_after_write bus ee_loc _ n (n - 2) hloc (by omega))
        (ee_stored_after_write bus ee_loc _ n (n - 2 + 1) hloc (by omega))]
    exact ee_fill_crc crc blk n
  rw [ee_read_blk_none crc
    { bus with cells := mem_write bus.cells (ee_loc * 32) (mem_read (ee_fill crc blk n) 0 n) }
    ee_loc dst n hf hn, if_neg (by rw [hm]; simp), if_neg (by rw [hc]; simp)]
  refine ⟨rfl, ?_⟩
  simp only []
  rw [mem_read_mem_write_read _ _ _ _ _ _ (Nat.le_refl _)]
  exact hst n (Nat.le_refl _)


theorem mem_read_getElem? (m : Nat → Nat) (p n i : Nat) (h : i < n) :
    (mem_read m p n)[i]? = some (m (p + i)) := by
  rw [List.getElem?_eq_getElem (by rw [mem_read_length]; exact h), mem_read_at _ _ _ _ h]

theorem mem_read_inj (a b : Nat → Nat) (p n : Nat) (h : mem_read a p n = mem_read b p n)
    (i : Nat) (hi : i < n) : a (p + i) = b (p + i) := by
  have h1 := mem_read_getElem? a p n i hi
  rw [h, mem_read_getElem? b p n i hi] at h1
  exact (Option.some.inj h1).symm

theorem c_str_of_nonzero (s : List Nat) (k : Nat) (h : ∀ c ∈ s, c ≠ 0) :
    c_str (s ++ List.replicate k 0 ++ [0]) = s := by
  induction s with
  | nil =>
    cases k with
    | zero => simp [c_str]
    | succ k => simp [c_str, List.replicate_succ]
  | cons c cs ih =>
    have hc : c ≠ 0 := h c (List.mem_cons_self _ _)
    have := ih (fun x hx => h x (List.mem_cons_of_mem _ hx))
    simp only [List.cons_append]
    rw [c_str_cons_ne c _ hc, this]

theorem c_str_self (s : List Nat) (h : ∀ c ∈ s, c ≠ 0) : c_str s = s := by
  induction s with
  | nil => simp [c_str]
  | cons c cs ih =>
    rw [c_str_cons_ne c _ (h c (List.mem_cons_self _ _)),
      ih (fun x hx => h x (List.mem_cons_of_mem _ hx))]

theorem EeBlock.size_ge (b : EeBlock) : 5 ≤ b.size := by
  cases b <;> decide

theorem EeBlock.loc_size_lt (b : EeBlock) : b.loc * 32 + b.size < 65536 := by
  cases b <;> decide

/-- The string a string block holds after `ee_write_post_str` and
`ee_read_post_str` over a bus without fault. -/
theorem ee_post_str_general (crc : List Nat → Nat) (bus : I2cBus) (ee_loc : Nat)
    (ptr dst : Nat → Nat) (src : List Nat) (hf : bus.fault = none) (hloc : ee_loc < 256)
    (hlen : src.length ≤ 64) (hnz : ∀ c ∈ src, c ≠ 0) :
    (ee_write_post_str crc bus ee_loc ptr src).1 = 0 ∧
    (ee_read_post_str crc (ee_write_post_str crc bus ee_loc ptr src).2.2 ee_loc dst).1 = 0 ∧
    c_str (mem_read (ee_read_post_str crc (ee_write_post_str crc bus ee_loc ptr src).2.2
      ee_loc dst).2 2 65) = src := by
  have hsz : sizeof_EePostStr_t = 69 := by decide
  unfold ee_write_post_str ee_read_post_str
  simp only [hsz, EePostStr_str, EE_POST_STR_MAX_LEN]
  generalize hp3 : mem_write (strncpy (memset ptr 2 0 64) 2 src 64) (2 + 64) [0] = p3
  obtain ⟨h1, _, h3, h4⟩ := ee_write_read_general crc bus ee_loc p3 dst 69 hf (by omega) (by omega)
  refine ⟨h1, h3, ?_⟩
  generalize ee_read_blk crc (ee_write_blk crc bus ee_loc p3 69).2.2 ee_loc dst 69 = r0 at h4 ⊢
  have hL : ((c_str src).take 64 ++ List.replicate (64 - ((c_str src).take 64).length) 0) =
      src ++ List.replicate (64 - src.length) 0 := by
    rw [c_str_self src hnz, List.take_of_length_le hlen]
  have hLlen : (src ++ List.replicate (64 - src.length) 0).length = 64 := by
    simp; omega
  have hbody : mem_read (mem_write r0.2 (2 + 64) [0]) 2 64 = src ++ List.replicate (64 - src.length) 0 := by
    have e1 : mem_read (mem_write r0.2 (2 + 64) [0]) 2 64 = mem_read p3 2 64 := by
      apply mem_read_congr
      intro i h1 h2
      rw [mem_write_below _ _ _ _ (by omega)]
      obtain ⟨j, rfl⟩ : ∃ j, i = 0 + j := ⟨i, by omega⟩
      rw [mem_read_inj _ _ 0 69 h4 j (by omega)]
      simp only [Nat.zero_add]
      exact ee_fill_payload crc p3 69 j (by omega) (by omega)
    rw [e1, ← hp3, mem_read_write_disjoint _ _ _ _ _ (Or.inr (by omega))]
    unfold strncpy
    rw [hL]
    have := mem_read_write (memset ptr 2 0 64) 2 (src ++ List.replicate (64 - src.length) 0)
    rw [hLlen] at this
    exact this
  have hend : mem_read (mem_write r0.2 (2 + 64) [0]) (2 + 64) 1 = [0] :=
    mem_read_write r0.2 (2 + 64) [0]
  have e : (65 : Nat) = 64 + 1 := rfl
  rw [e, mem_read_append, hbody, hend]
  exact c_str_of_nonzero src _ hnz


/-! ## CCITT-16 -/

theorem crc_bit_lt (c : Nat) : crc_bit c < 65536 := by
  unfold crc_bit
  split
  · exact Nat.xor_lt_two_pow (n := 16) (Nat.mod_lt _ (by decide)) (by decide)
  · exact Nat.mod_lt _ (by decide)

theorem crc_bit_odd_iff (c : Nat) : crc_bit c % 2 = 1 ↔ 32768 ≤ c % 65536 := by
  unfold crc_bit
  split
  · rename_i h
    simp only [h, iff_true]
    rw [Nat.xor_mod_two_eq_one]
    have : c * 2 % 65536 % 2 = 0 := by omega
    simp [this]
  · rename_i h
    simp only [h, iff_false]
    omega

theorem crc_bit_inj (c d : Nat) (hc : c < 65536) (hd : d < 65536) (h : crc_bit c = crc_bit d) :
    c = d := by
  have h1 := crc_bit_odd_iff c
  have h2 := crc_bit_odd_iff d
  rw [h] at h1
  have hb : 32768 ≤ c % 65536 ↔ 32768 ≤ d % 65536 := h1.symm.trans h2
  unfold crc_bit at h
  by_cases hcc : 32768 ≤ c % 65536
  · have hdd := hb.mp hcc
    rw [if_pos hcc, if_pos hdd] at h
    have := Nat.xor_left_injective h
    omega
  · have hdd : ¬ 32768 ≤ d % 65536 := fun x => hcc (hb.mpr x)
    rw [if_neg hcc, if_neg hdd] at h
    omega

theorem crc_bit_iter_lt (n : Nat) (c : Nat) (hc : c < 65536) : crc_bit^[n] c < 65536 := by
  induction n generalizing c with
  | zero => simpa using hc
  | succ n ih =>
    rw [Function.iterate_succ_apply]
    exact ih _ (crc_bit_lt c)

theorem crc_bit_iter_inj (n : Nat) : ∀ (c d : Nat), c < 65536 → d < 65536 →
    crc_bit^[n] c = crc_bit^[n] d → c = d := by
  induction n with
  | zero => intro c d _ _ h; simpa using h
  | succ n ih =>
    intro c d hc hd h
    rw [Function.iterate_succ_apply, Function.iterate_succ_apply] at h
    exact crc_bit_inj c d hc hd (ih _ _ (crc_bit_lt c) (crc_bit_lt d) h)

theorem xor_byte_lt (c b : Nat) (hc : c < 65536) (hb : b < 256) : c ^^^ (b * 256) < 65536 :=
  Nat.xor_lt_two_pow (n := 16) hc (by omega)

theorem crc_byte_lt (c b : Nat) (hc : c < 65536) (hb : b < 256) : crc_byte c b < 65536 :=
  crc_bit_iter_lt 8 _ (xor_byte_lt c b hc hb)

/-- Two different bytes move the register to two different values. -/
theorem crc_byte_inj_byte (c b b' : Nat) (hc : c < 65536) (hb : b < 256) (hb' : b' < 256)
    (h : crc_byte c b = crc_byte c b') : b = b' := by
  have := crc_bit_iter_inj 8 _ _ (xor_byte_lt c b hc hb) (xor_byte_lt c b' hc hb') h
  have := Nat.xor_right_injective this
  omega

/-- One byte moves two different register values to two different values. -/
theorem crc_byte_inj_reg (c c' b : Nat) (hc : c < 65536) (hc' : c' < 65536) (hb : b < 256)
    (h : crc_byte c b = crc_byte c' b) : c = c' := by
  have := crc_bit_iter_inj 8 _ _ (xor_byte_lt c b hc hb) (xor_byte_lt c' b hc' hb) h
  exact Nat.xor_left_injective this

theorem crc_foldl_lt (l : List Nat) : ∀ (c : Nat), c < 65536 → (∀ b ∈ l, b < 256) →
    l.foldl crc_byte c < 65536 := by
  induction l with
  | nil => intro c hc _; simpa using hc
  | cons b bs ih =>
    intro c hc hb
    rw [List.foldl_cons]
    exact ih _ (crc_byte_lt c b hc (hb b (List.mem_cons_self _ _)))
      (fun x hx => hb x (List.mem_cons_of_mem _ hx))

theorem crc_calculate_lt (l : List Nat) (h : ∀ b ∈ l, b < 256) : crc_calculate l < 65536 :=
  crc_foldl_lt l 0 (by decide) h

theorem crc_foldl_inj (l : List Nat) : ∀ (c c' : Nat), c < 65536 → c' < 65536 →
    (∀ b ∈ l, b < 256) → l.foldl crc_byte c = l.foldl crc_byte c' → c = c' := by
  induction l with
  | nil => intro c c' _ _ _ h; simpa using h
  | cons b bs ih =>
    intro c c' hc hc' hb h
    rw [List.foldl_cons, List.foldl_cons] at h
    have hb0 := hb b (List.mem_cons_self _ _)
    have := ih _ _ (crc_byte_lt c b hc hb0) (crc_byte_lt c' b hc' hb0)
      (fun x hx => hb x (List.mem_cons_of_mem _ hx)) h
    exact crc_byte_inj_reg c c' b hc hc' hb0 this

/-- CCITT-16 tells apart two blocks that differ in exactly one byte. -/
theorem crc_calculate_one_byte (pre suf : List Nat) (b b' : Nat)
    (hpre : ∀ x ∈ pre, x < 256) (hsuf : ∀ x ∈ suf, x < 256) (hb : b < 256) (hb' : b' < 256)
    (hne : b ≠ b') :
    crc_calculate (pre ++ b :: suf) ≠ crc_calculate (pre ++ b' :: suf) := by
  intro h
  unfold crc_calculate at h
  rw [List.foldl_append, List.foldl_append, List.foldl_cons, List.foldl_cons] at h
  have hc := crc_foldl_lt pre 0 (by decide) hpre
  have := crc_foldl_inj suf _ _ (crc_byte_lt _ b hc hb) (crc_byte_lt _ b' hc hb') hsuf h
  exact hne (crc_byte_inj_byte _ b b' hc hb hb' this)



theorem mem_read_split (m : Nat → Nat) (n j : Nat) (hj : j < n) :
    mem_read m 0 n = mem_read m 0 j ++ m j :: mem_read m (j + 1) (n - j - 1) := by
  have e : n = j + (1 + (n - j - 1)) := by omega
  conv_lhs => rw [e, mem_read_append, mem_read_append]
  simp [mem_read, List.range_succ]

theorem mem_read_lt (m : Nat → Nat) (p n : Nat) (h : ∀ i, i < n → m (p + i) < 256) :
    ∀ x ∈ mem_read m p n, x < 256 := by
  intro x hx
  simp only [mem_read, List.mem_map, List.mem_range] at hx
  obtain ⟨i, hi, rfl⟩ := hx
  exact h i hi

/-- A call of `ee_write_blk` that returns 0 ran over a bus without fault. -/
theorem ee_write_blk_zero_fault (crc : List Nat → Nat) (bus : I2cBus) (ee_loc : Nat)
    (blk : Nat → Nat) (n : Nat) (hn : 5 ≤ n)
    (hw : (ee_write_blk crc bus ee_loc blk n).1 = 0) : bus.fault = none := by
  cases hfault : bus.fault with
  | none => rfl
  | some ek =>
    exfalso
    obtain ⟨e, k⟩ := ek
    have hne : e.code ≠ 0 := by have := e.code_neg; omega
    obtain ⟨r, rfl⟩ : ∃ r, n = r + 1 := ⟨n - 1, by omega⟩
    unfold ee_write_blk at hw
    rw [if_neg (by unfold EE_BLK_MIN_SIZE EE_CRC_SIZE; omega)] at hw
    simp only [ee_write_pages, show r + 1 > 0 from by omega, if_true, i2c_write_blk, hfault,
      ne_eq, hne, not_false_eq_true] at hw


theorem ee_fill_lt (blk : Nat → Nat) (n : Nat) (hb : ∀ i, i < n → blk i < 256)
    (i : Nat) (hi : i < n) : ee_fill crc_calculate blk n i < 256 := by
  unfold ee_fill wr16 mem_write
  simp only [EE_CRC_SIZE]
  have hl : ∀ (a b k : Nat) (d : Nat), a < 256 → b < 256 → d < 256 → ([a, b][k]?).getD d < 256 := by
    intro a b k d ha hb hd
    match k with
    | 0 => simpa using ha
    | 1 => simpa using hb
    | k + 2 => simpa using hd
  split
  · apply hl _ _ _ _ (Nat.mod_lt _ (by decide)) (Nat.mod_lt _ (by decide))
    split
    · exact hl _ _ _ _ (Nat.mod_lt _ (by decide)) (Nat.mod_lt _ (by decide)) (hb i hi)
    · exact hb i hi
  · split
    · exact hl _ _ _ _ (Nat.mod_lt _ (by decide)) (Nat.mod_lt _ (by decide)) (hb i hi)
    · exact hb i hi

theorem rd16_ne_of_byte (a b : Nat → Nat) (p : Nat)
    (h : (a p ≠ b p ∧ a (p + 1) = b (p + 1)) ∨ (a p = b p ∧ a (p + 1) ≠ b (p + 1))) :
    rd16 a p ≠ rd16 b p := by
  unfold rd16
  rcases h with ⟨h1, h2⟩ | ⟨h1, h2⟩ <;> omega

/-- Reading a block of which one stored byte was changed, over a bus without
fault: the block is reported invalid and marker and payload are zeroed. -/
theorem ee_read_blk_byte_change (bus : I2cBus) (ee_loc : Nat) (blk dst : Nat → Nat) (n j v : Nat)
    (hf : bus.fault = none) (hn : 5 ≤ n) (hloc : ee_loc * 32 + n < 65536)
    (hb : ∀ i, i < n → blk i < 256) (hj : j < n) (hv : v < 256)
    (hne : v ≠ ee_fill crc_calculate blk n j) :
    0 < (ee_read_blk crc_calculate (ee_change_byte
          ⟨mem_write bus.cells (ee_loc * 32)
              (mem_read (ee_fill crc_calculate blk n) 0 n), bus.fault⟩ ee_loc j v) ee_loc dst n).1 ∧
    ∀ i, i < n - 2 → (ee_read_blk crc_calculate (ee_change_byte
          ⟨mem_write bus.cells (ee_loc * 32)
              (mem_read (ee_fill crc_calculate blk n) 0 n), bus.fault⟩ ee_loc j v) ee_loc dst n).2 i = 0 := by
  have hsa : u16 (ee_loc * EE_PAGE_SIZE) = ee_loc * 32 := by
    unfold u16 EE_PAGE_SIZE; omega
  generalize hF : ee_fill crc_calculate blk n = F at hne ⊢
  have hFlt : ∀ i, i < n → F i < 256 := by
    intro i hi; rw [← hF]; exact ee_fill_lt blk n hb i hi
  generalize hbus : ee_change_byte
    { bus with cells := mem_write bus.cells (ee_loc * 32) (mem_read F 0 n) } ee_loc j v = bus1
  have hf1 : bus1.fault = none := by rw [← hbus]; exact hf
  have hst : ∀ i, i < n → ee_stored bus1 ee_loc i = if i = j then v else F i := by
    intro i hi
    rw [← hbus]
    unfold ee_stored ee_change_byte
    simp only [hsa]
    by_cases hij : i = j
    · simp [hij]
    · have : ¬ (ee_loc * 32 + i = ee_loc * 32 + j) := by omega
      rw [if_neg this, if_neg hij, mem_write_read_at _ _ _ _ _ _ hi]
      simp
  have hFm : rd16 F 0 = EE_BLK_MARKER := by rw [← hF]; exact ee_fill_marker crc_calculate blk n hn
  have hFc : rd16 F (n - 2) = u16 (crc_calculate (mem_read F 0 (n - 2))) := by
    rw [← hF]; exact ee_fill_crc crc_calculate blk n
  rw [ee_read_blk_none crc_calculate bus1 ee_loc dst n hf1 hn]
  -- the read cannot succeed
  have hbad : rd16 (ee_stored bus1 ee_loc) 0 ≠ EE_BLK_MARKER ∨
      rd16 (ee_stored bus1 ee_loc) (n - 2) ≠
        u16 (crc_calculate (mem_read (ee_stored bus1 ee_loc) 0 (n - 2))) := by
    by_cases hj2 : j < 2
    · left
      rw [← hFm]
      apply rd16_ne_of_byte
      · rw [hst 0 (by omega), hst (0 + 1) (by omega)]
        by_cases h0 : j = 0
        · left; subst h0; simp; exact hne
        · right
          have h1 : j = 1 := by omega
          subst h1; simp; exact hne
    · right
      by_cases hjc : j < n - 2
      · -- a payload byte
        have hw : rd16 (ee_stored bus1 ee_loc) (n - 2) = rd16 F (n - 2) := by
          apply rd16_congr
          · rw [hst _ (by omega), if_neg (by omega)]
          · rw [hst _ (by omega), if_neg (by omega)]
        rw [hw, hFc]
        have hpre : mem_read (ee_stored bus1 ee_loc) 0 j = mem_read F 0 j := by
          apply mem_read_congr
          intro i _ hi
          rw [hst i (by omega), if_neg (by omega)]
        have hsuf : mem_read (ee_stored bus1 ee_loc) (j + 1) (n - 2 - j - 1) =
            mem_read F (j + 1) (n - 2 - j - 1) := by
          apply mem_read_congr
          intro i _ hi
          rw [hst i (by omega), if_neg (by omega)]
        rw [mem_read_split (ee_stored bus1 ee_loc) (n - 2) j hjc, mem_read_split F (n - 2) j hjc,
          hpre, hsuf, hst j hj, if_pos rfl]
        have hp : ∀ x ∈ mem_read F 0 j, x < 256 :=
          mem_read_lt _ _ _ (fun i hi => by rw [Nat.zero_add]; exact hFlt i (by omega))
        have hs : ∀ x ∈ mem_read F (j + 1) (n - 2 - j - 1), x < 256 :=
          mem_read_lt _ _ _ (fun i hi => hFlt _ (by omega))
        have h1 := crc_calculate_one_byte _ _ (F j) v hp hs (hFlt j hj) hv (Ne.symm hne)
        have l1 : crc_calculate (mem_read F 0 j ++ F j :: mem_read F (j + 1) (n - 2 - j - 1)) < 65536 :=
          crc_calculate_lt _ (by
            intro x hx
            rcases List.mem_append.mp hx with h | h
            · exact hp x h
            · rcases List.mem_cons.mp h with h | h
              · rw [h]; exact hFlt j hj
              · exact hs x h)
        have l2 : crc_calculate (mem_read F 0 j ++ v :: mem_read F (j + 1) (n - 2 - j - 1)) < 65536 :=
          crc_calculate_lt _ (by
            intro x hx
            rcases List.mem_append.mp hx with h | h
            · exact hp x h
            · rcases List.mem_cons.mp h with h | h
              · rw [h]; exact hv
              · exact hs x h)
        unfold u16
        rw [Nat.mod_eq_of_lt l1, Nat.mod_eq_of_lt l2]
        exact h1
      · -- a byte of the CRC field
        have hinfo : mem_read (ee_stored bus1 ee_loc) 0 (n - 2) = mem_read F 0 (n - 2) := by
          apply mem_read_congr
          intro i _ hi
          rw [hst i (by omega), if_neg (by omega)]
        rw [hinfo, ← hFc]
        apply rd16_ne_of_byte
        · rw [hst (n - 2) (by omega), hst (n - 2 + 1) (by omega)]
          by_cases h0 : j = n - 2
          · left; subst h0; simp; exact hne
          · right
            have h1 : j = n - 2 + 1 := by omega
            subst h1; simp; exact hne
  have hzero : ∀ (m : Nat → Nat) (i : Nat), i < n - 2 → memset m 0 0 (n - 2) i = 0 :=
    fun m i hi => memset_zero_below m (n - 2) i hi
  by_cases hm : rd16 (ee_stored bus1 ee_loc) 0 ≠ EE_BLK_MARKER
  · rw [if_pos hm]
    exact ⟨show (0 : Int) < EE_BAD_MARKER from by decide, fun i hi => hzero _ i hi⟩
  · rw [if_neg hm]
    have hc := hbad.resolve_left hm
    rw [if_pos hc]
    exact ⟨show (0 : Int) < EE_BAD_CRC from by decide, fun i hi => hzero _ i hi⟩

/-- C3: for every parameter block type (LAN info, POST info, the three POST
string blocks, unit info) and every payload, `ee_write_blk` followed by
`ee_read_blk` of the same location over an EEPROM without bus fault both
return success, the struct read back equals the struct written (marker
0x55AA, the payload handed in, CRC), byte for byte; and every string of at
most 64 non-zero characters written with `ee_write_post_str` is read back
unchanged by `ee_read_post_str`. -/
theorem ee_write_then_read_same_struct (crc : List Nat → Nat) (b : EeBlock) (bus : I2cBus)
    (blk dst ptr dst2 : Nat → Nat) (ee_loc : Nat) (src : List Nat)
    (hf : bus.fault = none) (hloc : ee_loc < 256)
    (hlen : src.length ≤ EE_POST_STR_MAX_LEN) (hnz : ∀ c ∈ src, c ≠ 0) :
    ((ee_write_blk crc bus b.loc blk b.size).1 = EE_SUCCESS ∧
     (ee_read_blk crc (ee_write_blk crc bus b.loc blk b.size).2.2 b.loc dst b.size).1
        = EE_SUCCESS ∧
     mem_read (ee_read_blk crc (ee_write_blk crc bus b.loc blk b.size).2.2 b.loc dst b.size).2
        0 b.size = mem_read (ee_write_blk crc bus b.loc blk b.size).2.1 0 b.size ∧
     rd16 (ee_write_blk crc bus b.loc blk b.size).2.1 0 = EE_BLK_MARKER ∧
     mem_read (ee_write_blk crc bus b.loc blk b.size).2.1 2 (b.size - 4)
        = mem_read blk 2 (b.size - 4) ∧
     rd16 (ee_write_blk crc bus b.loc blk b.size).2.1 (b.size - 2)
        = u16 (crc (mem_read (ee_write_blk crc bus b.loc blk b.size).2.1 0 (b.size - 2)))) ∧
    ((ee_write_post_str crc bus ee_loc ptr src).1 = EE_SUCCESS ∧
     (ee_read_post_str crc (ee_write_post_str crc bus ee_loc ptr src).2.2 ee_loc dst2).1
        = EE_SUCCESS ∧
     c_str (mem_read (ee_read_post_str crc (ee_write_post_str crc bus ee_loc ptr src).2.2
        ee_loc dst2).2 EePostStr_str (EE_POST_STR_MAX_LEN + 1)) = src) := by
  constructor
  · obtain ⟨h1, h2, h3, h4⟩ :=
      ee_write_read_general crc bus b.loc blk dst b.size hf b.size_ge b.loc_size_lt
    refine ⟨h1, h3, ?_, ?_, ?_, ?_⟩
    · rw [h4, h2]
    · rw [h2]; exact ee_fill_marker crc blk b.size b.size_ge
    · rw [h2]
      apply mem_read_congr
      intro i h1 h2
      have := b.size_ge
      exact ee_fill_payload crc blk b.size i h1 (by omega)
    · rw [h2]; exact ee_fill_crc crc blk b.size
  · exact ee_post_str_general crc bus ee_loc ptr dst2 src hf hloc hlen hnz

/-- C3, at a concrete input: the host name "wx.org" written to the POST host
block of an erased device (all cells 0xFF) reads back as "wx.org". -/
theorem ee_write_then_read_same_struct_witness :
    c_str (mem_read (ee_read_post_str crc_calculate
      (ee_write_post_str crc_calculate ⟨fun _ => 255, none⟩ EE_LOC_POST_HOST (fun _ => 0)
        [119, 120, 46, 111, 114, 103]).2.2 EE_LOC_POST_HOST (fun _ => 0)).2
      EePostStr_str (EE_POST_STR_MAX_LEN + 1)) = [119, 120, 46, 111, 114, 103] :=
  (ee_write_then_read_same_struct crc_calculate .post_host ⟨fun _ => 255, none⟩
    (fun _ => 0) (fun _ => 0) (fun _ => 0) (fun _ => 0) EE_LOC_POST_HOST
    [119, 120, 46, 111, 114, 103] rfl (by decide) (by decide) (by decide)).2.2.2

/-- C4: for every parameter block successfully written with `ee_write_blk`,
changing any single stored byte of the block (in the marker, the payload or
the CRC field) to a different byte value makes the next `ee_read_blk` of the
block return a positive code and leave the marker and payload bytes of the
destination all zero. -/
theorem ee_single_byte_change_detected (b : EeBlock) (bus : I2cBus) (blk dst : Nat → Nat)
    (j v : Nat) (hb : ∀ i, i < b.size → blk i < 256)
    (hw : (ee_write_blk crc_calculate bus b.loc blk b.size).1 = EE_SUCCESS)
    (hj : j < b.size) (hv : v < 256)
    (hne : v ≠ ee_stored (ee_write_blk crc_calculate bus b.loc blk b.size).2.2 b.loc j) :
    0 < (ee_read_blk crc_calculate
          (ee_change_byte (ee_write_blk crc_calculate bus b.loc blk b.size).2.2 b.loc j v)
          b.loc dst b.size).1 ∧
    ∀ i, i < b.size - 2 →
      (ee_read_blk crc_calculate
          (ee_change_byte (ee_write_blk crc_calculate bus b.loc blk b.size).2.2 b.loc j v)
          b.loc dst b.size).2 i = 0 := by
  have hf := ee_write_blk_zero_fault crc_calculate bus b.loc blk b.size b.size_ge hw
  rw [ee_write_blk_ok crc_calculate bus b.loc blk b.size hf b.size_ge b.loc_size_lt] at hne ⊢
  simp only [] at hne ⊢
  rw [ee_stored_after_write bus b.loc _ b.size j b.loc_size_lt hj] at hne
  exact ee_read_blk_byte_change bus b.loc blk dst b.size j v hf b.size_ge b.loc_size_lt hb hj hv hne

/-- C4, at a concrete input: in the unit info block written from an all-zero
struct to an erased device, the payload byte at offset 3 changed from 0 to 1
is detected. -/
theorem ee_single_byte_change_detected_witness :
    0 < (ee_read_blk crc_calculate
          (ee_change_byte (ee_write_blk crc_calculate ⟨fun _ => 255, none⟩ EeBlock.unit_info.loc
            (fun _ => 0) EeBlock.unit_info.size).2.2 EeBlock.unit_info.loc 3 1)
          EeBlock.unit_info.loc (fun _ => 0) EeBlock.unit_info.size).1 := by
  have hw : (ee_write_blk crc_calculate ⟨fun _ => 255, none⟩ EeBlock.unit_info.loc
      (fun _ => 0) EeBlock.unit_info.size).1 = EE_SUCCESS := by
    rw [ee_write_blk_ok crc_calculate _ _ _ _ rfl EeBlock.unit_info.size_ge
      EeBlock.unit_info.loc_size_lt]
  have hne : (1 : Nat) ≠ ee_stored (ee_write_blk crc_calculate ⟨fun _ => 255, none⟩
      EeBlock.unit_info.loc (fun _ => 0) EeBlock.unit_info.size).2.2 EeBlock.unit_info.loc 3 := by
    rw [ee_write_blk_ok crc_calculate _ _ _ _ rfl EeBlock.unit_info.size_ge
      EeBlock.unit_info.loc_size_lt]
    simp only []
    rw [ee_stored_after_write ⟨fun _ => 255, none⟩ EeBlock.unit_info.loc _ _ 3
      EeBlock.unit_info.loc_size_lt (by decide), ee_fill_payload _ _ _ 3 (by decide) (by decide)]
    decide
  exact (ee_single_byte_change_detected .unit_info ⟨fun _ => 255, none⟩ (fun _ => 0)
    (fun _ => 0) 3 1 (fun _ _ => Nat.zero_lt_succ 255) hw (by decide) (by decide) hne).1

/-- C5: for every block size of at least 5, `ee_read_blk` returns 0 iff the
I2C read succeeds, the first 16-bit word stored is the marker 0x55AA and the
last 16-bit word stored is the CRC of the first `blk_size - 2` bytes, and the
destination then holds the stored block; otherwise the first `blk_size - 2`
bytes of the destination are zero and the result is the negative I2C code for
a transport failure, 2 for a bad marker, 3 for a bad CRC under a good marker.
For every block size below 5 it returns a negative code and leaves the
destination as it was. -/
theorem ee_read_blk_classifies (crc : List Nat → Nat) (bus : I2cBus) (ee_loc : Nat)
    (blk : Nat → Nat) (blk_size : Nat) :
    (5 ≤ blk_size →
      ((ee_read_blk crc bus ee_loc blk blk_size).1 = 0 ↔
        (bus.fault = none ∧ rd16 (ee_stored bus ee_loc) 0 = 0x55AA ∧
         rd16 (ee_stored bus ee_loc) (blk_size - 2) =
           u16 (crc (mem_read (ee_stored bus ee_loc) 0 (blk_size - 2))))) ∧
      ((ee_read_blk crc bus ee_loc blk blk_size).1 = 0 →
        mem_read (ee_read_blk crc bus ee_loc blk blk_size).2 0 blk_size =
          mem_read (ee_stored bus ee_loc) 0 blk_size) ∧
      ((ee_read_blk crc bus ee_loc blk blk_size).1 ≠ 0 →
        ∀ i, i < blk_size - 2 → (ee_read_blk crc bus ee_loc blk blk_size).2 i = 0) ∧
      (∀ e k, bus.fault = some (e, k) →
        (ee_read_blk crc bus ee_loc blk blk_size).1 = e.code ∧
        (ee_read_blk crc bus ee_loc blk blk_size).1 < 0) ∧
      (bus.fault = none → rd16 (ee_stored bus ee_loc) 0 ≠ 0x55AA →
        (ee_read_blk crc bus ee_loc blk blk_size).1 = 2) ∧
      (bus.fault = none → rd16 (ee_stored bus ee_loc) 0 = 0x55AA →
        rd16 (ee_stored bus ee_loc) (blk_size - 2) ≠
          u16 (crc (mem_read (ee_stored bus ee_loc) 0 (blk_size - 2))) →
        (ee_read_blk crc bus ee_loc blk blk_size).1 = 3)) ∧
    (blk_size < 5 →
      (ee_read_blk crc bus ee_loc blk blk_size).1 < 0 ∧
      (ee_read_blk crc bus ee_loc blk blk_size).2 = blk) := by
  constructor
  · intro hn
    cases hfault : bus.fault with
    | some ek =>
      obtain ⟨e, k⟩ := ek
      have hne : e.code ≠ 0 := by have := e.code_neg; omega
      rw [ee_read_blk_fault crc bus ee_loc blk blk_size e k hfault hn]
      refine ⟨?_, ?_, ?_, ?_, ?_, ?_⟩
      · simp [hne]
      · intro h; exact absurd h hne
      · intro _ i hi; exact memset_zero_below _ _ i hi
      · intro e' k' h
        have : e' = e := by
          have := Option.some.inj h
          exact (Prod.mk.inj this).1.symm
        subst this
        exact ⟨rfl, e'.code_neg⟩
      · intro h; exact absurd h (by simp)
      · intro h; exact absurd h (by simp)
    | none =>
      rw [ee_read_blk_none crc bus ee_loc blk blk_size hfault hn]
      have hmk : EE_BLK_MARKER = 0x55AA := rfl
      by_cases hm : rd16 (ee_stored bus ee_loc) 0 = 0x55AA
      · by_cases hc : rd16 (ee_stored bus ee_loc) (blk_size - 2) =
            u16 (crc (mem_read (ee_stored bus ee_loc) 0 (blk_size - 2)))
        · rw [if_neg (by rw [hmk]; simpa using hm), if_neg (by simpa using hc)]
          refine ⟨?_, ?_, ?_, ?_, ?_, ?_⟩
          · simp [hm, hc, EE_SUCCESS]
          · intro _
            exact mem_read_mem_write_read _ _ _ _ _ _ (Nat.le_refl _)
          · intro h; exact absurd rfl h
          · intro e k h; exact absurd h (by simp)
          · intro _ h; exact absurd hm h
          · intro _ _ h; exact absurd hc h
        · rw [if_neg (by rw [hmk]; simpa using hm), if_pos hc]
          refine ⟨?_, ?_, ?_, ?_, ?_, ?_⟩
          · simp [hc, EE_BAD_CRC, I2C_MAX_ERR, I2C_COMPARE_MISMATCH]
          · intro h; exact absurd h (show ¬ (EE_BAD_CRC = 0) from by decide)
          · intro _ i hi; exact memset_zero_below _ _ i hi
          · intro e k h; exact absurd h (by simp)
          · intro _ h; exact absurd hm h
          · intro _ _ _; rfl
      · rw [if_pos (by rw [hmk]; exact hm)]
        refine ⟨?_, ?_, ?_, ?_, ?_, ?_⟩
        · simp [hm, EE_BAD_MARKER, I2C_MAX_ERR, I2C_COMPARE_MISMATCH]
        · intro h; exact absurd h (show ¬ (EE_BAD_MARKER = 0) from by decide)
        · intro _ i hi; exact memset_zero_below _ _ i hi
        · intro e k h; exact absurd h (by simp)
        · intro _ _; rfl
        · intro _ h; exact absurd h hm
  · intro hn
    unfold ee_read_blk
    rw [if_pos (by unfold EE_BLK_MIN_SIZE EE_CRC_SIZE; omega)]
    exact ⟨show EE_BAD_BLK_SIZE < 0 from by decide, rfl⟩

/-! ## The collector -/

theorem be16_eq (h l : Nat) (hh : h < 256) (hl : l < 256) :
    u16 (h <<< 8) ||| l = 256 * h + l := by
  have e1 : h <<< 8 = h * 256 := by rw [Nat.shiftLeft_eq]
  have e2 : u16 (h * 256) = h * 256 := Nat.mod_eq_of_lt (by omega)
  rw [e1, e2]
  have := Nat.mul_add_lt_is_or (show l < 2 ^ 8 from hl) h
  rw [show h * 256 = 2 ^ 8 * h from by omega, ← this]

theorem getD_lt_of_all (l : List Nat) (i : Nat) (h : ∀ b ∈ l, b < 256) : l.getD i 0 < 256 := by
  rw [List.getD_eq_getElem?_getD]
  cases hi : l[i]? with
  | none => simp
  | some x =>
    have := List.getElem?_mem hi
    simpa using h x this

theorem c_str_take3_loo (buf : List Nat) : c_str (buf.take 3) = [76, 79, 79] ↔ buf.take 3 = [76, 79, 79] := by
  constructor
  · intro h
    match buf, h with
    | [], h => simp [c_str] at h
    | [a], h =>
      by_cases ha : a = 0
      · subst ha; simp [c_str] at h
      · simp [c_str, ha] at h
    | [a, b], h =>
      by_cases ha : a = 0
      · subst ha; simp [c_str] at h
      · by_cases hb : b = 0
        · subst hb; simp [c_str, ha] at h
        · simp [c_str, ha, hb] at h
    | a :: b :: c :: rest, h =>
      simp only [List.take_succ_cons, List.take_zero] at h ⊢
      by_cases ha : a = 0
      · subst ha; simp [c_str] at h
      · by_cases hb : b = 0
        · subst hb; simp [c_str, ha] at h
        · by_cases hc : c = 0
          · subst hc; simp [c_str, ha, hb] at h
          · simpa [c_str, ha, hb, hc] using h
  · intro h
    rw [h]; decide


theorem dav_check_data_crc_iff (crc : List Nat → Nat) (s : DavState)
    (hb : ∀ b ∈ s.dav_data, b < 256) :
    dav_check_data_crc crc s = true ↔ loop_crc_ok crc s.dav_data := by
  unfold dav_check_data_crc
  simp only [DAV_DATA_LEN, DAV_DATA_CRC_H, DAV_DATA_CRC_L]
  rw [be16_eq _ _ (getD_lt_of_all _ 97 hb) (getD_lt_of_all _ 98 hb)]
  simp only [beq_iff_eq, loop_crc_ok]

/-- The tick in `DAV_AWAITING_DATA` once 99 bytes are there. -/
theorem dav_tick_awaiting_data (crc : List Nat → Nat) (env : DavEnv) (s : DavState)
    (buf rest : List Nat) (hstate : s.state = .DAV_AWAITING_DATA) (hrx : s.rx = buf ++ rest)
    (hlen : buf.length = DAV_DATA_LEN) (herr : env.serial_error = false)
    (hto : CHK_TIMEOUT_UI env.secs s.timeout = false) :
    dav_tick crc env s =
      ({ s with dav_data_valid := 0, dav_data := buf, rx := rest, state := .DAV_CHECKING_DATA,
                timeout := SET_TIMEOUT_UI env.secs DAV_TIMEOUT_SECS, condition := DAV_PENDING },
        DAV_PENDING) := by
  have h1 : s.rx.length ≥ DAV_DATA_LEN := by rw [hrx, List.length_append, hlen]; omega
  have h2 : s.rx.take DAV_DATA_LEN = buf := by rw [hrx, ← hlen, List.take_left]
  have h3 : s.rx.drop DAV_DATA_LEN = rest := by rw [hrx, ← hlen, List.drop_left]
  unfold dav_tick
  simp only [hstate, herr, hto, h1, h2, h3, if_true, dav_pending, dav_reset_timeout]
  simp

/-- The tick in `DAV_CHECKING_DATA`. -/
theorem dav_tick_checking_data (crc : List Nat → Nat) (env : DavEnv) (s : DavState)
    (hstate : s.state = .DAV_CHECKING_DATA) (hb : ∀ b ∈ s.dav_data, b < 256)
    (herr : env.serial_error = false) (hto : CHK_TIMEOUT_UI env.secs s.timeout = false) :
    dav_tick crc env s =
      if ¬ s.dav_data.take 3 = [76, 79, 79] then
        dav_error s "Data does not start with 'LOO'" DAV_BAD_DATA
      else if ¬ (s.dav_data.getD 95 0 = 10 ∧ s.dav_data.getD 96 0 = 13) then
        dav_error s "Data does not contain LF, CR" DAV_BAD_DATA
      else if ¬ loop_crc_ok crc s.dav_data then
        dav_error s "Data failed CRC check" DAV_BAD_CRC
      else dav_successful { s with dav_data_valid := 1 } := by
  have hc := dav_check_data_crc_iff crc s hb
  have hl := c_str_take3_loo s.dav_data
  have hne : ¬ (s.state = .DAV_IDLE) := by rw [hstate]; decide
  unfold dav_tick
  rw [if_neg hne, herr, if_neg (by decide), hto, if_neg (by decide), hstate]
  simp only [DAV_DATA_LF, DAV_DATA_CR]
  by_cases h1 : s.dav_data.take 3 = [76, 79, 79]
  · rw [if_neg (not_not.mpr (hl.mpr h1)), if_neg (not_not.mpr h1)]
    by_cases h2 : s.dav_data.getD 95 0 = 10 ∧ s.dav_data.getD 96 0 = 13
    · have h2' : ¬ (s.dav_data.getD 95 0 ≠ 10 ∨ s.dav_data.getD 96 0 ≠ 13) := by
        intro h; rcases h with h | h
        · exact h h2.1
        · exact h h2.2
      rw [if_neg h2', if_neg (not_not.mpr h2)]
      by_cases h3 : loop_crc_ok crc s.dav_data
      · rw [if_neg (not_not.mpr (hc.mpr h3)), if_neg (not_not.mpr h3)]
      · rw [if_pos (fun h => h3 (hc.mp h)), if_pos h3]
    · have h2' : s.dav_data.getD 95 0 ≠ 10 ∨ s.dav_data.getD 96 0 ≠ 13 := by
        by_cases a : s.dav_data.getD 95 0 = 10
        · right; intro b; exact h2 ⟨a, b⟩
        · left; exact a
      rw [if_pos h2', if_pos h2]
  · rw [if_pos (fun h => h1 (hl.mp h)), if_pos h1]

/-- C2: when 99 bytes have arrived in `DAV_AWAITING_DATA`, the collector takes
them into `dav_data` with `dav_data_valid` cleared and moves to
`DAV_CHECKING_DATA`; the next tick (without serial error or overall timeout)
completes the command with Success and raises `dav_data_valid` iff bytes 0..2
are "LOO", byte 95 is LF, byte 96 is CR and the CRC over bytes 0..96 is the
big-endian word in bytes 97..98; otherwise it fails with BadData when the
"LOO" or LF/CR check fails and with BadCrc when only the CRC check fails, and
in both failure cases `dav_data_valid` is 0. -/
theorem dav_checking_data_step (crc : List Nat → Nat) (env1 env2 : DavEnv) (s : DavState)
    (buf rest : List Nat)
    (hstate : s.state = .DAV_AWAITING_DATA) (hrx : s.rx = buf ++ rest)
    (hlen : buf.length = DAV_DATA_LEN) (hbytes : ∀ b ∈ buf, b < 256)
    (herr1 : env1.serial_error = false) (hto1 : CHK_TIMEOUT_UI env1.secs s.timeout = false)
    (herr2 : env2.serial_error = false)
    (hto2 : CHK_TIMEOUT_UI env2.secs (SET_TIMEOUT_UI env1.secs DAV_TIMEOUT_SECS) = false) :
    (dav_tick crc env1 s).1.state = .DAV_CHECKING_DATA ∧
    (dav_tick crc env1 s).1.dav_data = buf ∧
    (dav_tick crc env1 s).1.dav_data_valid = 0 ∧
    (((dav_tick crc env2 (dav_tick crc env1 s).1).2 = DAV_SUCCESS ∧
      (dav_tick crc env2 (dav_tick crc env1 s).1).1.dav_data_valid = 1) ↔
        (loop_frame_ok buf ∧ loop_crc_ok crc buf)) ∧
    (loop_frame_ok buf ∧ loop_crc_ok crc buf →
      (dav_tick crc env2 (dav_tick crc env1 s).1).1.state = .DAV_IDLE ∧
      (dav_tick crc env2 (dav_tick crc env1 s).1).1.condition = DAV_SUCCESS) ∧
    (¬ loop_frame_ok buf →
      (dav_tick crc env2 (dav_tick crc env1 s).1).2 = DAV_BAD_DATA ∧
      (dav_tick crc env2 (dav_tick crc env1 s).1).1.condition = DAV_BAD_DATA ∧
      (dav_tick crc env2 (dav_tick crc env1 s).1).1.state = .DAV_IDLE ∧
      (dav_tick crc env2 (dav_tick crc env1 s).1).1.dav_data_valid = 0) ∧
    (loop_frame_ok buf ∧ ¬ loop_crc_ok crc buf →
      (dav_tick crc env2 (dav_tick crc env1 s).1).2 = DAV_BAD_CRC ∧
      (dav_tick crc env2 (dav_tick crc env1 s).1).1.condition = DAV_BAD_CRC ∧
      (dav_tick crc env2 (dav_tick crc env1 s).1).1.state = .DAV_IDLE ∧
      (dav_tick crc env2 (dav_tick crc env1 s).1).1.dav_data_valid = 0) := by
  have hA := dav_tick_awaiting_data crc env1 s buf rest hstate hrx hlen herr1 hto1
  have hst : (dav_tick crc env1 s).1.state = .DAV_CHECKING_DATA := by rw [hA]
  have hd : (dav_tick crc env1 s).1.dav_data = buf := by rw [hA]
  have hv : (dav_tick crc env1 s).1.dav_data_valid = 0 := by rw [hA]
  have ht : (dav_tick crc env1 s).1.timeout = SET_TIMEOUT_UI env1.secs DAV_TIMEOUT_SECS := by
    rw [hA]
  generalize (dav_tick crc env1 s).1 = s1 at hst hd hv ht ⊢
  refine ⟨hst, hd, hv, ?_⟩
  rw [dav_tick_checking_data crc env2 s1 hst (by rw [hd]; exact hbytes) herr2
    (by rw [ht]; exact hto2), hd]
  have hv' : ∀ (str : String) (c : Int), (dav_error s1 str c).1.dav_data_valid = 0 :=
    fun _ _ => hv
  by_cases h1 : buf.take 3 = [76, 79, 79]
  · by_cases h2 : buf.getD 95 0 = 10 ∧ buf.getD 96 0 = 13
    · have hf : loop_frame_ok buf := ⟨h1, h2.1, h2.2⟩
      by_cases h3 : loop_crc_ok crc buf
      · rw [if_neg (not_not.mpr h1), if_neg (not_not.mpr h2), if_neg (not_not.mpr h3)]
        refine ⟨⟨fun _ => ⟨hf, h3⟩, fun _ => ⟨rfl, rfl⟩⟩, fun _ => ⟨rfl, rfl⟩,
          fun h => absurd hf h, fun h => absurd h3 h.2⟩
      · rw [if_neg (not_not.mpr h1), if_neg (not_not.mpr h2), if_pos h3]
        have hne : ¬ (DAV_BAD_CRC = DAV_SUCCESS) := by decide
        refine ⟨⟨fun h => absurd h.1 hne, fun h => absurd h.2 h3⟩,
          fun h => absurd h.2 h3, fun h => absurd hf h, fun _ => ⟨rfl, rfl, rfl, hv' _ _⟩⟩
    · have hf : ¬ loop_frame_ok buf := fun h => h2 ⟨h.2.1, h.2.2⟩
      rw [if_neg (not_not.mpr h1), if_pos h2]
      have hne : ¬ (DAV_BAD_DATA = DAV_SUCCESS) := by decide
      refine ⟨⟨fun h => absurd h.1 hne, fun h => absurd h.1 hf⟩,
        fun h => absurd h.1 hf, fun _ => ⟨rfl, rfl, rfl, hv' _ _⟩, fun h => absurd h.1 hf⟩
  · have hf : ¬ loop_frame_ok buf := fun h => h1 h.1
    rw [if_pos h1]
    have hne : ¬ (DAV_BAD_DATA = DAV_SUCCESS) := by decide
    refine ⟨⟨fun h => absurd h.1 hne, fun h => absurd h.1 hf⟩,
      fun h => absurd h.1 hf, fun _ => ⟨rfl, rfl, rfl, hv' _ _⟩, fun h => absurd h.1 hf⟩

/-- C2, at a concrete input: a packet with the frame in place and CRC bytes
0x12, 0x34, received one second after the start and checked one second
later. -/
theorem dav_checking_data_step_witness :
    ((dav_tick crc_calculate (dav_env_at 2)
        (dav_tick crc_calculate (dav_env_at 1) (dav_awaiting_data (loop_packet 18 52))).1).2
          = DAV_SUCCESS ∧
     (dav_tick crc_calculate (dav_env_at 2)
        (dav_tick crc_calculate (dav_env_at 1)
          (dav_awaiting_data (loop_packet 18 52))).1).1.dav_data_valid = 1) ↔
    (loop_frame_ok (loop_packet 18 52) ∧ loop_crc_ok crc_calculate (loop_packet 18 52)) :=
  (dav_checking_data_step crc_calculate (dav_env_at 1) (dav_env_at 2)
    (dav_awaiting_data (loop_packet 18 52)) (loop_packet 18 52) []
    rfl (List.append_nil _).symm (by decide) (by decide) rfl (by decide) rfl (by decide)).2.2.2.1

/-! ## The collector: ticks by state -/

theorem dav_check_time_crc_iff (crc : List Nat → Nat) (s : DavState)
    (hb : ∀ b ∈ s.dav_time, b < 256) :
    dav_check_time_crc crc s = true ↔ time_crc_ok crc s.dav_time := by
  unfold dav_check_time_crc
  simp only [DAV_TIME_LEN, DAV_TIME_CRC_H, DAV_TIME_CRC_L]
  rw [be16_eq _ _ (getD_lt_of_all _ 6 hb) (getD_lt_of_all _ 7 hb)]
  simp only [beq_iff_eq, time_crc_ok]

theorem dav_check_time_diff_iff (env : DavEnv) (s : DavState) :
    dav_check_time_diff env s = true ↔
      rtc_diff env.time_now (env.mktime (station_tm s.dav_time)) < 30 := by
  unfold dav_check_time_diff station_tm
  simp only [DAV_TIME_SEC, DAV_TIME_MIN, DAV_TIME_HOUR, DAV_TIME_DAY, DAV_TIME_MONTH,
    DAV_TIME_YEAR, DAV_MAX_DIFF_TIME_T, decide_eq_true_eq]

/-- The tick in `DAV_AWAITING_TIME` once 8 bytes are there. -/
theorem dav_tick_awaiting_time (crc : List Nat → Nat) (env : DavEnv) (s : DavState)
    (pkt rest : List Nat) (hstate : s.state = .DAV_AWAITING_TIME) (hrx : s.rx = pkt ++ rest)
    (hlen : pkt.length = DAV_TIME_LEN) (hb : ∀ b ∈ pkt, b < 256)
    (herr : env.serial_error = false) (hto : CHK_TIMEOUT_UI env.secs s.timeout = false) :
    dav_tick crc env s =
      if ¬ time_crc_ok crc pkt then
        dav_error { s with dav_time := pkt, rx := rest } "Time failed CRC check" DAV_BAD_TIME
      else if ¬ rtc_diff env.time_now (env.mktime (station_tm pkt)) < 30 then
        dav_time_mismatch { s with dav_time := pkt, rx := rest,
                                   dav_error_str := "Time does not match Interface clock",
                                   condition := DAV_WRONG_TIME }
      else dav_successful { s with dav_time := pkt, rx := rest } := by
  have h1 : (pkt ++ rest).length ≥ DAV_TIME_LEN := by rw [List.length_append, hlen]; omega
  have h2 : (pkt ++ rest).take DAV_TIME_LEN = pkt := by rw [← hlen, List.take_left]
  have h3 : (pkt ++ rest).drop DAV_TIME_LEN = rest := by rw [← hlen, List.drop_left]
  cases s
  simp only at hstate hrx hto
  subst hstate hrx
  unfold dav_tick
  rw [if_neg (fun h => DavStateValue.noConfusion h), herr, if_neg (by decide), hto,
    if_neg (by decide)]
  simp only []
  rw [if_pos h1, h2, h3]
  by_cases c1 : time_crc_ok crc pkt
  · rw [if_neg (not_not.mpr ((dav_check_time_crc_iff crc _ hb).mpr c1)), if_neg (not_not.mpr c1)]
    by_cases c2 : rtc_diff env.time_now (env.mktime (station_tm pkt)) < 30
    · rw [if_neg (not_not.mpr ((dav_check_time_diff_iff env _).mpr c2)), if_neg (not_not.mpr c2)]
    · rw [if_pos (fun h => c2 ((dav_check_time_diff_iff env _).mp h)), if_pos c2]
  · rw [if_pos (fun h => c1 ((dav_check_time_crc_iff crc _ hb).mp h)), if_pos c1]


/-- Function `dav_send_time` hands the time packet to the serial port. -/
theorem dav_send_time_tx (crc : List Nat → Nat) (env : DavEnv) (s : DavState) :
    (dav_send_time crc env s).tx = s.tx ++ time_packet crc env ∧
    (dav_send_time crc env s).state = s.state ∧
    (dav_send_time crc env s).timeout = s.timeout ∧
    (dav_send_time crc env s).rx = s.rx := by
  unfold dav_send_time dav_calc_time_crc time_packet time_fields
  simp [DAV_TIME_LEN]

/-- The tick in `DAV_AWAITING_ACK` that reads an ACK. -/
theorem dav_tick_awaiting_ack (crc : List Nat → Nat) (env : DavEnv) (s : DavState)
    (rest : List Nat) (hstate : s.state = .DAV_AWAITING_ACK) (hrx : s.rx = DAV_ACK :: rest)
    (herr : env.serial_error = false) (hto : CHK_TIMEOUT_UI env.secs s.timeout = false) :
    dav_tick crc env s =
      if (set_post_ack_state crc env { s with rx := rest }).2 = DAV_SUCCESS then
        dav_successful (set_post_ack_state crc env { s with rx := rest }).1
      else dav_pending (dav_reset_timeout env (set_post_ack_state crc env { s with rx := rest }).1) := by
  cases s
  simp only at hstate hrx hto
  subst hstate hrx
  unfold dav_tick
  rw [if_neg (fun h => DavStateValue.noConfusion h), herr, if_neg (by decide), hto,
    if_neg (by decide)]
  simp only [DAV_ACK, if_true]

/-- The tick in `DAV_AWAITING_ACK` with nothing received and the response
timer still running. -/
theorem dav_tick_awaiting_ack_idle (crc : List Nat → Nat) (env : DavEnv) (s : DavState)
    (hstate : s.state = .DAV_AWAITING_ACK) (hrx : s.rx = [])
    (herr : env.serial_error = false) (hto : CHK_TIMEOUT_UI env.secs s.timeout = false)
    (hresp : CHK_TIMEOUT_UI env.ms s.resp_tout = false) :
    dav_tick crc env s = dav_pending s := by
  cases s
  simp only at hstate hrx hto hresp
  subst hstate hrx
  unfold dav_tick
  rw [if_neg (fun h => DavStateValue.noConfusion h), herr, if_neg (by decide), hto,
    if_neg (by decide)]
  simp only [hresp]
  rfl


theorem dav_error_ret (s : DavState) (str : String) (c : Int) : (dav_error s str c).2 = c := rfl

theorem dav_pending_ret (s : DavState) : (dav_pending s).2 = DAV_PENDING := rfl

/-- In `DAV_AWAITING_ACK` under the command SetTime no tick returns
Success. -/
theorem dav_tick_set_time_not_done (crc : List Nat → Nat) (env : DavEnv) (s : DavState)
    (hstate : s.state = .DAV_AWAITING_ACK) (hcmd : s.cmd_id = .DAV_CMD_SET_TIME) :
    (dav_tick crc env s).2 ≠ DAV_SUCCESS := by
  cases s
  simp only at hstate hcmd
  subst hstate hcmd
  unfold dav_tick
  rw [if_neg (fun h => DavStateValue.noConfusion h)]
  split
  · rw [dav_error_ret]; decide
  · split
    · rw [dav_error_ret]; decide
    · simp only []
      split
      · split
        · rw [dav_error_ret]; decide
        · rw [dav_pending_ret]; decide
      · simp only [set_post_ack_state]
        split
        · rw [if_neg (show ¬ (DAV_PENDING = DAV_SUCCESS) from by decide), dav_pending_ret]
          decide
        · split
          · rw [dav_error_ret]; decide
          · rw [dav_error_ret]; decide

/-- The tick in `DAV_AWAITING_ACK` that reads an ACK under a command that
ends with the ACK. -/
theorem dav_tick_ack_done (crc : List Nat → Nat) (env : DavEnv) (s : DavState)
    (rest : List Nat) (hstate : s.state = .DAV_AWAITING_ACK) (hrx : s.rx = DAV_ACK :: rest)
    (herr : env.serial_error = false) (hto : CHK_TIMEOUT_UI env.secs s.timeout = false)
    (hcmd : s.cmd_id = .DAV_CMD_EXPECT_ACK ∨ s.cmd_id = .DAV_CMD_SET_BAR ∨
        s.cmd_id = .DAV_CMD_ECHO_RESP) :
    (dav_tick crc env s).2 = DAV_SUCCESS ∧
    (dav_tick crc env s).1.state = .DAV_IDLE ∧
    dav_get_status (dav_tick crc env s).1 = DAV_SUCCESS ∧
    (dav_tick crc env s).1.tx = s.tx := by
  rw [dav_tick_awaiting_ack crc env s rest hstate hrx herr hto]
  have hs : set_post_ack_state crc env { s with rx := rest } =
      ({ s with rx := rest }, DAV_SUCCESS) := by
    rcases hcmd with h | h | h <;> simp only [set_post_ack_state, h]
  rw [hs, if_pos rfl]
  exact ⟨rfl, rfl, rfl, rfl⟩

/-- The tick in `DAV_AWAITING_ACK` that reads an ACK under the command
SetTime. -/
theorem dav_tick_ack_set_time (crc : List Nat → Nat) (env : DavEnv) (s : DavState)
    (rest : List Nat) (hstate : s.state = .DAV_AWAITING_ACK) (hrx : s.rx = DAV_ACK :: rest)
    (herr : env.serial_error = false) (hto : CHK_TIMEOUT_UI env.secs s.timeout = false)
    (hcmd : s.cmd_id = .DAV_CMD_SET_TIME) :
    (dav_tick crc env s).2 = DAV_PENDING ∧
    (dav_tick crc env s).1.state = .DAV_AWAITING_ACK ∧
    (dav_tick crc env s).1.cmd_id = .DAV_CMD_EXPECT_ACK ∧
    (dav_tick crc env s).1.tx = s.tx ++ time_packet crc env ∧
    (dav_tick crc env s).1.rx = rest ∧
    (dav_tick crc env s).1.timeout = SET_TIMEOUT_UI env.secs DAV_TIMEOUT_SECS := by
  rw [dav_tick_awaiting_ack crc env s rest hstate hrx herr hto]
  simp only [set_post_ack_state, hcmd]
  rw [if_neg (show ¬ (DAV_PENDING = DAV_SUCCESS) from by decide)]
  obtain ⟨t1, _, _, t4⟩ := dav_send_time_tx crc env { s with rx := rest }
  exact ⟨rfl, rfl, rfl, t1, t4, rfl⟩


/-- The tick in `DAV_STARTING`. -/
theorem dav_tick_starting (crc : List Nat → Nat) (env : DavEnv) (s : DavState)
    (hstate : s.state = .DAV_STARTING)
    (herr : env.serial_error = false) (hto : CHK_TIMEOUT_UI env.secs s.timeout = false) :
    dav_tick crc env s =
      ({ s with attempt_count := 4, resp_tout := SET_TIMEOUT_UI env.ms MAX_WAKEUP_MS, rx := [],
                tx := s.tx ++ [10], state := .DAV_AWAITING_LF,
                timeout := SET_TIMEOUT_UI env.secs DAV_TIMEOUT_SECS, condition := DAV_PENDING },
        DAV_PENDING) := by
  cases s
  simp only at hstate hto
  subst hstate
  unfold dav_tick
  rw [if_neg (fun h => DavStateValue.noConfusion h), herr, if_neg (by decide), hto,
    if_neg (by decide)]
  rfl

/-- The tick in `DAV_AWAITING_LF` when the next byte is not a line feed. -/
theorem dav_tick_awaiting_lf_quiet (crc : List Nat → Nat) (env : DavEnv) (s : DavState)
    (hstate : s.state = .DAV_AWAITING_LF) (hrx : s.rx.head? ≠ some 10)
    (herr : env.serial_error = false) (hto : CHK_TIMEOUT_UI env.secs s.timeout = false) :
    dav_tick crc env s =
      if CHK_TIMEOUT_UI env.ms s.resp_tout then
        if s.attempt_count = 0 then
          dav_error { s with rx := s.rx.tail } "No wakeup response received" DAV_NO_WAKEUP
        else
          dav_pending { s with attempt_count := s.attempt_count - 1,
                               resp_tout := SET_TIMEOUT_UI env.ms MAX_WAKEUP_MS,
                               rx := [], tx := s.tx ++ [10] }
      else dav_pending { s with rx := s.rx.tail } := by
  cases s with
  | mk state condition timeout cmd_id cmd_str attempt_count resp_tout parm1 parm2 dav_data
      dav_data_valid dav_error_str dav_time rx tx console led_davis =>
  simp only at hstate hto hrx
  subst hstate
  unfold dav_tick
  rw [if_neg (fun h => DavStateValue.noConfusion h), herr, if_neg (by decide), hto,
    if_neg (by decide)]
  simp only []
  match rx, hrx with
  | [], _ =>
    simp only [send_wakeup, List.tail_nil]
    by_cases h1 : CHK_TIMEOUT_UI env.ms resp_tout = true
    · by_cases h2 : attempt_count = 0
      · simp [h1, h2]
      · simp [h1, h2]
    · simp [h1]
  | c :: cs, hc =>
    have hne : c ≠ 10 := fun h => hc (by rw [h]; rfl)
    split
    · rename_i rest heq
      exact absurd (List.cons.inj heq).1 hne
    · simp only [send_wakeup, List.tail_cons]
      by_cases h1 : CHK_TIMEOUT_UI env.ms resp_tout = true
      · by_cases h2 : attempt_count = 0
        · simp [h1, h2]
        · simp [h1, h2]
      · simp [h1]

theorem dav_run_cons (crc : List Nat → Nat) (i : DavInput) (ins : List DavInput) (s : DavState) :
    dav_run crc (i :: ins) s = dav_run crc ins (dav_step crc i s).1 := rfl

theorem dav_run_append (crc : List Nat → Nat) (a b : List DavInput) (s : DavState) :
    dav_run crc (a ++ b) s = dav_run crc b (dav_run crc a s) := by
  unfold dav_run
  rw [List.foldl_append]

theorem head_ne_of_all (l : List Nat) (h : ∀ b ∈ l, b ≠ 10) : l.head? ≠ some 10 := by
  cases l with
  | nil => simp
  | cons a t => simpa using h a (List.mem_cons_self a t)

set_option maxRecDepth 4000 in
/-- The calls of `dav_tick` in `DAV_AWAITING_LF` while no line feed arrives:
each expiry of the wakeup timer sends one more wakeup, nothing else is
sent. -/
theorem dav_run_quiet (crc : List Nat → Nat) : ∀ (ins : List DavInput) (s : DavState) (w : Nat),
    s.state = .DAV_AWAITING_LF → s.resp_tout = SET_TIMEOUT_UI w MAX_WAKEUP_MS →
    (∀ b ∈ s.rx, b ≠ 10) →
    (∀ i ∈ ins, i.env.serial_error = false ∧ CHK_TIMEOUT_UI i.env.secs s.timeout = false ∧
      ∀ b ∈ i.arrived, b ≠ 10) →
    wakeup_expiries w ins ≤ s.attempt_count →
    (dav_run crc ins s).state = .DAV_AWAITING_LF ∧
    (dav_run crc ins s).attempt_count = s.attempt_count - wakeup_expiries w ins ∧
    (dav_run crc ins s).tx = s.tx ++ List.replicate (wakeup_expiries w ins) 10 ∧
    (dav_run crc ins s).resp_tout = SET_TIMEOUT_UI (last_wakeup_ms w ins) MAX_WAKEUP_MS ∧
    (dav_run crc ins s).timeout = s.timeout ∧
    (∀ b ∈ (dav_run crc ins s).rx, b ≠ 10) ∧
    command_line (dav_run crc ins s) = command_line s ∧
    (dav_run crc ins s).cmd_id = s.cmd_id := by
  intro ins
  induction ins with
  | nil =>
    intro s w hs hr hrx _ _
    refine ⟨hs, by simp [dav_run, wakeup_expiries], by simp [dav_run, wakeup_expiries], ?_, rfl,
      hrx, rfl, rfl⟩
    simpa [dav_run, last_wakeup_ms] using hr
  | cons i ins ih =>
    intro s w hs hr hrx hq hk
    obtain ⟨st, cond, tmo, cid, cstr, ac, rt, p1, p2, dd, ddv, des, dt, rx, tx, con, led⟩ := s
    have hs1 : st = .DAV_AWAITING_LF := hs
    have hr1 : rt = SET_TIMEOUT_UI w MAX_WAKEUP_MS := hr
    subst hs1 hr1
    have hrx : ∀ b ∈ rx, b ≠ 10 := hrx
    have hk : wakeup_expiries w (i :: ins) ≤ ac := hk
    have hq : ∀ j ∈ i :: ins, j.env.serial_error = false ∧
        CHK_TIMEOUT_UI j.env.secs tmo = false ∧ ∀ b ∈ j.arrived, b ≠ 10 := hq
    obtain ⟨q1, q2, q3⟩ := hq i (List.mem_cons_self i ins)
    have hall : ∀ b ∈ rx ++ i.arrived, b ≠ 10 := by
      intro b hb
      rcases List.mem_append.mp hb with h | h
      · exact hrx b h
      · exact q3 b h
    have htick := dav_tick_awaiting_lf_quiet crc i.env
      ⟨.DAV_AWAITING_LF, cond, tmo, cid, cstr, ac, SET_TIMEOUT_UI w MAX_WAKEUP_MS, p1, p2, dd, ddv,
        des, dt, rx ++ i.arrived, tx, con, led⟩ rfl (head_ne_of_all _ hall) q1 q2
    by_cases hx : CHK_TIMEOUT_UI i.env.ms (SET_TIMEOUT_UI w MAX_WAKEUP_MS) = true
    · have e1 : wakeup_expiries w (i :: ins) = wakeup_expiries i.env.ms ins + 1 := by
        show (if _ then _ else _) = _
        rw [if_pos hx]
      have e2 : last_wakeup_ms w (i :: ins) = last_wakeup_ms i.env.ms ins := by
        show (if _ then _ else _) = _
        rw [if_pos hx]
      rw [e1] at hk
      have hac : ac ≠ 0 := by omega
      have hstep : (dav_step crc i ⟨.DAV_AWAITING_LF, cond, tmo, cid, cstr, ac,
          SET_TIMEOUT_UI w MAX_WAKEUP_MS, p1, p2, dd, ddv, des, dt, rx, tx, con, led⟩).1 =
          ⟨.DAV_AWAITING_LF, DAV_PENDING, tmo, cid, cstr, ac - 1,
            SET_TIMEOUT_UI i.env.ms MAX_WAKEUP_MS, p1, p2, dd, ddv, des, dt, [], tx ++ [10], con,
            led⟩ := by
        show (dav_tick crc i.env _).1 = _
        rw [htick, if_pos hx, if_neg hac]
        rfl
      rw [dav_run_cons, hstep, e1, e2]
      obtain ⟨a1, a2, a3, a4, a5, a6, a7, a8⟩ := ih
        ⟨.DAV_AWAITING_LF, DAV_PENDING, tmo, cid, cstr, ac - 1,
            SET_TIMEOUT_UI i.env.ms MAX_WAKEUP_MS, p1, p2, dd, ddv, des, dt, [], tx ++ [10], con,
            led⟩ i.env.ms rfl rfl
        (by intro b hb; exact absurd hb (List.not_mem_nil b))
        (fun j hj => hq j (List.mem_cons_of_mem i hj))
        (by show wakeup_expiries i.env.ms ins ≤ ac - 1; omega)
      refine ⟨a1, ?_, ?_, a4, a5, a6, a7, a8⟩
      · rw [a2]; show ac - 1 - _ = ac - _; omega
      · rw [a3]
        show (tx ++ [10]) ++ _ = tx ++ _
        rw [List.append_assoc, List.replicate_succ]
        rfl
    · have e1 : wakeup_expiries w (i :: ins) = wakeup_expiries w ins := by
        show (if _ then _ else _) = _
        rw [if_neg hx]
      have e2 : last_wakeup_ms w (i :: ins) = last_wakeup_ms w ins := by
        show (if _ then _ else _) = _
        rw [if_neg hx]
      have hstep : (dav_step crc i ⟨.DAV_AWAITING_LF, cond, tmo, cid, cstr, ac,
          SET_TIMEOUT_UI w MAX_WAKEUP_MS, p1, p2, dd, ddv, des, dt, rx, tx, con, led⟩).1 =
          ⟨.DAV_AWAITING_LF, DAV_PENDING, tmo, cid, cstr, ac,
            SET_TIMEOUT_UI w MAX_WAKEUP_MS, p1, p2, dd, ddv, des, dt, (rx ++ i.arrived).tail, tx,
            con, led⟩ := by
        show (dav_tick crc i.env _).1 = _
        rw [htick, if_neg hx]
        rfl
      rw [dav_run_cons, hstep, e1, e2]
      rw [e1] at hk
      exact ih _ w rfl rfl
        (fun b hb => hall b (List.mem_of_mem_tail hb))
        (fun j hj => hq j (List.mem_cons_of_mem i hj)) hk

theorem wakeups_then_command.rest {tx0 line tx : List Nat} (h : wakeups_then_command tx0 line tx) :
    wakeups_then_rest tx0 line tx := by
  obtain ⟨k, more, hk, e⟩ := h
  exact ⟨k, line ++ more, hk, by rw [e]; simp [List.append_assoc],
    Or.inr (List.prefix_append _ _)⟩

theorem wakeups_then_command.append {tx0 line tx : List Nat} (h : wakeups_then_command tx0 line tx)
    (extra : List Nat) : wakeups_then_command tx0 line (tx ++ extra) := by
  obtain ⟨k, more, hk, e⟩ := h
  exact ⟨k, more ++ extra, hk, by rw [e]; simp [List.append_assoc]⟩

/-- An error or a success exit keeps what has been sent. -/
theorem sent_shape.to_idle {tx0 line : List Nat} {s t : DavState} (h : sent_shape tx0 line s)
    (hst : t.state = .DAV_IDLE) (htx : t.tx = s.tx) : sent_shape tx0 line t := by
  unfold sent_shape at h ⊢
  rw [hst]
  simp only []
  rw [htx]
  cases hs : s.state <;> rw [hs] at h <;> simp only [] at h
  · exact h
  · exact ⟨0, [], by omega, by rw [h.1]; simp, Or.inl rfl⟩
  · exact ⟨5 - s.attempt_count, [], by omega, by rw [h.2.1]; simp, Or.inl rfl⟩
  · exact ⟨5 - s.attempt_count, [], by omega, by rw [h.2.1]; simp, Or.inl rfl⟩
  all_goals exact h.rest


theorem sent_shape.idle_of {tx0 line : List Nat} {t : DavState} (hst : t.state = .DAV_IDLE)
    (h : wakeups_then_rest tx0 line t.tx) : sent_shape tx0 line t := by
  unfold sent_shape
  rw [hst]
  exact h

theorem command_line_fields (s t : DavState) (h1 : t.cmd_id = s.cmd_id)
    (h2 : t.cmd_str = s.cmd_str) (h3 : t.parm1 = s.parm1) (h4 : t.parm2 = s.parm2) :
    command_line t = command_line s := by
  unfold command_line
  rw [h1, h2, h3, h4]

theorem send_command_tx (env : DavEnv) (s : DavState) :
    (send_command env s).tx = s.tx ++ command_line s := by
  unfold send_command command_line
  cases s.cmd_id <;> simp [List.append_assoc]

/-- After the command line has gone out the shape holds in every state that
is not part of the wakeup. -/
theorem sent_shape.of_sent {tx0 line tx : List Nat} (h : wakeups_then_command tx0 line tx)
    (t : DavState) (extra : List Nat) (htx : t.tx = tx ++ extra)
    (h1 : t.state ≠ .DAV_STARTING) (h2 : t.state ≠ .DAV_AWAITING_LF)
    (h3 : t.state ≠ .DAV_AWAITING_CR) : sent_shape tx0 line t := by
  have hc := h.append extra
  rw [← htx] at hc
  unfold sent_shape
  cases hs : t.state <;> simp only []
  · exact hc.rest
  · exact absurd hs h1
  · exact absurd hs h2
  · exact absurd hs h3
  all_goals exact hc

set_option maxRecDepth 4000 in
/-- One tick keeps the shape of what has been sent. -/
theorem sent_shape_tick (crc : List Nat → Nat) (env : DavEnv) (tx0 line : List Nat)
    (s : DavState) (h : sent_shape tx0 line s) : sent_shape tx0 line (dav_tick crc env s).1 := by
  by_cases hidle : s.state = .DAV_IDLE
  · have e : dav_tick crc env s = (dav_cleanup s, s.condition) := by
      unfold dav_tick; rw [if_pos hidle]
    rw [e]
    exact h.to_idle hidle rfl
  by_cases herr : env.serial_error = true
  · have e : dav_tick crc env s = dav_error s "Serial port error" DAV_SERIAL_ERR := by
      unfold dav_tick; rw [if_neg hidle, if_pos herr]
    rw [e]
    exact h.to_idle rfl rfl
  by_cases hto : CHK_TIMEOUT_UI env.secs s.timeout = true
  · have e : dav_tick crc env s = dav_error s "Timed out" DAV_TIMEOUT := by
      unfold dav_tick; rw [if_neg hidle, if_neg herr, if_pos hto]
    rw [e]
    exact h.to_idle rfl rfl
  obtain ⟨st, cond, tmo, cid, cstr, ac, rt, p1, p2, dd, ddv, des, dt, rx, tx, con, led⟩ := s
  have hidle : ¬ (st = .DAV_IDLE) := hidle
  unfold dav_tick
  rw [if_neg hidle, if_neg herr, if_neg hto]
  cases st
  · exact absurd rfl hidle
  · -- STARTING
    have h : tx = tx0 ∧ command_line ⟨.DAV_STARTING, cond, tmo, cid, cstr, ac, rt, p1, p2, dd, ddv,
        des, dt, rx, tx, con, led⟩ = line := h
    show sent_shape tx0 line ⟨.DAV_AWAITING_LF, DAV_PENDING, SET_TIMEOUT_UI env.secs DAV_TIMEOUT_SECS,
      cid, cstr, 4, SET_TIMEOUT_UI env.ms MAX_WAKEUP_MS, p1, p2, dd, ddv, des, dt, [], tx ++ [10],
      con, led⟩
    exact ⟨Nat.le_refl 4, by rw [h.1]; rfl, h.2⟩
  · -- AWAITING_LF
    have h : ac ≤ 4 ∧ tx = tx0 ++ List.replicate (5 - ac) 10 ∧
      command_line ⟨.DAV_AWAITING_LF, cond, tmo, cid, cstr, ac, rt, p1, p2, dd, ddv,
        des, dt, rx, tx, con, led⟩ = line := h
    simp only []
    split
    · exact ⟨h.1, h.2.1, h.2.2⟩
    · by_cases hp : CHK_TIMEOUT_UI env.ms rt = true
      · by_cases h0 : ac = 0
        · subst h0
          simp only [hp, send_wakeup, if_true]
          exact sent_shape.idle_of rfl ⟨5, [], Nat.le_refl 5, by show tx = _; rw [h.2.1]; simp,
            Or.inl rfl⟩
        · simp only [hp, send_wakeup, if_true, h0, if_false]
          refine ⟨by show ac - 1 ≤ 4; omega, ?_, h.2.2⟩
          show tx ++ [10] = tx0 ++ List.replicate (5 - (ac - 1)) 10
          rw [h.2.1, show 5 - (ac - 1) = (5 - ac) + 1 from by omega, List.replicate_succ',
            List.append_assoc]
      · simp only [hp]
        exact ⟨h.1, h.2.1, h.2.2⟩
  · -- AWAITING_CR
    have h : ac ≤ 4 ∧ tx = tx0 ++ List.replicate (5 - ac) 10 ∧
      command_line ⟨.DAV_AWAITING_CR, cond, tmo, cid, cstr, ac, rt, p1, p2, dd, ddv,
        des, dt, rx, tx, con, led⟩ = line := h
    have hcl : ∀ (st : DavStateValue) (c : Int) (r : List Nat),
        command_line ⟨st, c, tmo, cid, cstr, ac, rt, p1, p2, dd, ddv, des, dt, r, tx, con, led⟩
          = line := fun _ _ _ => h.2.2
    simp only []
    split
    · -- CR received: the command goes out
      have hsent : wakeups_then_command tx0 line (tx ++ line) :=
        ⟨5 - ac, [], by omega, by rw [h.2.1]; simp⟩
      refine sent_shape.of_sent hsent _ [] ?_ ?_ ?_ ?_
      · show (set_post_cmd_state (send_command env _)).tx = _
        have e : ∀ u : DavState, (set_post_cmd_state u).tx = u.tx := by
          intro u; unfold set_post_cmd_state; split <;> rfl
        rw [e, send_command_tx, hcl, List.append_nil]
      all_goals
        show (set_post_cmd_state (send_command env _)).state ≠ _
        unfold set_post_cmd_state
        split <;> exact fun h => DavStateValue.noConfusion h
    · by_cases hq : (rx.head? = some 10 ∨ rx.head? = none) ∧ ¬ CHK_TIMEOUT_UI env.ms rt = true
      · rw [if_pos hq]
        exact ⟨h.1, h.2.1, h.2.2⟩
      · rw [if_neg hq]
        by_cases h0 : ac = 0
        · subst h0
          simp only [send_wakeup, if_true, ne_eq, not_true_eq_false, if_false]
          exact sent_shape.idle_of rfl ⟨5, [], Nat.le_refl 5, by show tx = _; rw [h.2.1]; simp,
            Or.inl rfl⟩
        · simp only [send_wakeup, h0, if_false, ne_eq, one_ne_zero, not_false_eq_true, if_true]
          refine ⟨by show ac - 1 ≤ 4; omega, ?_, h.2.2⟩
          show tx ++ [10] = tx0 ++ List.replicate (5 - (ac - 1)) 10
          rw [h.2.1, show 5 - (ac - 1) = (5 - ac) + 1 from by omega, List.replicate_succ',
            List.append_assoc]
  · -- AWAITING_ACK
    have h : wakeups_then_command tx0 line tx := h
    simp only []
    split
    · split
      · exact sent_shape.of_sent h _ [] (List.append_nil _).symm
          (fun h => DavStateValue.noConfusion h) (fun h => DavStateValue.noConfusion h)
          (fun h => DavStateValue.noConfusion h)
      · exact sent_shape.of_sent h _ [] (List.append_nil _).symm
          (fun h => DavStateValue.noConfusion h) (fun h => DavStateValue.noConfusion h)
          (fun h => DavStateValue.noConfusion h)
    · split
      · cases cid <;> simp only [set_post_ack_state] <;>
          first
            | (rw [if_neg (show ¬ (DAV_PENDING = DAV_SUCCESS) from by decide)]
               exact sent_shape.of_sent h _ [] (List.append_nil _).symm
                (fun h => DavStateValue.noConfusion h) (fun h => DavStateValue.noConfusion h)
                (fun h => DavStateValue.noConfusion h))
            | (rw [if_neg (show ¬ (DAV_PENDING = DAV_SUCCESS) from by decide)]
               exact sent_shape.of_sent h _ (time_packet crc env)
                (dav_send_time_tx crc env _).1
                (fun h => DavStateValue.noConfusion h) (fun h => DavStateValue.noConfusion h)
                (fun h => DavStateValue.noConfusion h))
            | (rw [if_pos trivial]
               exact sent_shape.of_sent h _ [] (List.append_nil _).symm
                (fun h => DavStateValue.noConfusion h) (fun h => DavStateValue.noConfusion h)
                (fun h => DavStateValue.noConfusion h))
      · split
        · exact sent_shape.of_sent h _ [] (List.append_nil _).symm
            (fun h => DavStateValue.noConfusion h) (fun h => DavStateValue.noConfusion h)
            (fun h => DavStateValue.noConfusion h)
        · exact sent_shape.of_sent h _ [] (List.append_nil _).symm
            (fun h => DavStateValue.noConfusion h) (fun h => DavStateValue.noConfusion h)
            (fun h => DavStateValue.noConfusion h)
  all_goals
    have h : wakeups_then_command tx0 line tx := h
    cases cid <;> simp only [set_post_ok_state, dav_echo_resp, dav_check_ok_resp] <;>
      repeat' split
    all_goals
      exact sent_shape.of_sent h _ [] (List.append_nil _).symm
        (fun h => DavStateValue.noConfusion h) (fun h => DavStateValue.noConfusion h)
        (fun h => DavStateValue.noConfusion h)

theorem sent_shape.sent_rest {tx0 line : List Nat} {s : DavState} (h : sent_shape tx0 line s) :
    wakeups_then_rest tx0 line s.tx := by
  have h2 : sent_shape tx0 line { s with state := .DAV_IDLE } := h.to_idle rfl rfl
  exact h2

/-- Every run of `dav_tick` keeps the shape of what has been sent. -/
theorem sent_shape_run (crc : List Nat → Nat) (tx0 line : List Nat) :
    ∀ (ins : List DavInput) (s : DavState), sent_shape tx0 line s →
      sent_shape tx0 line (dav_run crc ins s) := by
  intro ins
  induction ins with
  | nil => intro s h; exact h
  | cons i ins ih =>
    intro s h
    rw [dav_run_cons]
    apply ih
    unfold dav_step
    apply sent_shape_tick
    exact h

/-- The tick in `DAV_AWAITING_LF` that reads the line feed. -/
theorem dav_tick_awaiting_lf_reply (crc : List Nat → Nat) (env : DavEnv) (s : DavState)
    (rest : List Nat) (hstate : s.state = .DAV_AWAITING_LF) (hrx : s.rx = 10 :: rest)
    (herr : env.serial_error = false) (hto : CHK_TIMEOUT_UI env.secs s.timeout = false) :
    dav_tick crc env s = dav_pending { s with rx := rest, state := .DAV_AWAITING_CR } := by
  cases s
  simp only at hstate hrx hto
  subst hstate hrx
  unfold dav_tick
  rw [if_neg (fun h => DavStateValue.noConfusion h), herr, if_neg (by decide), hto,
    if_neg (by decide)]

/-- The tick in `DAV_AWAITING_CR` that reads the carriage return. -/
theorem dav_tick_awaiting_cr_reply (crc : List Nat → Nat) (env : DavEnv) (s : DavState)
    (rest : List Nat) (hstate : s.state = .DAV_AWAITING_CR) (hrx : s.rx = 13 :: rest)
    (herr : env.serial_error = false) (hto : CHK_TIMEOUT_UI env.secs s.timeout = false) :
    dav_tick crc env s =
      dav_pending (dav_reset_timeout env
        (set_post_cmd_state (send_command env { s with rx := rest }))) := by
  cases s
  simp only at hstate hrx hto
  subst hstate hrx
  unfold dav_tick
  rw [if_neg (fun h => DavStateValue.noConfusion h), herr, if_neg (by decide), hto,
    if_neg (by decide)]



/-- A Collect command whose command line has gone out completes with
Success when the ACK and then a valid 99-byte packet arrive. -/
theorem dav_collect_completes (crc : List Nat → Nat) (S : DavState) (iack idat ichk : DavInput)
    (buf : List Nat) (hstate : S.state = .DAV_AWAITING_ACK) (hcmd : S.cmd_id = .DAV_CMD_COLLECT)
    (hack : S.rx ++ iack.arrived = [DAV_ACK])
    (e1 : iack.env.serial_error = false) (t1 : CHK_TIMEOUT_UI iack.env.secs S.timeout = false)
    (e2 : idat.env.serial_error = false)
    (t2 : CHK_TIMEOUT_UI idat.env.secs (SET_TIMEOUT_UI iack.env.secs DAV_TIMEOUT_SECS) = false)
    (e3 : ichk.env.serial_error = false)
    (t3 : CHK_TIMEOUT_UI ichk.env.secs (SET_TIMEOUT_UI idat.env.secs DAV_TIMEOUT_SECS) = false)
    (hdat : idat.arrived = buf) (hlen : buf.length = DAV_DATA_LEN) (hb : ∀ b ∈ buf, b < 256)
    (hf : loop_frame_ok buf) (hc : loop_crc_ok crc buf) :
    (dav_step crc ichk (dav_step crc idat (dav_step crc iack S).1).1).2 = DAV_SUCCESS ∧
    (dav_step crc ichk (dav_step crc idat (dav_step crc iack S).1).1).1.tx = S.tx ∧
    (dav_step crc ichk (dav_step crc idat (dav_step crc iack S).1).1).1.dav_data = buf ∧
    (dav_step crc ichk (dav_step crc idat (dav_step crc iack S).1).1).1.dav_data_valid = 1 := by
  have h1 : (dav_step crc iack S).1.state = .DAV_AWAITING_DATA ∧
      (dav_step crc iack S).1.rx = [] ∧ (dav_step crc iack S).1.tx = S.tx ∧
      (dav_step crc iack S).1.timeout = SET_TIMEOUT_UI iack.env.secs DAV_TIMEOUT_SECS := by
    unfold dav_step
    rw [dav_tick_awaiting_ack crc iack.env { S with rx := S.rx ++ iack.arrived } [] hstate hack
      e1 t1]
    simp only [set_post_ack_state, hcmd]
    rw [if_neg (show ¬ (DAV_PENDING = DAV_SUCCESS) from by decide)]
    exact ⟨rfl, rfl, rfl, rfl⟩
  obtain ⟨a1, a2, a3, a4⟩ := h1
  generalize (dav_step crc iack S).1 = S1 at a1 a2 a3 a4 ⊢
  have h2 : (dav_step crc idat S1).1.state = .DAV_CHECKING_DATA ∧
      (dav_step crc idat S1).1.dav_data = buf ∧ (dav_step crc idat S1).1.tx = S.tx ∧
      (dav_step crc idat S1).1.timeout = SET_TIMEOUT_UI idat.env.secs DAV_TIMEOUT_SECS := by
    unfold dav_step
    rw [dav_tick_awaiting_data crc idat.env { S1 with rx := S1.rx ++ idat.arrived } buf [] a1
      (by show S1.rx ++ idat.arrived = buf ++ []; rw [a2, hdat]; simp) hlen e2
      (by show CHK_TIMEOUT_UI idat.env.secs S1.timeout = false; rw [a4]; exact t2)]
    exact ⟨rfl, rfl, a3, rfl⟩
  obtain ⟨b1, b2, b3, b4⟩ := h2
  generalize (dav_step crc idat S1).1 = S2 at b1 b2 b3 b4 ⊢
  unfold dav_step
  rw [dav_tick_checking_data crc ichk.env { S2 with rx := S2.rx ++ ichk.arrived } b1
    (by show ∀ b ∈ S2.dav_data, b < 256; rw [b2]; exact hb) e3
    (by show CHK_TIMEOUT_UI ichk.env.secs S2.timeout = false; rw [b4]; exact t3)]
  have d : ({ S2 with rx := S2.rx ++ ichk.arrived } : DavState).dav_data = buf := b2
  rw [d, if_neg (not_not.mpr hf.1), if_neg (not_not.mpr ⟨hf.2.1, hf.2.2⟩), if_neg (not_not.mpr hc)]
  exact ⟨rfl, b3, rfl, rfl⟩



/-- C20: in `DAV_AWAITING_TIME`, once 8 bytes have been received (no serial
error, no overall timeout): if the CRC over the first 6 bytes is not the
big-endian word in the last 2, the command fails with `DAV_BAD_TIME`
(negative); otherwise it reports `DAV_SUCCESS` (1) if the real-time clock and
the decoded station time differ by less than 30 s and `DAV_WRONG_TIME` (2) if
they differ by 30 s or more; in all three cases the machine is back in
`DAV_IDLE`. -/
theorem dav_awaiting_time_step (crc : List Nat → Nat) (env : DavEnv) (s : DavState)
    (pkt rest : List Nat) (hstate : s.state = .DAV_AWAITING_TIME) (hrx : s.rx = pkt ++ rest)
    (hlen : pkt.length = DAV_TIME_LEN) (hb : ∀ b ∈ pkt, b < 256)
    (herr : env.serial_error = false) (hto : CHK_TIMEOUT_UI env.secs s.timeout = false) :
    (¬ time_crc_ok crc pkt →
      (dav_tick crc env s).2 = DAV_BAD_TIME ∧ (dav_tick crc env s).2 < 0 ∧
      dav_get_status (dav_tick crc env s).1 = DAV_BAD_TIME ∧
      (dav_tick crc env s).1.state = .DAV_IDLE) ∧
    (time_crc_ok crc pkt → rtc_diff env.time_now (env.mktime (station_tm pkt)) < 30 →
      (dav_tick crc env s).2 = 1 ∧ (dav_tick crc env s).2 = DAV_SUCCESS ∧
      dav_get_status (dav_tick crc env s).1 = DAV_SUCCESS ∧
      (dav_tick crc env s).1.state = .DAV_IDLE) ∧
    (time_crc_ok crc pkt → 30 ≤ rtc_diff env.time_now (env.mktime (station_tm pkt)) →
      (dav_tick crc env s).2 = 2 ∧ (dav_tick crc env s).2 = DAV_WRONG_TIME ∧
      dav_get_status (dav_tick crc env s).1 = DAV_WRONG_TIME ∧
      (dav_tick crc env s).1.state = .DAV_IDLE) := by
  rw [dav_tick_awaiting_time crc env s pkt rest hstate hrx hlen hb herr hto]
  refine ⟨fun h => ?_, fun h1 h2 => ?_, fun h1 h2 => ?_⟩
  · rw [if_pos h]
    exact ⟨rfl, show DAV_BAD_TIME < 0 from by decide, rfl, rfl⟩
  · rw [if_neg (not_not.mpr h1), if_neg (not_not.mpr h2)]
    exact ⟨rfl, rfl, rfl, rfl⟩
  · rw [if_neg (not_not.mpr h1), if_pos (by omega)]
    exact ⟨rfl, rfl, rfl, rfl⟩

set_option maxRecDepth 20000 in
/-- C20, at a concrete input (scenario S4): a time packet with a good CRC
that decodes to a time 600 s from the clock gives `DAV_WRONG_TIME` (2). -/
theorem dav_awaiting_time_step_witness :
    (dav_tick crc_calculate (dav_env_ms 1000 600) (dav_awaiting_time time_packet_2006)).2 = 2 :=
  ((dav_awaiting_time_step crc_calculate (dav_env_ms 1000 600) (dav_awaiting_time time_packet_2006)
    time_packet_2006 [] rfl rfl rfl (by decide) rfl (by decide)).2.2
    (by decide) (by decide)).1

/-- C19: on reading ACK (0x06) in `DAV_AWAITING_ACK` the collector dispatches
on `cmd_id`: Collect goes to `DAV_AWAITING_DATA`, ChkTime to
`DAV_AWAITING_TIME`; SetTime writes the 8-byte time packet, rebinds `cmd_id`
to ExpectAck and stays in `DAV_AWAITING_ACK` with status pending, and the next
ACK then completes it with Success without sending more; ExpectAck and the
other commands complete with Success at once. Under SetTime no tick in
`DAV_AWAITING_ACK` returns Success, so Success comes only with the second
ACK, after the time packet. -/
theorem dav_ack_dispatch (crc : List Nat → Nat) (env env2 : DavEnv) (s : DavState)
    (rest : List Nat) (hstate : s.state = .DAV_AWAITING_ACK) (hrx : s.rx = DAV_ACK :: rest)
    (herr : env.serial_error = false) (hto : CHK_TIMEOUT_UI env.secs s.timeout = false)
    (herr2 : env2.serial_error = false)
    (hto2 : CHK_TIMEOUT_UI env2.secs (SET_TIMEOUT_UI env.secs DAV_TIMEOUT_SECS) = false) :
    (s.cmd_id = .DAV_CMD_COLLECT →
      (dav_tick crc env s).2 = DAV_PENDING ∧
      (dav_tick crc env s).1.state = .DAV_AWAITING_DATA ∧
      (dav_tick crc env s).1.tx = s.tx) ∧
    (s.cmd_id = .DAV_CMD_CHK_TIME →
      (dav_tick crc env s).2 = DAV_PENDING ∧
      (dav_tick crc env s).1.state = .DAV_AWAITING_TIME ∧
      (dav_tick crc env s).1.tx = s.tx) ∧
    (s.cmd_id = .DAV_CMD_SET_TIME →
      (dav_tick crc env s).2 = DAV_PENDING ∧
      (dav_tick crc env s).1.state = .DAV_AWAITING_ACK ∧
      (dav_tick crc env s).1.cmd_id = .DAV_CMD_EXPECT_ACK ∧
      (dav_tick crc env s).1.tx = s.tx ++ time_packet crc env ∧
      (time_packet crc env).length = 8 ∧
      (rest = [] →
        (dav_step crc ⟨env2, [DAV_ACK]⟩ (dav_tick crc env s).1).2 = DAV_SUCCESS ∧
        (dav_step crc ⟨env2, [DAV_ACK]⟩ (dav_tick crc env s).1).1.state = .DAV_IDLE ∧
        (dav_step crc ⟨env2, [DAV_ACK]⟩ (dav_tick crc env s).1).1.tx
          = s.tx ++ time_packet crc env)) ∧
    ((s.cmd_id = .DAV_CMD_EXPECT_ACK ∨ s.cmd_id = .DAV_CMD_SET_BAR ∨
        s.cmd_id = .DAV_CMD_ECHO_RESP) →
      (dav_tick crc env s).2 = DAV_SUCCESS ∧
      (dav_tick crc env s).1.state = .DAV_IDLE ∧
      dav_get_status (dav_tick crc env s).1 = DAV_SUCCESS ∧
      (dav_tick crc env s).1.tx = s.tx) ∧
    (∀ (e : DavEnv) (t : DavState), t.state = .DAV_AWAITING_ACK →
      t.cmd_id = .DAV_CMD_SET_TIME → (dav_tick crc e t).2 ≠ DAV_SUCCESS) := by
  refine ⟨fun h => ?_, fun h => ?_, fun h => ?_,
    fun h => dav_tick_ack_done crc env s rest hstate hrx herr hto h,
    fun e t h1 h2 => dav_tick_set_time_not_done crc e t h1 h2⟩
  · rw [dav_tick_awaiting_ack crc env s rest hstate hrx herr hto]
    simp only [set_post_ack_state, h]
    rw [if_neg (show ¬ (DAV_PENDING = DAV_SUCCESS) from by decide)]
    exact ⟨rfl, rfl, rfl⟩
  · rw [dav_tick_awaiting_ack crc env s rest hstate hrx herr hto]
    simp only [set_post_ack_state, h]
    rw [if_neg (show ¬ (DAV_PENDING = DAV_SUCCESS) from by decide)]
    exact ⟨rfl, rfl, rfl⟩
  · obtain ⟨a1, a2, a3, a4, a5, a6⟩ :=
      dav_tick_ack_set_time crc env s rest hstate hrx herr hto h
    refine ⟨a1, a2, a3, a4, by simp [time_packet, time_fields], fun hr => ?_⟩
    subst hr
    unfold dav_step
    generalize (dav_tick crc env s).1 = t at a2 a3 a4 a5 a6 ⊢
    obtain ⟨b1, b2, _, b4⟩ := dav_tick_ack_done crc env2 { t with rx := t.rx ++ [DAV_ACK] } []
      a2 (by show t.rx ++ [DAV_ACK] = _; rw [a5]; rfl) herr2
      (by show CHK_TIMEOUT_UI env2.secs t.timeout = false; rw [a6]; exact hto2)
      (Or.inl a3)
    exact ⟨b1, b2, b4.trans a4⟩

/-- C19, at a concrete input: under SetTime the second ACK completes the
command with Success. -/
theorem dav_ack_dispatch_witness :
    (dav_step crc_calculate ⟨dav_env_ms 200 0, [DAV_ACK]⟩
      (dav_tick crc_calculate (dav_env_ms 100 0)
        (dav_awaiting_ack .DAV_CMD_SET_TIME [DAV_ACK])).1).2 = DAV_SUCCESS :=
  (((dav_ack_dispatch crc_calculate (dav_env_ms 100 0) (dav_env_ms 200 0)
    (dav_awaiting_ack .DAV_CMD_SET_TIME [DAV_ACK]) [] rfl rfl rfl (by decide) rfl
    (by decide)).2.2.1 rfl).2.2.2.2.2 rfl).1

/-- C18: for every run of one collector command (any calls of `dav_tick`
from `DAV_STARTING`), what has been sent is at most 5 wakeup characters, then
nothing or the command line and what follows it. After the first tick and calls
in which no line feed arrives (no serial error, no overall timeout), with at
most 4 expiries of the 1200 ms wakeup timer, the collector is still in
`DAV_AWAITING_LF` and has sent one wakeup more than there were expiries; the
next such call fails with `DAV_NO_WAKEUP` exactly when 5 wakeups have been
sent and the wakeup timer has run out again. If instead the line feed and the
carriage return are read after the k-th wakeup, the command line goes out after
exactly k wakeups; and a Collect command that then reads an ACK and a valid
99-byte packet ends with Success. -/
theorem dav_wakeups (crc : List Nat → Nat) (s0 : DavState) (i0 : DavInput)
    (quiet : List DavInput) (hstate : s0.state = .DAV_STARTING)
    (herr0 : i0.env.serial_error = false)
    (hto0 : CHK_TIMEOUT_UI i0.env.secs s0.timeout = false)
    (hq : ∀ i ∈ quiet, i.env.serial_error = false ∧
      CHK_TIMEOUT_UI i.env.secs (SET_TIMEOUT_UI i0.env.secs DAV_TIMEOUT_SECS) = false ∧
      ∀ b ∈ i.arrived, b ≠ 10)
    (hk : wakeup_expiries i0.env.ms quiet ≤ 4) :
    (∀ ins : List DavInput,
      wakeups_then_rest s0.tx (command_line s0) (dav_run crc ins s0).tx) ∧
    ((dav_run crc (i0 :: quiet) s0).state = .DAV_AWAITING_LF ∧
      (dav_run crc (i0 :: quiet) s0).tx =
        s0.tx ++ List.replicate (wakeup_expiries i0.env.ms quiet + 1) 10) ∧
    (∀ i : DavInput, i.env.serial_error = false →
      CHK_TIMEOUT_UI i.env.secs (SET_TIMEOUT_UI i0.env.secs DAV_TIMEOUT_SECS) = false →
      (∀ b ∈ i.arrived, b ≠ 10) →
      ((dav_step crc i (dav_run crc (i0 :: quiet) s0)).2 = DAV_NO_WAKEUP ↔
        (wakeup_expiries i0.env.ms quiet = 4 ∧
          CHK_TIMEOUT_UI i.env.ms
            (SET_TIMEOUT_UI (last_wakeup_ms i0.env.ms quiet) MAX_WAKEUP_MS) = true))) ∧
    (∀ (ilf icr : DavInput) (r r2 : List Nat),
      ilf.env.serial_error = false →
      CHK_TIMEOUT_UI ilf.env.secs (SET_TIMEOUT_UI i0.env.secs DAV_TIMEOUT_SECS) = false →
      icr.env.serial_error = false →
      CHK_TIMEOUT_UI icr.env.secs (SET_TIMEOUT_UI i0.env.secs DAV_TIMEOUT_SECS) = false →
      (dav_run crc (i0 :: quiet) s0).rx ++ ilf.arrived = 10 :: r →
      r ++ icr.arrived = 13 :: r2 →
      (dav_run crc (i0 :: quiet ++ [ilf, icr]) s0).tx =
        s0.tx ++ List.replicate (wakeup_expiries i0.env.ms quiet + 1) 10 ++ command_line s0 ∧
      ((dav_run crc (i0 :: quiet ++ [ilf, icr]) s0).state = .DAV_AWAITING_ACK ∨
        (dav_run crc (i0 :: quiet ++ [ilf, icr]) s0).state = .DAV_AWAITING_OK) ∧
      (dav_step crc icr (dav_run crc (i0 :: quiet ++ [ilf]) s0)).2 = DAV_PENDING) ∧
    (∀ (ilf icr iack idat ichk : DavInput) (r buf : List Nat),
      s0.cmd_id = .DAV_CMD_COLLECT →
      ilf.env.serial_error = false →
      CHK_TIMEOUT_UI ilf.env.secs (SET_TIMEOUT_UI i0.env.secs DAV_TIMEOUT_SECS) = false →
      icr.env.serial_error = false →
      CHK_TIMEOUT_UI icr.env.secs (SET_TIMEOUT_UI i0.env.secs DAV_TIMEOUT_SECS) = false →
      iack.env.serial_error = false →
      CHK_TIMEOUT_UI iack.env.secs (SET_TIMEOUT_UI icr.env.secs DAV_TIMEOUT_SECS) = false →
      idat.env.serial_error = false →
      CHK_TIMEOUT_UI idat.env.secs (SET_TIMEOUT_UI iack.env.secs DAV_TIMEOUT_SECS) = false →
      ichk.env.serial_error = false →
      CHK_TIMEOUT_UI ichk.env.secs (SET_TIMEOUT_UI idat.env.secs DAV_TIMEOUT_SECS) = false →
      (dav_run crc (i0 :: quiet) s0).rx ++ ilf.arrived = 10 :: r →
      r ++ icr.arrived = [13] → iack.arrived = [DAV_ACK] → idat.arrived = buf →
      buf.length = DAV_DATA_LEN → (∀ b ∈ buf, b < 256) →
      loop_frame_ok buf → loop_crc_ok crc buf →
      (dav_step crc ichk (dav_run crc (i0 :: quiet ++ [ilf, icr, iack, idat]) s0)).2
        = DAV_SUCCESS ∧
      (dav_step crc ichk (dav_run crc (i0 :: quiet ++ [ilf, icr, iack, idat]) s0)).1.tx =
        s0.tx ++ List.replicate (wakeup_expiries i0.env.ms quiet + 1) 10 ++ command_line s0) := by
  have hshape : sent_shape s0.tx (command_line s0) s0 := by
    unfold sent_shape
    rw [hstate]
    exact ⟨rfl, rfl⟩
  -- the first tick
  have hstart : (dav_step crc i0 s0).1 =
      { s0 with attempt_count := 4, resp_tout := SET_TIMEOUT_UI i0.env.ms MAX_WAKEUP_MS, rx := [],
                tx := s0.tx ++ [10], state := .DAV_AWAITING_LF,
                timeout := SET_TIMEOUT_UI i0.env.secs DAV_TIMEOUT_SECS,
                condition := DAV_PENDING } := by
    unfold dav_step
    rw [dav_tick_starting crc i0.env { s0 with rx := s0.rx ++ i0.arrived } hstate herr0 hto0]
  obtain ⟨a1, a2, a3, a4, a5, a6, a7, a8⟩ := dav_run_quiet crc quiet
    { s0 with attempt_count := 4, resp_tout := SET_TIMEOUT_UI i0.env.ms MAX_WAKEUP_MS, rx := [],
              tx := s0.tx ++ [10], state := .DAV_AWAITING_LF,
              timeout := SET_TIMEOUT_UI i0.env.secs DAV_TIMEOUT_SECS,
              condition := DAV_PENDING } i0.env.ms rfl rfl
    (fun b hb => absurd hb (List.not_mem_nil b)) hq hk
  have hrun : dav_run crc (i0 :: quiet) s0 = dav_run crc quiet
      { s0 with attempt_count := 4, resp_tout := SET_TIMEOUT_UI i0.env.ms MAX_WAKEUP_MS, rx := [],
                tx := s0.tx ++ [10], state := .DAV_AWAITING_LF,
                timeout := SET_TIMEOUT_UI i0.env.secs DAV_TIMEOUT_SECS,
                condition := DAV_PENDING } := by
    rw [dav_run_cons, hstart]
  rw [← hrun] at a1 a2 a3 a4 a5 a6 a7 a8
  have htx : (dav_run crc (i0 :: quiet) s0).tx =
      s0.tx ++ List.replicate (wakeup_expiries i0.env.ms quiet + 1) 10 := by
    rw [a3]
    show (s0.tx ++ [10]) ++ _ = _
    rw [List.append_assoc, List.replicate_succ]
    rfl
  have hcl : command_line (dav_run crc (i0 :: quiet) s0) = command_line s0 := a7
  have hac : (dav_run crc (i0 :: quiet) s0).attempt_count = 4 - wakeup_expiries i0.env.ms quiet := a2
  have htmo : (dav_run crc (i0 :: quiet) s0).timeout = SET_TIMEOUT_UI i0.env.secs DAV_TIMEOUT_SECS := a5
  have hX2 : ∀ ilf icr : DavInput, dav_run crc (i0 :: quiet ++ [ilf, icr]) s0 =
      (dav_step crc icr (dav_step crc ilf (dav_run crc (i0 :: quiet) s0)).1).1 := by
    intro ilf icr
    rw [show i0 :: quiet ++ [ilf, icr] = (i0 :: quiet) ++ [ilf, icr] from rfl, dav_run_append]
    rfl
  have hX1 : ∀ ilf : DavInput, dav_run crc (i0 :: quiet ++ [ilf]) s0 =
      (dav_step crc ilf (dav_run crc (i0 :: quiet) s0)).1 := by
    intro ilf
    rw [show i0 :: quiet ++ [ilf] = (i0 :: quiet) ++ [ilf] from rfl, dav_run_append]
    rfl
  have hX4 : ∀ ilf icr iack idat : DavInput,
      dav_run crc (i0 :: quiet ++ [ilf, icr, iack, idat]) s0 =
      (dav_step crc idat (dav_step crc iack
        (dav_step crc icr (dav_step crc ilf (dav_run crc (i0 :: quiet) s0)).1).1).1).1 := by
    intro ilf icr iack idat
    rw [show i0 :: quiet ++ [ilf, icr, iack, idat] = (i0 :: quiet) ++ [ilf, icr, iack, idat]
      from rfl, dav_run_append]
    rfl
  have hcid : (dav_run crc (i0 :: quiet) s0).cmd_id = s0.cmd_id := a8
  clear hrun
  generalize dav_run crc (i0 :: quiet) s0 = S at a1 a4 a6 htx hcl hac htmo hX1 hX2 hX4 hcid ⊢
  have hreply : ∀ (ilf icr : DavInput) (r r2 : List Nat),
      ilf.env.serial_error = false →
      CHK_TIMEOUT_UI ilf.env.secs (SET_TIMEOUT_UI i0.env.secs DAV_TIMEOUT_SECS) = false →
      icr.env.serial_error = false →
      CHK_TIMEOUT_UI icr.env.secs (SET_TIMEOUT_UI i0.env.secs DAV_TIMEOUT_SECS) = false →
      S.rx ++ ilf.arrived = 10 :: r → r ++ icr.arrived = 13 :: r2 →
      (dav_step crc icr (dav_step crc ilf S).1).1.tx =
        s0.tx ++ List.replicate (wakeup_expiries i0.env.ms quiet + 1) 10 ++ command_line s0 ∧
      (dav_step crc icr (dav_step crc ilf S).1).1.state =
        (set_post_cmd_state S).state ∧
      (dav_step crc icr (dav_step crc ilf S).1).1.rx = [] ∧
      (dav_step crc icr (dav_step crc ilf S).1).1.timeout =
        SET_TIMEOUT_UI icr.env.secs DAV_TIMEOUT_SECS ∧
      (dav_step crc icr (dav_step crc ilf S).1).1.cmd_id = S.cmd_id ∧
      (dav_step crc icr (dav_step crc ilf S).1).2 = DAV_PENDING := by
    intro ilf icr r r2 e1 e2 e3 e4 hlf hcr
    have hlfstep : (dav_step crc ilf S).1 =
        { S with rx := r, state := .DAV_AWAITING_CR, condition := DAV_PENDING } := by
      unfold dav_step
      rw [dav_tick_awaiting_lf_reply crc ilf.env { S with rx := S.rx ++ ilf.arrived } r a1 hlf e1
        (by show CHK_TIMEOUT_UI ilf.env.secs S.timeout = false; rw [htmo]; exact e2)]
      rfl
    rw [hlfstep]
    unfold dav_step
    rw [dav_tick_awaiting_cr_reply crc icr.env _ r2 rfl hcr e3
      (by show CHK_TIMEOUT_UI icr.env.secs S.timeout = false; rw [htmo]; exact e4)]
    have e : ∀ u : DavState, (set_post_cmd_state u).tx = u.tx ∧
        (set_post_cmd_state u).rx = u.rx ∧ (set_post_cmd_state u).cmd_id = u.cmd_id := by
      intro u; unfold set_post_cmd_state; split <;> exact ⟨rfl, rfl, rfl⟩
    refine ⟨?_, ?_, ?_, rfl, ?_, rfl⟩
    · show (set_post_cmd_state (send_command icr.env _)).tx = _
      rw [(e _).1, send_command_tx]
      show S.tx ++ command_line S = _
      rw [htx, hcl]
    · show (set_post_cmd_state (send_command icr.env _)).state = _
      have es : ∀ u v : DavState, u.cmd_id = v.cmd_id →
          (set_post_cmd_state u).state = (set_post_cmd_state v).state := by
        intro u v h
        cases hv : v.cmd_id <;> simp [set_post_cmd_state, h, hv]
      exact es _ _ rfl
    · show (set_post_cmd_state (send_command icr.env _)).rx = _
      rw [(e _).2.1]
      rfl
    · show (set_post_cmd_state (send_command icr.env _)).cmd_id = _
      rw [(e _).2.2]
      rfl
  refine ⟨fun ins => (sent_shape_run crc _ _ ins s0 hshape).sent_rest, ⟨a1, htx⟩, ?_, ?_, ?_⟩
  · intro i e1 e2 e3
    have hall : ∀ b ∈ S.rx ++ i.arrived, b ≠ 10 := by
      intro b hb
      rcases List.mem_append.mp hb with h | h
      · exact a6 b h
      · exact e3 b h
    unfold dav_step
    rw [dav_tick_awaiting_lf_quiet crc i.env { S with rx := S.rx ++ i.arrived } a1
      (head_ne_of_all _ hall) e1 (by show CHK_TIMEOUT_UI i.env.secs S.timeout = false; rw [htmo]; exact e2)]
    have hT1 : ({ S with rx := S.rx ++ i.arrived } : DavState).resp_tout =
        SET_TIMEOUT_UI (last_wakeup_ms i0.env.ms quiet) MAX_WAKEUP_MS := a4
    have hT2 : ({ S with rx := S.rx ++ i.arrived } : DavState).attempt_count =
        4 - wakeup_expiries i0.env.ms quiet := hac
    rw [hT1, hT2]
    by_cases hx : CHK_TIMEOUT_UI i.env.ms
        (SET_TIMEOUT_UI (last_wakeup_ms i0.env.ms quiet) MAX_WAKEUP_MS) = true
    · rw [if_pos hx]
      by_cases h4 : wakeup_expiries i0.env.ms quiet = 4
      · rw [if_pos (by omega)]
        exact ⟨fun _ => ⟨h4, hx⟩, fun _ => rfl⟩
      · rw [if_neg (by omega)]
        exact ⟨fun h => absurd h (by rw [dav_pending_ret]; decide), fun h => absurd h.1 h4⟩
    · rw [if_neg hx]
      exact ⟨fun h => absurd h (by rw [dav_pending_ret]; decide), fun h => absurd h.2 hx⟩
  · intro ilf icr r r2 e1 e2 e3 e4 hlf hcr
    rw [hX2, hX1]
    obtain ⟨p1, p2, _, _, _, p6⟩ := hreply ilf icr r r2 e1 e2 e3 e4 hlf hcr
    refine ⟨p1, ?_, p6⟩
    rw [p2]
    unfold set_post_cmd_state
    split
    · right; rfl
    · right; rfl
    · left; rfl
  · intro ilf icr iack idat ichk r buf hcmd e1 e2 e3 e4 e5 e6 e7 e8 e9 e10 hlf hcr hack hdat hlen
      hb hf hc
    rw [hX4]
    obtain ⟨p1, p2, p3, p4, p5, _⟩ := hreply ilf icr r [] e1 e2 e3 e4 hlf hcr
    have p2' : (dav_step crc icr (dav_step crc ilf S).1).1.state = .DAV_AWAITING_ACK := by
      rw [p2]
      unfold set_post_cmd_state
      rw [hcid, hcmd]
    generalize (dav_step crc icr (dav_step crc ilf S).1).1 = T at p1 p2' p3 p4 p5 ⊢
    obtain ⟨q1, q2, _, _⟩ := dav_collect_completes crc T iack idat ichk buf p2'
      (by rw [p5, hcid, hcmd]) (by rw [p3, hack]; rfl) e5 (by rw [p4]; exact e6) e7 e8 e9 e10
      hdat hlen hb hf hc
    exact ⟨q1, q2.trans p1⟩


/-- C18, at a concrete input (scenario S2): a Collect command gets no answer
to three wakeups, each followed by 1200 ms of silence, and reads LF CR after
the fourth; the bytes sent are then four wakeups and the line "LOOP 1". -/
theorem dav_wakeups_witness :
    (dav_run crc_calculate
        (⟨dav_env_ms 0 0, []⟩ :: dav_three_expiries ++
          [⟨dav_env_ms 3700 0, [10, 13]⟩, ⟨dav_env_ms 3701 0, []⟩])
        (dav_start_collect (dav_env_ms 0 0) dav_initial)).tx =
      [10, 10, 10, 10, 76, 79, 79, 80, 32, 49, 10] :=
  (((dav_wakeups crc_calculate (dav_start_collect (dav_env_ms 0 0) dav_initial)
    ⟨dav_env_ms 0 0, []⟩ dav_three_expiries rfl rfl (by decide) (by decide) (by decide)).2.2.2.1
    ⟨dav_env_ms 3700 0, [10, 13]⟩ ⟨dav_env_ms 3701 0, []⟩ [13] []
    rfl (by decide) rfl (by decide) (by decide) (by decide)).1).trans (by decide)

/-! ## The POST transaction -/

theorem c_str_idem (l : List Nat) : c_str (c_str l) = c_str l := by
  unfold c_str
  induction l with
  | nil => rfl
  | cons a t ih =>
    by_cases h : a = 0
    · simp [h]
    · simp [h, ih]

theorem c_str_nonzero (l : List Nat) : ∀ c ∈ c_str l, c ≠ 0 := by
  intro c hc
  have := List.mem_takeWhile_imp hc
  simpa using this

theorem received_line_c_str (env : PostEnv) : c_str (received_line env) = received_line env := by
  apply c_str_self
  intro c hc
  exact c_str_nonzero env.sock_gets c (List.mem_of_mem_take hc)

theorem strnicmp_eq_begins (l kw : List Nat) (hl : c_str l = l) (hk : c_str kw = kw) :
    strnicmp_eq l kw kw.length = begins_nocase l kw := by
  unfold strnicmp_eq begins_nocase
  rw [hl, hk, List.take_length]

theorem drop_takeWhile_length (p : Nat → Bool) (l : List Nat) :
    l.drop (l.takeWhile p).length = l.dropWhile p := by
  induction l with
  | nil => rfl
  | cons a t ih =>
    by_cases h : p a = true
    · simp [List.takeWhile_cons, List.dropWhile_cons, h, ih]
    · simp [List.takeWhile_cons, List.dropWhile_cons, h]

/-- The common part of a tick of `post_tick` in a state that is not idle, when
the connection is not lost and the timer has not run out. -/
theorem post_tick_switch_eq (env : PostEnv) (s : PostState) (hidle : s.state ≠ .POST_IDLE)
    (hconn : s.sock_opened = true → s.state ≠ .POST_READING_BODY → env.tcp_tick = true)
    (hto : CHK_TIMEOUT_UI env.secs s.timeout = false) :
    post_tick env s = post_tick_switch env s := by
  unfold post_tick
  rw [if_neg hidle, if_neg, hto, if_neg (by decide)]
  intro h
  have := hconn h.1 h.2.1
  exact h.2.2 this

theorem get_response_line (env : PostEnv) (s : PostState) (h : env.sock_bytesready ≠ -1) :
    get_response env s = ({ s with cmd_buf := received_line env }, 1) := by
  unfold get_response received_line
  rw [if_neg h]

theorem get_response_none (env : PostEnv) (s : PostState) (h : env.sock_bytesready = -1) :
    get_response env s = (s, 0) := by
  unfold get_response
  rw [if_pos h]

/-- Function `check_resp_status` in terms of the line in the command buffer. -/
theorem check_resp_status_eq (s : PostState) (hl : c_str s.cmd_buf = s.cmd_buf) :
    check_resp_status s =
      if begins_nocase s.cmd_buf HTTP_SLASH = true then
        match after_first_blank_run s.cmd_buf with
        | none =>
          ({ s with bb_post_error_str := "Delimiting space not found in status response" }, -2)
        | some cls =>
          if cls < 49 ∨ cls > 53 then
            ({ s with bb_post_error_str := "Unexpected class digit" }, -4)
          else ({ s with resp_class := cls - 48 }, 0)
      else ({ s with bb_post_error_str := "HTTP header not found in status response" }, -1) := by
  have hb : strnicmp_eq s.cmd_buf HTTP_SLASH 5 = begins_nocase s.cmd_buf HTTP_SLASH :=
    strnicmp_eq_begins s.cmd_buf HTTP_SLASH hl (by decide)
  unfold check_resp_status
  simp only [hl, hb]
  by_cases h : begins_nocase s.cmd_buf HTTP_SLASH = true
  · rw [if_neg (not_not.mpr h), if_pos h]
    unfold after_first_blank_run
    have hfun : (fun c => !(c == 32 || c == 9)) = (fun c => !is_blank c) := rfl
    have hfun2 : (fun c => (c == 32 || c == 9)) = is_blank := rfl
    rw [hfun, hfun2]
    cases hd : List.dropWhile (fun c => !is_blank c) s.cmd_buf with
    | nil => simp
    | cons a rest =>
      have ha : is_blank a = true := by
        have := List.head_dropWhile_not (fun c => !is_blank c) s.cmd_buf (by rw [hd]; simp)
        simpa [hd] using this
      have hcount : ¬ (List.takeWhile is_blank (a :: rest)).length ≤ 0 := by
        simp [List.takeWhile_cons, ha]
      have hdrop : List.drop (List.takeWhile is_blank (a :: rest)).length (a :: rest) =
          List.dropWhile is_blank (a :: rest) := drop_takeWhile_length is_blank (a :: rest)
      simp only [reduceCtorEq, if_false, hcount, hdrop]
  · rw [if_pos h, if_neg h]


/-- The tick in `POST_READING_STATUS` when a line has arrived. -/
theorem post_tick_reading_status (env : PostEnv) (s : PostState)
    (hstate : s.state = .POST_READING_STATUS)
    (hconn : s.sock_opened = true → env.tcp_tick = true)
    (hto : CHK_TIMEOUT_UI env.secs s.timeout = false)
    (hline : env.sock_bytesready ≠ -1) :
    post_tick env s =
      if (check_resp_status { s with cmd_buf := received_line env }).2 ≠ 0 then
        post_error { (check_resp_status { s with cmd_buf := received_line env }).1 with
          condition := POST_RESP_ERR }
      else if (check_resp_status { s with cmd_buf := received_line env }).1.resp_class ≠ 1 ∧
          (check_resp_status { s with cmd_buf := received_line env }).1.resp_class ≠ 2 then
        post_error { (check_resp_status { s with cmd_buf := received_line env }).1 with
          bb_post_error_str := "Remote server returned error class",
          condition := POST_SERVER_ERR }
      else post_pending (post_reset_timeout env
        { (check_resp_status { s with cmd_buf := received_line env }).1 with
          state := .POST_READING_HEADERS }) := by
  rw [post_tick_switch_eq env s (by rw [hstate]; decide) (fun h _ => hconn h) hto]
  cases s
  simp only at hstate
  subst hstate
  simp only [post_tick_switch, get_response_line env _ hline]
  rw [if_pos (show (1 : Nat) ≠ 0 from by decide)]


theorem post_cleanup_fields (s : PostState) :
    (post_cleanup s).condition = s.condition ∧ (post_cleanup s).state = s.state ∧
    (post_cleanup s).resp_class = s.resp_class ∧ (post_cleanup s).resp_result = s.resp_result ∧
    (post_cleanup s).timeout = s.timeout ∧ (post_cleanup s).sock_opened = false := by
  unfold post_cleanup
  by_cases h1 : s.dns > 0 <;> by_cases h2 : s.sock_opened = true <;> simp [h1, h2]

theorem post_error_fields (s : PostState) :
    (post_error s).2 = s.condition ∧ (post_error s).1.condition = s.condition ∧
    (post_error s).1.state = .POST_IDLE ∧ (post_error s).1.resp_class = s.resp_class ∧
    (post_error s).1.resp_result = s.resp_result := by
  obtain ⟨h1, _, h3, h4, _, _⟩ := post_cleanup_fields s
  exact ⟨h1, h1, rfl, h3, h4⟩

theorem check_resp_result_loop_eq (s : PostState) (hl : c_str s.cmd_buf = s.cmd_buf)
    (tbl : List (List Nat)) : ∀ (i : Nat), (∀ kw ∈ tbl, c_str kw = kw) →
    check_resp_result_loop s tbl i =
      match line_keyword_from s.cmd_buf tbl i with
      | none => (s, 0)
      | some k => ({ s with resp_result := k + 1 }, k + 1) := by
  induction tbl with
  | nil => intro i _; rfl
  | cons kw tbl ih =>
    intro i hk
    unfold check_resp_result_loop line_keyword_from
    rw [strnicmp_eq_begins s.cmd_buf kw hl (hk kw (List.mem_cons_self _ _))]
    by_cases hb : begins_nocase s.cmd_buf kw = true
    · rw [if_pos hb, if_pos hb]
    · rw [if_neg hb, if_neg hb]
      exact ih (i + 1) (fun x hx => hk x (List.mem_cons_of_mem _ hx))

theorem check_resp_result_eq (s : PostState) (hl : c_str s.cmd_buf = s.cmd_buf) :
    check_resp_result s =
      match line_keyword s.cmd_buf with
      | none => (s, 0)
      | some k => ({ s with resp_result := k + 1 }, k + 1) :=
  check_resp_result_loop_eq s hl post_resp 0 (by decide)

theorem check_resp_time_t_fields (s : PostState) :
    (check_resp_time_t s).1.cmd_buf = s.cmd_buf ∧ (check_resp_time_t s).1.state = s.state ∧
    (check_resp_time_t s).1.timeout = s.timeout ∧
    (check_resp_time_t s).1.resp_result = s.resp_result := by
  unfold check_resp_time_t
  split
  · exact ⟨rfl, rfl, rfl, rfl⟩
  · simp only []
    split
    · exact ⟨rfl, rfl, rfl, rfl⟩
    · split
      · exact ⟨rfl, rfl, rfl, rfl⟩
      · split <;> exact ⟨rfl, rfl, rfl, rfl⟩

/-- The tick in `POST_CHECKING_BODY`. -/
theorem post_tick_checking_body (env : PostEnv) (s : PostState)
    (hstate : s.state = .POST_CHECKING_BODY) (halive : env.tcp_tick = true)
    (hto : CHK_TIMEOUT_UI env.secs s.timeout = false) :
    ((env.sock_bytesready = -1 ∨ line_keyword (received_line env) = none) →
      (post_tick env s).1.state = .POST_CHECKING_BODY ∧
      (post_tick env s).1.timeout = s.timeout ∧ (post_tick env s).2 = POST_PENDING) ∧
    (∀ k, env.sock_bytesready ≠ -1 → line_keyword (received_line env) = some k →
      (post_tick env s).1.state = .POST_READING_BODY ∧
      (post_tick env s).1.resp_result = k + 1 ∧
      (post_tick env s).1.timeout = SET_TIMEOUT_UI env.secs POST_TIMEOUT_SECS ∧
      (post_tick env s).2 = POST_PENDING) := by
  rw [post_tick_switch_eq env s (by rw [hstate]; decide) (fun _ _ => halive) hto]
  have hsw : post_tick_switch env s =
      if (get_response env s).2 ≠ 0 then
        if (check_resp_result (check_resp_time_t (get_response env s).1).1).2 > 0 then
          post_pending (post_reset_timeout env
            { (check_resp_result (check_resp_time_t (get_response env s).1).1).1 with
              state := .POST_READING_BODY })
        else post_pending (check_resp_result (check_resp_time_t (get_response env s).1).1).1
      else post_pending (get_response env s).1 := by
    cases s
    simp only at hstate
    subst hstate
    rfl
  rw [hsw]
  by_cases hline : env.sock_bytesready = -1
  · rw [get_response_none env s hline]
    simp only [ne_eq, not_true_eq_false, if_false]
    exact ⟨fun _ => ⟨hstate, rfl, rfl⟩, fun k h => absurd hline h⟩
  · rw [get_response_line env s hline]
    simp only []
    rw [if_pos (show (1 : Nat) ≠ 0 from by decide)]
    obtain ⟨f1, f2, f3, f4⟩ := check_resp_time_t_fields { s with cmd_buf := received_line env }
    generalize check_resp_time_t { s with cmd_buf := received_line env } = t at f1 f2 f3 f4 ⊢
    have hl : c_str t.1.cmd_buf = t.1.cmd_buf := by rw [f1]; exact received_line_c_str env
    rw [check_resp_result_eq t.1 hl, f1]
    cases hk : line_keyword (received_line env) with
    | none =>
      simp only [gt_iff_lt, Nat.lt_irrefl, if_false]
      refine ⟨fun _ => ⟨?_, ?_, rfl⟩, fun k _ h => absurd h (by simp)⟩
      · show t.1.state = _
        rw [f2]; exact hstate
      · show t.1.timeout = _
        rw [f3]
    | some k =>
      simp only [gt_iff_lt, Nat.zero_lt_succ, if_true]
      refine ⟨fun h => ?_, fun k' _ h => ?_⟩
      · rcases h with h | h
        · exact absurd h hline
        · exact absurd h (by simp)
      · have : k = k' := Option.some.inj h
        subst this
        exact ⟨rfl, rfl, rfl, rfl⟩

/-- The tick in `POST_READING_BODY`. -/
theorem post_tick_reading_body (env : PostEnv) (s : PostState)
    (hstate : s.state = .POST_READING_BODY)
    (hto : CHK_TIMEOUT_UI env.secs s.timeout = false) :
    (env.tcp_tick = true →
      (post_tick env s).1.state = .POST_READING_BODY ∧
      (post_tick env s).1.resp_result = s.resp_result ∧
      (post_tick env s).1.timeout = s.timeout ∧ (post_tick env s).2 = POST_PENDING) ∧
    (env.tcp_tick = false →
      (post_tick env s).1.state = .POST_IDLE ∧
      (post_tick env s).1.condition = (post_tick env s).2 ∧
      (s.resp_result = RESP_SUCCESS → (post_tick env s).2 = POST_SUCCESS) ∧
      (s.resp_result = RESP_BAD_ID → (post_tick env s).2 = POST_BAD_ID) ∧
      (s.resp_result = RESP_BAD_DATA →
        (post_tick env s).2 = POST_SUCCESS ∧ (post_tick env s).1.led_davis = .LED_OFF) ∧
      (s.resp_result ≠ RESP_SUCCESS → s.resp_result ≠ RESP_BAD_ID →
        s.resp_result ≠ RESP_BAD_DATA → (post_tick env s).2 = POST_REJECTED)) := by
  rw [post_tick_switch_eq env s (by rw [hstate]; decide) (fun _ h => absurd hstate h) hto]
  constructor
  · intro halive
    have hsw : post_tick_switch env s = post_pending (get_response env s).1 := by
      cases s
      simp only at hstate
      subst hstate
      simp only [post_tick_switch, halive, not_true_eq_false, if_false]
    rw [hsw]
    unfold get_response
    split <;> exact ⟨hstate, rfl, rfl, rfl⟩
  · intro hclosed
    have hsw : post_tick_switch env s =
        if s.resp_result = RESP_SUCCESS then
          ({ s with sock_opened := false, led_post := .LED_GREEN,
                    bb_post_error_str := "Succeeded",
                    bb_post_error_state_num := (s.state.toNat : Int), state := .POST_IDLE,
                    condition := POST_SUCCESS }, POST_SUCCESS)
        else if s.resp_result = RESP_BAD_ID then
          post_error { s with sock_opened := false,
                              bb_post_error_str := "Station ID rejected by server",
                              condition := POST_BAD_ID }
        else if s.resp_result = RESP_BAD_DATA then
          ({ s with sock_opened := false, led_davis := .LED_OFF, led_post := .LED_GREEN,
                    bb_post_error_str := "Succeeded",
                    bb_post_error_state_num := (s.state.toNat : Int), state := .POST_IDLE,
                    condition := POST_SUCCESS }, POST_SUCCESS)
        else
          post_error { s with sock_opened := false,
                              bb_post_error_str := "Transaction rejected by server",
                              condition := POST_REJECTED } := by
      cases s
      simp only at hstate
      subst hstate
      simp only [post_tick_switch, hclosed, Bool.false_eq_true, not_false_eq_true, if_true]
    rw [hsw]
    by_cases h1 : s.resp_result = RESP_SUCCESS
    · rw [if_pos h1]
      refine ⟨rfl, rfl, fun _ => rfl, fun h => ?_, fun h => ?_, fun h => absurd h1 h⟩
      · rw [h1] at h; exact absurd h (by decide)
      · rw [h1] at h; exact absurd h (by decide)
    · rw [if_neg h1]
      by_cases h2 : s.resp_result = RESP_BAD_ID
      · rw [if_pos h2]
        obtain ⟨e1, e2, e3, _, _⟩ := post_error_fields
          { s with sock_opened := false, bb_post_error_str := "Station ID rejected by server",
                   condition := POST_BAD_ID }
        refine ⟨e3, e2.trans e1.symm, fun h => absurd h h1, fun _ => e1, fun h => ?_,
          fun _ h _ => absurd h2 h⟩
        rw [h2] at h; exact absurd h (by decide)
      · rw [if_neg h2]
        by_cases h3 : s.resp_result = RESP_BAD_DATA
        · rw [if_pos h3]
          exact ⟨rfl, rfl, fun h => absurd h h1, fun h => absurd h h2, fun _ => ⟨rfl, rfl⟩,
            fun _ _ h => absurd h3 h⟩
        · rw [if_neg h3]
          obtain ⟨e1, e2, e3, _, _⟩ := post_error_fields
            { s with sock_opened := false,
                     bb_post_error_str := "Transaction rejected by server",
                     condition := POST_REJECTED }
          exact ⟨e3, e2.trans e1.symm, fun h => absurd h h1, fun h => absurd h h2,
            fun h => absurd h h3, fun _ _ _ => e1⟩


theorem post_run_nil (s : PostState) : post_run [] s = s := rfl

theorem post_run_cons (e : PostEnv) (envs : List PostEnv) (s : PostState) :
    post_run (e :: envs) s = post_run envs (post_tick e s).1 := rfl

theorem post_run_append (a b : List PostEnv) (s : PostState) :
    post_run (a ++ b) s = post_run b (post_run a s) := by
  unfold post_run
  rw [List.foldl_append]

/-- Ticks in `POST_CHECKING_BODY` that bring no line with a keyword leave the
state and the timer as they are. -/
theorem post_run_checking_body (pre : List PostEnv) : ∀ (s : PostState),
    s.state = .POST_CHECKING_BODY →
    (∀ e ∈ pre, e.tcp_tick = true ∧ CHK_TIMEOUT_UI e.secs s.timeout = false ∧
      (e.sock_bytesready = -1 ∨ line_keyword (received_line e) = none)) →
    (post_run pre s).state = .POST_CHECKING_BODY ∧ (post_run pre s).timeout = s.timeout := by
  induction pre with
  | nil => intro s hs _; exact ⟨hs, rfl⟩
  | cons e pre ih =>
    intro s hs h
    obtain ⟨h1, h2, h3⟩ := h e (List.mem_cons_self _ _)
    obtain ⟨a1, a2, _⟩ := (post_tick_checking_body e s hs h1 h2).1 h3
    rw [post_run_cons]
    obtain ⟨b1, b2⟩ := ih (post_tick e s).1 a1 (fun x hx => by
      rw [a2]; exact h x (List.mem_cons_of_mem _ hx))
    exact ⟨b1, b2.trans a2⟩

/-- Ticks in `POST_READING_BODY` with the connection alive leave the state, the
captured keyword and the timer as they are. -/
theorem post_run_reading_body (post : List PostEnv) : ∀ (s : PostState),
    s.state = .POST_READING_BODY →
    (∀ e ∈ post, e.tcp_tick = true ∧ CHK_TIMEOUT_UI e.secs s.timeout = false) →
    (post_run post s).state = .POST_READING_BODY ∧
    (post_run post s).resp_result = s.resp_result ∧ (post_run post s).timeout = s.timeout := by
  induction post with
  | nil => intro s hs _; exact ⟨hs, rfl, rfl⟩
  | cons e post ih =>
    intro s hs h
    obtain ⟨h1, h2⟩ := h e (List.mem_cons_self _ _)
    obtain ⟨a1, a2, a3, _⟩ := (post_tick_reading_body e s hs h2).1 h1
    rw [post_run_cons]
    obtain ⟨b1, b2, b3⟩ := ih (post_tick e s).1 a1 (fun x hx => by
      rw [a3]; exact h x (List.mem_cons_of_mem _ hx))
    exact ⟨b1, b2.trans a2, b3.trans a3⟩

theorem line_keyword_from_lt (l : List Nat) (tbl : List (List Nat)) : ∀ (i k : Nat),
    line_keyword_from l tbl i = some k → i ≤ k ∧ k < i + tbl.length := by
  induction tbl with
  | nil => intro i k h; simp [line_keyword_from] at h
  | cons kw tbl ih =>
    intro i k h
    unfold line_keyword_from at h
    split at h
    · have : i = k := Option.some.inj h
      subst this
      simp
    · have := ih (i + 1) k h
      simp only [List.length_cons]
      omega

theorem line_keyword_lt (l : List Nat) (k : Nat) (h : line_keyword l = some k) : k < 4 := by
  have := line_keyword_from_lt l post_resp 0 k h
  have e : post_resp.length = 4 := rfl
  omega


theorem begins_nocase_at (l kw : List Nat) (h : begins_nocase l kw = true) (i : Nat)
    (hi : i < kw.length) : tolower (l.getD i 0) = tolower (kw.getD i 0) := by
  unfold begins_nocase at h
  have h' : (l.take kw.length).map tolower = kw.map tolower := by simpa using h
  have h2 := congrArg (fun x => x[i]?) h'
  simp only [List.getElem?_map, List.getElem?_take, hi, if_true] at h2
  rw [List.getD_eq_getElem?_getD, List.getD_eq_getElem?_getD]
  rw [List.getElem?_eq_getElem hi] at h2 ⊢
  cases hl : l[i]? with
  | none => rw [hl] at h2; simp at h2
  | some a =>
    rw [hl] at h2
    simp only [Option.map_some', Option.some.injEq] at h2
    simpa using h2

theorem line_keyword_from_none (l : List Nat) (tbl : List (List Nat)) : ∀ (i : Nat),
    (∀ kw ∈ tbl, begins_nocase l kw = false) → line_keyword_from l tbl i = none := by
  induction tbl with
  | nil => intro i _; rfl
  | cons kw tbl ih =>
    intro i h
    unfold line_keyword_from
    rw [h kw (List.mem_cons_self _ _)]
    simp only [Bool.false_eq_true, if_false]
    exact ih (i + 1) (fun x hx => h x (List.mem_cons_of_mem _ hx))

/-- A line begins with at most one keyword of `post_resp`, so the keyword a
line begins with is the one `check_resp_result` finds. -/
theorem line_keyword_of_begins (l kw : List Nat) (k : Nat) (hk : post_resp[k]? = some kw)
    (hb : begins_nocase l kw = true) : line_keyword l = some k := by
  have key : ∀ (kw' : List Nat) (i : Nat), i < kw.length → i < kw'.length →
      tolower (kw.getD i 0) ≠ tolower (kw'.getD i 0) → begins_nocase l kw' = false := by
    intro kw' i h1 h2 hne
    cases hb' : begins_nocase l kw' with
    | false => rfl
    | true =>
      exfalso
      have a := begins_nocase_at l kw hb i h1
      have b := begins_nocase_at l kw' hb' i h2
      exact hne (a.symm.trans b)
  unfold line_keyword post_resp
  match k, hk with
  | 0, hk =>
    have : kw = [83, 117, 99, 99, 101, 115, 115, 33] := (Option.some.inj hk).symm
    subst this
    simp only [line_keyword_from, hb, if_true]
  | 1, hk =>
    have : kw = [66, 97, 100, 32, 73, 68, 33] := (Option.some.inj hk).symm
    subst this
    have n0 := key [83, 117, 99, 99, 101, 115, 115, 33] 0 (by decide) (by decide) (by decide)
    simp only [line_keyword_from, hb, n0, if_true, Bool.false_eq_true, if_false]
  | 2, hk =>
    have : kw = [66, 97, 100, 32, 100, 97, 116, 97, 33] := (Option.some.inj hk).symm
    subst this
    have n0 := key [83, 117, 99, 99, 101, 115, 115, 33] 0 (by decide) (by decide) (by decide)
    have n1 := key [66, 97, 100, 32, 73, 68, 33] 4 (by decide) (by decide) (by decide)
    simp only [line_keyword_from, hb, n0, n1, if_true, Bool.false_eq_true, if_false]
  | 3, hk =>
    have : kw = [82, 101, 106, 101, 99, 116, 33] := (Option.some.inj hk).symm
    subst this
    have n0 := key [83, 117, 99, 99, 101, 115, 115, 33] 0 (by decide) (by decide) (by decide)
    have n1 := key [66, 97, 100, 32, 73, 68, 33] 0 (by decide) (by decide) (by decide)
    have n2 := key [66, 97, 100, 32, 100, 97, 116, 97, 33] 0 (by decide) (by decide) (by decide)
    simp only [line_keyword_from, hb, n0, n1, n2, if_true, Bool.false_eq_true, if_false]
  | k + 4, hk => simp [post_resp] at hk

/-- C10: in `POST_READING_STATUS`, for every received line L (with the
connection alive and the timer not run out): if L begins, ignoring case, with
"HTTP/" and the first character after the first run of spaces and tabs in L is
a digit d in '1'..'5', then `resp_class` becomes d and the transaction moves to
`POST_READING_HEADERS` when d is 1 or 2 and fails with `POST_SERVER_ERR` when d
is 3, 4 or 5; for every other line the transaction fails with
`POST_RESP_ERR`. -/
theorem post_reading_status_step (env : PostEnv) (s : PostState)
    (hstate : s.state = .POST_READING_STATUS)
    (hconn : s.sock_opened = true → env.tcp_tick = true)
    (hto : CHK_TIMEOUT_UI env.secs s.timeout = false)
    (hline : env.sock_bytesready ≠ -1) :
    (∀ d, begins_nocase (received_line env) HTTP_SLASH = true →
      after_first_blank_run (received_line env) = some d → 49 ≤ d → d ≤ 53 →
      (post_tick env s).1.resp_class = d - 48 ∧
      (d = 49 ∨ d = 50 →
        (post_tick env s).2 = POST_PENDING ∧
        (post_tick env s).1.condition = POST_PENDING ∧
        (post_tick env s).1.state = .POST_READING_HEADERS) ∧
      (d = 51 ∨ d = 52 ∨ d = 53 →
        (post_tick env s).2 = POST_SERVER_ERR ∧
        (post_tick env s).1.condition = POST_SERVER_ERR ∧
        (post_tick env s).1.state = .POST_IDLE)) ∧
    (¬ (begins_nocase (received_line env) HTTP_SLASH = true ∧
        ∃ d, after_first_blank_run (received_line env) = some d ∧ 49 ≤ d ∧ d ≤ 53) →
      (post_tick env s).2 = POST_RESP_ERR ∧
      (post_tick env s).1.condition = POST_RESP_ERR ∧
      (post_tick env s).1.state = .POST_IDLE) := by
  rw [post_tick_reading_status env s hstate hconn hto hline,
    check_resp_status_eq { s with cmd_buf := received_line env } (received_line_c_str env)]
  simp only []
  constructor
  · intro d hb hd h1 h2
    rw [if_pos hb, hd]
    simp only []
    rw [if_neg (show ¬ (d < 49 ∨ d > 53) from by omega)]
    simp only []
    rw [if_neg (show ¬ ((0 : Int) ≠ 0) from by decide)]
    by_cases hc : d = 49 ∨ d = 50
    · rw [if_neg (show ¬ (d - 48 ≠ 1 ∧ d - 48 ≠ 2) from by omega)]
      exact ⟨rfl, fun _ => ⟨rfl, rfl, rfl⟩, fun h => by omega⟩
    · rw [if_pos (show d - 48 ≠ 1 ∧ d - 48 ≠ 2 from by omega)]
      obtain ⟨e1, e2, e3, e4, _⟩ := post_error_fields
        { s with cmd_buf := received_line env, resp_class := d - 48,
                 bb_post_error_str := "Remote server returned error class",
                 condition := POST_SERVER_ERR }
      exact ⟨e4, fun h => absurd h hc, fun _ => ⟨e1, e2, e3⟩⟩
  · intro hn
    by_cases hb : begins_nocase (received_line env) HTTP_SLASH = true
    · rw [if_pos hb]
      cases hd : after_first_blank_run (received_line env) with
      | none =>
        simp only []
        rw [if_pos (show ((-2 : Int) ≠ 0) from by decide)]
        obtain ⟨e1, e2, e3, _, _⟩ := post_error_fields
          { s with cmd_buf := received_line env,
                   bb_post_error_str := "Delimiting space not found in status response",
                   condition := POST_RESP_ERR }
        exact ⟨e1, e2, e3⟩
      | some d =>
        have hbad : d < 49 ∨ d > 53 := by
          by_contra hc
          exact hn ⟨hb, d, hd, by omega, by omega⟩
        simp only []
        rw [if_pos hbad]
        simp only []
        rw [if_pos (show ((-4 : Int) ≠ 0) from by decide)]
        obtain ⟨e1, e2, e3, _, _⟩ := post_error_fields
          { s with cmd_buf := received_line env,
                   bb_post_error_str := "Unexpected class digit",
                   condition := POST_RESP_ERR }
        exact ⟨e1, e2, e3⟩
    · rw [if_neg hb]
      simp only []
      rw [if_pos (show ((-1 : Int) ≠ 0) from by decide)]
      obtain ⟨e1, e2, e3, _, _⟩ := post_error_fields
        { s with cmd_buf := received_line env,
                 bb_post_error_str := "HTTP header not found in status response",
                 condition := POST_RESP_ERR }
      exact ⟨e1, e2, e3⟩

/-- C10, at a concrete input: the status line "HTTP/1.1 404" received in
`POST_READING_STATUS` ends the transaction with `POST_SERVER_ERR`. -/
theorem post_reading_status_step_witness :
    (post_tick (post_env_line 1 true [72, 84, 84, 80, 47, 49, 46, 49, 32, 52, 48, 52])
      (post_state_in .POST_READING_STATUS)).2 = POST_SERVER_ERR :=
  ((((post_reading_status_step
      (post_env_line 1 true [72, 84, 84, 80, 47, 49, 46, 49, 32, 52, 48, 52])
      (post_state_in .POST_READING_STATUS) rfl (fun _ => rfl) (by decide) (by decide)).1
      52 (by decide) (by decide) (by decide) (by decide)).2.2) (Or.inr (Or.inl rfl))).1

/-- C9: for a response whose body is read until the server closes the
connection (the client is in `POST_CHECKING_BODY`, the state it enters after
a 2xx status line and the blank line that ends the headers): when the first
body line that begins, ignoring case, with one of the keywords of `post_resp`
begins with the keyword number `k`, the final status of the transaction is
Success for Success! (0) and for Bad data! (2), where the weather-station LED
is also switched off, `POST_BAD_ID` for Bad ID! (1) and `POST_REJECTED` for
Reject! (3); the lines `post` received after that line do not change the
result. In every tick the timer has not run out. -/
theorem post_result_by_first_keyword (s : PostState) (pre : List PostEnv) (ek : PostEnv)
    (post : List PostEnv) (efin : PostEnv) (k : Nat) (kw : List Nat)
    (hstate : s.state = .POST_CHECKING_BODY)
    (hpre : ∀ e ∈ pre, e.tcp_tick = true ∧ CHK_TIMEOUT_UI e.secs s.timeout = false ∧
      (e.sock_bytesready = -1 ∨ ∀ w ∈ post_resp, begins_nocase (received_line e) w = false))
    (hek : ek.tcp_tick = true ∧ CHK_TIMEOUT_UI ek.secs s.timeout = false ∧
      ek.sock_bytesready ≠ -1)
    (hkw : post_resp[k]? = some kw) (hbegins : begins_nocase (received_line ek) kw = true)
    (hpost : ∀ e ∈ post, e.tcp_tick = true ∧
      CHK_TIMEOUT_UI e.secs (SET_TIMEOUT_UI ek.secs POST_TIMEOUT_SECS) = false)
    (hfin : efin.tcp_tick = false ∧
      CHK_TIMEOUT_UI efin.secs (SET_TIMEOUT_UI ek.secs POST_TIMEOUT_SECS) = false) :
    (post_tick efin (post_run (pre ++ ek :: post) s)).1.state = .POST_IDLE ∧
    (post_tick efin (post_run (pre ++ ek :: post) s)).1.condition =
      (post_tick efin (post_run (pre ++ ek :: post) s)).2 ∧
    (k = 0 → (post_tick efin (post_run (pre ++ ek :: post) s)).2 = POST_SUCCESS) ∧
    (k = 1 → (post_tick efin (post_run (pre ++ ek :: post) s)).2 = POST_BAD_ID) ∧
    (k = 2 → (post_tick efin (post_run (pre ++ ek :: post) s)).2 = POST_SUCCESS ∧
      (post_tick efin (post_run (pre ++ ek :: post) s)).1.led_davis = .LED_OFF) ∧
    (k = 3 → (post_tick efin (post_run (pre ++ ek :: post) s)).2 = POST_REJECTED) := by
  have hpre' : ∀ e ∈ pre, e.tcp_tick = true ∧ CHK_TIMEOUT_UI e.secs s.timeout = false ∧
      (e.sock_bytesready = -1 ∨ line_keyword (received_line e) = none) := by
    intro e he
    obtain ⟨h1, h2, h3⟩ := hpre e he
    refine ⟨h1, h2, ?_⟩
    rcases h3 with h3 | h3
    · exact Or.inl h3
    · exact Or.inr (line_keyword_from_none _ post_resp 0 h3)
  obtain ⟨a1, a2⟩ := post_run_checking_body pre s hstate hpre'
  obtain ⟨b1, b2, b3, _⟩ := (post_tick_checking_body ek (post_run pre s) a1 hek.1
    (by rw [a2]; exact hek.2.1)).2 k hek.2.2 (line_keyword_of_begins _ kw k hkw hbegins)
  obtain ⟨c1, c2, c3⟩ := post_run_reading_body post (post_tick ek (post_run pre s)).1 b1
    (fun e he => by rw [b3]; exact hpost e he)
  have hrun : post_run (pre ++ ek :: post) s =
      post_run post (post_tick ek (post_run pre s)).1 := by
    rw [post_run_append, post_run_cons]
  rw [hrun]
  obtain ⟨d1, d2, d3, d4, d5, d6⟩ :=
    (post_tick_reading_body efin (post_run post (post_tick ek (post_run pre s)).1) c1
      (by rw [c3, b3]; exact hfin.2)).2 hfin.1
  have hres : (post_run post (post_tick ek (post_run pre s)).1).resp_result = k + 1 :=
    c2.trans b2
  refine ⟨d1, d2, fun h => ?_, fun h => ?_, fun h => ?_, fun h => ?_⟩
  · exact d3 (by rw [hres, h]; rfl)
  · exact d4 (by rw [hres, h]; rfl)
  · exact d5 (by rw [hres, h]; rfl)
  · exact d6 (by rw [hres, h]; decide) (by rw [hres, h]; decide) (by rw [hres, h]; decide)

/-- C9, at a concrete input: the body lines "", "bad id! (42)", "Success!"
followed by the close of the connection end the transaction with
`POST_BAD_ID`. -/
theorem post_result_by_first_keyword_witness :
    (post_tick (post_env_line 4 false [])
      (post_run ([post_env_line 1 true []] ++
          post_env_line 2 true [98, 97, 100, 32, 105, 100, 33, 32, 40, 52, 50, 41] ::
          [post_env_line 3 true [83, 117, 99, 99, 101, 115, 115, 33]])
        (post_state_in .POST_CHECKING_BODY))).2 = POST_BAD_ID :=
  (post_result_by_first_keyword (post_state_in .POST_CHECKING_BODY)
    [post_env_line 1 true []]
    (post_env_line 2 true [98, 97, 100, 32, 105, 100, 33, 32, 40, 52, 50, 41])
    [post_env_line 3 true [83, 117, 99, 99, 101, 115, 115, 33]]
    (post_env_line 4 false []) 1 [66, 97, 100, 32, 73, 68, 33]
    rfl (by decide) (by decide) rfl (by decide) (by decide) (by decide)).2.2.2.1 rfl

/-- The real-time clock and its flag after the tick in `POST_CHECKING_BODY`
that receives a line are those `check_resp_time_t` leaves. -/
theorem post_tick_checking_body_rtc (env : PostEnv) (s : PostState)
    (hstate : s.state = .POST_CHECKING_BODY) (halive : env.tcp_tick = true)
    (hto : CHK_TIMEOUT_UI env.secs s.timeout = false) (hline : env.sock_bytesready ≠ -1) :
    (post_tick env s).1.rtc = (check_resp_time_t { s with cmd_buf := received_line env }).1.rtc ∧
    (post_tick env s).1.rtc_validated =
      (check_resp_time_t { s with cmd_buf := received_line env }).1.rtc_validated := by
  rw [post_tick_switch_eq env s (by rw [hstate]; decide) (fun _ _ => halive) hto]
  have hsw : post_tick_switch env s =
      if (get_response env s).2 ≠ 0 then
        if (check_resp_result (check_resp_time_t (get_response env s).1).1).2 > 0 then
          post_pending (post_reset_timeout env
            { (check_resp_result (check_resp_time_t (get_response env s).1).1).1 with
              state := .POST_READING_BODY })
        else post_pending (check_resp_result (check_resp_time_t (get_response env s).1).1).1
      else post_pending (get_response env s).1 := by
    cases s
    simp only at hstate
    subst hstate
    rfl
  rw [hsw, get_response_line env s hline]
  simp only []
  rw [if_pos (show (1 : Nat) ≠ 0 from by decide)]
  obtain ⟨f1, _, _, _⟩ := check_resp_time_t_fields { s with cmd_buf := received_line env }
  generalize check_resp_time_t { s with cmd_buf := received_line env } = t at f1 ⊢
  have hl : c_str t.1.cmd_buf = t.1.cmd_buf := by rw [f1]; exact received_line_c_str env
  rw [check_resp_result_eq t.1 hl]
  cases line_keyword t.1.cmd_buf with
  | none =>
    simp only [gt_iff_lt, Nat.lt_irrefl, if_false]
    exact ⟨rfl, rfl⟩
  | some k =>
    simp only [gt_iff_lt, Nat.zero_lt_succ, if_true]
    exact ⟨rfl, rfl⟩

/-- Function `check_resp_time_t` on a line that begins with the label. -/
theorem check_resp_time_t_label (s : PostState) (hl : c_str s.cmd_buf = s.cmd_buf)
    (hlabel : begins_nocase s.cmd_buf RESP_LABEL_TIME_T = true) :
    check_resp_time_t s =
      if server_time_value s.cmd_buf = 0 then (s, -2)
      else if server_time_value s.cmd_buf = ULONG_MAX then (s, -3)
      else if rtc_diff s.rtc (server_time_value s.cmd_buf) < POST_MAX_DIFF_TIME_T then
        ({ s with rtc_validated := true }, 0)
      else ({ s with rtc := server_time_value s.cmd_buf, rtc_validated := false }, 1) := by
  unfold check_resp_time_t server_time_value
  rw [strnicmp_eq_begins s.cmd_buf RESP_LABEL_TIME_T hl (by decide), hlabel, hl]
  simp only [not_true_eq_false, if_false]

/-- C11: for every line received in `POST_CHECKING_BODY` (connection alive,
timer not run out) that begins, ignoring case, with "Server time =" and
carries the decimal value v: if v is zero (also for a non-numeric text) or the
saturated maximum `ULONG_MAX`, the real-time clock and `rtc_validated` are
unchanged; otherwise if the clock differs from v by less than 40 s the clock is
unchanged and `rtc_validated` becomes true; otherwise the clock is set to v and
`rtc_validated` becomes false. So the line never changes the clock to a value
less than 40 s away from its current value. -/
theorem post_server_time_rule (env : PostEnv) (s : PostState)
    (hstate : s.state = .POST_CHECKING_BODY) (halive : env.tcp_tick = true)
    (hto : CHK_TIMEOUT_UI env.secs s.timeout = false) (hline : env.sock_bytesready ≠ -1)
    (hlabel : begins_nocase (received_line env) RESP_LABEL_TIME_T = true) :
    ((server_time_value (received_line env) = 0 ∨
        server_time_value (received_line env) = ULONG_MAX) →
      (post_tick env s).1.rtc = s.rtc ∧ (post_tick env s).1.rtc_validated = s.rtc_validated) ∧
    (server_time_value (received_line env) ≠ 0 →
      server_time_value (received_line env) ≠ ULONG_MAX →
      rtc_diff s.rtc (server_time_value (received_line env)) < 40 →
      (post_tick env s).1.rtc = s.rtc ∧ (post_tick env s).1.rtc_validated = true) ∧
    (server_time_value (received_line env) ≠ 0 →
      server_time_value (received_line env) ≠ ULONG_MAX →
      40 ≤ rtc_diff s.rtc (server_time_value (received_line env)) →
      (post_tick env s).1.rtc = server_time_value (received_line env) ∧
      (post_tick env s).1.rtc_validated = false) ∧
    ((post_tick env s).1.rtc ≠ s.rtc → 40 ≤ rtc_diff s.rtc (post_tick env s).1.rtc) := by
  obtain ⟨e1, e2⟩ := post_tick_checking_body_rtc env s hstate halive hto hline
  rw [e1, e2, check_resp_time_t_label { s with cmd_buf := received_line env }
    (received_line_c_str env) hlabel]
  simp only []
  by_cases h0 : server_time_value (received_line env) = 0
  · rw [if_pos h0]
    exact ⟨fun _ => ⟨rfl, rfl⟩, fun h => absurd h0 h, fun h => absurd h0 h,
      fun h => absurd rfl h⟩
  · rw [if_neg h0]
    by_cases hm : server_time_value (received_line env) = ULONG_MAX
    · rw [if_pos hm]
      exact ⟨fun _ => ⟨rfl, rfl⟩, fun _ h => absurd hm h, fun _ h => absurd hm h,
        fun h => absurd rfl h⟩
    · rw [if_neg hm]
      by_cases hd : rtc_diff s.rtc (server_time_value (received_line env)) < POST_MAX_DIFF_TIME_T
      · rw [if_pos hd]
        refine ⟨fun h => ?_, fun _ _ _ => ⟨rfl, rfl⟩, fun _ _ h => ?_, fun h => absurd rfl h⟩
        · rcases h with h | h
          · exact absurd h h0
          · exact absurd h hm
        · unfold POST_MAX_DIFF_TIME_T at hd; omega
      · rw [if_neg hd]
        refine ⟨fun h => ?_, fun _ _ h => ?_, fun _ _ _ => ⟨rfl, rfl⟩, fun _ => ?_⟩
        · rcases h with h | h
          · exact absurd h h0
          · exact absurd h hm
        · unfold POST_MAX_DIFF_TIME_T at hd; omega
        · show 40 ≤ rtc_diff s.rtc (server_time_value (received_line env))
          unfold POST_MAX_DIFF_TIME_T at hd; omega



/-- C11, at a concrete input: the line "Server time = 1700000000" received
with the clock at 0 sets the clock to that value and clears
`rtc_validated`. -/
theorem post_server_time_rule_witness :
    (post_tick (post_env_line 1 true (lit "Server time = 1700000000"))
      (post_state_in .POST_CHECKING_BODY)).1.rtc =
        server_time_value (received_line (post_env_line 1 true (lit "Server time = 1700000000"))) ∧
    (post_tick (post_env_line 1 true (lit "Server time = 1700000000"))
      (post_state_in .POST_CHECKING_BODY)).1.rtc_validated = false :=
  (post_server_time_rule (post_env_line 1 true (lit "Server time = 1700000000"))
    (post_state_in .POST_CHECKING_BODY) rfl rfl (by decide) (by decide) (by decide)).2.2.1
    (by decide) (by decide) (by decide)

/-! ## The POST body of the supervisor -/

theorem fmt_u_eq (n : Nat) : fmt_u n = (Nat.toDigits 10 n).map Char.toNat := rfl

theorem digitChar_digit (k : Nat) (h : k < 10) :
    48 ≤ (Nat.digitChar k).toNat ∧ (Nat.digitChar k).toNat ≤ 57 := by
  interval_cases k <;> decide

theorem toDigitsCore_digits : ∀ (fuel n : Nat) (ds : List Char),
    (∀ c ∈ ds, 48 ≤ c.toNat ∧ c.toNat ≤ 57) →
    ∀ c ∈ Nat.toDigitsCore 10 fuel n ds, 48 ≤ c.toNat ∧ c.toNat ≤ 57 := by
  intro fuel
  induction fuel with
  | zero => intro n ds h; simpa [Nat.toDigitsCore] using h
  | succ fuel ih =>
    intro n ds h
    have hd := digitChar_digit (n % 10) (Nat.mod_lt _ (by decide))
    have hds : ∀ c ∈ Nat.digitChar (n % 10) :: ds, 48 ≤ c.toNat ∧ c.toNat ≤ 57 := by
      intro c hc
      rcases List.mem_cons.mp hc with h1 | h1
      · rw [h1]; exact hd
      · exact h c h1
    unfold Nat.toDigitsCore
    simp only []
    split
    · exact hds
    · exact ih _ _ hds

theorem toDigitsCore_length_ge : ∀ (fuel n : Nat) (ds : List Char),
    ds.length ≤ (Nat.toDigitsCore 10 fuel n ds).length := by
  intro fuel
  induction fuel with
  | zero => intro n ds; simp [Nat.toDigitsCore]
  | succ fuel ih =>
    intro n ds
    unfold Nat.toDigitsCore
    simp only []
    split
    · simp
    · exact Nat.le_trans (by simp) (ih _ _)

theorem toDigitsCore_length_le : ∀ (fuel n k : Nat) (ds : List Char), 1 ≤ k → n < 10 ^ k →
    (Nat.toDigitsCore 10 fuel n ds).length ≤ ds.length + k := by
  intro fuel
  induction fuel with
  | zero => intro n k ds _ _; simp [Nat.toDigitsCore]
  | succ fuel ih =>
    intro n k ds hk hn
    unfold Nat.toDigitsCore
    simp only []
    split
    · simp; omega
    · rename_i hne
      have hk2 : 2 ≤ k := by
        by_contra hc
        have : k = 1 := by omega
        subst this
        have : n / 10 = 0 := Nat.div_eq_of_lt (by simpa using hn)
        exact hne this
      have hlt : n / 10 < 10 ^ (k - 1) := by
        rw [Nat.div_lt_iff_lt_mul (by decide)]
        calc n < 10 ^ k := hn
          _ = 10 ^ (k - 1 + 1) := by rw [Nat.sub_add_cancel (by omega)]
          _ = 10 ^ (k - 1) * 10 := by rw [Nat.pow_succ]
      have := ih (n / 10) (k - 1) (Nat.digitChar (n % 10) :: ds) (by omega) hlt
      simp only [List.length_cons] at this
      omega

/-- The decimal text of a number: digits only, at least one, at most `k` for
a number below `10 ^ k`. -/
theorem fmt_u_spec (n : Nat) :
    (∀ c ∈ fmt_u n, 48 ≤ c ∧ c ≤ 57) ∧ 1 ≤ (fmt_u n).length ∧
    (∀ k, 1 ≤ k → n < 10 ^ k → (fmt_u n).length ≤ k) := by
  rw [fmt_u_eq]
  refine ⟨?_, ?_, ?_⟩
  · intro c hc
    obtain ⟨d, hd, rfl⟩ := List.mem_map.mp hc
    exact toDigitsCore_digits _ _ [] (fun _ h => absurd h (List.not_mem_nil _)) d hd
  · rw [List.length_map]
    unfold Nat.toDigits Nat.toDigitsCore
    simp only []
    split
    · simp
    · exact Nat.le_trans (by simp) (toDigitsCore_length_ge _ _ _)
  · intro k hk hn
    rw [List.length_map]
    have := toDigitsCore_length_le (n + 1) n k [] hk hn
    simpa [Nat.toDigits] using this

theorem isalnum_of_digit (c : Nat) (h : 48 ≤ c ∧ c ≤ 57) : isalnum c = true := by
  unfold isalnum
  simp only [Bool.or_eq_true, Bool.and_eq_true, decide_eq_true_eq]
  omega

/-- A text of letters and digits is its own url-encoding. -/
theorem enc_plain (l : List Nat) (h : ∀ c ∈ l, isalnum c = true) : enc l = l := by
  induction l with
  | nil => exact enc_nil
  | cons c t ih =>
    have hc := h c (List.mem_cons_self c t)
    have hne : c ≠ 0 := by
      intro h0; subst h0; simp [isalnum] at hc
    rw [enc_cons_ne c t hne, ih (fun d hd => h d (List.mem_cons_of_mem c hd))]
    unfold enc_char
    rw [if_pos hc]
    rfl

theorem enc_char_length (c : Nat) : (enc_char c).length ≤ 3 := by
  unfold enc_char
  split
  · simp
  · split <;> simp

/-- The url-encoding is at most three times as long as the string. -/
theorem enc_length_le (l : List Nat) : (enc l).length ≤ 3 * (c_str l).length := by
  unfold enc
  induction c_str l with
  | nil => simp
  | cons c t ih =>
    rw [List.flatMap_cons, List.length_append, List.length_cons]
    have := enc_char_length c
    omega

/-- A pair that fits is accepted and appended after the separator. -/
theorem post_add_variable_fits (s : PostState) (name value : List Nat) (hexlen : Nat)
    (hs : s.body_buf_size ≤ 32768) (hp : s.body_pos < s.body_buf_size)
    (h0 : s.body_buf s.body_pos = 0)
    (hn : ∀ c ∈ name, c < 256) (hv : ∀ c ∈ value, c < 256)
    (hname : name.headD 0 ≠ 0) (hval : ¬ (hexlen = 0 ∧ value.headD 0 = 0))
    (hlen : hexlen ≤ value.length)
    (hfit : s.body_pos + (sep s ++ pair_text name value hexlen).length < s.body_buf_size) :
    (post_add_variable s name value hexlen).2 = 0 ∧
    Appended s (post_add_variable s name value hexlen).1 (sep s ++ pair_text name value hexlen) := by
  have h2 : 2 * hexlen ≤ (sep s ++ pair_text name value hexlen).length := by
    unfold pair_text
    by_cases hz : hexlen = 0
    · subst hz; omega
    · rw [if_neg hz]
      simp only [List.length_append, hex_text_length, List.length_take, Nat.min_eq_left hlen]
      omega
  rcases post_add_variable_spec s name value hexlen (by omega) hp h0 hn hv with
    ⟨a, _, _, b⟩ | ⟨_, _, b⟩ | ⟨_, b⟩ | ⟨_, b1, b2, b3⟩
  · exact ⟨a, b hlen (by omega)⟩
  · exact absurd (b hlen) (by omega)
  · exact absurd b hname
  · exact absurd ⟨b2, b3⟩ hval

/-- The first pair of a body: appended at the start of the cleared buffer. -/
theorem chain_first (p0 : PostState) (name value : List Nat) (hexlen : Nat)
    (hpos0 : p0.body_pos = 0) (hs : p0.body_buf_size ≤ 32768) (h0 : p0.body_buf 0 = 0)
    (hn : ∀ c ∈ name, c < 256) (hv : ∀ c ∈ value, c < 256)
    (hname : name.headD 0 ≠ 0) (hval : ¬ (hexlen = 0 ∧ value.headD 0 = 0))
    (hlen : hexlen ≤ value.length)
    (hfit : (pair_text name value hexlen).length < p0.body_buf_size) :
    (post_add_variable p0 name value hexlen).2 = 0 ∧
    Appended p0 (post_add_variable p0 name value hexlen).1 (pair_text name value hexlen) := by
  have hsep : sep p0 = [] := by unfold sep; rw [if_pos hpos0]
  have := post_add_variable_fits p0 name value hexlen hs (by rw [hpos0]; omega)
    (by rw [hpos0]; exact h0) hn hv hname hval hlen (by rw [hsep, hpos0]; simpa using hfit)
  rw [hsep, List.nil_append] at this
  exact this

/-- A further pair of a body: appended after a `&`. -/
theorem chain_step (p0 t : PostState) (o name value : List Nat) (hexlen : Nat)
    (hA : Appended p0 t o) (hpos0 : p0.body_pos = 0) (hs : p0.body_buf_size ≤ 32768)
    (ho : o ≠ [])
    (hn : ∀ c ∈ name, c < 256) (hv : ∀ c ∈ value, c < 256)
    (hname : name.headD 0 ≠ 0) (hval : ¬ (hexlen = 0 ∧ value.headD 0 = 0))
    (hlen : hexlen ≤ value.length)
    (hfit : o.length + 1 + (pair_text name value hexlen).length < p0.body_buf_size) :
    (post_add_variable t name value hexlen).2 = 0 ∧
    Appended p0 (post_add_variable t name value hexlen).1
      (o ++ ([38] ++ pair_text name value hexlen)) := by
  have hpos : t.body_pos = o.length := by rw [hA.pos, hpos0, Nat.zero_add]
  have hne : t.body_pos ≠ 0 := by
    rw [hpos]
    exact fun h => ho (List.length_eq_zero.mp h)
  have hsep : sep t = [38] := by unfold sep; rw [if_neg hne]
  have := post_add_variable_fits t name value hexlen (by rw [hA.size]; exact hs) hA.room hA.nul
    hn hv hname hval hlen (by
      rw [hsep, hpos, hA.size, List.length_append, List.length_singleton]
      omega)
  rw [hsep] at this
  exact ⟨this.1, hA.trans this.2⟩

theorem lit_lt_of_digits (l : List Nat) (h : ∀ c ∈ l, 48 ≤ c ∧ c ≤ 57) :
    (∀ c ∈ l, c < 256) ∧ (∀ c ∈ l, isalnum c = true) :=
  ⟨fun c hc => by have := h c hc; omega, fun c hc => isalnum_of_digit c (h c hc)⟩

theorem headD_ne_of_digits (l : List Nat) (h : ∀ c ∈ l, 48 ≤ c ∧ c ≤ 57) (hl : 1 ≤ l.length) :
    l.headD 0 ≠ 0 := by
  cases l with
  | nil => simp at hl
  | cons a t =>
    have := h a (List.mem_cons_self a t)
    simp only [List.headD_cons]
    omega

/-- A pair with a decimal number as its value. -/
theorem pair_text_number (name : List Nat) (x : Nat) :
    pair_text name (fmt_u x) 0 = enc name ++ [61] ++ fmt_u x := by
  unfold pair_text
  rw [if_pos rfl, enc_plain _ (lit_lt_of_digits _ (fmt_u_spec x).1).2]

theorem check_str_len_zero : ∀ (k : Nat) (str : List Nat), check_str_len str k = 0 →
    (c_str str).length < k := by
  intro k
  induction k with
  | zero => intro str h; simp [check_str_len] at h
  | succ k ih =>
    intro str h
    unfold check_str_len at h
    cases str with
    | nil => simp [c_str]
    | cons a t =>
      simp only [List.headD_cons, List.tail_cons] at h
      by_cases ha : a = 0
      · subst ha; rw [c_str_cons_zero]; simp
      · rw [if_neg ha] at h
        rw [c_str_cons_ne a t ha, List.length_cons]
        have := ih t h
        omega

theorem c_str_length_le (l : List Nat) : (c_str l).length ≤ l.length := by
  unfold c_str
  exact (List.takeWhile_sublist _).length_le

theorem c_str_mem (l : List Nat) (c : Nat) (h : c ∈ c_str l) : c ∈ l := by
  unfold c_str at h
  exact (List.takeWhile_sublist _).subset h

theorem fmt_d_spec (x : Int) (h1 : -32768 ≤ x) (h2 : x ≤ 32767) :
    (∀ c ∈ fmt_d x, c < 256) ∧ (fmt_d x).length ≤ 6 := by
  have hn : x.natAbs < 10 ^ 5 := by omega
  obtain ⟨d1, _, d3⟩ := fmt_u_spec x.natAbs
  have hl := d3 5 (by decide) hn
  unfold fmt_d
  split
  · refine ⟨fun c hc => ?_, ?_⟩
    · rcases List.mem_cons.mp hc with h | h
      · rw [h]; decide
      · have := d1 c h; omega
    · show (lit (toString x.natAbs)).length + 1 ≤ 6
      have : (fmt_u x.natAbs).length ≤ 5 := hl
      unfold fmt_u at this
      omega
  · refine ⟨fun c hc => ?_, ?_⟩
    · have := d1 c hc; omega
    · have : (fmt_u x.natAbs).length ≤ 5 := hl
      unfold fmt_u at this
      omega

/-- The value of the `posterr` field is a non-empty text of at most 63
bytes. -/
theorem post_error_value_spec (n : Node) (hps : ∀ c ∈ lit n.post.bb_post_error_str, c < 256)
    (h1 : -32768 ≤ n.post.bb_post_error_state_num) (h2 : n.post.bb_post_error_state_num ≤ 32767) :
    (∀ c ∈ post_error_value n, c < 256) ∧ (post_error_value n).headD 0 ≠ 0 ∧
    (post_error_value n).length ≤ 63 := by
  unfold post_error_value
  split
  · exact ⟨by decide, by decide, by decide⟩
  · rename_i hc
    have hz : check_str_len (lit n.post.bb_post_error_str) (64 - 15) = 0 := by
      by_contra h; exact hc h
    have hl := check_str_len_zero _ _ hz
    obtain ⟨f1, f2⟩ := fmt_d_spec _ h1 h2
    unfold post_error_text
    refine ⟨?_, ?_, ?_⟩
    · intro c hm
      simp only [List.mem_append] at hm
      rcases hm with ((hm | hm) | hm) | hm
      · exact hps c (c_str_mem _ c hm)
      · revert c; decide
      · exact f1 c hm
      · revert c; decide
    · cases hcs : c_str (lit n.post.bb_post_error_str) with
      | nil =>
        have e : lit " (state " = 32 :: lit "(state " := by decide
        rw [e]; simp
      | cons a t =>
        have : a ∈ c_str (lit n.post.bb_post_error_str) := by rw [hcs]; exact List.mem_cons_self a t
        have := c_str_nonzero _ a this
        simpa using this
    · simp only [List.length_append]
      have e1 : (lit " (state ").length = 8 := by decide
      have e2 : (lit ")").length = 1 := by decide
      omega

theorem add_body_char_err (s : PostState) (ch : Nat) (ue : Bool) :
    (add_body_char s ch ue).1.bb_post_error_str = s.bb_post_error_str ∧
    (add_body_char s ch ue).1.bb_post_error_state_num = s.bb_post_error_state_num := by
  unfold add_body_char
  dsimp only
  split_ifs <;> exact ⟨rfl, rfl⟩

theorem add_body_string_err (l : List Nat) : ∀ (s : PostState),
    (add_body_string s l).1.bb_post_error_str = s.bb_post_error_str ∧
    (add_body_string s l).1.bb_post_error_state_num = s.bb_post_error_state_num := by
  induction l with
  | nil => intro s; exact ⟨rfl, rfl⟩
  | cons c cs ih =>
    intro s
    unfold add_body_string
    have a := add_body_char_err s c true
    split
    · exact ⟨rfl, rfl⟩
    · split
      · exact a
      · have b := ih (add_body_char s c true).1
        exact ⟨b.1.trans a.1, b.2.trans a.2⟩

theorem add_body_hexstring_err (s : PostState) (bytes : List Nat) (len : Nat) :
    (add_body_hexstring s bytes len).1.bb_post_error_str = s.bb_post_error_str ∧
    (add_body_hexstring s bytes len).1.bb_post_error_state_num = s.bb_post_error_state_num := by
  unfold add_body_hexstring
  dsimp only
  split_ifs <;> exact ⟨rfl, rfl⟩

/-- Building the body leaves the recorded POST error alone. -/
theorem post_add_variable_err (s : PostState) (name value : List Nat) (hexlen : Nat) :
    (post_add_variable s name value hexlen).1.bb_post_error_str = s.bb_post_error_str ∧
    (post_add_variable s name value hexlen).1.bb_post_error_state_num =
      s.bb_post_error_state_num := by
  have hr1 : ∀ r1 : PostState × Int, r1 = (if s.body_pos ≠ 0 then add_body_char s 38 false else (s, 0)) →
      r1.1.bb_post_error_str = s.bb_post_error_str ∧
      r1.1.bb_post_error_state_num = s.bb_post_error_state_num := by
    intro r1 h
    subst h
    split
    · exact add_body_char_err s 38 false
    · exact ⟨rfl, rfl⟩
  unfold post_add_variable
  dsimp only
  generalize (if s.body_pos ≠ 0 then add_body_char s 38 false else (s, 0)) = r1 at hr1
  have a1 := hr1 r1 rfl
  have a2 := add_body_string_err name r1.1
  have a3 := add_body_char_err (add_body_string r1.1 name).1 61 false
  have a4 := add_body_string_err value (add_body_char (add_body_string r1.1 name).1 61 false).1
  have a5 := add_body_hexstring_err (add_body_char (add_body_string r1.1 name).1 61 false).1 value hexlen
  have e2 := a2.1.trans a1.1
  have f2 := a2.2.trans a1.2
  have e3 := a3.1.trans e2
  have f3 := a3.2.trans f2
  have e4 := a4.1.trans e3
  have f4 := a4.2.trans f3
  have e5 := a5.1.trans e3
  have f5 := a5.2.trans f3
  unfold no_room
  repeat' split
  all_goals first
    | exact ⟨rfl, rfl⟩ | exact a1 | exact ⟨e2, f2⟩ | exact ⟨e3, f3⟩ | exact ⟨e4, f4⟩
    | exact ⟨e5, f5⟩

theorem post_clear_body_text (s : PostState) : body_text (post_clear_body s) = [] := rfl

/-- The first pair `set_post_body` adds. -/
theorem BodyBuilt.first (n : Node) (name value : List Nat) (hexlen : Nat) (f : List Nat)
    (hs : n.post.body_buf_size ≤ 32768)
    (hn : ∀ c ∈ name, c < 256) (hv : ∀ c ∈ value, c < 256)
    (hname : name.headD 0 ≠ 0) (hval : ¬ (hexlen = 0 ∧ value.headD 0 = 0))
    (hlen : hexlen ≤ value.length) (hf : pair_text name value hexlen = f)
    (hfit : f.length < n.post.body_buf_size) :
    ∃ m, node_add_variable
        { n with bb_seq_num := u32 (n.bb_seq_num + 1), post := post_clear_body n.post }
        name value hexlen = (m, 0) ∧ BodyBuilt n m f := by
  have h0 : (post_clear_body n.post).body_buf 0 = 0 := by
    show mem_write n.post.body_buf 0 [0] 0 = 0
    exact mem_write_at _ 0 [0] 0 (by decide)
  have c := chain_first (post_clear_body n.post) name value hexlen rfl hs h0 hn hv hname hval hlen
    (by rw [hf]; exact hfit)
  rw [hf] at c
  have e := post_add_variable_err (post_clear_body n.post) name value hexlen
  refine ⟨_, Prod.ext rfl c.1, ⟨rfl, e.1, e.2, c.2⟩⟩

/-- A further pair `set_post_body` adds. -/
theorem BodyBuilt.step {n m : Node} {o : List Nat} (h : BodyBuilt n m o)
    (name value : List Nat) (hexlen : Nat) (f : List Nat)
    (hs : n.post.body_buf_size ≤ 32768) (ho : o ≠ [])
    (hn : ∀ c ∈ name, c < 256) (hv : ∀ c ∈ value, c < 256)
    (hname : name.headD 0 ≠ 0) (hval : ¬ (hexlen = 0 ∧ value.headD 0 = 0))
    (hlen : hexlen ≤ value.length) (hf : pair_text name value hexlen = f)
    (hfit : o.length + 1 + f.length < n.post.body_buf_size) :
    ∃ m2, node_add_variable m name value hexlen = (m2, 0) ∧
      BodyBuilt n m2 (o ++ ([38] ++ f)) := by
  have c := chain_step (post_clear_body n.post) m.post o name value hexlen h.app rfl hs ho hn hv
    hname hval hlen (by rw [hf]; exact hfit)
  rw [hf] at c
  have e := post_add_variable_err m.post name value hexlen
  refine ⟨_, Prod.ext rfl c.1, ⟨?_, e.1.trans h.str, e.2.trans h.num, c.2⟩⟩
  show ({ m with post := (post_add_variable m.post name value hexlen).1 } : Node) = _
  conv => lhs; rw [h.rest]
  rfl

/-- The six calls of `set_post_body`, when each of them succeeds. -/
theorem set_post_body_ok (env : TasksEnv) (n m3 m4 m5 m6 m7 m8 : Node)
    (h3 : add_station_id
      { n with bb_seq_num := u32 (n.bb_seq_num + 1), post := post_clear_body n.post } = (m3, 0))
    (h4 : add_collected_data m3 = (m4, 0))
    (h5 : (if m4.bb_post_error_flag ≠ 0 then add_post_error m4 else (m4, 0)) = (m5, 0))
    (h6 : add_seq_num m5 = (m6, 0))
    (h7 : add_my_ip env.network_ip m6 = (m7, 0))
    (h8 : add_firmware_version m7 = (m8, 0)) : set_post_body env n = (m8, 0) := by
  unfold set_post_body
  dsimp only
  rw [h3]
  dsimp only
  rw [h4]
  dsimp only
  rw [h5]
  dsimp only
  rw [h6]
  dsimp only
  rw [h7]
  dsimp only
  rw [h8]
  simp

theorem BodyBuilt.fields {n m : Node} {o : List Nat} (h : BodyBuilt n m o) :
    m.tasks_state = n.tasks_state ∧ m.dav = n.dav ∧
    m.bb_post_error_flag = n.bb_post_error_flag ∧ m.bb_seq_num = u32 (n.bb_seq_num + 1) := by
  have a := congrArg Node.tasks_state h.rest
  have b := congrArg Node.dav h.rest
  have c := congrArg Node.bb_post_error_flag h.rest
  have d := congrArg Node.bb_seq_num h.rest
  exact ⟨a, b, c, d⟩

/-- The `station` field opens the body. -/
theorem station_added (n : Node) (hs1 : 14 ≤ n.post.body_buf_size)
    (hs2 : n.post.body_buf_size ≤ 32768) :
    (∃ m, add_station_id
        { n with bb_seq_num := u32 (n.bb_seq_num + 1), post := post_clear_body n.post } = (m, 0) ∧
      BodyBuilt n m (lit "station=" ++ fmt_u (get_station_id n))) ∧
    (lit "station=" ++ fmt_u (get_station_id n)).length ≤ 13 := by
  obtain ⟨d1, d2, d3⟩ := fmt_u_spec (get_station_id n)
  have l1 : (fmt_u (get_station_id n)).length ≤ 5 :=
    d3 5 (by decide) (by
      have : get_station_id n < 65536 := Nat.mod_lt _ (by decide)
      omega)
  have hl : (lit "station=" ++ fmt_u (get_station_id n)).length ≤ 13 := by
    rw [List.length_append]
    have : (lit "station=").length = 8 := by decide
    omega
  refine ⟨?_, hl⟩
  exact BodyBuilt.first n (lit "station") (fmt_u (get_station_id n)) 0 _ hs2 (by decide)
    (lit_lt_of_digits _ d1).1 (by decide) (fun h => headD_ne_of_digits _ d1 d2 h.2)
    (Nat.zero_le _) (by rw [pair_text_number]; rfl) (by omega)

/-- The second field: `data` when there is new data, `sererr` otherwise. -/
theorem collected_added {n m : Node} {o : List Nat} (h : BodyBuilt n m o) (ho : o ≠ [])
    (hs2 : n.post.body_buf_size ≤ 32768)
    (hdd : n.tasks_state.new_data ≠ 0 →
      n.dav.dav_data.length = DAV_DATA_LEN ∧ ∀ b ∈ n.dav.dav_data, b < 256)
    (hes : n.tasks_state.new_data = 0 →
      (∀ c ∈ lit n.dav.dav_error_str, c < 256) ∧ (lit n.dav.dav_error_str).headD 0 ≠ 0 ∧
      (c_str (lit n.dav.dav_error_str)).length ≤ 64)
    (hfit : o.length + 1 + 203 < n.post.body_buf_size) :
    (∃ m2, add_collected_data m = (m2, 0) ∧
      BodyBuilt n m2 (o ++ ([38] ++
        (if n.tasks_state.new_data ≠ 0 then data_field n else sererr_field n)))) ∧
    (if n.tasks_state.new_data ≠ 0 then data_field n else sererr_field n).length ≤ 203 := by
  obtain ⟨f1, f2, _, _⟩ := h.fields
  unfold add_collected_data
  rw [f1, f2]
  by_cases hnd : n.tasks_state.new_data ≠ 0
  · rw [if_pos hnd, if_pos hnd]
    obtain ⟨a, b⟩ := hdd hnd
    have hl : (data_field n).length = 203 := by
      unfold data_field
      rw [List.length_append, hex_text_length, List.length_take, a]
      rfl
    refine ⟨?_, by omega⟩
    exact h.step (lit "data") n.dav.dav_data DAV_DATA_LEN _ hs2 ho (by decide) b (by decide)
      (fun hh => absurd hh.1 (by decide)) (by omega)
      (by unfold pair_text data_field; rw [if_neg (by decide)]; rfl) (by omega)
  · rw [if_neg hnd, if_neg hnd]
    obtain ⟨a, b, c⟩ := hes (by omega)
    have hl : (sererr_field n).length ≤ 203 := by
      unfold sererr_field
      rw [List.length_append]
      have := enc_length_le (lit n.dav.dav_error_str)
      have : (lit "sererr=").length = 7 := by decide
      omega
    refine ⟨?_, hl⟩
    exact h.step (lit "sererr") (lit n.dav.dav_error_str) 0 _ hs2 ho (by decide) a (by decide)
      (fun hh => b hh.2) (Nat.zero_le _)
      (by unfold pair_text sererr_field; rw [if_pos rfl]; rfl) (by omega)

theorem add_post_error_eq (m : Node) :
    add_post_error m = node_add_variable m (lit "posterr") (post_error_value m) 0 := by
  unfold add_post_error post_error_value
  split <;> rfl

/-- The `posterr` field, added when the flag is set. -/
theorem post_error_added {n m : Node} {o : List Nat} (h : BodyBuilt n m o) (ho : o ≠ [])
    (hs2 : n.post.body_buf_size ≤ 32768)
    (hps : n.bb_post_error_flag ≠ 0 →
      (∀ c ∈ lit n.post.bb_post_error_str, c < 256) ∧
      -32768 ≤ n.post.bb_post_error_state_num ∧ n.post.bb_post_error_state_num ≤ 32767)
    (hfit : o.length + 1 + 197 < n.post.body_buf_size) :
    (∃ m2, (if m.bb_post_error_flag ≠ 0 then add_post_error m else (m, 0)) = (m2, 0) ∧
      BodyBuilt n m2 (o ++ (if n.bb_post_error_flag ≠ 0 then [38] ++ posterr_field n else []))) ∧
    (if n.bb_post_error_flag ≠ 0 then [38] ++ posterr_field n else []).length ≤ 198 := by
  obtain ⟨_, _, f3, _⟩ := h.fields
  rw [f3]
  by_cases hfl : n.bb_post_error_flag ≠ 0
  · rw [if_pos hfl, if_pos hfl, add_post_error_eq]
    have hv : post_error_value m = post_error_value n := by
      unfold post_error_value
      rw [h.str, h.num]
    rw [hv]
    obtain ⟨a, b1, b2⟩ := hps hfl
    obtain ⟨v1, v2, v3⟩ := post_error_value_spec n a b1 b2
    have hl : (posterr_field n).length ≤ 197 := by
      unfold posterr_field
      rw [List.length_append]
      have := enc_length_le (post_error_value n)
      have := c_str_length_le (post_error_value n)
      have : (lit "posterr=").length = 8 := by decide
      omega
    refine ⟨?_, by rw [List.length_append, List.length_singleton]; omega⟩
    exact h.step (lit "posterr") (post_error_value n) 0 _ hs2 ho (by decide) v1 (by decide)
      (fun hh => v2 hh.2) (Nat.zero_le _)
      (by unfold pair_text posterr_field; rw [if_pos rfl]; rfl) (by omega)
  · rw [if_neg hfl, if_neg hfl, List.append_nil]
    exact ⟨⟨m, rfl, h⟩, by simp⟩

/-- The `seq` field. -/
theorem seq_added {n m : Node} {o : List Nat} (h : BodyBuilt n m o) (ho : o ≠ [])
    (hs2 : n.post.body_buf_size ≤ 32768) (hfit : o.length + 1 + 14 < n.post.body_buf_size) :
    (∃ m2, add_seq_num m = (m2, 0) ∧
      BodyBuilt n m2 (o ++ ([38] ++
        (lit "seq=" ++ fmt_u (u32 (n.bb_seq_num + 1) &&& SEQ_NUM_MSK))))) ∧
    (lit "seq=" ++ fmt_u (u32 (n.bb_seq_num + 1) &&& SEQ_NUM_MSK)).length ≤ 14 := by
  obtain ⟨_, _, _, f4⟩ := h.fields
  unfold add_seq_num
  rw [f4]
  obtain ⟨d1, d2, d3⟩ := fmt_u_spec (u32 (n.bb_seq_num + 1) &&& SEQ_NUM_MSK)
  have hle : u32 (n.bb_seq_num + 1) &&& SEQ_NUM_MSK ≤ SEQ_NUM_MSK := Nat.and_le_right
  have hm : SEQ_NUM_MSK < 10 ^ 10 := by decide
  have l1 := d3 10 (by decide) (Nat.lt_of_le_of_lt hle hm)
  have hl : (lit "seq=" ++ fmt_u (u32 (n.bb_seq_num + 1) &&& SEQ_NUM_MSK)).length ≤ 14 := by
    rw [List.length_append]
    have : (lit "seq=").length = 4 := by decide
    omega
  refine ⟨?_, hl⟩
  exact h.step (lit "seq") _ 0 _ hs2 ho (by decide) (lit_lt_of_digits _ d1).1 (by decide)
    (fun hh => headD_ne_of_digits _ d1 d2 hh.2) (Nat.zero_le _)
    (by rw [pair_text_number]; rfl) (by omega)

/-- The `localip` field. -/
theorem ip_added {n m : Node} {o : List Nat} (h : BodyBuilt n m o) (ho : o ≠ [])
    (my_ip : Nat)
    (hs2 : n.post.body_buf_size ≤ 32768) (hfit : o.length + 1 + 16 < n.post.body_buf_size) :
    (∃ m2, add_my_ip my_ip m = (m2, 0) ∧
      BodyBuilt n m2 (o ++ ([38] ++ (lit "localip=" ++ hex_text (longword_bytes my_ip))))) ∧
    (lit "localip=" ++ hex_text (longword_bytes my_ip)).length = 16 := by
  have hl : (lit "localip=" ++ hex_text (longword_bytes my_ip)).length = 16 := by
    rw [List.length_append, hex_text_length]
    rfl
  refine ⟨?_, hl⟩
  have hb : ∀ c ∈ longword_bytes my_ip, c < 256 := by
    intro c hc
    unfold longword_bytes at hc
    simp only [List.mem_cons, List.mem_singleton, List.not_mem_nil, or_false] at hc
    rcases hc with rfl | rfl | rfl | rfl <;> exact Nat.mod_lt _ (by decide)
  exact h.step (lit "localip") (longword_bytes my_ip) 4 _ hs2 ho (by decide) hb (by decide)
    (fun hh => absurd hh.1 (by decide)) (by unfold longword_bytes; simp)
    (by unfold pair_text; rw [if_neg (by decide)]; rfl) (by omega)

/-- The `ver` field. -/
theorem version_added {n m : Node} {o : List Nat} (h : BodyBuilt n m o) (ho : o ≠ [])
    (hs2 : n.post.body_buf_size ≤ 32768) (hfit : o.length + 1 + 7 < n.post.body_buf_size) :
    ∃ m2, add_firmware_version m = (m2, 0) ∧
      BodyBuilt n m2 (o ++ ([38] ++ (lit "ver=" ++ STR_VERSION))) :=
  h.step (lit "ver") STR_VERSION 0 _ hs2 ho (by decide) (by decide) (by decide)
    (by decide) (Nat.zero_le _) (by decide) (by
      have : (lit "ver=" ++ STR_VERSION).length = 7 := by decide
      omega)

theorem append_ne_nil {o : List Nat} (x : List Nat) (h : o ≠ []) : o ++ x ≠ [] := by
  cases o with
  | nil => exact absurd rfl h
  | cons a t => simp

theorem join_amp_fields (env : TasksEnv) (n : Node) :
    join_amp (post_body_fields env n) =
      lit "station=" ++ fmt_u (get_station_id n) ++
        ([38] ++ (if n.tasks_state.new_data ≠ 0 then data_field n else sererr_field n)) ++
        (if n.bb_post_error_flag ≠ 0 then [38] ++ posterr_field n else []) ++
        ([38] ++ (lit "seq=" ++ fmt_u (u32 (n.bb_seq_num + 1) &&& SEQ_NUM_MSK))) ++
        ([38] ++ (lit "localip=" ++ hex_text (longword_bytes env.network_ip))) ++
        ([38] ++ (lit "ver=" ++ STR_VERSION)) := by
  unfold post_body_fields
  by_cases h : n.bb_post_error_flag ≠ 0
  · rw [if_pos h, if_pos h]
    simp only [join_amp, List.cons_append, List.nil_append, List.append_assoc]
  · rw [if_neg h, if_neg h]
    simp only [join_amp, List.cons_append, List.nil_append, List.append_assoc, List.append_nil]

/-- With room for 455 characters and the terminator, `set_post_body` succeeds
and leaves the fields of `post_body_fields`, joined by `&`, as the body. -/
theorem set_post_body_built (env : TasksEnv) (n : Node)
    (hs1 : 456 ≤ n.post.body_buf_size) (hs2 : n.post.body_buf_size ≤ 32768)
    (hdd : n.tasks_state.new_data ≠ 0 →
      n.dav.dav_data.length = DAV_DATA_LEN ∧ ∀ b ∈ n.dav.dav_data, b < 256)
    (hes : n.tasks_state.new_data = 0 →
      (∀ c ∈ lit n.dav.dav_error_str, c < 256) ∧ (lit n.dav.dav_error_str).headD 0 ≠ 0 ∧
      (c_str (lit n.dav.dav_error_str)).length ≤ 64)
    (hps : n.bb_post_error_flag ≠ 0 →
      (∀ c ∈ lit n.post.bb_post_error_str, c < 256) ∧
      -32768 ≤ n.post.bb_post_error_state_num ∧ n.post.bb_post_error_state_num ≤ 32767) :
    ∃ m, set_post_body env n = (m, 0) ∧ BodyBuilt n m (join_amp (post_body_fields env n)) := by
  rw [join_amp_fields]
  obtain ⟨⟨m3, e3, B3⟩, L3⟩ := station_added n (by omega) hs2
  have o3 : lit "station=" ++ fmt_u (get_station_id n) ≠ [] :=
    append_ne_nil _ (by decide)
  generalize lit "station=" ++ fmt_u (get_station_id n) = F1 at B3 L3 o3 ⊢
  obtain ⟨⟨m4, e4, B4⟩, L4⟩ := collected_added B3 o3 hs2 hdd hes (by omega)
  generalize (if n.tasks_state.new_data ≠ 0 then data_field n else sererr_field n) = F2 at B4 L4 ⊢
  obtain ⟨⟨m5, e5, B5⟩, L5⟩ := post_error_added B4 (append_ne_nil _ o3) hs2 hps (by
    simp only [List.length_append, List.length_singleton]; omega)
  obtain ⟨⟨m6, e6, B6⟩, L6⟩ := seq_added B5 (append_ne_nil _ (append_ne_nil _ o3)) hs2 (by
    simp only [List.length_append, List.length_singleton] at L5 ⊢; omega)
  generalize lit "seq=" ++ fmt_u (u32 (n.bb_seq_num + 1) &&& SEQ_NUM_MSK) = F4 at B6 L6 ⊢
  obtain ⟨⟨m7, e7, B7⟩, L7⟩ := ip_added B6
    (append_ne_nil _ (append_ne_nil _ (append_ne_nil _ o3))) env.network_ip hs2 (by
    simp only [List.length_append, List.length_singleton] at L5 ⊢; omega)
  generalize lit "localip=" ++ hex_text (longword_bytes env.network_ip) = F5 at B7 L7 ⊢
  obtain ⟨m8, e8, B8⟩ := version_added B7
    (append_ne_nil _ (append_ne_nil _ (append_ne_nil _ (append_ne_nil _ o3)))) hs2 (by
    simp only [List.length_append, List.length_singleton] at L5 ⊢; omega)
  exact ⟨m8, set_post_body_ok env n m3 m4 m5 m6 m7 m8 e3 e4 e5 e6 e7 e8, B8⟩

theorem post_error_ret (s : PostState) : (post_error s).2 = (post_error s).1.condition := by
  obtain ⟨h1, h2, _⟩ := post_error_fields s
  rw [h1, h2]

/-- The value `post_tick` returns is the condition it leaves. -/
theorem post_tick_ret (env : PostEnv) (s : PostState) :
    (post_tick env s).2 = post_get_status (post_tick env s).1 := by
  unfold post_get_status post_tick
  split_ifs
  · rfl
  · exact post_error_ret _
  · exact post_error_ret _
  · unfold post_tick_switch
    dsimp only
    repeat' split
    all_goals rfl

theorem dav_error_cond (s : DavState) (str : String) (c : Int) :
    (dav_error s str c).2 = (dav_error s str c).1.condition := rfl

set_option maxRecDepth 4000 in
/-- The value `dav_tick` returns is the condition it leaves. -/
theorem dav_tick_ret (crc : List Nat → Nat) (env : DavEnv) (s : DavState) :
    (dav_tick crc env s).2 = dav_get_status (dav_tick crc env s).1 := by
  by_cases hidle : s.state = .DAV_IDLE
  · have e : dav_tick crc env s = (dav_cleanup s, s.condition) := by
      unfold dav_tick; rw [if_pos hidle]
    rw [e]; rfl
  by_cases herr : env.serial_error = true
  · have e : dav_tick crc env s = dav_error s "Serial port error" DAV_SERIAL_ERR := by
      unfold dav_tick; rw [if_neg hidle, if_pos herr]
    rw [e]; rfl
  by_cases hto : CHK_TIMEOUT_UI env.secs s.timeout = true
  · have e : dav_tick crc env s = dav_error s "Timed out" DAV_TIMEOUT := by
      unfold dav_tick; rw [if_neg hidle, if_neg herr, if_pos hto]
    rw [e]; rfl
  obtain ⟨st, cond, tmo, cid, cstr, ac, rt, p1, p2, dd, ddv, des, dt, rx, tx, con, led⟩ := s
  have hidle : ¬ (st = .DAV_IDLE) := hidle
  unfold dav_tick
  rw [if_neg hidle, if_neg herr, if_neg hto]
  cases st <;> simp only [] <;> repeat' split
  all_goals rfl

theorem same_outside_post.chain {a b c : Node} (h1 : same_outside_post a b)
    (h2 : same_outside_post b c) : same_outside_post a c :=
  ⟨h2.1.trans h1.1, h2.2.1.trans h1.2.1, h2.2.2.1.trans h1.2.2.1, h2.2.2.2.trans h1.2.2.2⟩

theorem node_add_variable_rest (m : Node) (name value : List Nat) (hexlen : Nat) :
    same_outside_post m (node_add_variable m name value hexlen).1 := ⟨rfl, rfl, rfl, rfl⟩

theorem add_collected_data_rest (m : Node) : same_outside_post m (add_collected_data m).1 := by
  unfold add_collected_data
  split <;> exact node_add_variable_rest _ _ _ _

theorem add_post_error_rest (m : Node) : same_outside_post m (add_post_error m).1 := by
  unfold add_post_error
  split <;> exact node_add_variable_rest _ _ _ _

/-- What `set_post_body` leaves alone, on every path: the supervisor's
variables, the collector and the POST error flag; the sequence number is
stepped on by one. -/
theorem set_post_body_rest (env : TasksEnv) (n : Node) :
    same_outside_post { n with bb_seq_num := u32 (n.bb_seq_num + 1) } (set_post_body env n).1 := by
  unfold set_post_body
  dsimp only
  have h3 : same_outside_post { n with bb_seq_num := u32 (n.bb_seq_num + 1) }
      (add_station_id
        { n with bb_seq_num := u32 (n.bb_seq_num + 1), post := post_clear_body n.post }).1 :=
    ⟨rfl, rfl, rfl, rfl⟩
  generalize add_station_id
    { n with bb_seq_num := u32 (n.bb_seq_num + 1), post := post_clear_body n.post } = r3 at h3 ⊢
  split
  · exact h3
  have h4 := h3.chain (add_collected_data_rest r3.1)
  generalize add_collected_data r3.1 = r4 at h4 ⊢
  split
  · exact h4
  have h5 : same_outside_post { n with bb_seq_num := u32 (n.bb_seq_num + 1) }
      (if r4.1.bb_post_error_flag ≠ 0 then add_post_error r4.1 else (r4.1, 0)).1 := by
    split
    · exact h4.chain (add_post_error_rest r4.1)
    · exact h4
  generalize (if r4.1.bb_post_error_flag ≠ 0 then add_post_error r4.1 else (r4.1, 0)) = r5 at h5 ⊢
  split
  · exact h5
  have h6 := h5.chain (node_add_variable_rest r5.1 (lit "seq")
    (fmt_u (r5.1.bb_seq_num &&& SEQ_NUM_MSK)) 0)
  split
  · exact h6
  have h7 := h6.chain (node_add_variable_rest (add_seq_num r5.1).1 (lit "localip")
    (longword_bytes env.network_ip) 4)
  split
  · exact h7
  have h8 := h7.chain (node_add_variable_rest (add_my_ip env.network_ip (add_seq_num r5.1).1).1
    (lit "ver") STR_VERSION 0)
  split
  · exact h8
  · exact h8

theorem tasks_start_collection_rest (env : TasksEnv) (m : Node) :
    (tasks_start_collection env m).tasks_state.new_data = m.tasks_state.new_data ∧
    (tasks_start_collection env m).bb_post_error_flag = m.bb_post_error_flag ∧
    (tasks_start_collection env m).bb_seq_num = m.bb_seq_num ∧
    (tasks_start_collection env m).post = m.post := by
  unfold tasks_start_collection set_next_collection_time Node.goto
  dsimp only
  exact ⟨rfl, rfl, rfl, rfl⟩

/-- A step in `TASKS_IDLE` leaves the data flag, the POST error flag, the
sequence number and the POST client alone. -/
theorem tasks_run_idle_rest (crc : List Nat → Nat) (env : TasksEnv) (n : Node) :
    (tasks_run_idle crc env n).1.tasks_state.new_data = n.tasks_state.new_data ∧
    (tasks_run_idle crc env n).1.bb_post_error_flag = n.bb_post_error_flag ∧
    (tasks_run_idle crc env n).1.bb_seq_num = n.bb_seq_num ∧
    (tasks_run_idle crc env n).1.post = n.post := by
  unfold tasks_run_idle
  dsimp only
  split
  · exact tasks_start_collection_rest env _
  split
  · split <;> exact ⟨rfl, rfl, rfl, rfl⟩
  split
  · exact ⟨rfl, rfl, rfl, rfl⟩
  have h : ∀ m : Node, m = (if env.inchar = EOF then wx_get_switches env.switches
        { n with dav := (dav_tick crc env.dav n.dav).1 }
      else tasks_start_collection env (wx_get_switches env.switches
        { n with dav := (dav_tick crc env.dav n.dav).1 })) →
      m.tasks_state.new_data = n.tasks_state.new_data ∧
      m.bb_post_error_flag = n.bb_post_error_flag ∧ m.bb_seq_num = n.bb_seq_num ∧
      m.post = n.post := by
    intro m hm
    subst hm
    split
    · exact ⟨rfl, rfl, rfl, rfl⟩
    · exact tasks_start_collection_rest env _
  generalize (if env.inchar = EOF then wx_get_switches env.switches
        { n with dav := (dav_tick crc env.dav n.dav).1 }
      else tasks_start_collection env (wx_get_switches env.switches
        { n with dav := (dav_tick crc env.dav n.dav).1 })) = m at h ⊢
  have := h m rfl
  split
  · exact this
  split <;> exact this

/-- A step in `TASKS_COLLECTING` leaves the POST error flag, the sequence
number and the POST client alone. -/
theorem tasks_run_collecting_rest (crc : List Nat → Nat) (env : TasksEnv) (n : Node) :
    (tasks_run_collecting crc env n).1.bb_post_error_flag = n.bb_post_error_flag ∧
    (tasks_run_collecting crc env n).1.bb_seq_num = n.bb_seq_num ∧
    (tasks_run_collecting crc env n).1.post = n.post := by
  unfold tasks_run_collecting Node.goto
  dsimp only
  split_ifs <;> exact ⟨rfl, rfl, rfl⟩

/-- A step in `TASKS_PROCESSING` leaves the data flag and the POST error flag
alone and steps the sequence number on by one. -/
theorem tasks_run_processing_rest (crc : List Nat → Nat) (env : TasksEnv) (n : Node) :
    (tasks_run_processing crc env n).1.tasks_state.new_data = n.tasks_state.new_data ∧
    (tasks_run_processing crc env n).1.bb_post_error_flag = n.bb_post_error_flag ∧
    (tasks_run_processing crc env n).1.bb_seq_num = u32 (n.bb_seq_num + 1) := by
  obtain ⟨a, _, c, d⟩ := set_post_body_rest env { n with dav := (dav_tick crc env.dav n.dav).1 }
  have a1 : (set_post_body env { n with dav := (dav_tick crc env.dav n.dav).1 }).1.tasks_state =
    n.tasks_state := a
  have c1 : (set_post_body env { n with dav := (dav_tick crc env.dav n.dav).1 }).1.bb_post_error_flag =
    n.bb_post_error_flag := c
  have d1 : (set_post_body env { n with dav := (dav_tick crc env.dav n.dav).1 }).1.bb_seq_num =
    u32 (n.bb_seq_num + 1) := d
  have a2 := congrArg TasksState.new_data a1
  unfold tasks_run_processing Node.goto
  dsimp only
  split_ifs <;> exact ⟨a2, c1, d1⟩

/-- A step in `TASKS_DELIVERING` leaves the sequence number alone. -/
theorem tasks_run_delivering_rest (crc : List Nat → Nat) (env : TasksEnv) (n : Node) :
    (tasks_run_delivering crc env n).1.bb_seq_num = n.bb_seq_num := by
  unfold tasks_run_delivering Node.goto
  dsimp only
  split_ifs <;> rfl

/-- A step in `TASKS_TIME_CHECKING` or `TASKS_TIME_SETTING` leaves the data
flag, the POST error flag, the sequence number and the POST client alone. -/
theorem tasks_run_time_rest (crc : List Nat → Nat) (env : TasksEnv) (n : Node) :
    ((tasks_run_time_checking crc env n).1.tasks_state.new_data = n.tasks_state.new_data ∧
     (tasks_run_time_checking crc env n).1.bb_post_error_flag = n.bb_post_error_flag ∧
     (tasks_run_time_checking crc env n).1.bb_seq_num = n.bb_seq_num ∧
     (tasks_run_time_checking crc env n).1.post = n.post) ∧
    ((tasks_run_time_setting crc env n).1.tasks_state.new_data = n.tasks_state.new_data ∧
     (tasks_run_time_setting crc env n).1.bb_post_error_flag = n.bb_post_error_flag ∧
     (tasks_run_time_setting crc env n).1.bb_seq_num = n.bb_seq_num ∧
     (tasks_run_time_setting crc env n).1.post = n.post) := by
  unfold tasks_run_time_checking tasks_run_time_setting Node.goto
  dsimp only
  constructor <;> split_ifs <;> exact ⟨rfl, rfl, rfl, rfl⟩

/-- The sequence number after a step: stepped on in `TASKS_PROCESSING`,
unchanged in every other state. -/
theorem tasks_run_seq (crc : List Nat → Nat) (env : TasksEnv) (n : Node) :
    (tasks_run crc env n).1.bb_seq_num =
      if n.tasks_state.state = .TASKS_PROCESSING then u32 (n.bb_seq_num + 1) else n.bb_seq_num := by
  unfold tasks_run
  cases h : n.tasks_state.state <;> simp only [reduceCtorEq, if_false, if_true]
  · exact (tasks_run_idle_rest crc env n).2.2.1
  · exact (tasks_run_collecting_rest crc env n).2.1
  · exact (tasks_run_processing_rest crc env n).2.2
  · exact tasks_run_delivering_rest crc env n
  · exact (tasks_run_time_rest crc env n).1.2.2.1
  · exact (tasks_run_time_rest crc env n).2.2.2.1

/-- The POST error flag after a step outside `TASKS_DELIVERING` is the one
before it. -/
theorem tasks_run_flag (crc : List Nat → Nat) (env : TasksEnv) (n : Node)
    (h : n.tasks_state.state ≠ .TASKS_DELIVERING) :
    (tasks_run crc env n).1.bb_post_error_flag = n.bb_post_error_flag := by
  unfold tasks_run
  cases hs : n.tasks_state.state <;> simp only []
  · exact (tasks_run_idle_rest crc env n).2.1
  · exact (tasks_run_collecting_rest crc env n).1
  · exact (tasks_run_processing_rest crc env n).2.1
  · exact absurd hs h
  · exact (tasks_run_time_rest crc env n).1.2.1
  · exact (tasks_run_time_rest crc env n).2.2.1

/-- The data flag after a step outside `TASKS_COLLECTING` and
`TASKS_DELIVERING` is the one before it. -/
theorem tasks_run_new_data (crc : List Nat → Nat) (env : TasksEnv) (n : Node)
    (h1 : n.tasks_state.state ≠ .TASKS_COLLECTING) (h2 : n.tasks_state.state ≠ .TASKS_DELIVERING) :
    (tasks_run crc env n).1.tasks_state.new_data = n.tasks_state.new_data := by
  unfold tasks_run
  cases hs : n.tasks_state.state <;> simp only []
  · exact (tasks_run_idle_rest crc env n).1
  · exact absurd hs h1
  · exact (tasks_run_processing_rest crc env n).1
  · exact absurd hs h2
  · exact (tasks_run_time_rest crc env n).1.1
  · exact (tasks_run_time_rest crc env n).2.1

/-- The POST client after a step outside `TASKS_PROCESSING` and
`TASKS_DELIVERING` is the one before it. -/
theorem tasks_run_post (crc : List Nat → Nat) (env : TasksEnv) (n : Node)
    (h1 : n.tasks_state.state ≠ .TASKS_PROCESSING) (h2 : n.tasks_state.state ≠ .TASKS_DELIVERING) :
    (tasks_run crc env n).1.post = n.post := by
  unfold tasks_run
  cases hs : n.tasks_state.state <;> simp only []
  · exact (tasks_run_idle_rest crc env n).2.2.2
  · exact (tasks_run_collecting_rest crc env n).2.2
  · exact absurd hs h1
  · exact absurd hs h2
  · exact (tasks_run_time_rest crc env n).1.2.2.2
  · exact (tasks_run_time_rest crc env n).2.2.2.2

/-- The call of `tasks_run` in `TASKS_COLLECTING` in which the collector
finishes with Success. -/
theorem tasks_run_collecting_success (crc : List Nat → Nat) (env : TasksEnv) (n : Node)
    (hfin : (dav_tick crc env.dav n.dav).2 ≠ DAV_PENDING)
    (hs : (dav_tick crc env.dav n.dav).2 = DAV_SUCCESS) :
    (tasks_run_collecting crc env n).1.tasks_state.new_data = 1 ∧
    (tasks_run_collecting crc env n).1.tasks_state.collect_err_ctr = 0 ∧
    (tasks_run_collecting crc env n).1.tasks_state.state = .TASKS_PROCESSING ∧
    (tasks_run_collecting crc env n).2 = TASKS_OK := by
  have hr := dav_tick_ret crc env.dav n.dav
  unfold tasks_run_collecting Node.goto
  dsimp only
  rw [if_pos hfin, ← hr, if_pos hs]
  exact ⟨rfl, rfl, rfl, rfl⟩

/-- The call of `tasks_run` in `TASKS_COLLECTING` in which the collector
finishes without Success. -/
theorem tasks_run_collecting_failure (crc : List Nat → Nat) (env : TasksEnv) (n : Node)
    (hfin : (dav_tick crc env.dav n.dav).2 ≠ DAV_PENDING)
    (hs : (dav_tick crc env.dav n.dav).2 ≠ DAV_SUCCESS) :
    (tasks_run_collecting crc env n).1.tasks_state.collect_err_ctr =
      u8 (n.tasks_state.collect_err_ctr + 1) ∧
    (tasks_run_collecting crc env n).2 =
      (if u8 (n.tasks_state.collect_err_ctr + 1) ≥ MAX_COLLECT_ERRS then TASKS_COLLECT_FAIL
       else TASKS_OK) ∧
    (tasks_run_collecting crc env n).1.tasks_state.state =
      (if u8 (n.tasks_state.collect_err_ctr + 1) ≥ MAX_COLLECT_ERRS then n.tasks_state.state
       else .TASKS_PROCESSING) ∧
    (tasks_run_collecting crc env n).1.tasks_state.new_data =
      (if (dav_tick crc env.dav n.dav).1.dav_data_valid = 0 then 0 else n.tasks_state.new_data) := by
  have hr := dav_tick_ret crc env.dav n.dav
  unfold tasks_run_collecting Node.goto
  by_cases hv : (dav_tick crc env.dav n.dav).1.dav_data_valid = 0 <;>
  by_cases h10 : u8 (n.tasks_state.collect_err_ctr + 1) ≥ MAX_COLLECT_ERRS
  all_goals
    dsimp only
    rw [if_pos hfin, ← hr, if_neg hs]
    simp only [hv, h10, if_true, if_false]
    exact ⟨trivial, trivial, trivial, trivial⟩

/-- The call of `tasks_run` in `TASKS_DELIVERING` in which the POST
finishes with Success. -/
theorem tasks_run_delivering_success (crc : List Nat → Nat) (env : TasksEnv) (n : Node)
    (hfin : (post_tick env.post n.post).2 ≠ POST_PENDING)
    (hs : (post_tick env.post n.post).2 = POST_SUCCESS) :
    (tasks_run_delivering crc env n).1.tasks_state.new_data = 0 ∧
    (tasks_run_delivering crc env n).1.bb_post_error_flag = 0 ∧
    (tasks_run_delivering crc env n).1.tasks_state.post_err_ctr = 0 ∧
    (tasks_run_delivering crc env n).1.tasks_state.state = .TASKS_IDLE ∧
    (tasks_run_delivering crc env n).2 = TASKS_OK := by
  have hr := post_tick_ret env.post n.post
  unfold tasks_run_delivering Node.goto
  dsimp only
  rw [if_pos hfin, ← hr, if_pos hs]
  exact ⟨rfl, rfl, rfl, rfl, rfl⟩

/-- The call of `tasks_run` in `TASKS_DELIVERING` in which the POST
finishes without Success. -/
theorem tasks_run_delivering_failure (crc : List Nat → Nat) (env : TasksEnv) (n : Node)
    (hfin : (post_tick env.post n.post).2 ≠ POST_PENDING)
    (hs : (post_tick env.post n.post).2 ≠ POST_SUCCESS) :
    (tasks_run_delivering crc env n).1.bb_post_error_flag = 1 ∧
    (tasks_run_delivering crc env n).1.tasks_state.post_err_ctr =
      u8 (n.tasks_state.post_err_ctr + 1) ∧
    (tasks_run_delivering crc env n).1.tasks_state.new_data = n.tasks_state.new_data ∧
    (tasks_run_delivering crc env n).2 =
      (if u8 (n.tasks_state.post_err_ctr + 1) ≥ MAX_POST_ERRS then TASKS_POST_FAIL
       else TASKS_OK) ∧
    (tasks_run_delivering crc env n).1.tasks_state.state =
      (if u8 (n.tasks_state.post_err_ctr + 1) ≥ MAX_POST_ERRS then n.tasks_state.state
       else .TASKS_IDLE) := by
  have hr := post_tick_ret env.post n.post
  unfold tasks_run_delivering Node.goto
  by_cases h10 : u8 (n.tasks_state.post_err_ctr + 1) ≥ MAX_POST_ERRS
  all_goals
    dsimp only
    rw [if_pos hfin, ← hr, if_neg hs]
    simp only [h10, if_true, if_false]
    exact ⟨trivial, trivial, trivial, trivial, trivial⟩

/-- The call of `tasks_run` in `TASKS_DELIVERING` in which the POST is still
pending changes neither flag. -/
theorem tasks_run_delivering_pending (crc : List Nat → Nat) (env : TasksEnv) (n : Node)
    (hfin : (post_tick env.post n.post).2 = POST_PENDING) :
    (tasks_run_delivering crc env n).1.bb_post_error_flag = n.bb_post_error_flag ∧
    (tasks_run_delivering crc env n).1.tasks_state.new_data = n.tasks_state.new_data := by
  unfold tasks_run_delivering
  dsimp only
  rw [if_neg (fun h => h hfin)]
  exact ⟨rfl, rfl⟩

/-- The call of `tasks_run` in `TASKS_COLLECTING` in which the collector is
still pending leaves the data flag alone. -/
theorem tasks_run_collecting_pending (crc : List Nat → Nat) (env : TasksEnv) (n : Node)
    (hfin : (dav_tick crc env.dav n.dav).2 = DAV_PENDING) :
    (tasks_run_collecting crc env n).1.tasks_state.new_data = n.tasks_state.new_data := by
  unfold tasks_run_collecting
  dsimp only
  rw [if_neg (fun h => h hfin)]

theorem tasks_run_at_collecting (crc : List Nat → Nat) (env : TasksEnv) (n : Node)
    (hst : n.tasks_state.state = .TASKS_COLLECTING) :
    tasks_run crc env n = tasks_run_collecting crc env n := by
  unfold tasks_run; rw [hst]

theorem tasks_run_at_delivering (crc : List Nat → Nat) (env : TasksEnv) (n : Node)
    (hst : n.tasks_state.state = .TASKS_DELIVERING) :
    tasks_run crc env n = tasks_run_delivering crc env n := by
  unfold tasks_run; rw [hst]

theorem seq_num_msk_mod (x : Nat) : x &&& SEQ_NUM_MSK = x % 2147483648 := by
  have h : SEQ_NUM_MSK = 2 ^ 31 - 1 := by decide
  rw [h, Nat.and_pow_two_sub_one_eq_mod]

/-- The sequence number in the body `set_post_body` builds: the stored
number plus one, modulo 2^31. -/
theorem seq_sent_set_post_body (env : TasksEnv) (n : Node) :
    seq_sent (set_post_body env n).1 = (n.bb_seq_num + 1) % 2147483648 := by
  have h : (set_post_body env n).1.bb_seq_num = u32 (n.bb_seq_num + 1) :=
    (set_post_body_rest env n).2.2.2
  unfold seq_sent
  rw [h, seq_num_msk_mod]
  unfold u32
  omega

theorem head_lit_append (s : List Nat) (c : Nat) (t v : List Nat) (h : s = c :: t) :
    (s ++ v).head? = some c := by
  subst h; rfl

/-- A field labelled `posterr` is among the fields of the body exactly when
the POST error flag is set. -/
theorem posterr_in_fields (env : TasksEnv) (n : Node) :
    (∃ v, lit "posterr=" ++ v ∈ post_body_fields env n) ↔ n.bb_post_error_flag ≠ 0 := by
  have hp : ∀ v, (lit "posterr=" ++ v).head? = some 112 := fun v =>
    head_lit_append _ 112 (lit "osterr=") v (by decide)
  have hne : ∀ (s : List Nat) (c : Nat) (t x v : List Nat), s = c :: t → c ≠ 112 →
      lit "posterr=" ++ v ≠ s ++ x := by
    intro s c t x v hs hc he
    have h1 := congrArg List.head? he
    rw [hp v, head_lit_append s c t x hs] at h1
    exact hc (Option.some.inj h1).symm
  unfold post_body_fields
  by_cases hf : n.bb_post_error_flag ≠ 0
  · rw [if_pos hf]
    refine ⟨fun _ => hf, fun _ => ⟨enc (post_error_value n), ?_⟩⟩
    simp [posterr_field]
  · rw [if_neg hf]
    refine ⟨fun ⟨v, hv⟩ => ?_, fun h => absurd h hf⟩
    simp only [List.append_nil, List.cons_append, List.nil_append, List.mem_cons,
      List.mem_singleton, List.not_mem_nil, or_false] at hv
    rcases hv with h | h | h | h | h
    · exact absurd h (hne _ 115 (lit "tation=") _ v (by decide) (by decide))
    · by_cases hd : n.tasks_state.new_data ≠ 0
      · rw [if_pos hd] at h
        exact absurd h (hne _ 100 (lit "ata=") _ v (by decide) (by decide))
      · rw [if_neg hd] at h
        exact absurd h (hne _ 115 (lit "ererr=") _ v (by decide) (by decide))
    · exact absurd h (hne _ 115 (lit "eq=") _ v (by decide) (by decide))
    · exact absurd h (hne _ 108 (lit "ocalip=") _ v (by decide) (by decide))
    · exact absurd h (hne _ 118 (lit "er=") _ v (by decide) (by decide))

/-- The POST error flag after a step of the supervisor: cleared when a POST
completes with Success, set when it completes otherwise, unchanged in every
other step. -/
theorem tasks_run_flag_eq (crc : List Nat → Nat) (env : TasksEnv) (n : Node) :
    (tasks_run crc env n).1.bb_post_error_flag =
      if n.tasks_state.state = .TASKS_DELIVERING ∧ (post_tick env.post n.post).2 ≠ POST_PENDING
      then (if (post_tick env.post n.post).2 = POST_SUCCESS then 0 else 1)
      else n.bb_post_error_flag := by
  by_cases hd : n.tasks_state.state = .TASKS_DELIVERING
  · rw [tasks_run_at_delivering crc env n hd]
    by_cases hp : (post_tick env.post n.post).2 = POST_PENDING
    · rw [if_neg (fun h => h.2 hp)]
      exact (tasks_run_delivering_pending crc env n hp).1
    · rw [if_pos ⟨hd, hp⟩]
      by_cases hs : (post_tick env.post n.post).2 = POST_SUCCESS
      · rw [if_pos hs]
        exact (tasks_run_delivering_success crc env n hp hs).2.1
      · rw [if_neg hs]
        exact (tasks_run_delivering_failure crc env n hp hs).1
  · rw [if_neg (fun h => hd h.1)]
    exact tasks_run_flag crc env n hd

theorem bb_init_valid (n : Node) (h1 : n.bb_mem_flag = BB_MAGIC_NUMBER)
    (h2 : n.bb_ver_major = VER_MAJOR) (h3 : n.bb_ver_minor = VER_MINOR) : bb_init n = n := by
  unfold bb_init
  simp only [ne_eq, h1, h2, h3, not_true_eq_false, if_false, or_self]

/-! ## Claims about the supervisor -/

/-- C12: a call of `tasks_run` in `TASKS_DELIVERING` in which `post_tick`
returns something other than Pending, with the error counter below 255. On
Success `new_data`, `bb_post_error_flag` and `post_err_ctr` are cleared and the
supervisor returns to `TASKS_IDLE`. On every other status (the negative ones,
BadId among them) `bb_post_error_flag` is set, `post_err_ctr` goes up by one and
`new_data` is unchanged; `tasks_run` returns PostFail exactly when the counter
has then reached 10, and otherwise the supervisor returns to `TASKS_IDLE`. -/
theorem tasks_delivering_finished (crc : List Nat → Nat) (env : TasksEnv) (n : Node)
    (hst : n.tasks_state.state = .TASKS_DELIVERING)
    (hfin : (post_tick env.post n.post).2 ≠ POST_PENDING)
    (hctr : n.tasks_state.post_err_ctr < 255) :
    ((post_tick env.post n.post).2 = POST_SUCCESS →
      (tasks_run crc env n).1.tasks_state.new_data = 0 ∧
      (tasks_run crc env n).1.bb_post_error_flag = 0 ∧
      (tasks_run crc env n).1.tasks_state.post_err_ctr = 0 ∧
      (tasks_run crc env n).1.tasks_state.state = .TASKS_IDLE ∧
      (tasks_run crc env n).2 = TASKS_OK) ∧
    ((post_tick env.post n.post).2 ≠ POST_SUCCESS →
      (tasks_run crc env n).1.bb_post_error_flag = 1 ∧
      (tasks_run crc env n).1.tasks_state.post_err_ctr = n.tasks_state.post_err_ctr + 1 ∧
      (tasks_run crc env n).1.tasks_state.new_data = n.tasks_state.new_data ∧
      ((tasks_run crc env n).2 = TASKS_POST_FAIL ↔ 10 ≤ n.tasks_state.post_err_ctr + 1) ∧
      ((tasks_run crc env n).2 ≠ TASKS_POST_FAIL →
        (tasks_run crc env n).1.tasks_state.state = .TASKS_IDLE ∧
        (tasks_run crc env n).2 = TASKS_OK)) := by
  have hu : u8 (n.tasks_state.post_err_ctr + 1) = n.tasks_state.post_err_ctr + 1 :=
    Nat.mod_eq_of_lt (by omega)
  rw [tasks_run_at_delivering crc env n hst]
  refine ⟨tasks_run_delivering_success crc env n hfin, fun hs => ?_⟩
  obtain ⟨a, b, c, d, e⟩ := tasks_run_delivering_failure crc env n hfin hs
  rw [hu] at b d e
  rw [a, b, c, d, e]
  by_cases h10 : n.tasks_state.post_err_ctr + 1 ≥ MAX_POST_ERRS
  · have h10b : 10 ≤ n.tasks_state.post_err_ctr + 1 := h10
    rw [if_pos h10, if_pos h10]
    exact ⟨rfl, rfl, rfl, ⟨fun _ => h10b, fun _ => rfl⟩, fun h => absurd rfl h⟩
  · have h10b : ¬ 10 ≤ n.tasks_state.post_err_ctr + 1 := h10
    have hne : TASKS_OK ≠ TASKS_POST_FAIL := by decide
    rw [if_neg h10, if_neg h10]
    exact ⟨rfl, rfl, rfl, ⟨fun h => absurd h hne, fun h => absurd h h10b⟩, fun _ => ⟨rfl, rfl⟩⟩

/-- C12, at a concrete input (scenario S3): the server's answer named a bad
station ID and the socket has closed; `post_tick` returns BadId, the flag is
set, the counter goes from 0 to 1 and `new_data` stays 1. -/
theorem tasks_delivering_finished_witness :
    (post_tick (tasks_env_at 0 false).post post_reading_bad_id).2 = POST_BAD_ID ∧
    (tasks_run crc_calculate (tasks_env_at 0 false)
      (node_in .TASKS_DELIVERING dav_collected post_reading_bad_id)).1.bb_post_error_flag = 1 ∧
    (tasks_run crc_calculate (tasks_env_at 0 false)
      (node_in .TASKS_DELIVERING dav_collected post_reading_bad_id)).1.tasks_state.post_err_ctr
      = 0 + 1 ∧
    (tasks_run crc_calculate (tasks_env_at 0 false)
      (node_in .TASKS_DELIVERING dav_collected post_reading_bad_id)).1.tasks_state.new_data = 1 :=
  have h := (tasks_delivering_finished crc_calculate (tasks_env_at 0 false)
    (node_in .TASKS_DELIVERING dav_collected post_reading_bad_id) rfl (by decide) (by decide)).2
    (by decide)
  ⟨by decide, h.1, h.2.1, h.2.2.1⟩

/-- C13: in every supervisor state, under the conditions
`post_body_inputs_ok`, `set_post_body` succeeds and leaves as the body, joined
by `&`: `station` with the station number; then `data` with the 99 data bytes
in hexadecimal when `new_data` is set, and `sererr` with the collector's error
string (url-encoded) when it is not; then `posterr` when, and only when,
`bb_post_error_flag` is set; then `seq`, `localip` and `ver`. The value of
`data` is 198 characters and that of `localip` 8 characters, all of them
digits or capital letters A to F. -/
theorem set_post_body_field_order (env : TasksEnv) (n : Node) (h : post_body_inputs_ok n) :
    (set_post_body env n).2 = 0 ∧
    body_text (set_post_body env n).1.post =
      join_amp
        ([lit "station=" ++ fmt_u (get_station_id n),
          if n.tasks_state.new_data ≠ 0 then
            lit "data=" ++ hex_text (n.dav.dav_data.take DAV_DATA_LEN)
          else lit "sererr=" ++ enc (lit n.dav.dav_error_str)] ++
         (if n.bb_post_error_flag ≠ 0 then [lit "posterr=" ++ enc (post_error_value n)]
          else []) ++
         [lit "seq=" ++ fmt_u (u32 (n.bb_seq_num + 1) &&& SEQ_NUM_MSK),
          lit "localip=" ++ hex_text (longword_bytes env.network_ip),
          lit "ver=" ++ STR_VERSION]) ∧
    (n.tasks_state.new_data ≠ 0 →
      (hex_text (n.dav.dav_data.take DAV_DATA_LEN)).length = 198 ∧
      ∀ x ∈ hex_text (n.dav.dav_data.take DAV_DATA_LEN), is_upper_hex x = true) ∧
    (hex_text (longword_bytes env.network_ip)).length = 8 ∧
    (∀ x ∈ hex_text (longword_bytes env.network_ip), is_upper_hex x = true) := by
  obtain ⟨m, e, B⟩ := set_post_body_built env n h.1 h.2.1 h.2.2.1 h.2.2.2.1 h.2.2.2.2
  refine ⟨by rw [e], ?_, fun hd => ?_, ?_, ?_⟩
  · rw [e, B.app.text_eq, post_clear_body_text, List.nil_append]
    rfl
  · obtain ⟨a, b⟩ := h.2.2.1 hd
    refine ⟨by rw [hex_text_length, List.length_take, a]; rfl, ?_⟩
    exact hex_text_upper _ (fun y hy => b y (List.mem_of_mem_take hy))
  · rw [hex_text_length]; rfl
  · apply hex_text_upper
    intro c hc
    unfold longword_bytes at hc
    simp only [List.mem_cons, List.mem_singleton, List.not_mem_nil, or_false] at hc
    rcases hc with rfl | rfl | rfl | rfl <;> exact Nat.mod_lt _ (by decide)

set_option maxRecDepth 20000 in
/-- C13, at a concrete input: station 103 with new data and a recorded POST
error; the body has all six fields, `posterr` between `data` and `seq`. -/
theorem set_post_body_field_order_witness :
    (set_post_body (tasks_env_at 0 true) node_processing).2 = 0 ∧
    body_text (set_post_body (tasks_env_at 0 true) node_processing).1.post =
      lit "station=103&data=4C4F4F" ++ List.replicate 184 48 ++
        lit "0A0D0000&posterr=Timed+out+%28state+7%29&seq=42&localip=C0A80005&ver=125" :=
  have h := set_post_body_field_order (tasks_env_at 0 true) node_processing (by decide)
  ⟨h.1, h.2.1.trans (by decide)⟩

/-- C14, counterexample: with the stored sequence number at 2147483646 the
first POST body carries the number 2147483647 and the body of the next attempt
carries 0, which is not greater. -/
theorem seq_sent_wraps :
    node_seq_wrap.bb_seq_num = 2147483646 ∧
    seq_sent (set_post_body (tasks_env_at 0 true) node_seq_wrap).1 = 2147483647 ∧
    seq_sent (set_post_body (tasks_env_at 60 true)
      (set_post_body (tasks_env_at 0 true) node_seq_wrap).1).1 = 0 ∧
    ¬ (seq_sent (set_post_body (tasks_env_at 0 true) node_seq_wrap).1 <
      seq_sent (set_post_body (tasks_env_at 60 true)
        (set_post_body (tasks_env_at 0 true) node_seq_wrap).1).1) := by
  have h1 : seq_sent (set_post_body (tasks_env_at 0 true) node_seq_wrap).1 = 2147483647 := by
    rw [seq_sent_set_post_body]; rfl
  have hb : (set_post_body (tasks_env_at 0 true) node_seq_wrap).1.bb_seq_num = 2147483647 :=
    (set_post_body_rest _ _).2.2.2
  have h2 : seq_sent (set_post_body (tasks_env_at 60 true)
      (set_post_body (tasks_env_at 0 true) node_seq_wrap).1).1 = 0 := by
    rw [seq_sent_set_post_body, hb]
  refine ⟨rfl, h1, h2, ?_⟩
  rw [h1, h2]
  decide

/-- C14, amended: the sequence number a POST body carries is the stored
number plus one, modulo 2^31. A step of the supervisor changes the stored
number only in `TASKS_PROCESSING`, where `set_post_body` steps it on by one, and
`bb_init` keeps it when it finds the magic number in place. So when the stored
number is not changed between two attempts (`m` has the number the first
attempt left), the later body carries the earlier number plus one modulo 2^31:
a strictly greater number unless the earlier one was 2147483647, after which
0 follows. -/
theorem seq_sent_successor (crc : List Nat → Nat) (env1 env2 : TasksEnv) (n m : Node) :
    seq_sent (set_post_body env1 n).1 = (n.bb_seq_num + 1) % 2147483648 ∧
    (tasks_run crc env1 n).1.bb_seq_num =
      (if n.tasks_state.state = .TASKS_PROCESSING then u32 (n.bb_seq_num + 1)
       else n.bb_seq_num) ∧
    (n.bb_mem_flag = BB_MAGIC_NUMBER → (bb_init n).bb_seq_num = n.bb_seq_num) ∧
    (m.bb_seq_num = (set_post_body env1 n).1.bb_seq_num →
      seq_sent (set_post_body env2 m).1 =
        (seq_sent (set_post_body env1 n).1 + 1) % 2147483648 ∧
      (seq_sent (set_post_body env1 n).1 ≠ 2147483647 →
        seq_sent (set_post_body env1 n).1 < seq_sent (set_post_body env2 m).1) ∧
      (seq_sent (set_post_body env1 n).1 = 2147483647 →
        seq_sent (set_post_body env2 m).1 = 0)) := by
  refine ⟨seq_sent_set_post_body env1 n, tasks_run_seq crc env1 n, ?_, ?_⟩
  · intro hm
    unfold bb_init
    simp only [ne_eq, hm, not_true_eq_false, if_false]
    split <;> rfl
  · intro hm
    have hb : (set_post_body env1 n).1.bb_seq_num = u32 (n.bb_seq_num + 1) :=
      (set_post_body_rest env1 n).2.2.2
    rw [seq_sent_set_post_body env2 m, seq_sent_set_post_body env1 n, hm, hb]
    unfold u32
    refine ⟨?_, ?_, ?_⟩ <;> omega

/-- C14 (amended), at a concrete input: with the stored number 41 the second
body carries the successor of the number in the first, and `bb_init` keeps the
stored number. -/
theorem seq_sent_successor_witness :
    seq_sent (set_post_body (tasks_env_at 60 true)
        (set_post_body (tasks_env_at 0 true) node_processing).1).1 =
      (seq_sent (set_post_body (tasks_env_at 0 true) node_processing).1 + 1) % 2147483648 ∧
    (bb_init node_processing).bb_seq_num = 41 :=
  have h := seq_sent_successor crc_calculate (tasks_env_at 0 true) (tasks_env_at 60 true)
    node_processing (set_post_body (tasks_env_at 0 true) node_processing).1
  ⟨(h.2.2.2 rfl).1, h.2.2.1 rfl⟩

set_option maxRecDepth 20000 in
/-- C15, counterexample: after a failed POST (the flag is set) the unit
restarts with the magic number in place but with firmware 1.25 where 1.24 ran
before; `bb_init` clears the flag and replaces the recorded error, and the body
`set_post_body` builds next has no `posterr` field. -/
theorem post_error_flag_cleared_by_reset :
    node_after_upgrade.bb_post_error_flag = 1 ∧
    node_after_upgrade.bb_mem_flag = BB_MAGIC_NUMBER ∧
    (bb_init node_after_upgrade).bb_post_error_flag = 0 ∧
    (bb_init node_after_upgrade).post.bb_post_error_str = BB_BAD_POST_ERR_STR ∧
    body_text (set_post_body (tasks_env_at 0 true) (bb_init node_after_upgrade)).1.post =
      lit "station=103&data=" ++ List.replicate 198 48 ++
        lit "&seq=42&localip=C0A80005&ver=125" := by
  refine ⟨rfl, rfl, by decide, by decide, ?_⟩
  obtain ⟨m, e, B⟩ := set_post_body_built (tasks_env_at 0 true) (bb_init node_after_upgrade)
    (by decide) (by decide) (by decide) (by decide) (by decide)
  rw [e, B.app.text_eq, post_clear_body_text, List.nil_append]
  decide

/-- C15, amended: under the conditions `post_body_inputs_ok` the body
`set_post_body` builds consists of the fields of `post_body_fields`, and a
`posterr` field is among them exactly when `bb_post_error_flag` is set. A step
of the supervisor sets the flag when a POST completes without Success, clears
it when a POST completes with Success and leaves it alone otherwise; outside
`TASKS_PROCESSING` and `TASKS_DELIVERING` it leaves the POST client, and so the
recorded error string and state number, alone. `bb_init` leaves the node as it
is when it finds the magic number and the firmware version unchanged. -/
theorem post_error_flag_rule (crc : List Nat → Nat) (env : TasksEnv) (n : Node) :
    (post_body_inputs_ok n →
      body_text (set_post_body env n).1.post = join_amp (post_body_fields env n) ∧
      ((∃ v, lit "posterr=" ++ v ∈ post_body_fields env n) ↔ n.bb_post_error_flag ≠ 0)) ∧
    ((tasks_run crc env n).1.bb_post_error_flag =
      if n.tasks_state.state = .TASKS_DELIVERING ∧ (post_tick env.post n.post).2 ≠ POST_PENDING
      then (if (post_tick env.post n.post).2 = POST_SUCCESS then 0 else 1)
      else n.bb_post_error_flag) ∧
    (n.tasks_state.state ≠ .TASKS_PROCESSING → n.tasks_state.state ≠ .TASKS_DELIVERING →
      (tasks_run crc env n).1.post = n.post) ∧
    (n.bb_mem_flag = BB_MAGIC_NUMBER → n.bb_ver_major = VER_MAJOR →
      n.bb_ver_minor = VER_MINOR → bb_init n = n) := by
  refine ⟨fun h => ?_, tasks_run_flag_eq crc env n, tasks_run_post crc env n, bb_init_valid n⟩
  obtain ⟨m, e, B⟩ := set_post_body_built env n h.1 h.2.1 h.2.2.1 h.2.2.2.1 h.2.2.2.2
  refine ⟨?_, posterr_in_fields env n⟩
  rw [e, B.app.text_eq, post_clear_body_text, List.nil_append]

/-- C15 (amended), at a concrete input: the flag is set and a `posterr` field
is among the fields; `bb_init` leaves the node with valid battery-backed
variables as it is. -/
theorem post_error_flag_rule_witness :
    ((∃ v, lit "posterr=" ++ v ∈ post_body_fields (tasks_env_at 0 true) node_processing) ↔
      node_processing.bb_post_error_flag ≠ 0) ∧
    bb_init node_processing = node_processing :=
  have h := post_error_flag_rule crc_calculate (tasks_env_at 0 true) node_processing
  ⟨(h.1 (by decide)).2, h.2.2.2 rfl rfl rfl⟩

/-- C16, counterexample: the supervisor is in `TASKS_COLLECTING` with a
collection result queued (`new_data` is 1); the collector has just read 99
zero bytes into the data buffer (`dav_data_valid` is 0) and now rejects them.
The call of `tasks_run` clears `new_data` although no POST has completed: the
POST client is not touched and the supervisor moves to `TASKS_PROCESSING`. -/
theorem new_data_cleared_by_failed_collection :
    (node_in .TASKS_COLLECTING dav_checking_zeros post_timed_out).tasks_state.new_data = 1 ∧
    (dav_tick crc_calculate (tasks_env_at 0 true).dav dav_checking_zeros).2 = DAV_BAD_DATA ∧
    (tasks_run crc_calculate (tasks_env_at 0 true)
      (node_in .TASKS_COLLECTING dav_checking_zeros post_timed_out)).1.tasks_state.new_data = 0 ∧
    (tasks_run crc_calculate (tasks_env_at 0 true)
      (node_in .TASKS_COLLECTING dav_checking_zeros post_timed_out)).1.tasks_state.state =
        .TASKS_PROCESSING ∧
    (tasks_run crc_calculate (tasks_env_at 0 true)
      (node_in .TASKS_COLLECTING dav_checking_zeros post_timed_out)).1.post = post_timed_out := by
  refine ⟨rfl, by decide, by decide, by decide, ?_⟩
  exact tasks_run_post _ _ _ (by decide) (by decide)

/-- C16, amended: in a call of `tasks_run`, `new_data` goes from set to clear
only when the supervisor is in `TASKS_DELIVERING` and `post_tick` returns
Success, or when it is in `TASKS_COLLECTING` and the collector finishes without
Success while `dav_data_valid` is 0 (the data buffer has been overwritten). -/
theorem new_data_cleared_only (crc : List Nat → Nat) (env : TasksEnv) (n : Node)
    (h1 : n.tasks_state.new_data ≠ 0)
    (h2 : (tasks_run crc env n).1.tasks_state.new_data = 0) :
    (n.tasks_state.state = .TASKS_DELIVERING ∧ (post_tick env.post n.post).2 = POST_SUCCESS) ∨
    (n.tasks_state.state = .TASKS_COLLECTING ∧
      (dav_tick crc env.dav n.dav).2 ≠ DAV_PENDING ∧
      (dav_tick crc env.dav n.dav).2 ≠ DAV_SUCCESS ∧
      (dav_tick crc env.dav n.dav).1.dav_data_valid = 0) := by
  by_cases hc : n.tasks_state.state = .TASKS_COLLECTING
  · right
    rw [tasks_run_at_collecting crc env n hc] at h2
    by_cases hp : (dav_tick crc env.dav n.dav).2 = DAV_PENDING
    · rw [tasks_run_collecting_pending crc env n hp] at h2
      exact absurd h2 h1
    by_cases hs : (dav_tick crc env.dav n.dav).2 = DAV_SUCCESS
    · rw [(tasks_run_collecting_success crc env n hp hs).1] at h2
      exact absurd h2 (by decide)
    refine ⟨hc, hp, hs, ?_⟩
    rw [(tasks_run_collecting_failure crc env n hp hs).2.2.2] at h2
    by_contra hv
    rw [if_neg hv] at h2
    exact h1 h2
  by_cases hd : n.tasks_state.state = .TASKS_DELIVERING
  · left
    rw [tasks_run_at_delivering crc env n hd] at h2
    by_cases hp : (post_tick env.post n.post).2 = POST_PENDING
    · rw [(tasks_run_delivering_pending crc env n hp).2] at h2
      exact absurd h2 h1
    by_cases hs : (post_tick env.post n.post).2 = POST_SUCCESS
    · exact ⟨hd, hs⟩
    · rw [(tasks_run_delivering_failure crc env n hp hs).2.2.1] at h2
      exact absurd h2 h1
  · rw [tasks_run_new_data crc env n hc hd] at h2
    exact absurd h2 h1

/-- C16 (amended), at a concrete input: the step that clears `new_data` is a
failed collection that has overwritten the data buffer. -/
theorem new_data_cleared_only_witness :
    ((node_in .TASKS_COLLECTING dav_checking_zeros post_timed_out).tasks_state.state =
        .TASKS_DELIVERING ∧
      (post_tick (tasks_env_at 0 true).post post_timed_out).2 = POST_SUCCESS) ∨
    ((node_in .TASKS_COLLECTING dav_checking_zeros post_timed_out).tasks_state.state =
        .TASKS_COLLECTING ∧
      (dav_tick crc_calculate (tasks_env_at 0 true).dav dav_checking_zeros).2 ≠ DAV_PENDING ∧
      (dav_tick crc_calculate (tasks_env_at 0 true).dav dav_checking_zeros).2 ≠ DAV_SUCCESS ∧
      (dav_tick crc_calculate (tasks_env_at 0 true).dav dav_checking_zeros).1.dav_data_valid = 0) :=
  new_data_cleared_only crc_calculate (tasks_env_at 0 true)
    (node_in .TASKS_COLLECTING dav_checking_zeros post_timed_out) (by decide) (by decide)

/-- C17: a call of `tasks_run` in `TASKS_COLLECTING` in which the collector
finishes (`dav_tick` returns something other than Pending), with the error
counter below 255. When the collector reports Success, `new_data` is set,
`collect_err_ctr` is cleared and the supervisor moves to `TASKS_PROCESSING`.
On any other result `collect_err_ctr` goes up by one; `tasks_run` returns
CollectFail exactly when the counter has then reached 10, which for a counter
of at most 9 is the call that finds it at 9, the 10th failure in a row;
otherwise the counter stays at most 9 and the supervisor still moves to
`TASKS_PROCESSING`. -/
theorem tasks_collecting_finished (crc : List Nat → Nat) (env : TasksEnv) (n : Node)
    (hst : n.tasks_state.state = .TASKS_COLLECTING)
    (hfin : (dav_tick crc env.dav n.dav).2 ≠ DAV_PENDING)
    (hctr : n.tasks_state.collect_err_ctr < 255) :
    ((dav_tick crc env.dav n.dav).2 = DAV_SUCCESS →
      (tasks_run crc env n).1.tasks_state.new_data = 1 ∧
      (tasks_run crc env n).1.tasks_state.collect_err_ctr = 0 ∧
      (tasks_run crc env n).1.tasks_state.state = .TASKS_PROCESSING ∧
      (tasks_run crc env n).2 = TASKS_OK) ∧
    ((dav_tick crc env.dav n.dav).2 ≠ DAV_SUCCESS →
      (tasks_run crc env n).1.tasks_state.collect_err_ctr = n.tasks_state.collect_err_ctr + 1 ∧
      ((tasks_run crc env n).2 = TASKS_COLLECT_FAIL ↔ 10 ≤ n.tasks_state.collect_err_ctr + 1) ∧
      (n.tasks_state.collect_err_ctr ≤ 9 →
        ((tasks_run crc env n).2 = TASKS_COLLECT_FAIL ↔ n.tasks_state.collect_err_ctr = 9)) ∧
      ((tasks_run crc env n).2 ≠ TASKS_COLLECT_FAIL →
        (tasks_run crc env n).1.tasks_state.collect_err_ctr ≤ 9 ∧
        (tasks_run crc env n).1.tasks_state.state = .TASKS_PROCESSING ∧
        (tasks_run crc env n).2 = TASKS_OK)) := by
  have hu : u8 (n.tasks_state.collect_err_ctr + 1) = n.tasks_state.collect_err_ctr + 1 :=
    Nat.mod_eq_of_lt (by omega)
  rw [tasks_run_at_collecting crc env n hst]
  refine ⟨tasks_run_collecting_success crc env n hfin, fun hs => ?_⟩
  obtain ⟨a, b, c, _⟩ := tasks_run_collecting_failure crc env n hfin hs
  rw [hu] at a b c
  rw [a, b, c]
  by_cases h10 : n.tasks_state.collect_err_ctr + 1 ≥ MAX_COLLECT_ERRS
  · have h10b : 10 ≤ n.tasks_state.collect_err_ctr + 1 := h10
    rw [if_pos h10, if_pos h10]
    exact ⟨rfl, ⟨fun _ => h10b, fun _ => rfl⟩, fun h9 => ⟨fun _ => by omega, fun _ => rfl⟩,
      fun h => absurd rfl h⟩
  · have h10b : ¬ 10 ≤ n.tasks_state.collect_err_ctr + 1 := h10
    have hne : TASKS_OK ≠ TASKS_COLLECT_FAIL := by decide
    rw [if_neg h10, if_neg h10]
    exact ⟨rfl, ⟨fun h => absurd h hne, fun h => absurd h h10b⟩,
      fun _ => ⟨fun h => absurd h hne, fun h => by omega⟩,
      fun _ => ⟨by omega, rfl, rfl⟩⟩

/-- C17, at a concrete input: the collector rejects a packet of zero bytes
and the counter goes from 0 to 1. -/
theorem tasks_collecting_finished_witness :
    (tasks_run crc_calculate (tasks_env_at 0 true)
      (node_in .TASKS_COLLECTING dav_checking_zeros post_timed_out)).1.tasks_state.collect_err_ctr
      = 0 + 1 :=
  ((tasks_collecting_finished crc_calculate (tasks_env_at 0 true)
    (node_in .TASKS_COLLECTING dav_checking_zeros post_timed_out) rfl (by decide) (by decide)).2
    (by decide)).1
/-! ## bb_vars.c : the battery-backed variables at start-up -/

/-- The node `bb_init` leaves when the magic number is wrong. -/
theorem bb_init_bad_magic (n : Node) (h : n.bb_mem_flag ≠ BB_MAGIC_NUMBER) :
    bb_init n =
      { n with bb_mem_flag := BB_MAGIC_NUMBER, bb_seq_num := 0, bb_ver_major := VER_MAJOR,
               bb_ver_minor := VER_MINOR, bb_post_error_flag := 0,
               post := { n.post with bb_post_error_str := BB_BAD_POST_ERR_STR,
                                     bb_post_error_state_num := -1 } } := by
  unfold bb_init
  simp only [ne_eq, h, not_false_eq_true, if_true]
  rw [if_pos (Or.inl (by decide))]

/-- The node `bb_init` leaves when the magic number is in place and the
stored version is not that of the firmware. -/
theorem bb_init_old_version (n : Node) (h : n.bb_mem_flag = BB_MAGIC_NUMBER)
    (hv : n.bb_ver_major ≠ VER_MAJOR ∨ n.bb_ver_minor ≠ VER_MINOR) :
    bb_init n =
      { n with bb_ver_major := VER_MAJOR, bb_ver_minor := VER_MINOR, bb_post_error_flag := 0,
               post := { n.post with bb_post_error_str := BB_BAD_POST_ERR_STR,
                                     bb_post_error_state_num := -1 } } := by
  unfold bb_init
  simp only [ne_eq, h, not_true_eq_false, if_false]
  rw [if_pos hv]

/-- After `bb_init` the magic number and the version are the current ones. -/
theorem bb_init_current (n : Node) :
    (bb_init n).bb_mem_flag = BB_MAGIC_NUMBER ∧ (bb_init n).bb_ver_major = VER_MAJOR ∧
    (bb_init n).bb_ver_minor = VER_MINOR := by
  by_cases h : n.bb_mem_flag = BB_MAGIC_NUMBER
  · by_cases hv : n.bb_ver_major ≠ VER_MAJOR ∨ n.bb_ver_minor ≠ VER_MINOR
    · rw [bb_init_old_version n h hv]
      exact ⟨h, rfl, rfl⟩
    · have h1 : n.bb_ver_major = VER_MAJOR := by
        by_contra c; exact hv (Or.inl c)
      have h2 : n.bb_ver_minor = VER_MINOR := by
        by_contra c; exact hv (Or.inr c)
      rw [bb_init_valid n h h1 h2]
      exact ⟨h, h1, h2⟩
  · rw [bb_init_bad_magic n h]
    exact ⟨rfl, rfl, rfl⟩

/-- C30: `bb_init`. If the stored magic number is not 0xFACE55AA the sequence
number becomes 0 and the record of the last POST error is reset (flag 0,
string "Invalid POST error string", state -1). If the magic number is in place
but the stored version is not that of the firmware, the record is reset in the
same way and the sequence number is unchanged. If both match, nothing changes.
After `bb_init` the magic number and the version are the current ones, and a
second `bb_init` changes nothing. -/
theorem bb_init_cases (n : Node) :
    (n.bb_mem_flag ≠ BB_MAGIC_NUMBER →
      (bb_init n).bb_seq_num = 0 ∧ (bb_init n).bb_post_error_flag = 0 ∧
      (bb_init n).post.bb_post_error_str = "Invalid POST error string" ∧
      (bb_init n).post.bb_post_error_state_num = -1) ∧
    (n.bb_mem_flag = BB_MAGIC_NUMBER →
      (n.bb_ver_major ≠ VER_MAJOR ∨ n.bb_ver_minor ≠ VER_MINOR) →
      (bb_init n).bb_seq_num = n.bb_seq_num ∧ (bb_init n).bb_post_error_flag = 0 ∧
      (bb_init n).post.bb_post_error_str = "Invalid POST error string" ∧
      (bb_init n).post.bb_post_error_state_num = -1) ∧
    (n.bb_mem_flag = BB_MAGIC_NUMBER → n.bb_ver_major = VER_MAJOR →
      n.bb_ver_minor = VER_MINOR → bb_init n = n) ∧
    ((bb_init n).bb_mem_flag = 0xFACE55AA ∧ (bb_init n).bb_ver_major = VER_MAJOR ∧
      (bb_init n).bb_ver_minor = VER_MINOR) ∧
    bb_init (bb_init n) = bb_init n := by
  obtain ⟨c1, c2, c3⟩ := bb_init_current n
  refine ⟨fun h => ?_, fun h hv => ?_, bb_init_valid n, ⟨c1, c2, c3⟩, bb_init_valid _ c1 c2 c3⟩
  · rw [bb_init_bad_magic n h]
    exact ⟨rfl, rfl, rfl, rfl⟩
  · rw [bb_init_old_version n h hv]
    exact ⟨rfl, rfl, rfl, rfl⟩

/-- C30, at a concrete input: after a change of firmware from 1.24 to 1.25
the sequence number 41 is kept and the error flag is cleared. -/
theorem bb_init_cases_witness :
    (bb_init node_after_upgrade).bb_seq_num = 41 ∧
    (bb_init node_after_upgrade).bb_post_error_flag = 0 :=
  have h := (bb_init_cases node_after_upgrade).2.1 rfl (Or.inr (by decide))
  ⟨h.1, h.2.1⟩

/-! ## tasks.c : the collection interval -/

set_option maxRecDepth 100000 in
/-- Function `wx_get_switches` sets `wx_switch_3` to 1 exactly when bit 2 of
the byte read is 0, that is when switch 3 is closed (on). -/
theorem wx_get_switches_3 (raw : Nat) (n : Node) :
    (wx_get_switches raw n).wx_switch_3 = if (raw % 256) &&& 4 = 0 then 1 else 0 := by
  have h : ∀ r, r < 256 → ((255 - r) &&& 4 ≠ 0 ↔ r &&& 4 = 0) := by decide
  have hr := h (raw % 256) (Nat.mod_lt _ (by decide))
  unfold wx_get_switches
  dsimp only
  by_cases c : (raw % 256) &&& 4 = 0
  · rw [if_pos c, if_pos (hr.mpr c)]
  · rw [if_neg c, if_neg (fun x => c (hr.mp x))]

/-- C29: for a 16-bit `update_secs`, `set_next_collection_time` sets the
collection timer `update_secs` seconds ahead when 1 <= `update_secs` <= 3600.
For every other value (0, or 3601..65535) DIP switch 3 selects the interval,
the other way round from the comment above the function: 300 s ("slow") when
`wx_switch_3` is set, which `wx_get_switches` does when the switch is closed
(on), and 60 s ("fast") when it is clear (switch off). -/
theorem set_next_collection_time_interval (env : TasksEnv) (n : Node)
    (hu : n.update_secs < 65536) :
    (1 ≤ n.update_secs → n.update_secs ≤ 3600 →
      (set_next_collection_time env n).tasks_state.collect_tmr =
        SET_TIMEOUT_UI env.secs n.update_secs) ∧
    ((n.update_secs = 0 ∨ 3600 < n.update_secs) →
      (n.wx_switch_3 ≠ 0 →
        (set_next_collection_time env n).tasks_state.collect_tmr =
          SET_TIMEOUT_UI env.secs 300) ∧
      (n.wx_switch_3 = 0 →
        (set_next_collection_time env n).tasks_state.collect_tmr =
          SET_TIMEOUT_UI env.secs 60)) ∧
    (∀ raw : Nat, (wx_get_switches raw n).wx_switch_3 = if (raw % 256) &&& 4 = 0 then 1 else 0) := by
  refine ⟨fun h1 h2 => ?_, fun h => ⟨fun hs => ?_, fun hs => ?_⟩, fun raw => wx_get_switches_3 raw n⟩
  · have c : u16 (n.update_secs + 65535) < TASKS_MAX_UPDATE_SECS := by
      unfold u16 TASKS_MAX_UPDATE_SECS; omega
    unfold set_next_collection_time
    dsimp only
    rw [if_pos c]
  · have c : ¬ u16 (n.update_secs + 65535) < TASKS_MAX_UPDATE_SECS := by
      unfold u16 TASKS_MAX_UPDATE_SECS; omega
    unfold set_next_collection_time
    dsimp only
    rw [if_neg c, if_pos hs]
    rfl
  · have c : ¬ u16 (n.update_secs + 65535) < TASKS_MAX_UPDATE_SECS := by
      unfold u16 TASKS_MAX_UPDATE_SECS; omega
    unfold set_next_collection_time
    dsimp only
    rw [if_neg c, if_neg (not_not.mpr hs)]
    rfl

/-- C29, at a concrete input: `update_secs` is 0 and the byte read from the
switches is 0xFB (switch 3 closed, the others open); at second 1000 the next
collection is set for second 1300, 300 s ahead. -/
theorem set_next_collection_time_interval_witness :
    (wx_get_switches 0xFB (node_in .TASKS_IDLE dav_initial post_timed_out)).wx_switch_3 = 1 ∧
    (set_next_collection_time (tasks_env_at 1000 true)
      (wx_get_switches 0xFB (node_in .TASKS_IDLE dav_initial post_timed_out))).tasks_state.collect_tmr
      = 1300 :=
  have h := set_next_collection_time_interval (tasks_env_at 1000 true)
    (wx_get_switches 0xFB (node_in .TASKS_IDLE dav_initial post_timed_out)) (by decide)
  ⟨(h.2.2 0xFB).trans (by decide), ((h.2.1 (Or.inl rfl)).1 (by decide)).trans (by decide)⟩

/-! ## tasks.c : the idle state and the network check -/

/-- The value `tasks_run` returns in `TASKS_IDLE`. -/
theorem tasks_run_idle_ret (crc : List Nat → Nat) (env : TasksEnv) (n : Node) :
    (tasks_run_idle crc env n).2 =
      if CHK_TIMEOUT_UI env.secs n.tasks_state.collect_tmr then TASKS_OK
      else if CHK_TIMEOUT_UL env.secs n.tasks_state.time_chk_tmr then TASKS_OK
      else if env.inchar = MENU_ESC then TASKS_MENU
      else if env.lan_check_ok = LAN_OK then TASKS_OK
      else if env.lan_check_ok = LAN_ETH_DOWN then TASKS_ETH_DOWN
      else TASKS_LAN_DOWN := by
  unfold tasks_run_idle
  dsimp only
  by_cases c1 : CHK_TIMEOUT_UI env.secs n.tasks_state.collect_tmr = true
  · rw [if_pos c1, if_pos c1]
  rw [if_neg c1, if_neg c1]
  by_cases c2 : CHK_TIMEOUT_UL env.secs n.tasks_state.time_chk_tmr = true
  · rw [if_pos c2, if_pos c2]
    split <;> rfl
  rw [if_neg c2, if_neg c2]
  by_cases c3 : env.inchar = MENU_ESC
  · rw [if_pos c3, if_pos c3]
  rw [if_neg c3, if_neg c3]
  by_cases c4 : env.lan_check_ok = LAN_OK
  · rw [if_pos c4, if_pos c4]
  rw [if_neg c4, if_neg c4]
  by_cases c5 : env.lan_check_ok = LAN_ETH_DOWN
  · rw [if_pos c5, if_pos c5]
  · rw [if_neg c5, if_neg c5]

theorem tasks_run_at_idle (crc : List Nat → Nat) (env : TasksEnv) (n : Node)
    (hst : n.tasks_state.state = .TASKS_IDLE) :
    tasks_run crc env n = tasks_run_idle crc env n := by
  unfold tasks_run; rw [hst]

/-- The value of `lan_check_ok` by what the library reports. -/
theorem lan_check_ok_cases (l : LanEnv) :
    (l.pd_havelink = false → lan_check_ok l = LAN_ETH_DOWN) ∧
    (l.pd_havelink = true → l.ifstatus = false → lan_check_ok l = LAN_IF_DOWN) ∧
    (l.pd_havelink = true → l.ifstatus = true → l.lan_dhcp_used = true →
      l.ifconfig_result = 0 → l.dhcp_ok = false → lan_check_ok l = LAN_DHCP_DOWN) ∧
    (l.pd_havelink = true → l.ifstatus = true →
      (l.lan_dhcp_used = false ∨ l.ifconfig_result ≠ 0 ∨ l.dhcp_ok = true) →
      lan_check_ok l = LAN_OK) := by
  unfold lan_check_ok
  refine ⟨fun h => ?_, fun h1 h2 => ?_, fun h1 h2 h3 h4 h5 => ?_, fun h1 h2 h3 => ?_⟩
  · simp [h]
  · simp [h1, h2]
  · simp [h1, h2, h3, h4, h5]
  · rcases h3 with h3 | h3 | h3
    · simp [h1, h2, h3]
    · simp [h1, h2, h3]
    · simp [h1, h2, h3]

/-- C28, counterexample: the supervisor is in `TASKS_IDLE`, the collection
timer (set for second 60) has run out at second 100 and the Ethernet link is
down. The call of `tasks_run` starts the collection and returns `TASKS_OK`;
the answer of `lan_check_ok` plays no part. -/
theorem idle_collection_due_skips_lan_check :
    lan_check_ok lan_link_down = LAN_ETH_DOWN ∧
    CHK_TIMEOUT_UI 100 (node_in .TASKS_IDLE dav_initial post_timed_out).tasks_state.collect_tmr
      = true ∧
    (tasks_run crc_calculate (tasks_env_link_down 100)
      (node_in .TASKS_IDLE dav_initial post_timed_out)).2 = TASKS_OK ∧
    (tasks_run crc_calculate (tasks_env_link_down 100)
      (node_in .TASKS_IDLE dav_initial post_timed_out)).1.tasks_state.state =
        .TASKS_COLLECTING := by
  refine ⟨by decide, by decide, ?_, ?_⟩
  · rw [tasks_run_at_idle _ _ _ rfl, tasks_run_idle_ret]
    decide
  · rw [tasks_run_at_idle _ _ _ rfl]
    unfold tasks_run_idle
    dsimp only
    rw [if_pos (by decide)]
    rfl

/-- C28, amended: a call of `tasks_run` in `TASKS_IDLE` checks the LAN only
when neither the collection nor the time check is due and the console did not
deliver ESC. Then, with `l` what the library reports to `lan_check_ok`, the
call returns EthDown when the link is down, LanDown when the link is up and the
IP interface is down or the DHCP lease (in use and readable) has expired, and
Ok when the check passes. When the collection or the time check is due the
call returns Ok, and on ESC it returns Menu, whatever the state of the LAN. -/
theorem idle_lan_check (crc : List Nat → Nat) (env : TasksEnv) (n : Node) (l : LanEnv)
    (hst : n.tasks_state.state = .TASKS_IDLE) (hl : env.lan_check_ok = lan_check_ok l) :
    (CHK_TIMEOUT_UI env.secs n.tasks_state.collect_tmr = false →
      CHK_TIMEOUT_UL env.secs n.tasks_state.time_chk_tmr = false → env.inchar ≠ MENU_ESC →
      (l.pd_havelink = false → (tasks_run crc env n).2 = TASKS_ETH_DOWN) ∧
      (l.pd_havelink = true → l.ifstatus = false → (tasks_run crc env n).2 = TASKS_LAN_DOWN) ∧
      (l.pd_havelink = true → l.ifstatus = true → l.lan_dhcp_used = true →
        l.ifconfig_result = 0 → l.dhcp_ok = false →
        (tasks_run crc env n).2 = TASKS_LAN_DOWN) ∧
      (l.pd_havelink = true → l.ifstatus = true →
        (l.lan_dhcp_used = false ∨ l.ifconfig_result ≠ 0 ∨ l.dhcp_ok = true) →
        (tasks_run crc env n).2 = TASKS_OK)) ∧
    (CHK_TIMEOUT_UI env.secs n.tasks_state.collect_tmr = true →
      (tasks_run crc env n).2 = TASKS_OK) ∧
    (CHK_TIMEOUT_UI env.secs n.tasks_state.collect_tmr = false →
      CHK_TIMEOUT_UL env.secs n.tasks_state.time_chk_tmr = true →
      (tasks_run crc env n).2 = TASKS_OK) ∧
    (CHK_TIMEOUT_UI env.secs n.tasks_state.collect_tmr = false →
      CHK_TIMEOUT_UL env.secs n.tasks_state.time_chk_tmr = false → env.inchar = MENU_ESC →
      (tasks_run crc env n).2 = TASKS_MENU) := by
  obtain ⟨a1, a2, a3, a4⟩ := lan_check_ok_cases l
  rw [tasks_run_at_idle crc env n hst, tasks_run_idle_ret, hl]
  refine ⟨fun c1 c2 c3 => ?_, fun c1 => ?_, fun c1 c2 => ?_, fun c1 c2 c3 => ?_⟩
  · rw [c1, c2, if_neg (by decide), if_neg (by decide), if_neg c3]
    refine ⟨fun h => ?_, fun h1 h2 => ?_, fun h1 h2 h3 h4 h5 => ?_, fun h1 h2 h3 => ?_⟩
    · rw [a1 h]; rfl
    · rw [a2 h1 h2]; rfl
    · rw [a3 h1 h2 h3 h4 h5]; rfl
    · rw [a4 h1 h2 h3]; rfl
  · rw [c1, if_pos rfl]
  · rw [c1, c2, if_neg (by decide), if_pos rfl]
  · rw [c1, c2, if_neg (by decide), if_neg (by decide), if_pos c3]

/-- C28 (amended), at a concrete input: nothing is due at second 10, no key
was pressed and the link is down; `tasks_run` returns EthDown. -/
theorem idle_lan_check_witness :
    (tasks_run crc_calculate (tasks_env_link_down 10)
      (node_in .TASKS_IDLE dav_initial post_timed_out)).2 = TASKS_ETH_DOWN :=
  ((idle_lan_check crc_calculate (tasks_env_link_down 10)
    (node_in .TASKS_IDLE dav_initial post_timed_out) lan_link_down rfl rfl).1
    (by decide) (by decide) (by decide)).1 rfl

/-! ## tasks.c : the time check and the time setting -/

set_option maxRecDepth 4000 in
set_option maxHeartbeats 1000000 in
/-- No call of `dav_tick` leaves the collector in `DAV_STARTING`: that state is
entered by `dav_start` only. -/
theorem dav_tick_not_starting (crc : List Nat → Nat) (env : DavEnv) (s : DavState) :
    (dav_tick crc env s).1.state ≠ .DAV_STARTING := by
  by_cases hidle : s.state = .DAV_IDLE
  · have e : dav_tick crc env s = (dav_cleanup s, s.condition) := by
      unfold dav_tick; rw [if_pos hidle]
    rw [e]
    show s.state ≠ _
    rw [hidle]
    exact fun h => DavStateValue.noConfusion h
  by_cases herr : env.serial_error = true
  · have e : dav_tick crc env s = dav_error s "Serial port error" DAV_SERIAL_ERR := by
      unfold dav_tick; rw [if_neg hidle, if_pos herr]
    rw [e]
    exact fun h => DavStateValue.noConfusion h
  by_cases hto : CHK_TIMEOUT_UI env.secs s.timeout = true
  · have e : dav_tick crc env s = dav_error s "Timed out" DAV_TIMEOUT := by
      unfold dav_tick; rw [if_neg hidle, if_neg herr, if_pos hto]
    rw [e]
    exact fun h => DavStateValue.noConfusion h
  obtain ⟨st, cond, tmo, cid, cstr, ac, rt, p1, p2, dd, ddv, des, dt, rx, tx, con, led⟩ := s
  have hidle : ¬ (st = .DAV_IDLE) := hidle
  unfold dav_tick
  rw [if_neg hidle, if_neg herr, if_neg hto]
  cases st <;> cases cid <;>
    simp only [set_post_cmd_state, set_post_ack_state, set_post_ok_state, send_command,
      dav_echo_resp, send_wakeup] <;>
    repeat' split
  all_goals exact fun h => DavStateValue.noConfusion h

theorem tasks_start_collection_dav (env : TasksEnv) (m : Node) :
    (tasks_start_collection env m).dav = dav_start_collect env.dav m.dav := by
  unfold tasks_start_collection set_next_collection_time Node.goto
  dsimp only

/-- The collector after a step of the supervisor: as `dav_tick` left it, or
with a Collect or a ChkTime command started, or with a SetTime command
started; the last only in `TASKS_TIME_CHECKING`, on a WrongTime result, with
`rtc_validated` set. -/
theorem tasks_run_dav_cases (crc : List Nat → Nat) (env : TasksEnv) (n : Node) :
    (tasks_run crc env n).1.dav = (dav_tick crc env.dav n.dav).1 ∨
    (tasks_run crc env n).1.dav = dav_start_collect env.dav (dav_tick crc env.dav n.dav).1 ∨
    (tasks_run crc env n).1.dav = dav_start_check_time env.dav (dav_tick crc env.dav n.dav).1 ∨
    ((tasks_run crc env n).1.dav = dav_start_set_time env.dav (dav_tick crc env.dav n.dav).1 ∧
      n.tasks_state.state = .TASKS_TIME_CHECKING ∧
      (dav_tick crc env.dav n.dav).2 = DAV_WRONG_TIME ∧ n.post.rtc_validated = true) := by
  have hr := dav_tick_ret crc env.dav n.dav
  unfold tasks_run
  cases hs : n.tasks_state.state <;> simp only []
  · -- idle
    unfold tasks_run_idle
    dsimp only
    split
    · exact Or.inr (Or.inl (tasks_start_collection_dav env _))
    split
    · split
      · exact Or.inr (Or.inr (Or.inl rfl))
      · exact Or.inl rfl
    split
    · exact Or.inl rfl
    have h : (if env.inchar = EOF then wx_get_switches env.switches
          { n with dav := (dav_tick crc env.dav n.dav).1 }
        else tasks_start_collection env (wx_get_switches env.switches
          { n with dav := (dav_tick crc env.dav n.dav).1 })).dav = (dav_tick crc env.dav n.dav).1 ∨
        (if env.inchar = EOF then wx_get_switches env.switches
          { n with dav := (dav_tick crc env.dav n.dav).1 }
        else tasks_start_collection env (wx_get_switches env.switches
          { n with dav := (dav_tick crc env.dav n.dav).1 })).dav =
          dav_start_collect env.dav (dav_tick crc env.dav n.dav).1 := by
      split
      · exact Or.inl rfl
      · exact Or.inr (tasks_start_collection_dav env _)
    generalize (if env.inchar = EOF then wx_get_switches env.switches
          { n with dav := (dav_tick crc env.dav n.dav).1 }
        else tasks_start_collection env (wx_get_switches env.switches
          { n with dav := (dav_tick crc env.dav n.dav).1 })) = m at h ⊢
    have h2 : m.dav = (dav_tick crc env.dav n.dav).1 ∨
        m.dav = dav_start_collect env.dav (dav_tick crc env.dav n.dav).1 ∨
        m.dav = dav_start_check_time env.dav (dav_tick crc env.dav n.dav).1 ∨
        (m.dav = dav_start_set_time env.dav (dav_tick crc env.dav n.dav).1 ∧
          TasksStateValue.TASKS_IDLE = .TASKS_TIME_CHECKING ∧
          (dav_tick crc env.dav n.dav).2 = DAV_WRONG_TIME ∧ n.post.rtc_validated = true) := by
      rcases h with h | h
      · exact Or.inl h
      · exact Or.inr (Or.inl h)
    split
    · exact h2
    split <;> exact h2
  · -- collecting
    unfold tasks_run_collecting Node.goto
    dsimp only
    split_ifs <;> exact Or.inl rfl
  · -- processing
    have a : (set_post_body env { n with dav := (dav_tick crc env.dav n.dav).1 }).1.dav =
        (dav_tick crc env.dav n.dav).1 :=
      (set_post_body_rest env { n with dav := (dav_tick crc env.dav n.dav).1 }).2.1
    unfold tasks_run_processing Node.goto
    dsimp only
    split_ifs <;> exact Or.inl a
  · -- delivering
    unfold tasks_run_delivering Node.goto
    dsimp only
    split_ifs <;> exact Or.inl rfl
  · -- time checking
    unfold tasks_run_time_checking Node.goto
    dsimp only
    rw [← hr]
    by_cases c1 : (dav_tick crc env.dav n.dav).2 ≠ DAV_PENDING
    · rw [if_pos c1]
      by_cases c2 : (dav_tick crc env.dav n.dav).2 = DAV_SUCCESS
      · rw [if_pos c2]; exact Or.inl rfl
      rw [if_neg c2]
      by_cases c3 : (dav_tick crc env.dav n.dav).2 = DAV_WRONG_TIME
      · rw [if_pos c3]
        by_cases c4 : n.post.rtc_validated = true
        · rw [if_pos c4]
          exact Or.inr (Or.inr (Or.inr ⟨rfl, trivial, c3, c4⟩))
        · rw [if_neg c4]; exact Or.inl rfl
      · rw [if_neg c3]; exact Or.inl rfl
    · rw [if_neg c1]; exact Or.inl rfl
  · -- time setting
    unfold tasks_run_time_setting Node.goto
    dsimp only
    split_ifs <;> exact Or.inl rfl

theorem dav_start_cmd (env : DavEnv) (d : DavState) :
    (dav_start_collect env d).cmd_id = .DAV_CMD_COLLECT ∧
    (dav_start_check_time env d).cmd_id = .DAV_CMD_CHK_TIME ∧
    (dav_start_set_time env d).cmd_id = .DAV_CMD_SET_TIME ∧
    (dav_start_set_time env d).state = .DAV_STARTING := by
  unfold dav_start_collect dav_start_check_time dav_start_set_time dav_start
  exact ⟨rfl, rfl, rfl, rfl⟩

/-- The step in `TASKS_TIME_CHECKING` that finds the station's time wrong. -/
theorem tasks_run_wrong_time (crc : List Nat → Nat) (env : TasksEnv) (n : Node)
    (hw : (dav_tick crc env.dav n.dav).2 = DAV_WRONG_TIME) :
    tasks_run_time_checking crc env n =
      if n.post.rtc_validated then
        (Node.goto { n with dav := dav_start_set_time env.dav (dav_tick crc env.dav n.dav).1 }
          .TASKS_TIME_SETTING, TASKS_OK)
      else (Node.goto { n with dav := (dav_tick crc env.dav n.dav).1 } .TASKS_IDLE, TASKS_OK) := by
  have hr := dav_tick_ret crc env.dav n.dav
  unfold tasks_run_time_checking
  dsimp only
  rw [← hr, hw, if_pos (by decide), if_neg (by decide), if_pos rfl]

/-- The step in `TASKS_IDLE` in which the time check is due and the
collection is not. -/
theorem tasks_run_time_check_due (crc : List Nat → Nat) (env : TasksEnv) (n : Node)
    (c1 : CHK_TIMEOUT_UI env.secs n.tasks_state.collect_tmr = false)
    (c2 : CHK_TIMEOUT_UL env.secs n.tasks_state.time_chk_tmr = true) :
    tasks_run_idle crc env n =
      if n.post.rtc_validated then
        (Node.goto
          { n with
              dav := dav_start_check_time env.dav (dav_tick crc env.dav n.dav).1
              tasks_state := { n.tasks_state with
                time_chk_tmr := SET_TIMEOUT_UL env.secs BACKOFF_TIME_CHK_SECS } }
          .TASKS_TIME_CHECKING, TASKS_OK)
      else
        ({ n with
            dav := (dav_tick crc env.dav n.dav).1
            tasks_state := { n.tasks_state with
              time_chk_tmr := SET_TIMEOUT_UL env.secs BACKOFF_TIME_CHK_SECS } }, TASKS_OK) := by
  unfold tasks_run_idle
  dsimp only
  rw [c1, if_neg (by decide), c2, if_pos rfl]

theorem tasks_run_at_time_checking (crc : List Nat → Nat) (env : TasksEnv) (n : Node)
    (hst : n.tasks_state.state = .TASKS_TIME_CHECKING) :
    tasks_run crc env n = tasks_run_time_checking crc env n := by
  unfold tasks_run; rw [hst]

/-- C22: a SetTime command is started only with a validated clock. After any
step of the supervisor, the collector is in `DAV_STARTING` under the command
SetTime only if the step was made in `TASKS_TIME_CHECKING`, `dav_tick` returned
WrongTime and `rtc_validated` was set (`dav_tick` itself never leaves the
collector in `DAV_STARTING`, so that state after a step means a command was
started in it). With `rtc_validated` clear, a WrongTime result returns the
supervisor to `TASKS_IDLE` and leaves the collector as `dav_tick` left it, and
a due time check re-arms the timer (300 s) and starts no command. Steps in
`TASKS_TIME_CHECKING` and `TASKS_TIME_SETTING` do not touch `rtc_validated`. -/
theorem set_time_needs_validated_clock (crc : List Nat → Nat) (env : TasksEnv) (n : Node) :
    ((tasks_run crc env n).1.dav.state = .DAV_STARTING →
      (tasks_run crc env n).1.dav.cmd_id = .DAV_CMD_SET_TIME →
      n.tasks_state.state = .TASKS_TIME_CHECKING ∧
      (dav_tick crc env.dav n.dav).2 = DAV_WRONG_TIME ∧ n.post.rtc_validated = true) ∧
    (dav_tick crc env.dav n.dav).1.state ≠ .DAV_STARTING ∧
    (n.tasks_state.state = .TASKS_TIME_CHECKING →
      (dav_tick crc env.dav n.dav).2 = DAV_WRONG_TIME → n.post.rtc_validated = false →
      (tasks_run crc env n).1.tasks_state.state = .TASKS_IDLE ∧
      (tasks_run crc env n).1.dav = (dav_tick crc env.dav n.dav).1 ∧
      (tasks_run crc env n).2 = TASKS_OK) ∧
    (n.tasks_state.state = .TASKS_IDLE →
      CHK_TIMEOUT_UI env.secs n.tasks_state.collect_tmr = false →
      CHK_TIMEOUT_UL env.secs n.tasks_state.time_chk_tmr = true →
      n.post.rtc_validated = false →
      (tasks_run crc env n).1.tasks_state.state = .TASKS_IDLE ∧
      (tasks_run crc env n).1.dav = (dav_tick crc env.dav n.dav).1 ∧
      (tasks_run crc env n).1.tasks_state.time_chk_tmr = SET_TIMEOUT_UL env.secs 300) ∧
    ((n.tasks_state.state = .TASKS_TIME_CHECKING ∨ n.tasks_state.state = .TASKS_TIME_SETTING) →
      (tasks_run crc env n).1.post.rtc_validated = n.post.rtc_validated) := by
  have hns := dav_tick_not_starting crc env.dav n.dav
  refine ⟨fun h1 h2 => ?_, hns, fun hs hw hv => ?_, fun hs c1 c2 hv => ?_, fun hs => ?_⟩
  · rcases tasks_run_dav_cases crc env n with h | h | h | h
    · rw [h] at h1; exact absurd h1 hns
    · rw [h, (dav_start_cmd env.dav _).1] at h2; exact DavCmd.noConfusion h2
    · rw [h, (dav_start_cmd env.dav _).2.1] at h2; exact DavCmd.noConfusion h2
    · exact h.2
  · rw [tasks_run_at_time_checking crc env n hs, tasks_run_wrong_time crc env n hw, hv,
      if_neg (by decide)]
    exact ⟨rfl, rfl, rfl⟩
  · rw [tasks_run_at_idle crc env n hs, tasks_run_time_check_due crc env n c1 c2, hv,
      if_neg (by decide)]
    exact ⟨hs, rfl, rfl⟩
  · have hp : (tasks_run crc env n).1.post = n.post := by
      apply tasks_run_post
      · rcases hs with h | h <;> rw [h] <;> exact fun x => TasksStateValue.noConfusion x
      · rcases hs with h | h <;> rw [h] <;> exact fun x => TasksStateValue.noConfusion x
    rw [hp]

set_option maxRecDepth 20000 in
/-- C22, at a concrete input (scenario S4 with an unvalidated clock): the
station's time is 600 s from the clock, `rtc_validated` is clear; the
supervisor returns to `TASKS_IDLE` and the collector is at rest. -/
theorem set_time_needs_validated_clock_witness :
    (tasks_run crc_calculate (tasks_env_clock 1000 600)
      (node_in .TASKS_TIME_CHECKING (dav_awaiting_time time_packet_2006)
        post_timed_out)).1.tasks_state.state = .TASKS_IDLE ∧
    (tasks_run crc_calculate (tasks_env_clock 1000 600)
      (node_in .TASKS_TIME_CHECKING (dav_awaiting_time time_packet_2006)
        post_timed_out)).1.dav.state = .DAV_IDLE :=
  have h := (set_time_needs_validated_clock crc_calculate (tasks_env_clock 1000 600)
    (node_in .TASKS_TIME_CHECKING (dav_awaiting_time time_packet_2006) post_timed_out)).2.2.1
    rfl (by decide) rfl
  ⟨h.1, (congrArg DavState.state h.2.1).trans (by decide)⟩

/-! ## davis.c : the time packet -/

theorem to_uchar_of_byte (x : Int) (h0 : 0 ≤ x) (h1 : x < 256) : ((to_uchar x : Nat) : Int) = x := by
  unfold to_uchar
  rw [Int.emod_eq_of_lt h0 h1]
  exact Int.toNat_of_nonneg h0

theorem to_uchar_lt (x : Int) : to_uchar x < 256 := by
  unfold to_uchar
  have h1 : 0 ≤ x % 256 := Int.emod_nonneg x (by decide)
  have h2 : x % 256 < 256 := Int.emod_lt_of_pos x (by decide)
  omega

theorem time_packet_bytes (crc : List Nat → Nat) (env : DavEnv) :
    (time_packet crc env).length = 8 ∧ ∀ b ∈ time_packet crc env, b < 256 := by
  refine ⟨rfl, ?_⟩
  intro b hb
  unfold time_packet time_fields at hb
  simp only [List.cons_append, List.nil_append, List.mem_cons, List.mem_singleton,
    List.not_mem_nil, or_false] at hb
  rcases hb with h | h | h | h | h | h | h | h
  · rw [h]; exact to_uchar_lt _
  · rw [h]; exact to_uchar_lt _
  · rw [h]; exact to_uchar_lt _
  · rw [h]; exact to_uchar_lt _
  · rw [h]; exact to_uchar_lt _
  · rw [h]; exact to_uchar_lt _
  · rw [h]
    exact Nat.lt_of_le_of_lt Nat.and_le_right (by decide)
  · rw [h]
    exact Nat.lt_of_le_of_lt Nat.and_le_right (by decide)

/-- The CRC bytes `dav_calc_time_crc` stores are the ones `dav_check_time_crc`
looks for. -/
theorem time_packet_crc_ok (crc : List Nat → Nat) (env : DavEnv) :
    time_crc_ok crc (time_packet crc env) := by
  have h1 : (time_packet crc env).take 6 = time_fields env := rfl
  have h2 : (time_packet crc env).getD 6 0 = (u16 (crc (time_fields env)) >>> 8) &&& 0xFF := rfl
  have h3 : (time_packet crc env).getD 7 0 = u16 (crc (time_fields env)) &&& 0xFF := rfl
  show u16 (crc ((time_packet crc env).take 6)) = 256 * (time_packet crc env).getD 6 0 +
    (time_packet crc env).getD 7 0
  rw [h1, h2, h3]
  have hc : u16 (crc (time_fields env)) < 65536 := Nat.mod_lt _ (by decide)
  generalize u16 (crc (time_fields env)) = c at hc
  have e1 : c &&& 0xFF = c % 256 := Nat.and_pow_two_sub_one_eq_mod c 8
  have e2 : (c >>> 8) &&& 0xFF = (c >>> 8) % 256 := Nat.and_pow_two_sub_one_eq_mod (c >>> 8) 8
  rw [e1, e2, Nat.shiftRight_eq_div_pow]
  omega

/-- The calendar fields the time packet decodes to are those `gmtime` gave,
when each of them (the month plus one) is a byte. -/
theorem station_tm_time_packet (crc : List Nat → Nat) (env : DavEnv)
    (hs : 0 ≤ (env.gmtime env.time_now).tm_sec ∧ (env.gmtime env.time_now).tm_sec < 256)
    (hm : 0 ≤ (env.gmtime env.time_now).tm_min ∧ (env.gmtime env.time_now).tm_min < 256)
    (hh : 0 ≤ (env.gmtime env.time_now).tm_hour ∧ (env.gmtime env.time_now).tm_hour < 256)
    (hd : 0 ≤ (env.gmtime env.time_now).tm_mday ∧ (env.gmtime env.time_now).tm_mday < 256)
    (hmo : 0 ≤ (env.gmtime env.time_now).tm_mon + 1 ∧ (env.gmtime env.time_now).tm_mon + 1 < 256)
    (hy : 0 ≤ (env.gmtime env.time_now).tm_year ∧ (env.gmtime env.time_now).tm_year < 256) :
    station_tm (time_packet crc env) = env.gmtime env.time_now := by
  have e : station_tm (time_packet crc env) =
      { tm_sec := to_uchar (env.gmtime env.time_now).tm_sec
        tm_min := to_uchar (env.gmtime env.time_now).tm_min
        tm_hour := to_uchar (env.gmtime env.time_now).tm_hour
        tm_mday := to_uchar (env.gmtime env.time_now).tm_mday
        tm_mon := (to_uchar ((env.gmtime env.time_now).tm_mon + 1) : Int) - 1
        tm_year := to_uchar (env.gmtime env.time_now).tm_year } := rfl
  rw [e, to_uchar_of_byte _ hs.1 hs.2, to_uchar_of_byte _ hm.1 hm.2, to_uchar_of_byte _ hh.1 hh.2,
    to_uchar_of_byte _ hd.1 hd.2, to_uchar_of_byte _ hmo.1 hmo.2, to_uchar_of_byte _ hy.1 hy.2]
  cases hg : env.gmtime env.time_now
  simp

/-- C21: `dav_send_time` hands to the serial port the packet `time_packet`
(seconds, minutes, hours, day, month plus one, year less 1900, CRC high, CRC
low) for the clock reading of `env1`. That packet passes the CRC check of
`dav_check_time_crc` and, when the calendar fields are bytes, decodes (month
less one) to the fields `gmtime` gave. So when the station returns it in
`DAV_AWAITING_TIME` (no serial error, no overall timeout), `mktime` inverts
`gmtime` at that reading and the clock has moved by less than 30 s, `dav_tick`
returns Success and not BadTime or WrongTime. -/
theorem time_packet_round_trip (crc : List Nat → Nat) (env1 env2 : DavEnv) (s : DavState)
    (rest : List Nat) (hstate : s.state = .DAV_AWAITING_TIME)
    (hrx : s.rx = time_packet crc env1 ++ rest)
    (herr : env2.serial_error = false) (hto : CHK_TIMEOUT_UI env2.secs s.timeout = false)
    (hb : tm_in_bytes (env1.gmtime env1.time_now))
    (hround : env2.mktime (env1.gmtime env1.time_now) = env1.time_now)
    (hclock : rtc_diff env2.time_now env1.time_now < 30) :
    (∀ s0 : DavState, (dav_send_time crc env1 s0).tx = s0.tx ++ time_packet crc env1) ∧
    dav_check_time_crc crc { s with dav_time := time_packet crc env1 } = true ∧
    station_tm (time_packet crc env1) = env1.gmtime env1.time_now ∧
    (dav_tick crc env2 s).2 = DAV_SUCCESS ∧
    (dav_tick crc env2 s).2 ≠ DAV_BAD_TIME ∧ (dav_tick crc env2 s).2 ≠ DAV_WRONG_TIME := by
  obtain ⟨hl, hbytes⟩ := time_packet_bytes crc env1
  have hcrc := time_packet_crc_ok crc env1
  have htm := station_tm_time_packet crc env1 hb.1 hb.2.1 hb.2.2.1 hb.2.2.2.1 hb.2.2.2.2.1
    hb.2.2.2.2.2
  have hd : rtc_diff env2.time_now (env2.mktime (station_tm (time_packet crc env1))) < 30 := by
    rw [htm, hround]; exact hclock
  have ht : (dav_tick crc env2 s).2 = DAV_SUCCESS := by
    rw [dav_tick_awaiting_time crc env2 s (time_packet crc env1) rest hstate hrx hl hbytes herr hto,
      if_neg (not_not.mpr hcrc), if_neg (not_not.mpr hd)]
    rfl
  refine ⟨fun s0 => (dav_send_time_tx crc env1 s0).1, ?_, htm, ht, ?_, ?_⟩
  · exact (dav_check_time_crc_iff crc _ hbytes).mpr hcrc
  · rw [ht]; decide
  · rw [ht]; decide

set_option maxRecDepth 20000 in
/-- C21, at a concrete input: the packet written with the clock at 0 comes
back with the clock at 5; the check reports Success. -/
theorem time_packet_round_trip_witness :
    (dav_tick crc_calculate (dav_env_ms 5000 5)
      (dav_awaiting_time (time_packet crc_calculate (dav_env_ms 0 0)))).2 = DAV_SUCCESS :=
  (time_packet_round_trip crc_calculate (dav_env_ms 0 0) (dav_env_ms 5000 5)
    (dav_awaiting_time (time_packet crc_calculate (dav_env_ms 0 0))) []
    rfl (List.append_nil _).symm rfl (by decide) (by decide) rfl (by decide)).2.2.2.1

/-! ## post_client.c : what a call keeps of the set-up -/

theorem post_same_setup.same (s : PostState) : post_same_setup s s :=
  ⟨rfl, rfl, rfl, rfl, rfl, rfl, rfl⟩

theorem check_direct_ip_setup (env : PostEnv) (s : PostState) (name : List Nat) :
    post_same_setup s (check_direct_ip env s name).1 := by
  unfold check_direct_ip
  split <;> exact ⟨rfl, rfl, rfl, rfl, rfl, rfl, rfl⟩

theorem get_response_setup (env : PostEnv) (s : PostState) :
    post_same_setup s (get_response env s).1 := by
  unfold get_response
  split <;> exact ⟨rfl, rfl, rfl, rfl, rfl, rfl, rfl⟩

theorem send_message_setup (env : PostEnv) (s : PostState) :
    post_same_setup s (send_message env s).1 := by
  unfold send_message
  dsimp only
  split_ifs <;> exact ⟨rfl, rfl, rfl, rfl, rfl, rfl, rfl⟩

theorem check_resp_status_setup (s : PostState) :
    post_same_setup s (check_resp_status s).1 := by
  unfold check_resp_status
  dsimp only
  split_ifs <;> exact ⟨rfl, rfl, rfl, rfl, rfl, rfl, rfl⟩

theorem check_resp_result_loop_setup (s : PostState) : ∀ (tbl : List (List Nat)) (i : Nat),
    post_same_setup s (check_resp_result_loop s tbl i).1 := by
  intro tbl
  induction tbl with
  | nil => intro i; exact post_same_setup.same s
  | cons kw tbl ih =>
    intro i
    unfold check_resp_result_loop
    split
    · exact ⟨rfl, rfl, rfl, rfl, rfl, rfl, rfl⟩
    · exact ih (i + 1)

theorem check_resp_result_setup (s : PostState) :
    post_same_setup s (check_resp_result s).1 :=
  check_resp_result_loop_setup s post_resp 0

theorem check_resp_time_t_setup (s : PostState) :
    post_same_setup s (check_resp_time_t s).1 := by
  unfold check_resp_time_t
  dsimp only
  split_ifs <;> exact ⟨rfl, rfl, rfl, rfl, rfl, rfl, rfl⟩

/-- What `post_cleanup` leaves: the set-up, the state and the cached address
are kept, no socket is open and no resolve handle is held. -/
theorem post_cleanup_setup (s : PostState) :
    (post_cleanup s).servers_set = s.servers_set ∧
    (post_cleanup s).request_host = s.request_host ∧
    (post_cleanup s).request_port = s.request_port ∧ (post_cleanup s).state = s.state ∧
    (post_cleanup s).cached_ip = s.cached_ip ∧ (post_cleanup s).sock_opened = false ∧
    (post_cleanup s).dns ≤ 0 ∧ (post_cleanup s).body_pos = s.body_pos ∧
    (post_cleanup s).request_ip = s.request_ip := by
  unfold post_cleanup
  by_cases h1 : s.dns > 0 <;> by_cases h2 : s.sock_opened = true <;> simp [h1, h2]
  · omega
  · omega

theorem post_same_setup.followed {a b c : PostState} (h1 : post_same_setup a b)
    (h2 : post_same_setup b c) : post_same_setup a c :=
  ⟨h2.1.trans h1.1, h2.2.1.trans h1.2.1, h2.2.2.1.trans h1.2.2.1, h2.2.2.2.1.trans h1.2.2.2.1,
    h2.2.2.2.2.1.trans h1.2.2.2.2.1, h2.2.2.2.2.2.1.trans h1.2.2.2.2.2.1,
    h2.2.2.2.2.2.2.trans h1.2.2.2.2.2.2⟩

set_option maxRecDepth 4000 in
set_option maxHeartbeats 2000000 in
/-- How a call of `post_tick` in a transaction ends: through the error exit,
entered in the state the call found, or with Pending or Success. In the second
case the set-up is kept, the cached address changes in `POST_RESOLVING` only,
and `POST_RESOLVING` is reached from `POST_STARTING` only. -/
theorem post_tick_outcome (env : PostEnv) (s : PostState) (hs : s.state ≠ .POST_IDLE) :
    (∃ x, post_tick env s = post_error x ∧ x.state = s.state ∧
      x.servers_set = s.servers_set ∧ x.request_host = s.request_host ∧
      x.request_port = s.request_port) ∨
    (((post_tick env s).2 = POST_PENDING ∨ (post_tick env s).2 = POST_SUCCESS) ∧
      (post_tick env s).1.servers_set = s.servers_set ∧
      (post_tick env s).1.request_host = s.request_host ∧
      (post_tick env s).1.request_port = s.request_port ∧
      ((post_tick env s).1.cached_ip = s.cached_ip ∨ s.state = .POST_RESOLVING) ∧
      ((post_tick env s).1.state = .POST_RESOLVING →
        s.state = .POST_STARTING ∨ s.state = .POST_RESOLVING)) := by
  by_cases h1 : s.sock_opened ∧ s.state ≠ .POST_READING_BODY ∧ ¬ env.tcp_tick
  · left
    refine ⟨{ s with bb_post_error_str := "Socket closed unexpectedly", sock_opened := false,
                     condition := POST_CONNECTION_LOST }, ?_, rfl, rfl, rfl, rfl⟩
    unfold post_tick
    rw [if_neg hs, if_pos h1]
  by_cases h2 : CHK_TIMEOUT_UI env.secs s.timeout = true
  · left
    refine ⟨{ s with bb_post_error_str := "Timed out", condition := POST_TIMEOUT }, ?_, rfl, rfl,
      rfl, rfl⟩
    unfold post_tick
    rw [if_neg hs, if_neg h1, if_pos h2]
  have e : post_tick env s = post_tick_switch env s := by
    unfold post_tick
    rw [if_neg hs, if_neg h1, if_neg h2]
  rw [e]
  have g := get_response_setup env s
  have sm := send_message_setup env s
  have cd := check_direct_ip_setup env s s.request_host
  have cs := g.followed (check_resp_status_setup (get_response env s).1)
  have ct := g.followed (check_resp_time_t_setup (get_response env s).1)
  have cr := ct.followed (check_resp_result_setup (check_resp_time_t (get_response env s).1).1)
  unfold post_tick_switch
  dsimp only
  generalize check_resp_result (check_resp_time_t (get_response env s).1).1 = R at cr ⊢
  generalize check_resp_status (get_response env s).1 = CS at cs ⊢
  generalize get_response env s = G at g ⊢
  generalize send_message env s = SM at sm ⊢
  generalize check_direct_ip env s s.request_host = CD at cd ⊢
  clear ct e
  obtain ⟨g1, g2, g3, g4, g5, _, _⟩ := g
  obtain ⟨sm1, sm2, sm3, sm4, sm5, _, _⟩ := sm
  obtain ⟨cd1, cd2, cd3, cd4, cd5, _, _⟩ := cd
  obtain ⟨cs1, cs2, cs3, cs4, cs5, _, _⟩ := cs
  obtain ⟨cr1, cr2, cr3, cr4, cr5, _, _⟩ := cr
  cases hst : s.state <;> simp only [] <;> repeat' split
  all_goals first
    | exact absurd hst hs
    | (left
       refine ⟨_, rfl, ?_, ?_, ?_, ?_⟩
       · first | rfl | exact hst.symm | exact cd4 | exact sm4 | exact cs4
               | exact cd4.trans hst | exact sm4.trans hst | exact cs4.trans hst
       · first | rfl | exact cd1 | exact sm1 | exact cs1
       · first | rfl | exact cd2 | exact sm2 | exact cs2
       · first | rfl | exact cd3 | exact sm3 | exact cs3)
    | (right
       refine ⟨?_, ?_, ?_, ?_, ?_, ?_⟩
       · first | exact Or.inl rfl | exact Or.inr rfl
       · first | rfl | exact cd1 | exact sm1 | exact g1 | exact cs1 | exact cr1
       · first | rfl | exact cd2 | exact sm2 | exact g2 | exact cs2 | exact cr2
       · first | rfl | exact cd3 | exact sm3 | exact g3 | exact cs3 | exact cr3
       · first | exact Or.inr hst | exact Or.inr rfl | exact Or.inl rfl | exact Or.inl cd5
               | exact Or.inl sm5 | exact Or.inl g5 | exact Or.inl cs5 | exact Or.inl cr5
               | exact Or.inr trivial
       · first
           | exact fun _ => Or.inl hst
           | exact fun _ => Or.inr hst
           | exact fun _ => Or.inl rfl
           | exact fun _ => Or.inr rfl
           | exact fun _ => Or.inl trivial
           | exact fun _ => Or.inr trivial
           | exact fun h => absurd (hst.symm.trans h) (fun x => PostStateValue.noConfusion x)
           | exact fun h => PostStateValue.noConfusion h
           | exact fun h => absurd (hst.symm.trans (g4.symm.trans h)) (fun x => PostStateValue.noConfusion x)
           | exact fun h => absurd (hst.symm.trans (sm4.symm.trans h)) (fun x => PostStateValue.noConfusion x)
           | exact fun h => absurd (hst.symm.trans (cr4.symm.trans h)) (fun x => PostStateValue.noConfusion x))

/-! ## post_client.c : the error exit -/

/-- The error exit of `post_tick`: what it leaves. -/
theorem post_error_exit (x : PostState) :
    (post_error x).1.state = .POST_IDLE ∧ (post_error x).1.cached_ip = 0 ∧
    (post_error x).1.sock_opened = false ∧ (post_error x).1.dns ≤ 0 ∧
    (post_error x).1.bb_post_error_state_num = (x.state.toNat : Int) ∧
    (post_error x).1.condition = x.condition ∧ (post_error x).2 = x.condition ∧
    (post_error x).1.servers_set = x.servers_set ∧
    (post_error x).1.request_host = x.request_host ∧
    (post_error x).1.request_port = x.request_port := by
  obtain ⟨a1, a2, a3, a4, _, a6, a7, _, _⟩ := post_cleanup_setup x
  obtain ⟨b1, _, _⟩ := post_cleanup_fields x
  unfold post_error
  dsimp only
  rw [a4]
  exact ⟨rfl, rfl, a6, a7, rfl, b1, b1, a1, a2, a3⟩

/-- A call of `post_tick` keeps the set-up: the servers flag, the request host
and the request port. -/
theorem post_tick_setup_kept (env : PostEnv) (s : PostState) :
    (post_tick env s).1.servers_set = s.servers_set ∧
    (post_tick env s).1.request_host = s.request_host ∧
    (post_tick env s).1.request_port = s.request_port := by
  by_cases hs : s.state = .POST_IDLE
  · have e : post_tick env s = (s, s.condition) := by
      unfold post_tick; rw [if_pos hs]
    rw [e]
    exact ⟨rfl, rfl, rfl⟩
  rcases post_tick_outcome env s hs with ⟨x, e, _, x1, x2, x3⟩ | ⟨_, h1, h2, h3, _, _⟩
  · obtain ⟨_, _, _, _, _, _, _, p1, p2, p3⟩ := post_error_exit x
    rw [e]
    exact ⟨p1.trans x1, p2.trans x2, p3.trans x3⟩
  · exact ⟨h1, h2, h3⟩

/-- A call of `post_start` keeps the set-up. -/
theorem post_start_setup_kept (env : PostEnv) (s : PostState) :
    (post_start env s).1.servers_set = s.servers_set ∧
    (post_start env s).1.request_host = s.request_host ∧
    (post_start env s).1.request_port = s.request_port ∧
    (post_start env s).1.cached_ip = s.cached_ip := by
  obtain ⟨a1, a2, a3, _, a5, _, _, _, _⟩ := post_cleanup_setup s
  unfold post_start post_reset_timeout
  dsimp only
  split_ifs <;> exact ⟨a1, a2, a3, a5⟩

/-- C25: when a call of `post_tick` made during a transaction (the machine is
not in `POST_IDLE`) returns a negative status, the machine is in `POST_IDLE`
on return, `cached_ip` is 0, `sock_opened` is clear, no resolve handle is held
(`dns` is not positive), `bb_post_error_state_num` is the number of the state
the call found the machine in, and the status read by `post_get_status` is the
one returned. -/
theorem post_tick_failure (env : PostEnv) (s : PostState) (hs : s.state ≠ .POST_IDLE)
    (hneg : (post_tick env s).2 < 0) :
    (post_tick env s).1.state = .POST_IDLE ∧ (post_tick env s).1.cached_ip = 0 ∧
    (post_tick env s).1.sock_opened = false ∧ (post_tick env s).1.dns ≤ 0 ∧
    (post_tick env s).1.bb_post_error_state_num = (s.state.toNat : Int) ∧
    post_get_status (post_tick env s).1 = (post_tick env s).2 := by
  rcases post_tick_outcome env s hs with ⟨x, e, xs, _, _, _⟩ | ⟨h, _⟩
  · obtain ⟨p1, p2, p3, p4, p5, p6, p7, _, _, _⟩ := post_error_exit x
    rw [e]
    exact ⟨p1, p2, p3, p4, by rw [p5, xs], p6.trans p7.symm⟩
  · rcases h with h | h
    · rw [h] at hneg; exact absurd hneg (by decide)
    · rw [h] at hneg; exact absurd hneg (by decide)

/-- C25, at a concrete input: in `POST_READING_BODY` (state 10) the answer
named a bad station ID and the socket has closed; the call returns BadId and
leaves the machine idle, with no cached address, no socket and state number
10. -/
theorem post_tick_failure_witness :
    (post_tick (post_env_line 0 false []) post_reading_bad_id).2 = POST_BAD_ID ∧
    (post_tick (post_env_line 0 false []) post_reading_bad_id).1.state = .POST_IDLE ∧
    (post_tick (post_env_line 0 false []) post_reading_bad_id).1.cached_ip = 0 ∧
    (post_tick (post_env_line 0 false []) post_reading_bad_id).1.bb_post_error_state_num = 10 :=
  have h := post_tick_failure (post_env_line 0 false []) post_reading_bad_id (by decide)
    (by decide)
  ⟨by decide, h.1, h.2.1, h.2.2.2.2.1⟩

/-! ## post_client.c : the servers and the start of a transaction -/

theorem add_body_char_servers (s : PostState) (ch : Nat) (ue : Bool) :
    (add_body_char s ch ue).1.servers_set = s.servers_set := by
  unfold add_body_char
  dsimp only
  split_ifs <;> rfl

theorem add_body_string_servers (str : List Nat) : ∀ (s : PostState),
    (add_body_string s str).1.servers_set = s.servers_set := by
  induction str with
  | nil => intro s; rfl
  | cons c cs ih =>
    intro s
    unfold add_body_string
    split_ifs
    · rfl
    · exact add_body_char_servers s c true
    · exact (ih _).trans (add_body_char_servers s c true)

theorem add_body_hexstring_servers (s : PostState) (bytes : List Nat) (len : Nat) :
    (add_body_hexstring s bytes len).1.servers_set = s.servers_set := by
  unfold add_body_hexstring
  dsimp only
  split_ifs <;> rfl

/-- The call `post_add_variable` leaves the servers flag alone. -/
theorem post_add_variable_servers (s : PostState) (name value : List Nat) (hexlen : Nat) :
    (post_add_variable s name value hexlen).1.servers_set = s.servers_set := by
  have r1 : (if s.body_pos ≠ 0 then add_body_char s 38 false else (s, 0)).1.servers_set
      = s.servers_set := by
    split_ifs
    · exact add_body_char_servers s 38 false
    · rfl
  unfold post_add_variable
  dsimp only
  generalize (if s.body_pos ≠ 0 then add_body_char s 38 false else (s, 0)) = R1 at r1 ⊢
  have r2 := (add_body_string_servers name R1.1).trans r1
  generalize add_body_string R1.1 name = R2 at r2 ⊢
  have r3 := (add_body_char_servers R2.1 61 false).trans r2
  generalize add_body_char R2.1 61 false = R3 at r3 ⊢
  have r4 := (add_body_string_servers value R3.1).trans r3
  generalize add_body_string R3.1 value = R4 at r4 ⊢
  have r5 := (add_body_hexstring_servers R3.1 value hexlen).trans r3
  generalize add_body_hexstring R3.1 value hexlen = R5 at r5 ⊢
  unfold no_room
  split_ifs <;> first | rfl | exact r1 | exact r2 | exact r3 | exact r4 | exact r5

/-- The servers flag after `post_set_server`: set exactly when the call
returns 0; the call returns 0, -1, -2 or -3. -/
theorem post_set_server_flag (s : PostState) (host : List Nat) (port : Nat) (path : List Nat)
    (proxy_host : Option (List Nat)) (proxy_port : Nat) :
    ((post_set_server s host port path proxy_host proxy_port).2 = 0 ∧
      (post_set_server s host port path proxy_host proxy_port).1.servers_set = true ∧
      (post_set_server s host port path proxy_host proxy_port).1.request_port
        = (if proxy_port ≠ 0 then proxy_port else port) ∧
      (post_set_server s host port path proxy_host proxy_port).1.request_host
        = request_host_of host proxy_host) ∨
    ((post_set_server s host port path proxy_host proxy_port).2 < 0 ∧
      (post_set_server s host port path proxy_host proxy_port).1.servers_set = false) := by
  generalize hr : post_set_server s host port path proxy_host proxy_port = r
  unfold post_set_server post_set_server_port at hr
  dsimp only at hr
  cases proxy_host <;> dsimp only at hr <;> split_ifs at hr <;> subst hr <;>
    first
      | exact Or.inr ⟨(by decide : (-1 : Int) < 0), rfl⟩
      | exact Or.inr ⟨(by decide : (-2 : Int) < 0), rfl⟩
      | exact Or.inr ⟨(by decide : (-3 : Int) < 0), rfl⟩
      | exact Or.inl ⟨rfl, rfl, by rw [if_pos (by assumption)], rfl⟩
      | exact Or.inl ⟨rfl, rfl, by rw [if_neg (by assumption)], rfl⟩

/-- What `post_set_server` leaves besides the set-up: the state is kept and
the cached address is cleared. -/
theorem post_set_server_rest (s : PostState) (host : List Nat) (port : Nat) (path : List Nat)
    (proxy_host : Option (List Nat)) (proxy_port : Nat) :
    (post_set_server s host port path proxy_host proxy_port).1.state = s.state ∧
    (post_set_server s host port path proxy_host proxy_port).1.cached_ip = 0 ∧
    (post_set_server s host port path proxy_host proxy_port).1.sock_opened = s.sock_opened := by
  generalize hr : post_set_server s host port path proxy_host proxy_port = r
  unfold post_set_server post_set_server_port at hr
  dsimp only at hr
  cases proxy_host <;> dsimp only at hr <;> split_ifs at hr <;> subst hr <;>
    exact ⟨rfl, rfl, rfl⟩

/-- Every call of `post_start` or `post_tick` keeps the set-up. -/
theorem post_calls_setup_kept (cs : List PostCall) : ∀ (s : PostState),
    (post_calls cs s).servers_set = s.servers_set ∧
    (post_calls cs s).request_host = s.request_host ∧
    (post_calls cs s).request_port = s.request_port := by
  induction cs with
  | nil => intro s; exact ⟨rfl, rfl, rfl⟩
  | cons c cs ih =>
    intro s
    have h := ih (post_call c s)
    have k : (post_call c s).servers_set = s.servers_set ∧
        (post_call c s).request_host = s.request_host ∧
        (post_call c s).request_port = s.request_port := by
      cases c with
      | start env =>
        obtain ⟨a, b, c, _⟩ := post_start_setup_kept env s
        exact ⟨a, b, c⟩
      | tick env => exact post_tick_setup_kept env s
    exact ⟨h.1.trans k.1, h.2.1.trans k.2.1, h.2.2.trans k.2.2⟩

/-- C26: `post_start` returns -1 when the servers flag is clear and -2 when
the flag is set but the body is empty, in that order, and in both cases leaves
the machine in `POST_IDLE` with the status CannotStart; otherwise it returns 0
with the state `POST_STARTING`, the status Pending and `resp_class` and
`resp_result` cleared. The flag is clear after `post_init` and after a
`post_set_server` that failed, set after a `post_set_server` that returned 0,
and no other call of the interface changes it. -/
theorem post_start_cases (env : PostEnv) (s : PostState) :
    (s.servers_set = false →
      (post_start env s).2 = -1 ∧ (post_start env s).1.state = .POST_IDLE ∧
      post_get_status (post_start env s).1 = POST_CANNOT_START) ∧
    (s.servers_set = true → s.body_pos = 0 →
      (post_start env s).2 = -2 ∧ (post_start env s).1.state = .POST_IDLE ∧
      post_get_status (post_start env s).1 = POST_CANNOT_START) ∧
    (s.servers_set = true → s.body_pos ≠ 0 →
      (post_start env s).2 = 0 ∧ (post_start env s).1.state = .POST_STARTING ∧
      post_get_status (post_start env s).1 = POST_PENDING ∧
      (post_start env s).1.resp_class = 0 ∧ (post_start env s).1.resp_result = 0) ∧
    (∀ ok size, (post_init ok size s).1.servers_set = false) ∧
    (∀ host port path proxy_host proxy_port,
      ((post_set_server s host port path proxy_host proxy_port).2 = 0 ∧
        (post_set_server s host port path proxy_host proxy_port).1.servers_set = true) ∨
      ((post_set_server s host port path proxy_host proxy_port).2 < 0 ∧
        (post_set_server s host port path proxy_host proxy_port).1.servers_set = false)) ∧
    (post_start env s).1.servers_set = s.servers_set ∧
    (post_tick env s).1.servers_set = s.servers_set ∧
    (post_abort s).servers_set = s.servers_set ∧
    (post_clear_body s).servers_set = s.servers_set ∧
    (∀ name value hexlen, (post_add_variable s name value hexlen).1.servers_set
      = s.servers_set) := by
  obtain ⟨a1, _, _, _, _, _, _, a8, _⟩ := post_cleanup_setup s
  refine ⟨?_, ?_, ?_, ?_, ?_, (post_start_setup_kept env s).1, (post_tick_setup_kept env s).1,
    a1, rfl, post_add_variable_servers s⟩
  · intro h
    unfold post_start post_get_status
    dsimp only
    rw [if_pos (by rw [a1, h]; decide)]
    exact ⟨rfl, rfl, rfl⟩
  · intro h hb
    unfold post_start post_get_status
    dsimp only
    rw [if_neg (by rw [a1, h]; decide), if_pos (a8.trans hb)]
    exact ⟨rfl, rfl, rfl⟩
  · intro h hb
    unfold post_start post_get_status post_reset_timeout
    dsimp only
    rw [if_neg (by rw [a1, h]; decide), if_neg (by rw [a8]; exact hb)]
    exact ⟨rfl, rfl, rfl, rfl, rfl⟩
  · intro ok size
    unfold post_init
    dsimp only
    split_ifs <;> rfl
  · intro host port path proxy_host proxy_port
    rcases post_set_server_flag s host port path proxy_host proxy_port with h | h
    · exact Or.inl ⟨h.1, h.2.1⟩
    · exact Or.inr h

/-- C26, at concrete inputs: straight after `post_init` the call `post_start`
returns -1; with the servers set and the empty body of `post_timed_out` it
returns -2 and leaves the machine idle with the status CannotStart. -/
theorem post_start_cases_witness :
    (post_init true 2048 post_timed_out).1.servers_set = false ∧
    (post_start (post_env_line 0 true []) (post_init true 2048 post_timed_out).1).2 = -1 ∧
    post_timed_out.servers_set = true ∧ post_timed_out.body_pos = 0 ∧
    (post_start (post_env_line 0 true []) post_timed_out).2 = -2 ∧
    (post_start (post_env_line 0 true []) post_timed_out).1.state = .POST_IDLE ∧
    post_get_status (post_start (post_env_line 0 true []) post_timed_out).1
      = POST_CANNOT_START :=
  have h := (post_start_cases (post_env_line 0 true []) post_timed_out).2.1 (by decide)
    (by decide)
  ⟨by decide, by decide, by decide, by decide, h.1, h.2.1, h.2.2⟩

/-- C27, counterexample: with no proxy host supplied, the server port 80 and
the proxy port 8080, `post_set_server` succeeds and the port the connection is
opened to is 8080, not the server port. -/
theorem request_port_without_proxy_host :
    (post_set_server post_timed_out [119, 120] 80 [47] none 8080).2 = 0 ∧
    (post_set_server post_timed_out [119, 120] 80 [47] none 8080).1.request_port = 8080 ∧
    (post_set_server post_timed_out [119, 120] 80 [47] none 8080).1.request_port ≠ 80 := by
  refine ⟨?_, ?_, ?_⟩ <;> decide

/-- C27 (amended): after a successful `post_set_server`, through every later
call of `post_start` and `post_tick`, the port handed to `tcp_open`
(`request_port`) is `proxy_port` when `proxy_port` is not 0 and the server
port when it is 0, whether or not a proxy host was supplied. -/
theorem request_port_rule (s : PostState) (host : List Nat) (port : Nat) (path : List Nat)
    (proxy_host : Option (List Nat)) (proxy_port : Nat) (cs : List PostCall)
    (hok : (post_set_server s host port path proxy_host proxy_port).2 = 0) :
    (post_calls cs (post_set_server s host port path proxy_host proxy_port).1).request_port
      = (if proxy_port ≠ 0 then proxy_port else port) := by
  rcases post_set_server_flag s host port path proxy_host proxy_port with h | h
  · exact (post_calls_setup_kept cs _).2.2.trans h.2.2.1
  · rw [hok] at h
    exact absurd h.1 (by decide)

/-- C27 (amended), at concrete inputs: with the proxy host "p" and the proxy
port 8080 the port is 8080 after a `post_start` and a `post_tick`. -/
theorem request_port_rule_witness :
    (post_set_server post_timed_out [119, 120] 80 [47] (some [112]) 8080).2 = 0 ∧
    (post_calls [.start (post_env_line 0 true []), .tick (post_env_line 1 true [])]
      (post_set_server post_timed_out [119, 120] 80 [47] (some [112]) 8080).1).request_port
      = 8080 :=
  ⟨by decide, request_port_rule post_timed_out [119, 120] 80 [47] (some [112]) 8080
    [.start (post_env_line 0 true []), .tick (post_env_line 1 true [])] (by decide)⟩

/-! ## post_client.c : a numeric request host -/

set_option maxRecDepth 4000 in
set_option maxHeartbeats 2000000 in
/-- No call of `post_tick` made during a transaction leaves the machine in
`POST_STARTING`. -/
theorem post_tick_leaves_starting (env : PostEnv) (s : PostState) (hs : s.state ≠ .POST_IDLE) :
    (post_tick env s).1.state ≠ .POST_STARTING := by
  have pe : ∀ x, (post_error x).1.state ≠ .POST_STARTING := fun x h =>
    PostStateValue.noConfusion ((post_error_exit x).1.symm.trans h)
  by_cases h1 : s.sock_opened ∧ s.state ≠ .POST_READING_BODY ∧ ¬ env.tcp_tick
  · unfold post_tick
    rw [if_neg hs, if_pos h1]
    exact pe _
  by_cases h2 : CHK_TIMEOUT_UI env.secs s.timeout = true
  · unfold post_tick
    rw [if_neg hs, if_neg h1, if_pos h2]
    exact pe _
  have e : post_tick env s = post_tick_switch env s := by
    unfold post_tick
    rw [if_neg hs, if_neg h1, if_neg h2]
  rw [e]
  have g := get_response_setup env s
  have sm := send_message_setup env s
  have cd := check_direct_ip_setup env s s.request_host
  have cs := g.followed (check_resp_status_setup (get_response env s).1)
  have ct := g.followed (check_resp_time_t_setup (get_response env s).1)
  have cr := ct.followed (check_resp_result_setup (check_resp_time_t (get_response env s).1).1)
  unfold post_tick_switch
  dsimp only
  generalize check_resp_result (check_resp_time_t (get_response env s).1).1 = R at cr ⊢
  generalize check_resp_status (get_response env s).1 = CS at cs ⊢
  generalize get_response env s = G at g ⊢
  generalize send_message env s = SM at sm ⊢
  generalize check_direct_ip env s s.request_host = CD at cd ⊢
  clear ct e
  obtain ⟨_, _, _, g4, _, _, _⟩ := g
  obtain ⟨_, _, _, sm4, _, _, _⟩ := sm
  clear cd cs
  obtain ⟨_, _, _, cr4, _, _, _⟩ := cr
  cases hst : s.state <;> simp only [] <;> repeat' split
  all_goals first
    | exact absurd hst hs
    | exact pe _
    | exact fun h => PostStateValue.noConfusion h
    | exact fun h => absurd (hst.symm.trans h) (fun x => PostStateValue.noConfusion x)
    | exact fun h => absurd (hst.symm.trans (g4.symm.trans h)) (fun x => PostStateValue.noConfusion x)
    | exact fun h => absurd (hst.symm.trans (sm4.symm.trans h)) (fun x => PostStateValue.noConfusion x)
    | exact fun h => absurd (hst.symm.trans (cr4.symm.trans h)) (fun x => PostStateValue.noConfusion x)

/-- A call of `post_tick` in `POST_STARTING` with a request host that
`inet_addr` reads as an address does not enter `POST_RESOLVING`. -/
theorem post_tick_starting_direct (env : PostEnv) (s : PostState)
    (hst : s.state = .POST_STARTING) (ha : env.inet_addr s.request_host ≠ 0) :
    (post_tick env s).1.state ≠ .POST_RESOLVING := by
  have pe : ∀ x, (post_error x).1.state ≠ .POST_RESOLVING := fun x h =>
    PostStateValue.noConfusion ((post_error_exit x).1.symm.trans h)
  have hs : s.state ≠ .POST_IDLE := by rw [hst]; exact fun h => PostStateValue.noConfusion h
  have hcd : check_direct_ip env s s.request_host
      = ({ s with request_ip := env.inet_addr s.request_host }, 1) := by
    unfold check_direct_ip
    rw [if_neg ha]
  unfold post_tick
  rw [if_neg hs]
  split_ifs
  · exact pe _
  · exact pe _
  · unfold post_tick_switch
    rw [hst]
    dsimp only
    rw [hcd]
    split_ifs
    all_goals first
      | exact fun h => PostStateValue.noConfusion h
      | exact pe _
      | (rename_i h1 h2; exact absurd Nat.one_ne_zero h1)

/-- A call of `post_tick` in `POST_STARTING` with no cached address, no socket
open, the transaction not timed out and a request host that `inet_addr` reads
as an address: the machine moves to `POST_OPENING` with that address. -/
theorem post_tick_starting_opening (env : PostEnv) (s : PostState)
    (hst : s.state = .POST_STARTING) (hsock : s.sock_opened = false)
    (hto : CHK_TIMEOUT_UI env.secs s.timeout = false) (hc : s.cached_ip = 0)
    (ha : env.inet_addr s.request_host ≠ 0) :
    (post_tick env s).2 = POST_PENDING ∧ (post_tick env s).1.state = .POST_OPENING ∧
    (post_tick env s).1.request_ip = env.inet_addr s.request_host ∧
    (post_tick env s).1.cached_ip = 0 := by
  have hs : s.state ≠ .POST_IDLE := by rw [hst]; exact fun h => PostStateValue.noConfusion h
  have hcd : check_direct_ip env s s.request_host
      = ({ s with request_ip := env.inet_addr s.request_host }, 1) := by
    unfold check_direct_ip
    rw [if_neg ha]
  unfold post_tick
  rw [if_neg hs, if_neg (by rw [hsock]; simp), if_neg (by rw [hto]; simp)]
  unfold post_tick_switch
  rw [hst]
  dsimp only
  rw [hcd, if_neg (by rw [hc]; simp)]
  split_ifs
  all_goals first
    | exact ⟨rfl, rfl, rfl, hc⟩
    | (rename_i h1 h2; exact absurd Nat.one_ne_zero h1)

/-- With a request host `h` that `inet_addr` reads as an address in every
call, the calls `cs` of `post_start` and `post_tick` keep: no cached address,
the request host, a state other than `POST_RESOLVING`, and no socket open in
`POST_STARTING`. -/
theorem post_calls_numeric_host (h : List Nat) (cs : List PostCall) : ∀ (s : PostState),
    s.cached_ip = 0 → s.request_host = h → s.state ≠ .POST_RESOLVING →
    (s.state = .POST_STARTING → s.sock_opened = false) →
    (∀ c ∈ cs, c.env.inet_addr h ≠ 0) →
    (post_calls cs s).cached_ip = 0 ∧ (post_calls cs s).request_host = h ∧
    (post_calls cs s).state ≠ .POST_RESOLVING ∧
    ((post_calls cs s).state = .POST_STARTING → (post_calls cs s).sock_opened = false) := by
  induction cs with
  | nil => intro s a b c d _; exact ⟨a, b, c, d⟩
  | cons c cs ih =>
    intro s a b hr d hall
    have hc : c.env.inet_addr h ≠ 0 := hall c (List.mem_cons_self _ _)
    have hrest : ∀ x ∈ cs, x.env.inet_addr h ≠ 0 := fun x hx => hall x (List.mem_cons_of_mem _ hx)
    have step : (post_call c s).cached_ip = 0 ∧ (post_call c s).request_host = h ∧
        (post_call c s).state ≠ .POST_RESOLVING ∧
        ((post_call c s).state = .POST_STARTING → (post_call c s).sock_opened = false) := by
      cases c with
      | start env =>
        obtain ⟨_, k2, _, k4⟩ := post_start_setup_kept env s
        obtain ⟨_, _, _, _, _, k6, _, _, _⟩ := post_cleanup_setup s
        refine ⟨k4.trans a, k2.trans b, ?_, ?_⟩
        · show (post_start env s).1.state ≠ .POST_RESOLVING
          unfold post_start post_reset_timeout
          dsimp only
          split_ifs <;> exact fun x => PostStateValue.noConfusion x
        · intro _
          show (post_start env s).1.sock_opened = false
          unfold post_start post_reset_timeout
          dsimp only
          split_ifs <;> exact k6
      | tick env =>
        show (post_tick env s).1.cached_ip = 0 ∧ (post_tick env s).1.request_host = h ∧
          (post_tick env s).1.state ≠ .POST_RESOLVING ∧
          ((post_tick env s).1.state = .POST_STARTING → (post_tick env s).1.sock_opened = false)
        by_cases hs : s.state = .POST_IDLE
        · have e : post_tick env s = (s, s.condition) := by
            unfold post_tick; rw [if_pos hs]
          rw [e]
          exact ⟨a, b, hr, d⟩
        have hnot := post_tick_leaves_starting env s hs
        rcases post_tick_outcome env s hs with ⟨x, e, _, _, x2, _⟩ | ⟨_, _, h2, _, h4, h5⟩
        · obtain ⟨p1, p2, _, _, _, _, _, _, p9, _⟩ := post_error_exit x
          refine ⟨?_, ?_, ?_, fun k => absurd k hnot⟩
          · rw [e]; exact p2
          · rw [e]; exact (p9.trans x2).trans b
          · rw [e, p1]; exact fun k => PostStateValue.noConfusion k
        · refine ⟨?_, h2.trans b, ?_, fun k => absurd k hnot⟩
          · rcases h4 with h4 | h4
            · exact h4.trans a
            · exact absurd h4 hr
          · intro k
            rcases h5 k with h5 | h5
            · exact post_tick_starting_direct env s h5 (by rw [b]; exact hc) k
            · exact hr h5
    exact ih (post_call c s) step.1 step.2.1 step.2.2.1 step.2.2.2 hrest

/-- C24: the servers are set, with the machine at rest, to a request host
(the proxy host when there is one, else the server host) that `inet_addr`
reads as the address `a`, not 0.0.0.0, in every later call. Then after any
calls of `post_start` and `post_tick` the machine is not in `POST_RESOLVING`
and holds no cached address, and a call of `post_tick` in `POST_STARTING`, the
transaction not timed out, returns Pending and moves to `POST_OPENING` with
`request_ip` equal to `a`. -/
theorem numeric_host_never_resolves (s : PostState) (host : List Nat) (port : Nat)
    (path : List Nat) (proxy_host : Option (List Nat)) (proxy_port : Nat) (a : Nat)
    (cs : List PostCall) (hidle : s.state = .POST_IDLE)
    (hok : (post_set_server s host port path proxy_host proxy_port).2 = 0) (ha : a ≠ 0)
    (hparse : ∀ c ∈ cs, c.env.inet_addr (request_host_of host proxy_host) = a) :
    (post_calls cs (post_set_server s host port path proxy_host proxy_port).1).state
      ≠ .POST_RESOLVING ∧
    (post_calls cs (post_set_server s host port path proxy_host proxy_port).1).cached_ip = 0 ∧
    ((post_calls cs (post_set_server s host port path proxy_host proxy_port).1).state
        = .POST_STARTING →
      ∀ env : PostEnv, env.inet_addr (request_host_of host proxy_host) = a →
        CHK_TIMEOUT_UI env.secs
          (post_calls cs (post_set_server s host port path proxy_host proxy_port).1).timeout
          = false →
        (post_tick env
          (post_calls cs (post_set_server s host port path proxy_host proxy_port).1)).2
          = POST_PENDING ∧
        (post_tick env
          (post_calls cs (post_set_server s host port path proxy_host proxy_port).1)).1.state
          = .POST_OPENING ∧
        (post_tick env
          (post_calls cs (post_set_server s host port path proxy_host proxy_port).1)).1.request_ip
          = a) := by
  obtain ⟨r1, r2, _⟩ := post_set_server_rest s host port path proxy_host proxy_port
  have rh : (post_set_server s host port path proxy_host proxy_port).1.request_host
      = request_host_of host proxy_host := by
    rcases post_set_server_flag s host port path proxy_host proxy_port with h | h
    · exact h.2.2.2
    · rw [hok] at h
      exact absurd h.1 (by decide)
  have r1i : (post_set_server s host port path proxy_host proxy_port).1.state = .POST_IDLE :=
    r1.trans hidle
  obtain ⟨i1, i2, i3, i4⟩ := post_calls_numeric_host (request_host_of host proxy_host) cs
    (post_set_server s host port path proxy_host proxy_port).1 r2 rh
    (by rw [r1i]; exact fun k => PostStateValue.noConfusion k)
    (by rw [r1i]; exact fun k => PostStateValue.noConfusion k)
    (fun c hc => by rw [hparse c hc]; exact ha)
  refine ⟨i3, i1, ?_⟩
  intro hst env henv hto
  obtain ⟨q1, q2, q3, _⟩ := post_tick_starting_opening env _ hst (i4 hst) hto i1
    (by rw [i2, henv]; exact ha)
  refine ⟨q1, q2, ?_⟩
  rw [q3, i2, henv]

/-- C24, at a concrete input: the server host "10.0.0.1", which `inet_addr`
reads as the address 10.0.0.1; after `post_start` the machine is in
`POST_STARTING`, and the next `post_tick` moves it to `POST_OPENING` with
`request_ip` 10.0.0.1. -/
theorem numeric_host_never_resolves_witness :
    (post_calls [.start (post_env_numeric 100)]
      (post_set_server post_ready (lit "10.0.0.1") 80 [47] none 0).1).state = .POST_STARTING ∧
    (post_tick (post_env_numeric 101) (post_calls [.start (post_env_numeric 100)]
      (post_set_server post_ready (lit "10.0.0.1") 80 [47] none 0).1)).1.state
      = .POST_OPENING ∧
    (post_tick (post_env_numeric 101) (post_calls [.start (post_env_numeric 100)]
      (post_set_server post_ready (lit "10.0.0.1") 80 [47] none 0).1)).1.request_ip
      = 0x0A000001 :=
  have h := (numeric_host_never_resolves post_ready (lit "10.0.0.1") 80 [47] none 0 0x0A000001
    [.start (post_env_numeric 100)] (by decide) (by decide) (by decide)
    (fun c hc => by rw [List.mem_singleton.mp hc]; rfl)).2.2 (by decide) (post_env_numeric 101) rfl (by decide)
  ⟨by decide, h.2.1, h.2.2⟩

/-! ## post_client.c : the cached address -/

/-- The window of the 16-bit cache timer: set at second `t0`, it is found run
out at second `t0 + e` exactly when `e`, cut to 16 bits, lies from 3600 up to
36367. -/
theorem dns_cache_expired_iff (t0 e : Nat) :
    dns_cache_expired t0 e = true ↔ 3600 ≤ e % 65536 ∧ e % 65536 < 36368 := by
  unfold dns_cache_expired CHK_TIMEOUT_UI SET_TIMEOUT_UI u16 DNS_CACHE_SECS
  simp only [decide_eq_true_eq]
  omega

/-- A successful resolve stores the address and starts the cache timer. -/
theorem post_tick_resolved (env : PostEnv) (s : PostState)
    (hst : s.state = .POST_RESOLVING) (hsock : s.sock_opened = false)
    (hto : CHK_TIMEOUT_UI env.secs s.timeout = false)
    (hrc : env.resolve_name_check = .RESOLVE_SUCCESS) :
    (post_tick env s).1.state = .POST_OPENING ∧
    (post_tick env s).1.cached_ip = env.resolved_ip ∧
    (post_tick env s).1.request_ip = env.resolved_ip ∧
    (post_tick env s).1.cache_timeout = SET_TIMEOUT_UI env.secs DNS_CACHE_SECS := by
  have hs : s.state ≠ .POST_IDLE := by rw [hst]; exact fun h => PostStateValue.noConfusion h
  unfold post_tick
  rw [if_neg hs, if_neg (by rw [hsock]; simp), if_neg (by rw [hto]; simp)]
  unfold post_tick_switch
  rw [hst]
  dsimp only
  rw [hrc]
  exact ⟨rfl, rfl, rfl, rfl⟩

/-- C23: the machine is in `POST_STARTING` at second `t0 + e`, holding an
address cached by a resolve at second `t0` (the cache timer is the one the
resolve started), with a request host that is a name and a resolver that
accepts the request. The cached address is used, without resolving, exactly
when the 16-bit cache timer is not found run out, that is unless `e`, cut to
16 bits, lies from 3600 up to 36367; otherwise a resolve is started. The first
part says the resolve stores the address and starts that timer. -/
theorem dns_cache_window (env : PostEnv) (s : PostState) (t0 e : Nat)
    (hst : s.state = .POST_STARTING) (hsock : s.sock_opened = false)
    (hto : CHK_TIMEOUT_UI env.secs s.timeout = false) (hc : s.cached_ip ≠ 0)
    (hct : s.cache_timeout = SET_TIMEOUT_UI t0 DNS_CACHE_SECS) (hnow : env.secs = t0 + e)
    (hname : env.inet_addr s.request_host = 0) (hres : 0 < env.resolve_name_start) :
    (∀ (env0 : PostEnv) (s0 : PostState), s0.state = .POST_RESOLVING →
      s0.sock_opened = false → CHK_TIMEOUT_UI env0.secs s0.timeout = false →
      env0.resolve_name_check = .RESOLVE_SUCCESS →
      (post_tick env0 s0).1.cached_ip = env0.resolved_ip ∧
      (post_tick env0 s0).1.cache_timeout = SET_TIMEOUT_UI env0.secs DNS_CACHE_SECS) ∧
    (dns_cache_expired t0 e = true ↔ 3600 ≤ e % 65536 ∧ e % 65536 < 36368) ∧
    (dns_cache_expired t0 e = false →
      (post_tick env s).1.state = .POST_OPENING ∧
      (post_tick env s).1.request_ip = s.cached_ip ∧ (post_tick env s).1.dns = s.dns) ∧
    (dns_cache_expired t0 e = true →
      (post_tick env s).1.state = .POST_RESOLVING ∧
      (post_tick env s).1.dns = env.resolve_name_start) := by
  have hs : s.state ≠ .POST_IDLE := by rw [hst]; exact fun h => PostStateValue.noConfusion h
  have hcd : check_direct_ip env s s.request_host = (s, 0) := by
    unfold check_direct_ip
    rw [if_pos hname]
  have e1 : post_tick env s = post_tick_switch env s := by
    unfold post_tick
    rw [if_neg hs, if_neg (by rw [hsock]; simp), if_neg (by rw [hto]; simp)]
  have hx : CHK_TIMEOUT_UI env.secs s.cache_timeout = dns_cache_expired t0 e := by
    rw [hct, hnow]
    rfl
  refine ⟨?_, dns_cache_expired_iff t0 e, ?_, ?_⟩
  · intro env0 s0 a b c d
    obtain ⟨_, r2, _, r4⟩ := post_tick_resolved env0 s0 a b c d
    exact ⟨r2, r4⟩
  · intro hx0
    rw [e1]
    unfold post_tick_switch
    rw [hst]
    dsimp only
    rw [if_pos ⟨hc, by rw [hx, hx0]; simp⟩]
    exact ⟨rfl, rfl, rfl⟩
  · intro hx1
    rw [e1]
    unfold post_tick_switch
    rw [hst]
    dsimp only
    rw [hcd, if_neg (by rw [hx, hx1]; simp)]
    dsimp only
    rw [if_neg (by decide), if_neg (by omega)]
    exact ⟨rfl, rfl⟩

/-- C23, at a concrete input: 40000 seconds after the resolve the cache timer
is not found run out, and the call of `post_tick` in `POST_STARTING` moves to
`POST_OPENING` with the cached address 10.0.0.1; 3601 seconds after the
resolve the timer has run out. -/
theorem dns_cache_window_witness :
    dns_cache_expired 0 40000 = false ∧
    (post_tick (post_env_line 40000 true []) (post_starting_cached 40000)).1.state
      = .POST_OPENING ∧
    (post_tick (post_env_line 40000 true []) (post_starting_cached 40000)).1.request_ip
      = 0x0A000001 ∧
    dns_cache_expired 0 3601 = true :=
  have h := (dns_cache_window (post_env_line 40000 true []) (post_starting_cached 40000) 0 40000
    (by decide) (by decide) (by decide) (by decide) (by decide) (by decide) (by decide)
    (by decide)).2.2.1 (by decide)
  ⟨by decide, h.1, h.2.1, by decide⟩


/-- C31: the 16-bit timers. For every counter value `t0` at the time of SET,
every interval `d` in 1..32767 and every elapsed count `e` below `d + 32768`,
CHK reports a timeout exactly when `e` is at least `d`, whether or not the
counter (a 32-bit counter, cut to 16 bits by the macros) has wrapped in
between. The same holds for the 32-bit timers with `d` in 1..2147483647 and
`e` below `d + 2147483648`. -/
theorem timeout_window (t0 d e : Nat) (hd : 1 ≤ d) :
    (d ≤ 32767 → e < d + 32768 →
      (CHK_TIMEOUT_UI (u32 (t0 + e)) (SET_TIMEOUT_UI t0 d) = true ↔ d ≤ e)) ∧
    (d ≤ 2147483647 → e < d + 2147483648 →
      (CHK_TIMEOUT_UL (u32 (t0 + e)) (SET_TIMEOUT_UL t0 d) = true ↔ d ≤ e)) := by
  constructor
  · intro h1 h2
    unfold CHK_TIMEOUT_UI SET_TIMEOUT_UI u16 u32
    simp only [decide_eq_true_eq]
    omega
  · intro h1 h2
    unfold CHK_TIMEOUT_UL SET_TIMEOUT_UL u32
    simp only [decide_eq_true_eq]
    omega

/-- C31, at concrete inputs: a 16-bit timer of 1000 set at the count 65000 is
not run out 999 counts later (the 16-bit count has wrapped to 463) and is run
out after 1000 counts; a 32-bit timer of 86400 set at 4294960000 is run out
after 86400 counts, when the counter has wrapped. -/
theorem timeout_window_witness :
    CHK_TIMEOUT_UI (u32 (65000 + 999)) (SET_TIMEOUT_UI 65000 1000) = false ∧
    (CHK_TIMEOUT_UI (u32 (65000 + 1000)) (SET_TIMEOUT_UI 65000 1000) = true ↔ 1000 ≤ 1000) ∧
    (CHK_TIMEOUT_UL (u32 (4294960000 + 86400)) (SET_TIMEOUT_UL 4294960000 86400) = true ↔
      86400 ≤ 86400) :=
  ⟨by decide, (timeout_window 65000 1000 1000 (by decide)).1 (by decide) (by decide),
    (timeout_window 4294960000 86400 86400 (by decide)).2 (by decide) (by decide)⟩

/-- C35: for every `millibars` in 0..2219 the function returns
`(millibars * 1935276 + 32768) / 65536`, the product and the sum fit the
32-bit accumulator and the result fits 16 bits; the result is the multiple
`millibars * 1935276 / 65536` rounded to the nearest integer (it differs from
it by at most one half). For every input from 2220 on the rounded value does
not fit 16 bits. For 678..1100, the range of the menu, the result is at most
32767 and so keeps its value as a signed 16-bit `int`. -/
theorem convert_millibars_exact (m : Nat) :
    (m ≤ 2219 →
      convert_millibars_to_thousanths m = (m * 1935276 + 32768) / 65536 ∧
      m * 1935276 + 32768 < 4294967296 ∧ (m * 1935276 + 32768) / 65536 < 65536 ∧
      65536 * convert_millibars_to_thousanths m ≤ m * 1935276 + 32768 ∧
      m * 1935276 < 65536 * convert_millibars_to_thousanths m + 32768) ∧
    (2220 ≤ m → 65535 < (m * 1935276 + 32768) / 65536) ∧
    (678 ≤ m → m ≤ 1100 →
      convert_millibars_to_thousanths m ≤ 32767 ∧
      i16 (convert_millibars_to_thousanths m) = (convert_millibars_to_thousanths m : Int)) := by
  have key : m ≤ 2219 → convert_millibars_to_thousanths m = (m * 1935276 + 32768) / 65536 := by
    intro h
    have e1 : m % 65536 = m := Nat.mod_eq_of_lt (by omega)
    have e2 : m % 4294967296 = m := Nat.mod_eq_of_lt (by omega)
    have e3 : m * 1935276 % 4294967296 = m * 1935276 := Nat.mod_eq_of_lt (by omega)
    have e4 : (m * 1935276 + 32768) % 4294967296 = m * 1935276 + 32768 :=
      Nat.mod_eq_of_lt (by omega)
    have e5 : (m * 1935276 + 32768) / 65536 % 65536 = (m * 1935276 + 32768) / 65536 :=
      Nat.mod_eq_of_lt (by omega)
    unfold convert_millibars_to_thousanths u32 u16
    simp only [Nat.shiftRight_eq_div_pow, e1, e2, e3, e4]
    exact e5
  refine ⟨fun h => ?_, fun h => ?_, fun h1 h2 => ?_⟩
  · rw [key h]
    omega
  · omega
  · have hk := key (by omega)
    have hle : (m * 1935276 + 32768) / 65536 ≤ 32767 := by omega
    rw [hk]
    refine ⟨hle, ?_⟩
    unfold i16
    have e6 : (m * 1935276 + 32768) / 65536 % 65536 = (m * 1935276 + 32768) / 65536 :=
      Nat.mod_eq_of_lt (by omega)
    rw [e6, if_pos (by omega)]

/-- C35, at concrete inputs: 1013 millibars give 29914 thousandths, 1100 give
32483 and 2219 give 65527. -/
theorem convert_millibars_exact_witness :
    convert_millibars_to_thousanths 1013 = 29914 ∧
    convert_millibars_to_thousanths 1100 = 32483 ∧
    convert_millibars_to_thousanths 2219 = 65527 ∧
    i16 (convert_millibars_to_thousanths 1100) = 32483 :=
  have h := (convert_millibars_exact 1100).2.2 (by decide) (by decide)
  ⟨by decide, by decide, by decide, h.2.trans (by decide)⟩


/-- The loop of `check_str_len`: 0 exactly when the string is shorter than
`too_long` characters, -1 otherwise. -/
theorem check_str_len_iff : ∀ (k : Nat) (str : List Nat),
    (check_str_len str k = 0 ↔ (c_str str).length < k) ∧
    (check_str_len str k = 0 ∨ check_str_len str k = -1) := by
  intro k
  induction k with
  | zero =>
    intro str
    unfold check_str_len
    exact ⟨⟨fun h => absurd h (by decide), fun h => absurd h (Nat.not_lt_zero _)⟩, Or.inr rfl⟩
  | succ k ih =>
    intro str
    unfold check_str_len
    cases str with
    | nil =>
      simp only [List.headD_nil, if_true]
      exact ⟨⟨fun _ => by simp [c_str], fun _ => trivial⟩, Or.inl trivial⟩
    | cons a t =>
      simp only [List.headD_cons, List.tail_cons]
      by_cases ha : a = 0
      · subst ha
        rw [if_pos rfl, c_str_cons_zero]
        exact ⟨⟨fun _ => by simp, fun _ => rfl⟩, Or.inl rfl⟩
      · rw [if_neg ha, c_str_cons_ne a t ha, List.length_cons]
        obtain ⟨i1, i2⟩ := ih t
        exact ⟨⟨fun h => by have := i1.mp h; omega, fun h => i1.mpr (by omega)⟩, i2⟩

/-- C40: `add_post_error` with a recorded error string `s` and a 16-bit state
number. `check_str_len(s, 49)` is 0 exactly when `s` is shorter than 49
characters. In that case the value of `posterr` is the text "s (state n)"
built in the 64-byte buffer, and that text has at most 63 characters, one less
than the buffer. For every longer `s` the value is the fixed text
`BB_BAD_POST_ERR_STR`, "Invalid POST error string". -/
theorem add_post_error_buffer (n : Node)
    (h1 : -32768 ≤ n.post.bb_post_error_state_num) (h2 : n.post.bb_post_error_state_num ≤ 32767) :
    (check_str_len (lit n.post.bb_post_error_str) 49 = 0 ↔
      (c_str (lit n.post.bb_post_error_str)).length < 49) ∧
    ((c_str (lit n.post.bb_post_error_str)).length < 49 →
      add_post_error n = node_add_variable n (lit "posterr")
        (post_error_text (lit n.post.bb_post_error_str) n.post.bb_post_error_state_num) 0 ∧
      (post_error_text (lit n.post.bb_post_error_str) n.post.bb_post_error_state_num).length
        ≤ 63) ∧
    (49 ≤ (c_str (lit n.post.bb_post_error_str)).length →
      add_post_error n = node_add_variable n (lit "posterr") (lit "Invalid POST error string") 0) := by
  obtain ⟨i1, _⟩ := check_str_len_iff 49 (lit n.post.bb_post_error_str)
  refine ⟨i1, fun hl => ?_, fun hl => ?_⟩
  · have hz : check_str_len (lit n.post.bb_post_error_str) (64 - 15) = 0 := i1.mpr hl
    refine ⟨?_, ?_⟩
    · unfold add_post_error
      rw [if_neg (not_not.mpr hz)]
    · obtain ⟨_, f2⟩ := fmt_d_spec _ h1 h2
      unfold post_error_text
      simp only [List.length_append]
      have e1 : (lit " (state ").length = 8 := by decide
      have e2 : (lit ")").length = 1 := by decide
      omega
  · have hz : check_str_len (lit n.post.bb_post_error_str) (64 - 15) ≠ 0 :=
      fun h => absurd (i1.mp h) (by omega)
    unfold add_post_error
    rw [if_pos hz]
    rfl

/-- C40, at a concrete input: the recorded error "Timed out" in state 7 is
sent as "Timed out (state 7)", 19 characters. -/
theorem add_post_error_buffer_witness :
    (c_str (lit node_processing.post.bb_post_error_str)).length < 49 ∧
    post_error_text (lit node_processing.post.bb_post_error_str)
      node_processing.post.bb_post_error_state_num = lit "Timed out (state 7)" ∧
    add_post_error node_processing = node_add_variable node_processing (lit "posterr")
      (post_error_text (lit node_processing.post.bb_post_error_str)
        node_processing.post.bb_post_error_state_num) 0 :=
  ⟨by decide, by decide,
    ((add_post_error_buffer node_processing (by decide) (by decide)).2.1 (by decide)).1⟩

/-- The body `set_post_body` builds has at most 455 characters. -/
theorem post_body_fields_length (env : TasksEnv) (n : Node)
    (hdd : n.tasks_state.new_data ≠ 0 →
      n.dav.dav_data.length = DAV_DATA_LEN ∧ ∀ b ∈ n.dav.dav_data, b < 256)
    (hes : n.tasks_state.new_data = 0 →
      (∀ c ∈ lit n.dav.dav_error_str, c < 256) ∧ (lit n.dav.dav_error_str).headD 0 ≠ 0 ∧
      (c_str (lit n.dav.dav_error_str)).length ≤ 64)
    (hps : n.bb_post_error_flag ≠ 0 →
      (∀ c ∈ lit n.post.bb_post_error_str, c < 256) ∧
      -32768 ≤ n.post.bb_post_error_state_num ∧ n.post.bb_post_error_state_num ≤ 32767) :
    (join_amp (post_body_fields env n)).length ≤ 455 := by
  obtain ⟨m, _, B⟩ := set_post_body_built env
    { n with post := { n.post with body_buf_size := 456 } } (Nat.le_refl _)
    (show (456 : Nat) ≤ 32768 by decide) hdd hes hps
  have hp : m.post.body_pos = 0 + (join_amp (post_body_fields env n)).length := B.app.pos
  have hr : m.post.body_pos < m.post.body_buf_size := B.app.room
  have hsz : m.post.body_buf_size = 456 := B.app.size
  omega

set_option maxRecDepth 8000 in
set_option maxHeartbeats 4000000 in
/-- Every message `dav_tick` stores is a non-empty literal of at most 48
characters. -/
theorem dav_tick_message (crc : List Nat → Nat) (env : DavEnv) (s : DavState)
    (h : message_ok s.dav_error_str) : message_ok (dav_tick crc env s).1.dav_error_str := by
  by_cases hs : s.state = .DAV_IDLE
  · have e : dav_tick crc env s = (dav_cleanup s, s.condition) := by
      unfold dav_tick; rw [if_pos hs]
    rw [e]
    exact h
  by_cases herr : env.serial_error = true
  · have e : dav_tick crc env s = dav_error s "Serial port error" DAV_SERIAL_ERR := by
      unfold dav_tick; rw [if_neg hs, if_pos herr]
    rw [e]
    exact (by decide : message_ok "Serial port error")
  by_cases hto : CHK_TIMEOUT_UI env.secs s.timeout = true
  · have e : dav_tick crc env s = dav_error s "Timed out" DAV_TIMEOUT := by
      unfold dav_tick; rw [if_neg hs, if_neg herr, if_pos hto]
    rw [e]
    exact (by decide : message_ok "Timed out")
  obtain ⟨st, cond, tmo, cid, cstr, ac, rt, p1, p2, dd, ddv, des, dt, rx, tx, con, led⟩ := s
  have hidle : ¬ (st = .DAV_IDLE) := hs
  replace h : message_ok des := h
  unfold dav_tick
  rw [if_neg hidle, if_neg herr, if_neg hto]
  cases st <;> cases cid <;>
    simp only [set_post_cmd_state, set_post_ack_state, set_post_ok_state, send_command,
      dav_echo_resp, send_wakeup] <;>
    repeat' split
  all_goals first
    | exact absurd rfl hidle
    | exact h
    | exact (by decide : message_ok "Success")
    | exact (by decide : message_ok "No wakeup response received")
    | exact (by decide : message_ok "Bad wakeup response received")
    | exact (by decide : message_ok "No acknowledgement received")
    | exact (by decide : message_ok "Negative acknowledgement received")
    | exact (by decide : message_ok "Bad acknowledgement received")
    | exact (by decide : message_ok "No data received")
    | exact (by decide : message_ok "Data does not start with \x27LOO\x27")
    | exact (by decide : message_ok "Data does not contain LF, CR")
    | exact (by decide : message_ok "Data failed CRC check")
    | exact (by decide : message_ok "Time failed CRC check")
    | exact (by decide : message_ok "Time does not match Interface clock")
    | exact (by decide : message_ok "No time received")

/-- C39: with the 2048-byte body buffer `set_post_body` finds room for every
field. For every station number, sequence number, address, recorded POST error
(8-bit characters, 16-bit state number) and, when there is no new data, every
non-empty collector error message of at most 48 characters, it returns 0, the
body is the six (or five) fields joined by `&`, and it has at most 455
characters. The body that `TASKS_PROCESSING` hands to `post_start` is the one
`set_post_body` left. Every message the collector stores is such a message:
`dav_init_all` and `dav_abort` store one, `dav_start` keeps the message, and
`dav_tick` keeps it or stores one. -/
theorem set_post_body_has_room (crc : List Nat → Nat) (env : TasksEnv) (n : Node)
    (hsize : n.post.body_buf_size = 2048)
    (hdd : n.tasks_state.new_data ≠ 0 →
      n.dav.dav_data.length = DAV_DATA_LEN ∧ ∀ b ∈ n.dav.dav_data, b < 256)
    (hes : n.tasks_state.new_data = 0 → message_ok n.dav.dav_error_str)
    (hps : n.bb_post_error_flag ≠ 0 →
      (∀ c ∈ lit n.post.bb_post_error_str, c < 256) ∧
      -32768 ≤ n.post.bb_post_error_state_num ∧ n.post.bb_post_error_state_num ≤ 32767) :
    (set_post_body env n).2 = 0 ∧
    body_text (set_post_body env n).1.post = join_amp (post_body_fields env n) ∧
    (body_text (set_post_body env n).1.post).length ≤ 455 ∧
    (set_post_body env n).1.post.body_overflow = 0 ∧
    (n.tasks_state.state = .TASKS_PROCESSING →
      body_text (tasks_run crc env n).1.post =
        body_text (set_post_body env { n with dav := (dav_tick crc env.dav n.dav).1 }).1.post) ∧
    ((∀ ok d0, message_ok (dav_init_all ok d0).1.dav_error_str) ∧
      (∀ d0, message_ok (dav_abort d0).dav_error_str) ∧
      (∀ denv d0 id str, message_ok d0.dav_error_str →
        message_ok (dav_start denv d0 id str).dav_error_str) ∧
      (∀ denv d0, message_ok d0.dav_error_str →
        message_ok (dav_tick crc denv d0).1.dav_error_str)) := by
  have hes2 : n.tasks_state.new_data = 0 →
      (∀ c ∈ lit n.dav.dav_error_str, c < 256) ∧ (lit n.dav.dav_error_str).headD 0 ≠ 0 ∧
      (c_str (lit n.dav.dav_error_str)).length ≤ 64 := fun h =>
    ⟨(hes h).1, (hes h).2.1, Nat.le_trans (hes h).2.2 (by decide)⟩
  obtain ⟨m, e, B⟩ := set_post_body_built env n (by rw [hsize]; decide) (by rw [hsize]; decide)
    hdd hes2 hps
  have ht : body_text (set_post_body env n).1.post = join_amp (post_body_fields env n) := by
    rw [e, B.app.text_eq, post_clear_body_text, List.nil_append]
  refine ⟨by rw [e], ht, ?_, ?_, ?_, ?_⟩
  · rw [ht]
    exact post_body_fields_length env n hdd hes2 hps
  · rw [e]
    exact B.app.ovf
  · intro hst
    unfold tasks_run
    rw [hst]
    simp only []
    unfold tasks_run_processing
    dsimp only
    have hb : ∀ p : PostState, body_text (post_start env.post p).1 = body_text p := by
      intro p
      unfold post_start post_reset_timeout post_cleanup body_text
      dsimp only
      split_ifs <;> rfl
    split_ifs
    · exact hb _
    · exact hb _
  · refine ⟨fun ok d0 => ?_, fun d0 => ?_, fun denv d0 id str h => h,
      fun denv d0 h => dav_tick_message crc denv d0 h⟩
    · cases ok
      · exact (by decide : message_ok "Cannot initialise serial port")
      · exact (by decide : message_ok "Serial port initialised okay")
    · exact (by decide : message_ok "Aborted")

set_option maxRecDepth 20000 in
/-- C39, at a concrete input: for the node `node_processing` (new data, a
recorded POST error) `set_post_body` returns 0 and the body has no more than
455 characters. -/
theorem set_post_body_has_room_witness :
    (set_post_body (tasks_env_at 0 true) node_processing).2 = 0 ∧
    (body_text (set_post_body (tasks_env_at 0 true) node_processing).1.post).length ≤ 455 :=
  have h := set_post_body_has_room crc_calculate (tasks_env_at 0 true) node_processing
    (by decide) (by decide) (by decide) (by decide)
  ⟨h.1, h.2.2.1⟩


/-- C34: `add_body_hexstring` with 16-bit `unsigned int`, for a position
inside the buffer and a length in 0..32767. While `body_pos + 2 * len` stays
below 65536 the room check is exact: the call returns -1 and changes nothing
when the text and its terminator do not fit, and appends the text when they
do. When `body_pos + 2 * len` reaches 65536 the sum of the check wraps: if the
wrapped sum is below the buffer size the call returns 0, stores all
`2 * len` characters from `body_pos` on, past the end of the buffer, stores
the terminator after them and leaves `body_pos` at the wrapped sum. -/
theorem add_body_hexstring_room (s : PostState) (bytes : List Nat) (len : Nat)
    (hp : s.body_pos < s.body_buf_size) (hs : s.body_buf_size < 65536) (hl : len ≤ 32767)
    (hlen : len ≤ bytes.length) (hb : ∀ b ∈ bytes, b < 256) :
    (s.body_pos + 2 * len < 65536 → s.body_buf_size ≤ s.body_pos + 2 * len →
      add_body_hexstring s bytes len = (s, -1)) ∧
    (s.body_pos + 2 * len < s.body_buf_size →
      (add_body_hexstring s bytes len).2 = 0 ∧
      Appended s (add_body_hexstring s bytes len).1 (hex_text (bytes.take len))) ∧
    (65536 ≤ s.body_pos + 2 * len → s.body_pos + 2 * len - 65536 < s.body_buf_size →
      (add_body_hexstring s bytes len).2 = 0 ∧
      (add_body_hexstring s bytes len).1.body_pos = s.body_pos + 2 * len - 65536 ∧
      mem_read (add_body_hexstring s bytes len).1.body_buf s.body_pos (2 * len) =
        hex_text (bytes.take len) ∧
      (add_body_hexstring s bytes len).1.body_buf (s.body_pos + 2 * len) = 0 ∧
      s.body_buf_size < s.body_pos + 2 * len) := by
  have hu : u16 (len * 2) = 2 * len := by unfold u16; omega
  refine ⟨fun h1 h2 => ?_, fun h1 => ?_, fun h1 h2 => ?_⟩
  · have hu2 : u16 (s.body_pos + u16 (len * 2)) = s.body_pos + 2 * len := by
      rw [hu]; unfold u16; omega
    unfold add_body_hexstring
    rw [hu2, if_pos h2]
  · have hu2 : u16 (s.body_pos + u16 (len * 2)) = s.body_pos + 2 * len := by
      rw [hu]; unfold u16; omega
    have hok : (add_body_hexstring s bytes len).2 = 0 := by
      unfold add_body_hexstring
      rw [hu2, if_neg (by omega)]
    exact ⟨hok, add_body_hexstring_ok s bytes len hok (by omega) hlen hb⟩
  · have hu2 : u16 (s.body_pos + u16 (len * 2)) = s.body_pos + 2 * len - 65536 := by
      rw [hu]; unfold u16; omega
    have hok : (add_body_hexstring s bytes len).2 = 0 := by
      unfold add_body_hexstring
      rw [hu2, if_neg (by omega)]
    obtain ⟨m1, _, m3⟩ := add_body_hexstring_mem s bytes len hok hlen hb
    refine ⟨hok, ?_, m1, m3, by omega⟩
    unfold add_body_hexstring
    rw [hu2, if_neg (by omega)]

/-- C34, at a failing input: the 2048-byte buffer holds "a=b" (position 3) and
32767 bytes are to be added. The text needs 65534 characters, yet the call
returns 0, the position becomes 1 and the terminator is stored at offset
65537, far beyond the buffer. -/
theorem add_body_hexstring_room_witness :
    post_ready.body_pos = 3 ∧ post_ready.body_buf_size = 2048 ∧
    (add_body_hexstring post_ready (List.replicate 32767 0) 32767).2 = 0 ∧
    (add_body_hexstring post_ready (List.replicate 32767 0) 32767).1.body_pos = 1 ∧
    mem_read (add_body_hexstring post_ready (List.replicate 32767 0) 32767).1.body_buf 3
      (2 * 32767) = hex_text ((List.replicate 32767 0).take 32767) ∧
    (add_body_hexstring post_ready (List.replicate 32767 0) 32767).1.body_buf 65537 = 0 :=
  have h := (add_body_hexstring_room post_ready (List.replicate 32767 0) 32767 (by decide)
    (by decide) (by decide) (by rw [List.length_replicate])
    (fun b hb => by rw [List.eq_of_mem_replicate hb]; decide)).2.2 (by decide) (by decide)
  ⟨by decide, by decide, h.1, h.2.1, h.2.2.1, h.2.2.2.1⟩

/-- The body interface on a buffer of at most 65533 bytes, with arguments that
keep the sums from wrapping: after every call the size is unchanged, the
position is inside the buffer and the terminator stands at the position. -/
theorem body_calls_terminated (cs : List BodyCall) : ∀ (s : PostState),
    s.body_buf_size ≤ 65533 → s.body_pos < s.body_buf_size → s.body_buf s.body_pos = 0 →
    (∀ c ∈ cs, c.plain s.body_buf_size) →
    (body_calls cs s).body_buf_size = s.body_buf_size ∧
    (body_calls cs s).body_pos < (body_calls cs s).body_buf_size ∧
    (body_calls cs s).body_buf (body_calls cs s).body_pos = 0 := by
  induction cs with
  | nil => intro s _ hp h0 _; exact ⟨rfl, hp, h0⟩
  | cons c cs ih =>
    intro s hs hp h0 hall
    have hc := hall c (List.mem_cons_self _ _)
    have step : (body_call c s).body_buf_size = s.body_buf_size ∧
        (body_call c s).body_pos < (body_call c s).body_buf_size ∧
        (body_call c s).body_buf (body_call c s).body_pos = 0 := by
      cases c with
      | clear =>
        refine ⟨rfl, ?_, ?_⟩
        · show 0 < s.body_buf_size
          omega
        · show mem_write s.body_buf 0 [0] (0 + 0) = 0
          exact mem_write_at _ _ [0] 0 (by simp)
      | add name value hexlen =>
        obtain ⟨hn, hv, hl, hw⟩ := hc
        have e : body_call (.add name value hexlen) s = (post_add_variable s name value hexlen).1 :=
          rfl
        rw [e]
        rcases post_add_variable_spec s name value hexlen hs hp h0 hn hv with
          ⟨_, _, _, h⟩ | ⟨_, h, _⟩ | ⟨h, _⟩ | ⟨h, _⟩
        · have hA := h hl hw
          exact ⟨hA.size, hA.room, hA.nul⟩
        · exact ⟨h.size, by rw [h.pos, h.size]; exact hp, h.nul⟩
        · rw [h]; exact ⟨rfl, hp, h0⟩
        · rw [h]; exact ⟨rfl, hp, h0⟩
    obtain ⟨r1, r2, r3⟩ := ih (body_call c s) (by rw [step.1]; exact hs) step.2.1 step.2.2
      (fun x hx => by rw [step.1]; exact hall x (List.mem_cons_of_mem _ hx))
    exact ⟨r1.trans step.1, r2, r3⟩

/-- The body interface on a buffer of at most 65533 bytes (C38 where no sum
wraps): after any calls of `post_clear_body` and `post_add_variable` the
position is at most the size less one and the terminator stands there, and a
further pair with a non-empty name and value is accepted exactly when the body
with the separator and the pair has at most size less one characters. -/
theorem body_calls_accept_iff (s : PostState) (cs : List BodyCall) (name value : List Nat)
    (hexlen : Nat) (hs : s.body_buf_size ≤ 65533) (hp : s.body_pos < s.body_buf_size)
    (h0 : s.body_buf s.body_pos = 0) (hall : ∀ c ∈ cs, c.plain s.body_buf_size)
    (hc : (BodyCall.add name value hexlen).plain s.body_buf_size)
    (hname : name.headD 0 ≠ 0) (hval : ¬ (hexlen = 0 ∧ value.headD 0 = 0)) :
    (body_calls cs s).body_pos ≤ s.body_buf_size - 1 ∧
    (body_calls cs s).body_buf (body_calls cs s).body_pos = 0 ∧
    ((post_add_variable (body_calls cs s) name value hexlen).2 = 0 ↔
      (body_calls cs s).body_pos + (sep (body_calls cs s) ++ pair_text name value hexlen).length
        ≤ s.body_buf_size - 1) := by
  obtain ⟨r1, r2, r3⟩ := body_calls_terminated cs s hs hp h0 hall
  obtain ⟨hn, hv, hl, hw⟩ := hc
  refine ⟨by omega, r3, ?_⟩
  rcases post_add_variable_spec (body_calls cs s) name value hexlen (by rw [r1]; exact hs) r2 r3
    hn hv with ⟨h, _, _, hA⟩ | ⟨h, _, hB⟩ | ⟨h, hx⟩ | ⟨h, _, hx, hy⟩
  · have a := hA hl (by rw [r1]; exact hw)
    have a1 := a.pos
    have a2 := a.room
    have a3 := a.size
    exact ⟨fun _ => by omega, fun _ => h⟩
  · have b := hB hl
    constructor
    · intro h2; rw [h] at h2; exact absurd h2 (by decide)
    · intro h2; omega
  · exact absurd hx hname
  · exact absurd ⟨hx, hy⟩ hval

/-- C38, at a failing input: the 65534-byte buffer holds 65532 characters,
a state reached from the cleared buffer by one accepted call. The pair
("!", "x") with its separator needs 6 more, which would make 65538, yet
`post_add_variable` returns 0: the sum `body_pos + inc` of `add_body_char`
wrapped at 65536 while the name was added. The text "%21" went to the offsets
65533..65535, the last two beyond the buffer, and the position ends at 2 with
the terminator there. -/
theorem post_add_variable_wrap_accepts :
    post_add_variable post_body_64k_cleared [65] (List.replicate 32765 170) 32765
      = (post_body_near_64k, 0) ∧
    post_body_near_64k.body_buf_size = 65534 ∧ post_body_near_64k.body_pos = 65532 ∧
    post_body_near_64k.body_buf post_body_near_64k.body_pos = 0 ∧
    (sep post_body_near_64k ++ pair_text [33] [120] 0).length = 6 ∧
    (post_add_variable post_body_near_64k [33] [120] 0).2 = 0 ∧
    (post_add_variable post_body_near_64k [33] [120] 0).1.body_pos = 2 ∧
    (post_add_variable post_body_near_64k [33] [120] 0).1.body_buf 2 = 0 ∧
    post_body_near_64k.body_buf 65535 = 0 ∧
    (post_add_variable post_body_near_64k [33] [120] 0).1.body_buf 65535 = 49 := by
  refine ⟨post_body_near_64k_reached, ?_, ?_, ?_, ?_, ?_, ?_, ?_, ?_, ?_⟩ <;> decide

/-- The error exit of `post_tick` leaves the clock and its flag alone. -/
theorem post_error_rtc (x : PostState) :
    (post_error x).1.rtc = x.rtc ∧ (post_error x).1.rtc_validated = x.rtc_validated := by
  unfold post_error post_cleanup
  dsimp only
  split_ifs <;> exact ⟨rfl, rfl⟩

/-- A tick in `POST_CHECKING_BODY` that reads no line, or a line that begins
with no keyword, leaves the socket flag and the captured keyword alone. -/
theorem post_tick_checking_body_keeps (env : PostEnv) (s : PostState)
    (hstate : s.state = .POST_CHECKING_BODY) (halive : env.tcp_tick = true)
    (hto : CHK_TIMEOUT_UI env.secs s.timeout = false)
    (hno : env.sock_bytesready = -1 ∨ line_keyword (received_line env) = none) :
    (post_tick env s).1.sock_opened = s.sock_opened ∧
    (post_tick env s).1.resp_result = s.resp_result := by
  have hidle : s.state ≠ .POST_IDLE := by rw [hstate]; exact fun h => PostStateValue.noConfusion h
  rw [post_tick_switch_eq env s hidle (fun _ _ => halive) hto]
  have hsw : post_tick_switch env s =
      if (get_response env s).2 ≠ 0 then
        if (check_resp_result (check_resp_time_t (get_response env s).1).1).2 > 0 then
          post_pending (post_reset_timeout env
            { (check_resp_result (check_resp_time_t (get_response env s).1).1).1 with
              state := .POST_READING_BODY })
        else post_pending (check_resp_result (check_resp_time_t (get_response env s).1).1).1
      else post_pending (get_response env s).1 := by
    cases s
    simp only at hstate
    subst hstate
    rfl
  rw [hsw]
  by_cases hline : env.sock_bytesready = -1
  · rw [get_response_none env s hline]
    simp only [ne_eq, not_true_eq_false, if_false]
    exact ⟨rfl, rfl⟩
  · have hk : line_keyword (received_line env) = none := by
      rcases hno with h | h
      · exact absurd h hline
      · exact h
    rw [get_response_line env s hline]
    simp only []
    rw [if_pos (show (1 : Nat) ≠ 0 from by decide)]
    obtain ⟨f1, _, _, f4⟩ := check_resp_time_t_fields { s with cmd_buf := received_line env }
    have f5 := (check_resp_time_t_setup { s with cmd_buf := received_line env }).2.2.2.2.2.1
    generalize check_resp_time_t { s with cmd_buf := received_line env } = t at f1 f4 f5 ⊢
    have hl : c_str t.1.cmd_buf = t.1.cmd_buf := by rw [f1]; exact received_line_c_str env
    rw [check_resp_result_eq t.1 hl, f1, hk]
    simp only [gt_iff_lt, Nat.lt_irrefl, if_false]
    exact ⟨f5, f4⟩

/-- Ticks in `POST_CHECKING_BODY` that read no keyword line leave the machine
there, with the socket flag and the captured keyword as they were. -/
theorem post_run_checking_body_keeps (pre : List PostEnv) : ∀ (s : PostState),
    s.state = .POST_CHECKING_BODY →
    (∀ e ∈ pre, e.tcp_tick = true ∧ CHK_TIMEOUT_UI e.secs s.timeout = false ∧
      (e.sock_bytesready = -1 ∨ line_keyword (received_line e) = none)) →
    (post_run pre s).state = .POST_CHECKING_BODY ∧
    (post_run pre s).sock_opened = s.sock_opened ∧
    (post_run pre s).resp_result = s.resp_result := by
  induction pre with
  | nil => intro s hs _; exact ⟨hs, rfl, rfl⟩
  | cons e pre ih =>
    intro s hs h
    obtain ⟨h1, h2, h3⟩ := h e (List.mem_cons_self _ _)
    obtain ⟨a1, a2, _⟩ := (post_tick_checking_body e s hs h1 h2).1 h3
    obtain ⟨k1, k2⟩ := post_tick_checking_body_keeps e s hs h1 h2 h3
    rw [post_run_cons]
    obtain ⟨b1, b2, b3⟩ := ih (post_tick e s).1 a1 (fun x hx => by
      rw [a2]; exact h x (List.mem_cons_of_mem _ hx))
    exact ⟨b1, b2.trans k1, b3.trans k2⟩

/-- C32, counterexample: the machine is in `POST_CHECKING_BODY` (a 2xx status
line and the headers have been read, no keyword line yet) and the server has
closed the connection. The tick ends the transaction with ConnectionLost, not
Rejected. -/
theorem close_before_keyword_is_connection_lost :
    (post_state_in .POST_CHECKING_BODY).resp_result = 0 ∧
    (post_tick (post_env_line 5 false []) (post_state_in .POST_CHECKING_BODY)).2
      = POST_CONNECTION_LOST ∧
    (post_tick (post_env_line 5 false []) (post_state_in .POST_CHECKING_BODY)).2
      ≠ POST_REJECTED ∧
    (post_tick (post_env_line 5 false []) (post_state_in .POST_CHECKING_BODY)).1.state
      = .POST_IDLE := by
  refine ⟨?_, ?_, ?_, ?_⟩ <;> decide

/-- C32, amended: the machine is in `POST_CHECKING_BODY` with the socket open
and no keyword captured; it reads no line that begins with a keyword, and then
the server closes the connection. The captured keyword is still unknown
(`resp_result` is 0) and the tick that meets the closed connection ends the
transaction in `POST_IDLE` with ConnectionLost and the record "Socket closed
unexpectedly" for state 9. -/
theorem close_before_keyword (s : PostState) (pre : List PostEnv) (efin : PostEnv)
    (hstate : s.state = .POST_CHECKING_BODY) (hsock : s.sock_opened = true)
    (hres : s.resp_result = 0)
    (hpre : ∀ e ∈ pre, e.tcp_tick = true ∧ CHK_TIMEOUT_UI e.secs s.timeout = false ∧
      (e.sock_bytesready = -1 ∨ ∀ w ∈ post_resp, begins_nocase (received_line e) w = false))
    (hfin : efin.tcp_tick = false) :
    (post_run pre s).resp_result = 0 ∧
    (post_tick efin (post_run pre s)).2 = POST_CONNECTION_LOST ∧
    (post_tick efin (post_run pre s)).1.state = .POST_IDLE ∧
    post_get_status (post_tick efin (post_run pre s)).1 = POST_CONNECTION_LOST ∧
    (post_tick efin (post_run pre s)).1.resp_result = 0 ∧
    (post_tick efin (post_run pre s)).1.bb_post_error_str = "Socket closed unexpectedly" ∧
    (post_tick efin (post_run pre s)).1.bb_post_error_state_num = 9 := by
  obtain ⟨r1, r2, r3⟩ := post_run_checking_body_keeps pre s hstate (fun e he => by
    obtain ⟨a, b, c⟩ := hpre e he
    refine ⟨a, b, ?_⟩
    rcases c with c | c
    · exact Or.inl c
    · exact Or.inr (line_keyword_from_none _ _ 0 c))
  generalize post_run pre s = t at r1 r2 r3 ⊢
  have hidle : t.state ≠ .POST_IDLE := by rw [r1]; exact fun h => PostStateValue.noConfusion h
  have e : post_tick efin t = post_error
      { t with
        bb_post_error_str := "Socket closed unexpectedly"
        sock_opened := false
        condition := POST_CONNECTION_LOST } := by
    unfold post_tick
    rw [if_neg hidle, if_pos ⟨r2.trans hsock, by rw [r1]; exact fun h => PostStateValue.noConfusion h,
      by rw [hfin]; simp⟩]
  obtain ⟨p1, _, _, _, p5, p6, p7, _, _, _⟩ := post_error_exit
    { t with bb_post_error_str := "Socket closed unexpectedly",
             sock_opened := false, condition := POST_CONNECTION_LOST }
  obtain ⟨_, _, _, _, q5⟩ := post_error_fields
    { t with bb_post_error_str := "Socket closed unexpectedly",
             sock_opened := false, condition := POST_CONNECTION_LOST }
  have hstr : (post_error
      { t with
        bb_post_error_str := "Socket closed unexpectedly"
        sock_opened := false
        condition := POST_CONNECTION_LOST }).1.bb_post_error_str
      = "Socket closed unexpectedly" := by
    unfold post_error post_cleanup
    dsimp only
    split_ifs <;> rfl
  rw [e]
  refine ⟨r3.trans hres, p7, p1, p6, q5.trans (r3.trans hres), hstr, ?_⟩
  rw [p5]
  show ((t.state.toNat : Nat) : Int) = 9
  rw [r1]
  rfl

/-- C32 (amended), at a concrete input: one body line "hello" with no keyword,
then the connection is closed. -/
theorem close_before_keyword_witness :
    (post_tick (post_env_line 5 false [])
      (post_run [post_env_line 4 true (lit "hello")] (post_state_in .POST_CHECKING_BODY))).2
      = POST_CONNECTION_LOST :=
  (close_before_keyword (post_state_in .POST_CHECKING_BODY) [post_env_line 4 true (lit "hello")]
    (post_env_line 5 false []) rfl rfl rfl
    (fun e he => by rw [List.mem_singleton.mp he]; decide) rfl).2.1

/-- C33, counterexample: the machine is in `POST_READING_BODY` (the keyword
line has been read) with the clock at 0; it reads the line
"Server time = 1700000000". The clock stays 0, while the same line read in
`POST_CHECKING_BODY` sets the clock to 1700000000. -/
theorem server_time_after_keyword_ignored :
    (post_state_in .POST_READING_BODY).rtc = 0 ∧
    (post_tick (post_env_line 1 true (lit "Server time = 1700000000"))
      (post_state_in .POST_READING_BODY)).1.rtc = 0 ∧
    (post_tick (post_env_line 1 true (lit "Server time = 1700000000"))
      (post_state_in .POST_READING_BODY)).1.cmd_buf = lit "Server time = 1700000000" ∧
    (post_tick (post_env_line 1 true (lit "Server time = 1700000000"))
      (post_state_in .POST_CHECKING_BODY)).1.rtc = 1700000000 := by
  refine ⟨?_, ?_, ?_, ?_⟩ <;> decide

/-- C33, amended: a line is put to `check_resp_time_t`, which applies the
clock rule to a "Server time =" line, when it is read in `POST_CHECKING_BODY`,
that is up to and including the keyword line. A tick in `POST_READING_BODY`,
after the keyword line, never changes the clock or `rtc_validated`, whatever
line it reads. -/
theorem server_time_line_scope (env : PostEnv) (s : PostState) :
    (s.state = .POST_CHECKING_BODY → env.tcp_tick = true →
      CHK_TIMEOUT_UI env.secs s.timeout = false → env.sock_bytesready ≠ -1 →
      (post_tick env s).1.rtc = (check_resp_time_t { s with cmd_buf := received_line env }).1.rtc ∧
      (post_tick env s).1.rtc_validated =
        (check_resp_time_t { s with cmd_buf := received_line env }).1.rtc_validated) ∧
    (s.state = .POST_READING_BODY →
      (post_tick env s).1.rtc = s.rtc ∧ (post_tick env s).1.rtc_validated = s.rtc_validated) := by
  refine ⟨fun h1 h2 h3 h4 => post_tick_checking_body_rtc env s h1 h2 h3 h4, fun hstate => ?_⟩
  have hidle : s.state ≠ .POST_IDLE := by rw [hstate]; exact fun h => PostStateValue.noConfusion h
  unfold post_tick
  rw [if_neg hidle]
  split_ifs
  · exact post_error_rtc _
  · exact post_error_rtc _
  · have hsw : post_tick_switch env s =
        if ¬ env.tcp_tick then
          if s.resp_result = RESP_SUCCESS then
            ({ s with sock_opened := false, led_post := .LED_GREEN,
                      bb_post_error_str := "Succeeded",
                      bb_post_error_state_num := (s.state.toNat : Int), state := .POST_IDLE,
                      condition := POST_SUCCESS }, POST_SUCCESS)
          else if s.resp_result = RESP_BAD_ID then
            post_error { s with sock_opened := false,
                                bb_post_error_str := "Station ID rejected by server",
                                condition := POST_BAD_ID }
          else if s.resp_result = RESP_BAD_DATA then
            ({ s with sock_opened := false, led_davis := .LED_OFF, led_post := .LED_GREEN,
                      bb_post_error_str := "Succeeded",
                      bb_post_error_state_num := (s.state.toNat : Int), state := .POST_IDLE,
                      condition := POST_SUCCESS }, POST_SUCCESS)
          else
            post_error { s with sock_opened := false,
                                bb_post_error_str := "Transaction rejected by server",
                                condition := POST_REJECTED }
        else post_pending (get_response env s).1 := by
      cases s
      simp only at hstate
      subst hstate
      rfl
    rw [hsw]
    split_ifs
    all_goals first
      | exact ⟨rfl, rfl⟩
      | exact post_error_rtc _
      | (unfold get_response post_pending
         split_ifs <;> exact ⟨rfl, rfl⟩)

/-- C33 (amended), at a concrete input: the line "Server time = 1700000000"
read after the keyword line leaves the clock at 0. -/
theorem server_time_line_scope_witness :
    (post_tick (post_env_line 1 true (lit "Server time = 1700000000"))
      (post_state_in .POST_READING_BODY)).1.rtc = (post_state_in .POST_READING_BODY).rtc :=
  ((server_time_line_scope (post_env_line 1 true (lit "Server time = 1700000000"))
    (post_state_in .POST_READING_BODY)).2 rfl).1


set_option maxRecDepth 4000 in
set_option maxHeartbeats 2000000 in
/-- How a call of `dav_tick` during a command ends: with Pending, the
collector still busy, or with another status, the collector at rest and the
status stored. -/
theorem dav_tick_outcome (crc : List Nat → Nat) (env : DavEnv) (s : DavState)
    (hs : s.state ≠ .DAV_IDLE) :
    ((dav_tick crc env s).2 = DAV_PENDING ∧ (dav_tick crc env s).1.state ≠ .DAV_IDLE ∧
      (dav_tick crc env s).1.condition = DAV_PENDING) ∨
    ((dav_tick crc env s).2 ≠ DAV_PENDING ∧ (dav_tick crc env s).1.state = .DAV_IDLE ∧
      (dav_tick crc env s).1.condition = (dav_tick crc env s).2) := by
  by_cases herr : env.serial_error = true
  · have e : dav_tick crc env s = dav_error s "Serial port error" DAV_SERIAL_ERR := by
      unfold dav_tick; rw [if_neg hs, if_pos herr]
    rw [e]
    exact Or.inr ⟨(by decide : DAV_SERIAL_ERR ≠ DAV_PENDING), rfl, rfl⟩
  by_cases hto : CHK_TIMEOUT_UI env.secs s.timeout = true
  · have e : dav_tick crc env s = dav_error s "Timed out" DAV_TIMEOUT := by
      unfold dav_tick; rw [if_neg hs, if_neg herr, if_pos hto]
    rw [e]
    exact Or.inr ⟨(by decide : DAV_TIMEOUT ≠ DAV_PENDING), rfl, rfl⟩
  obtain ⟨st, cond, tmo, cid, cstr, ac, rt, p1, p2, dd, ddv, des, dt, rx, tx, con, led⟩ := s
  have hidle : ¬ (st = .DAV_IDLE) := hs
  unfold dav_tick
  rw [if_neg hidle, if_neg herr, if_neg hto]
  cases st <;> cases cid <;>
    simp only [set_post_cmd_state, set_post_ack_state, set_post_ok_state, send_command,
      dav_echo_resp, send_wakeup] <;>
    repeat' split
  all_goals first
    | exact absurd rfl hidle
    | exact Or.inl ⟨rfl, fun h => DavStateValue.noConfusion h, rfl⟩
    | exact Or.inr ⟨(by decide : DAV_SUCCESS ≠ DAV_PENDING), rfl, rfl⟩
    | exact Or.inr ⟨(by decide : DAV_WRONG_TIME ≠ DAV_PENDING), rfl, rfl⟩
    | exact Or.inr ⟨(by decide : DAV_NO_WAKEUP ≠ DAV_PENDING), rfl, rfl⟩
    | exact Or.inr ⟨(by decide : DAV_BAD_WAKEUP ≠ DAV_PENDING), rfl, rfl⟩
    | exact Or.inr ⟨(by decide : DAV_NO_ACK ≠ DAV_PENDING), rfl, rfl⟩
    | exact Or.inr ⟨(by decide : DAV_NEG_ACK ≠ DAV_PENDING), rfl, rfl⟩
    | exact Or.inr ⟨(by decide : DAV_BAD_ACK ≠ DAV_PENDING), rfl, rfl⟩
    | exact Or.inr ⟨(by decide : DAV_NO_DATA ≠ DAV_PENDING), rfl, rfl⟩
    | exact Or.inr ⟨(by decide : DAV_BAD_DATA ≠ DAV_PENDING), rfl, rfl⟩
    | exact Or.inr ⟨(by decide : DAV_BAD_CRC ≠ DAV_PENDING), rfl, rfl⟩
    | exact Or.inr ⟨(by decide : DAV_NO_TIME ≠ DAV_PENDING), rfl, rfl⟩
    | exact Or.inr ⟨(by decide : DAV_BAD_TIME ≠ DAV_PENDING), rfl, rfl⟩


set_option maxRecDepth 4000 in
set_option maxHeartbeats 2000000 in
/-- How a call of `post_tick` during a transaction ends: with Pending, the
machine still busy, or with another status, the machine at rest and the status
stored. -/
theorem post_tick_settles (env : PostEnv) (s : PostState) (hs : s.state ≠ .POST_IDLE) :
    ((post_tick env s).2 = POST_PENDING ∧ (post_tick env s).1.state ≠ .POST_IDLE ∧
      (post_tick env s).1.condition = POST_PENDING) ∨
    ((post_tick env s).2 ≠ POST_PENDING ∧ (post_tick env s).1.state = .POST_IDLE ∧
      (post_tick env s).1.condition = (post_tick env s).2) := by
  have pe : ∀ (x : PostState) (c : Int), c ≠ POST_PENDING → x.condition = c →
      ((post_error x).2 = POST_PENDING ∧ (post_error x).1.state ≠ .POST_IDLE ∧
        (post_error x).1.condition = POST_PENDING) ∨
      ((post_error x).2 ≠ POST_PENDING ∧ (post_error x).1.state = .POST_IDLE ∧
        (post_error x).1.condition = (post_error x).2) := by
    intro x c hc hx
    obtain ⟨p1, _, _, _, _, p6, p7, _, _, _⟩ := post_error_exit x
    exact Or.inr ⟨by rw [p7, hx]; exact hc, p1, p6.trans p7.symm⟩
  by_cases h1 : s.sock_opened ∧ s.state ≠ .POST_READING_BODY ∧ ¬ env.tcp_tick
  · unfold post_tick
    rw [if_neg hs, if_pos h1]
    exact pe _ POST_CONNECTION_LOST (by decide) rfl
  by_cases h2 : CHK_TIMEOUT_UI env.secs s.timeout = true
  · unfold post_tick
    rw [if_neg hs, if_neg h1, if_pos h2]
    exact pe _ POST_TIMEOUT (by decide) rfl
  have e : post_tick env s = post_tick_switch env s := by
    unfold post_tick
    rw [if_neg hs, if_neg h1, if_neg h2]
  rw [e]
  have g := get_response_setup env s
  have sm := send_message_setup env s
  have cd := check_direct_ip_setup env s s.request_host
  have cs := g.followed (check_resp_status_setup (get_response env s).1)
  have ct := g.followed (check_resp_time_t_setup (get_response env s).1)
  have cr := ct.followed (check_resp_result_setup (check_resp_time_t (get_response env s).1).1)
  unfold post_tick_switch
  dsimp only
  generalize check_resp_result (check_resp_time_t (get_response env s).1).1 = R at cr ⊢
  generalize check_resp_status (get_response env s).1 = CS at cs ⊢
  generalize get_response env s = G at g ⊢
  generalize send_message env s = SM at sm ⊢
  generalize check_direct_ip env s s.request_host = CD at cd ⊢
  clear ct e
  obtain ⟨_, _, _, g4, _, _, _⟩ := g
  obtain ⟨_, _, _, sm4, _, _, _⟩ := sm
  clear cd cs
  obtain ⟨_, _, _, cr4, _, _, _⟩ := cr
  cases hst : s.state <;> simp only [] <;> repeat' split
  all_goals first
    | exact absurd hst hs
    | exact pe _ POST_DNS_ERR (by decide) rfl
    | exact pe _ POST_SOCKET_ERR (by decide) rfl
    | exact pe _ POST_SEND_ERR (by decide) rfl
    | exact pe _ POST_RESP_ERR (by decide) rfl
    | exact pe _ POST_SERVER_ERR (by decide) rfl
    | exact pe _ POST_BAD_ID (by decide) rfl
    | exact pe _ POST_REJECTED (by decide) rfl
    | exact Or.inr ⟨(by decide : POST_SUCCESS ≠ POST_PENDING), rfl, rfl⟩
    | exact Or.inl ⟨rfl, fun h => PostStateValue.noConfusion h, rfl⟩
    | exact Or.inl ⟨rfl, fun h => hs h, rfl⟩
    | exact Or.inl ⟨rfl, fun h => hs (g4.symm.trans h), rfl⟩
    | exact Or.inl ⟨rfl, fun h => hs (sm4.symm.trans h), rfl⟩
    | exact Or.inl ⟨rfl, fun h => hs (cr4.symm.trans h), rfl⟩


/-- A call of `dav_tick` keeps the rule "at rest exactly when not Pending",
and returns Pending exactly when it leaves the collector busy. -/
theorem dav_tick_settled (crc : List Nat → Nat) (env : DavEnv) (s : DavState)
    (h : dav_settled s) :
    dav_settled (dav_tick crc env s).1 ∧
    (dav_tick crc env s).2 = (dav_tick crc env s).1.condition ∧
    ((dav_tick crc env s).2 = DAV_PENDING ↔ (dav_tick crc env s).1.state ≠ .DAV_IDLE) := by
  by_cases hs : s.state = .DAV_IDLE
  · have e : dav_tick crc env s = (dav_cleanup s, s.condition) := by
      unfold dav_tick; rw [if_pos hs]
    rw [e]
    have hc : s.condition ≠ DAV_PENDING := h.mp hs
    exact ⟨h, rfl, ⟨fun x => absurd x hc, fun x => absurd hs x⟩⟩
  · rcases dav_tick_outcome crc env s hs with ⟨a, b, c⟩ | ⟨a, b, c⟩
    · exact ⟨⟨fun x => absurd x b, fun x => absurd c x⟩, a.trans c.symm, ⟨fun _ => b, fun _ => a⟩⟩
    · exact ⟨⟨fun _ => by rw [c]; exact a, fun _ => b⟩, c.symm,
        ⟨fun x => absurd x a, fun x => absurd b x⟩⟩

/-- A call of `post_tick` keeps the rule "at rest exactly when not Pending",
and returns Pending exactly when it leaves the machine busy. -/
theorem post_tick_settled (env : PostEnv) (s : PostState) (h : post_settled s) :
    post_settled (post_tick env s).1 ∧
    (post_tick env s).2 = (post_tick env s).1.condition ∧
    ((post_tick env s).2 = POST_PENDING ↔ (post_tick env s).1.state ≠ .POST_IDLE) := by
  by_cases hs : s.state = .POST_IDLE
  · have e : post_tick env s = (s, s.condition) := by
      unfold post_tick; rw [if_pos hs]
    rw [e]
    have hc : s.condition ≠ POST_PENDING := h.mp hs
    exact ⟨h, rfl, ⟨fun x => absurd x hc, fun x => absurd hs x⟩⟩
  · rcases post_tick_settles env s hs with ⟨a, b, c⟩ | ⟨a, b, c⟩
    · exact ⟨⟨fun x => absurd x b, fun x => absurd c x⟩, a.trans c.symm, ⟨fun _ => b, fun _ => a⟩⟩
    · exact ⟨⟨fun _ => by rw [c]; exact a, fun _ => b⟩, c.symm,
        ⟨fun x => absurd x a, fun x => absurd b x⟩⟩

/-- With the collector at rest, every further call of `dav_tick` returns the
stored status. -/
theorem dav_run_status_idle (crc : List Nat → Nat) (ins : List DavInput) :
    ∀ (q : DavState × Int), q.1.state = .DAV_IDLE → q.2 = q.1.condition →
    (ins.foldl (fun (p : DavState × Int) i => dav_step crc i p.1) q).2 = q.2 := by
  induction ins with
  | nil => intro q _ _; rfl
  | cons i ins ih =>
    intro q h1 h2
    rw [List.foldl_cons]
    have e : dav_step crc i q.1 =
        (dav_cleanup { q.1 with rx := q.1.rx ++ i.arrived }, q.1.condition) := by
      unfold dav_step dav_tick
      rw [if_pos h1]
    rw [ih (dav_step crc i q.1) (by rw [e]; exact h1) (by rw [e]; rfl), e, h2]

/-- A call of `post_tick` with the machine at rest returns the stored status
and changes nothing. -/
theorem post_tick_at_idle (e : PostEnv) (s : PostState) (hs : s.state = .POST_IDLE) :
    post_tick e s = (s, s.condition) := by
  unfold post_tick; rw [if_pos hs]

/-- With the POST client at rest, calls of `post_tick` change nothing. -/
theorem post_run_idle (envs : List PostEnv) : ∀ (s : PostState), s.state = .POST_IDLE →
    post_run envs s = s := by
  induction envs with
  | nil => intro s _; rfl
  | cons e envs ih =>
    intro s hs
    have e1 : post_tick e s = (s, s.condition) := by
      unfold post_tick; rw [if_pos hs]
    rw [post_run_cons, e1]
    exact ih s hs

/-- C37: for the collector and for the POST client, the state is the idle
state exactly when the status is not Pending: after initialisation (for the
collector a `dav_init_all` that returns 0; when the serial port cannot be set
up it returns -1 before it touches the state, and `main` resets the unit),
after every start and abort, and after every tick made from a state in which
the rule held. A tick returns the status it leaves; it returns Pending exactly when it
leaves the machine busy; and once a tick has returned another status, every
later tick returns that same status. -/
theorem idle_iff_not_pending (crc : List Nat → Nat) (denv : DavEnv) (penv : PostEnv)
    (d : DavState) (p : PostState) (hd : dav_settled d) (hp : post_settled p) :
    ((∀ d0, dav_settled (dav_init_all true d0).1) ∧
      (∀ d0 id str, dav_settled (dav_start denv d0 id str)) ∧
      (∀ d0, dav_settled (dav_abort d0)) ∧
      dav_settled (dav_tick crc denv d).1) ∧
    (dav_tick crc denv d).2 = dav_get_status (dav_tick crc denv d).1 ∧
    ((dav_tick crc denv d).2 = DAV_PENDING ↔ (dav_tick crc denv d).1.state ≠ .DAV_IDLE) ∧
    ((dav_tick crc denv d).2 ≠ DAV_PENDING →
      ∀ ins, dav_run_status crc ins (dav_tick crc denv d).1 = (dav_tick crc denv d).2) ∧
    ((∀ p0 ok size, post_settled (post_init ok size p0).1) ∧
      (∀ p0, post_settled (post_start penv p0).1) ∧
      (∀ p0, post_settled (post_abort p0)) ∧
      post_settled (post_tick penv p).1) ∧
    (post_tick penv p).2 = post_get_status (post_tick penv p).1 ∧
    ((post_tick penv p).2 = POST_PENDING ↔ (post_tick penv p).1.state ≠ .POST_IDLE) ∧
    ((post_tick penv p).2 ≠ POST_PENDING →
      ∀ envs e, (post_tick e (post_run envs (post_tick penv p).1)).2 = (post_tick penv p).2) := by
  obtain ⟨d1, d2, d3⟩ := dav_tick_settled crc denv d hd
  obtain ⟨p1, p2, p3⟩ := post_tick_settled penv p hp
  refine ⟨⟨?_, ?_, ?_, d1⟩, d2, d3, ?_, ⟨?_, ?_, ?_, p1⟩, p2, p3, ?_⟩
  · intro d0
    exact ⟨fun _ => (by decide : DAV_NOT_STARTED ≠ DAV_PENDING), fun _ => rfl⟩
  · intro d0 id str
    exact ⟨fun h => DavStateValue.noConfusion h, fun h => absurd rfl h⟩
  · intro d0
    exact ⟨fun _ => (by decide : DAV_ABORTED ≠ DAV_PENDING), fun _ => rfl⟩
  · intro hne ins
    have hidle : (dav_tick crc denv d).1.state = .DAV_IDLE := by
      by_contra hx
      exact hne (d3.mpr hx)
    unfold dav_run_status
    rw [dav_run_status_idle crc ins ((dav_tick crc denv d).1, (dav_tick crc denv d).1.condition)
      hidle rfl]
    exact d2.symm
  · intro p0 ok size
    unfold post_init
    dsimp only
    split_ifs <;>
      exact ⟨fun _ => (by decide : POST_NOT_STARTED ≠ POST_PENDING), fun _ => rfl⟩
  · intro p0
    unfold post_start post_reset_timeout
    dsimp only
    split_ifs
    all_goals first
      | exact ⟨fun _ => (by decide : POST_CANNOT_START ≠ POST_PENDING), fun _ => rfl⟩
      | exact ⟨fun h => PostStateValue.noConfusion h, fun h => absurd rfl h⟩
  · intro p0
    exact ⟨fun _ => (by decide : POST_ABORTED ≠ POST_PENDING), fun _ => rfl⟩
  · intro hne envs e
    have hidle : (post_tick penv p).1.state = .POST_IDLE := by
      by_contra hx
      exact hne (p3.mpr hx)
    rw [post_run_idle envs _ hidle]
    rw [post_tick_at_idle e _ hidle]
    exact p2.symm

set_option maxRecDepth 20000 in
/-- C37, at a concrete input: the collector meets a packet of zero bytes in
`DAV_CHECKING_DATA` and the POST client meets the closed connection after a
"Bad ID!" answer. The ticks return BadData and BadId, and so do the ticks that
follow. -/
theorem idle_iff_not_pending_witness :
    (dav_tick crc_calculate (dav_env_at 1) dav_checking_zeros).2 = DAV_BAD_DATA ∧
    dav_run_status crc_calculate dav_three_expiries
      (dav_tick crc_calculate (dav_env_at 1) dav_checking_zeros).1 = DAV_BAD_DATA ∧
    (post_tick (post_env_line 1 false []) post_reading_bad_id).2 = POST_BAD_ID ∧
    (post_tick (post_env_line 3 true [])
      (post_run [post_env_line 2 true []]
        (post_tick (post_env_line 1 false []) post_reading_bad_id).1)).2 = POST_BAD_ID :=
  have h := idle_iff_not_pending crc_calculate (dav_env_at 1) (post_env_line 1 false [])
    dav_checking_zeros post_reading_bad_id (by decide) (by decide)
  have hd : (dav_tick crc_calculate (dav_env_at 1) dav_checking_zeros).2 = DAV_BAD_DATA := by
    decide
  have hp : (post_tick (post_env_line 1 false []) post_reading_bad_id).2 = POST_BAD_ID := by
    decide
  ⟨hd, (h.2.2.2.1 (by rw [hd]; decide) dav_three_expiries).trans hd, hp,
    (h.2.2.2.2.2.2.2 (by rw [hp]; decide) [post_env_line 2 true []]
      (post_env_line 3 true [])).trans hp⟩


set_option maxRecDepth 4000 in
set_option maxHeartbeats 2000000 in
/-- What a call of `dav_tick` does to the data buffer: it leaves the buffer
and `dav_data_valid` alone; or it has read 99 bytes into the buffer and cleared
`dav_data_valid`; or, in `DAV_CHECKING_DATA`, it has left the buffer alone
after the packet passed the three tests. -/
theorem dav_tick_data (crc : List Nat → Nat) (env : DavEnv) (s : DavState) :
    ((dav_tick crc env s).1.dav_data = s.dav_data ∧
      (dav_tick crc env s).1.dav_data_valid = s.dav_data_valid) ∨
    ((dav_tick crc env s).1.dav_data_valid = 0 ∧
      (dav_tick crc env s).1.dav_data.length = DAV_DATA_LEN) ∨
    ((dav_tick crc env s).1.dav_data = s.dav_data ∧ dav_data_checked crc s) := by
  by_cases hidle : s.state = .DAV_IDLE
  · have e : dav_tick crc env s = (dav_cleanup s, s.condition) := by
      unfold dav_tick; rw [if_pos hidle]
    rw [e]; exact Or.inl ⟨rfl, rfl⟩
  by_cases herr : env.serial_error = true
  · have e : dav_tick crc env s = dav_error s "Serial port error" DAV_SERIAL_ERR := by
      unfold dav_tick; rw [if_neg hidle, if_pos herr]
    rw [e]; exact Or.inl ⟨rfl, rfl⟩
  by_cases hto : CHK_TIMEOUT_UI env.secs s.timeout = true
  · have e : dav_tick crc env s = dav_error s "Timed out" DAV_TIMEOUT := by
      unfold dav_tick; rw [if_neg hidle, if_neg herr, if_pos hto]
    rw [e]; exact Or.inl ⟨rfl, rfl⟩
  by_cases hchk : s.state = .DAV_CHECKING_DATA
  · unfold dav_tick
    rw [if_neg hidle, if_neg herr, if_neg hto, hchk]
    dsimp only
    by_cases c1 : c_str (s.dav_data.take 3) = [76, 79, 79]
    · rw [if_neg (not_not.mpr c1)]
      by_cases c2 : s.dav_data.getD DAV_DATA_LF 0 ≠ 10 ∨ s.dav_data.getD DAV_DATA_CR 0 ≠ 13
      · rw [if_pos c2]; exact Or.inl ⟨rfl, rfl⟩
      · rw [if_neg c2]
        by_cases c3 : dav_check_data_crc crc s = true
        · rw [if_neg (not_not.mpr c3)]
          refine Or.inr (Or.inr ⟨rfl, c1, ?_, ?_, c3⟩)
          · by_contra h; exact c2 (Or.inl h)
          · by_contra h; exact c2 (Or.inr h)
        · rw [if_pos c3]; exact Or.inl ⟨rfl, rfl⟩
    · rw [if_pos c1]; exact Or.inl ⟨rfl, rfl⟩
  obtain ⟨st, cond, tmo, cid, cstr, ac, rt, p1, p2, dd, ddv, des, dt, rx, tx, con, led⟩ := s
  replace hidle : ¬ (st = .DAV_IDLE) := hidle
  replace hchk : ¬ (st = .DAV_CHECKING_DATA) := hchk
  unfold dav_tick
  rw [if_neg hidle, if_neg herr, if_neg hto]
  cases st <;> cases cid <;>
    simp only [set_post_cmd_state, set_post_ack_state, set_post_ok_state, send_command,
      dav_echo_resp, send_wakeup, dav_send_time, dav_calc_time_crc] <;>
    repeat' split
  all_goals first
    | exact absurd rfl hidle
    | exact absurd rfl hchk
    | exact Or.inl ⟨rfl, rfl⟩
    | (refine Or.inr (Or.inl ⟨rfl, ?_⟩)
       show (List.take DAV_DATA_LEN rx).length = DAV_DATA_LEN
       rw [List.length_take]
       exact Nat.min_eq_left (by assumption))

set_option maxRecDepth 4000 in
set_option maxHeartbeats 2000000 in
/-- A call of `dav_tick` under the command `LOOP 1`, in one of the states of
that command: the command stays, the collector comes to rest or stays on the
path, and Success is returned only with `dav_data_valid` set. -/
theorem dav_tick_collect (crc : List Nat → Nat) (env : DavEnv) (s : DavState)
    (hc : s.cmd_id = .DAV_CMD_COLLECT) (hp : dav_collect_path s.state = true) :
    (dav_tick crc env s).1.cmd_id = .DAV_CMD_COLLECT ∧
    ((dav_tick crc env s).1.state = .DAV_IDLE ∨
      dav_collect_path (dav_tick crc env s).1.state = true) ∧
    ((dav_tick crc env s).2 = DAV_SUCCESS → (dav_tick crc env s).1.dav_data_valid ≠ 0) := by
  have hidle : s.state ≠ .DAV_IDLE := by
    intro h; rw [h] at hp; exact absurd hp (by decide)
  by_cases herr : env.serial_error = true
  · have e : dav_tick crc env s = dav_error s "Serial port error" DAV_SERIAL_ERR := by
      unfold dav_tick; rw [if_neg hidle, if_pos herr]
    rw [e]; exact ⟨hc, Or.inl rfl, fun h => Int.noConfusion h⟩
  by_cases hto : CHK_TIMEOUT_UI env.secs s.timeout = true
  · have e : dav_tick crc env s = dav_error s "Timed out" DAV_TIMEOUT := by
      unfold dav_tick; rw [if_neg hidle, if_neg herr, if_pos hto]
    rw [e]; exact ⟨hc, Or.inl rfl, fun h => Int.noConfusion h⟩
  obtain ⟨st, cond, tmo, cid, cstr, ac, rt, p1, p2, dd, ddv, des, dt, rx, tx, con, led⟩ := s
  replace hidle : ¬ (st = .DAV_IDLE) := hidle
  replace hc : cid = .DAV_CMD_COLLECT := hc
  replace hp : dav_collect_path st = true := hp
  subst hc
  unfold dav_tick
  rw [if_neg hidle, if_neg herr, if_neg hto]
  cases st <;>
    simp only [set_post_cmd_state, set_post_ack_state, set_post_ok_state, send_command,
      dav_echo_resp, send_wakeup] <;>
    repeat' split
  all_goals first
    | exact absurd rfl hidle
    | exact absurd hp (by decide)
    | exact absurd (by assumption) (by decide : DAV_PENDING ≠ DAV_SUCCESS)
    | exact ⟨rfl, Or.inl rfl, fun h => Int.noConfusion h⟩
    | exact ⟨rfl, Or.inr rfl, fun h => absurd h (by decide : DAV_PENDING ≠ DAV_SUCCESS)⟩
    | exact ⟨rfl, Or.inl rfl, fun _ => (by decide : (1 : Nat) ≠ 0)⟩


/-- A check of the packet looks at the data buffer only. -/
theorem dav_data_checked_congr (crc : List Nat → Nat) {s t : DavState}
    (h : t.dav_data = s.dav_data) (hc : dav_data_checked crc s) : dav_data_checked crc t := by
  obtain ⟨a, b, c, d⟩ := hc
  refine ⟨by rw [h]; exact a, by rw [h]; exact b, by rw [h]; exact c, ?_⟩
  unfold dav_check_data_crc at d ⊢
  rw [h]
  exact d

/-- A call of `dav_tick` keeps: the data buffer has 99 bytes, and
`dav_data_valid` is set only with a packet that passed the tests. -/
theorem dav_tick_keeps_checked (crc : List Nat → Nat) (env : DavEnv) (s : DavState)
    (h0 : s.dav_data.length = DAV_DATA_LEN)
    (h1 : s.dav_data_valid ≠ 0 → dav_data_checked crc s) :
    (dav_tick crc env s).1.dav_data.length = DAV_DATA_LEN ∧
    ((dav_tick crc env s).1.dav_data_valid ≠ 0 → dav_data_checked crc (dav_tick crc env s).1) := by
  rcases dav_tick_data crc env s with ⟨a, b⟩ | ⟨a, b⟩ | ⟨a, b⟩
  · exact ⟨by rw [a]; exact h0, fun h => dav_data_checked_congr crc a (h1 (by rw [← b]; exact h))⟩
  · exact ⟨b, fun h => absurd a h⟩
  · exact ⟨by rw [a]; exact h0, fun _ => dav_data_checked_congr crc a b⟩

/-- The data buffer after a step of the supervisor is the one `dav_tick`
left. -/
theorem tasks_run_dav_data (crc : List Nat → Nat) (env : TasksEnv) (n : Node) :
    (tasks_run crc env n).1.dav.dav_data = (dav_tick crc env.dav n.dav).1.dav_data ∧
    (tasks_run crc env n).1.dav.dav_data_valid = (dav_tick crc env.dav n.dav).1.dav_data_valid := by
  rcases tasks_run_dav_cases crc env n with h | h | h | ⟨h, _⟩ <;> rw [h] <;> exact ⟨rfl, rfl⟩

set_option maxHeartbeats 1000000 in
/-- The supervisor's state and the collector after a step, as far as
`TASKS_COLLECTING` and `TASKS_PROCESSING` are concerned. -/
theorem tasks_run_shape (crc : List Nat → Nat) (env : TasksEnv) (n : Node) :
    ((tasks_run crc env n).1.tasks_state.state = .TASKS_COLLECTING ∧
      (tasks_run crc env n).1.dav = dav_start_collect env.dav (dav_tick crc env.dav n.dav).1) ∨
    (n.tasks_state.state = .TASKS_COLLECTING ∧
      (tasks_run crc env n).1.tasks_state.state = .TASKS_COLLECTING ∧
      (tasks_run crc env n).1.dav = (dav_tick crc env.dav n.dav).1 ∧
      ((dav_tick crc env.dav n.dav).2 = DAV_PENDING ∨
        (dav_tick crc env.dav n.dav).1.condition ≠ DAV_SUCCESS)) ∨
    (n.tasks_state.state = .TASKS_COLLECTING ∧
      (tasks_run crc env n).1.tasks_state.state = .TASKS_PROCESSING ∧
      (tasks_run crc env n).1.dav = (dav_tick crc env.dav n.dav).1 ∧
      (dav_tick crc env.dav n.dav).2 ≠ DAV_PENDING ∧
      ((dav_tick crc env.dav n.dav).1.condition = DAV_SUCCESS ∨
        ((tasks_run crc env n).1.tasks_state.new_data ≠ 0 →
          (dav_tick crc env.dav n.dav).1.dav_data_valid ≠ 0))) ∨
    (n.tasks_state.state = .TASKS_PROCESSING ∧
      (tasks_run crc env n).1.dav = (dav_tick crc env.dav n.dav).1 ∧
      (tasks_run crc env n).1.tasks_state.new_data = n.tasks_state.new_data) ∨
    ((tasks_run crc env n).1.tasks_state.state ≠ .TASKS_COLLECTING ∧
      (tasks_run crc env n).1.tasks_state.state ≠ .TASKS_PROCESSING) := by
  unfold tasks_run
  cases hs : n.tasks_state.state <;> simp only []
  · -- idle
    unfold tasks_run_idle tasks_start_collection set_next_collection_time Node.goto
      wx_get_switches
    dsimp only
    generalize dav_tick crc env.dav n.dav = T
    split_ifs
    all_goals first
      | exact Or.inl ⟨rfl, rfl⟩
      | exact Or.inr (Or.inr (Or.inr (Or.inr
          ⟨fun h => TasksStateValue.noConfusion h, fun h => TasksStateValue.noConfusion h⟩)))
      | exact Or.inr (Or.inr (Or.inr (Or.inr
          ⟨fun h => absurd (hs.symm.trans h) (fun x => TasksStateValue.noConfusion x),
            fun h => absurd (hs.symm.trans h) (fun x => TasksStateValue.noConfusion x)⟩)))
  · -- collecting
    unfold tasks_run_collecting Node.goto
    dsimp only
    generalize dav_tick crc env.dav n.dav = T
    by_cases hp : T.2 = DAV_PENDING
    · rw [if_neg (not_not.mpr hp)]
      exact Or.inr (Or.inl ⟨trivial, hs, rfl, Or.inl hp⟩)
    · rw [if_pos hp]
      by_cases hsucc : dav_get_status T.1 = DAV_SUCCESS
      · rw [if_pos hsucc]
        exact Or.inr (Or.inr (Or.inl ⟨trivial, rfl, rfl, hp, Or.inl hsucc⟩))
      · rw [if_neg hsucc]
        by_cases hv : T.1.dav_data_valid = 0
        · rw [if_pos hv]
          dsimp only
          split_ifs
          · exact Or.inr (Or.inl ⟨trivial, hs, rfl, Or.inr hsucc⟩)
          · exact Or.inr (Or.inr (Or.inl ⟨trivial, rfl, rfl, hp,
              Or.inr (fun h => absurd rfl h)⟩))
        · rw [if_neg hv]
          dsimp only
          split_ifs
          · exact Or.inr (Or.inl ⟨trivial, hs, rfl, Or.inr hsucc⟩)
          · exact Or.inr (Or.inr (Or.inl ⟨trivial, rfl, rfl, hp, Or.inr (fun _ => hv)⟩))
  · -- processing
    obtain ⟨a, b, _, _⟩ := set_post_body_rest env { n with dav := (dav_tick crc env.dav n.dav).1 }
    have a1 : (set_post_body env { n with dav := (dav_tick crc env.dav n.dav).1 }).1.tasks_state =
      n.tasks_state := a
    have b1 : (set_post_body env { n with dav := (dav_tick crc env.dav n.dav).1 }).1.dav =
      (dav_tick crc env.dav n.dav).1 := b
    have a2 := congrArg TasksState.new_data a1
    unfold tasks_run_processing Node.goto
    dsimp only
    generalize set_post_body env { n with dav := (dav_tick crc env.dav n.dav).1 } = B at a2 b1 ⊢
    generalize dav_tick crc env.dav n.dav = T at b1 ⊢
    generalize post_start env.post B.1.post = PS
    split_ifs <;> exact Or.inr (Or.inr (Or.inr (Or.inl ⟨trivial, b1, a2⟩)))
  · -- delivering
    unfold tasks_run_delivering Node.goto
    dsimp only
    generalize dav_tick crc env.dav n.dav = T
    split_ifs
    all_goals first
      | exact Or.inr (Or.inr (Or.inr (Or.inr
          ⟨fun h => TasksStateValue.noConfusion h, fun h => TasksStateValue.noConfusion h⟩)))
      | exact Or.inr (Or.inr (Or.inr (Or.inr
          ⟨fun h => absurd (hs.symm.trans h) (fun x => TasksStateValue.noConfusion x),
            fun h => absurd (hs.symm.trans h) (fun x => TasksStateValue.noConfusion x)⟩)))
  · -- time checking
    unfold tasks_run_time_checking Node.goto
    dsimp only
    generalize dav_tick crc env.dav n.dav = T
    split_ifs
    all_goals first
      | exact Or.inr (Or.inr (Or.inr (Or.inr
          ⟨fun h => TasksStateValue.noConfusion h, fun h => TasksStateValue.noConfusion h⟩)))
      | exact Or.inr (Or.inr (Or.inr (Or.inr
          ⟨fun h => absurd (hs.symm.trans h) (fun x => TasksStateValue.noConfusion x),
            fun h => absurd (hs.symm.trans h) (fun x => TasksStateValue.noConfusion x)⟩)))
  · -- time setting
    unfold tasks_run_time_setting Node.goto
    dsimp only
    generalize dav_tick crc env.dav n.dav = T
    split_ifs
    all_goals first
      | exact Or.inr (Or.inr (Or.inr (Or.inr
          ⟨fun h => TasksStateValue.noConfusion h, fun h => TasksStateValue.noConfusion h⟩)))
      | exact Or.inr (Or.inr (Or.inr (Or.inr
          ⟨fun h => absurd (hs.symm.trans h) (fun x => TasksStateValue.noConfusion x),
            fun h => absurd (hs.symm.trans h) (fun x => TasksStateValue.noConfusion x)⟩)))


/-- A step of the supervisor keeps `data_inv`. -/
theorem tasks_run_data_inv (crc : List Nat → Nat) (env : TasksEnv) (n : Node)
    (h : data_inv crc n) : data_inv crc (tasks_run crc env n).1 := by
  obtain ⟨i0, i1, i2, i3⟩ := h
  obtain ⟨k0, k1⟩ := dav_tick_keeps_checked crc env.dav n.dav i0 i1
  obtain ⟨e1, e2⟩ := tasks_run_dav_data crc env n
  have hret := dav_tick_ret crc env.dav n.dav
  have hidle : n.dav.state = .DAV_IDLE →
      dav_tick crc env.dav n.dav = (dav_cleanup n.dav, n.dav.condition) := by
    intro hs; unfold dav_tick; rw [if_pos hs]
  refine ⟨by rw [e1]; exact k0,
    fun hv => dav_data_checked_congr crc e1 (k1 (by rw [← e2]; exact hv)), ?_, ?_⟩
  · -- in `TASKS_COLLECTING`
    intro hst
    rcases tasks_run_shape crc env n with ⟨_, b⟩ | ⟨a, _, c, d⟩ | ⟨_, b, _⟩ | ⟨a, _, _⟩ | ⟨a, _⟩
    · rw [b]; exact Or.inl ⟨rfl, rfl⟩
    · rw [c]
      rcases i2 a with ⟨hc, hp⟩ | ⟨hs, hne⟩
      · obtain ⟨c1, c2, _⟩ := dav_tick_collect crc env.dav n.dav hc hp
        have hni : n.dav.state ≠ .DAV_IDLE := by
          intro hx; rw [hx] at hp; exact absurd hp (by decide)
        rcases dav_tick_outcome crc env.dav n.dav hni with ⟨o1, o2, _⟩ | ⟨o1, o2, o3⟩
        · rcases c2 with c2 | c2
          · exact absurd c2 o2
          · exact Or.inl ⟨c1, c2⟩
        · rcases d with d | d
          · exact absurd d o1
          · exact Or.inr ⟨o2, d⟩
      · rw [hidle hs]
        exact Or.inr ⟨hs, hne⟩
    · rw [b] at hst; exact TasksStateValue.noConfusion hst
    · have hn : (tasks_run crc env n).1.tasks_state.state ≠ .TASKS_COLLECTING := by
        unfold tasks_run
        rw [a]
        simp only []
        obtain ⟨x, _, _, _⟩ := set_post_body_rest env
          { n with dav := (dav_tick crc env.dav n.dav).1 }
        have x1 : (set_post_body env { n with dav := (dav_tick crc env.dav n.dav).1 }).1.tasks_state
            = n.tasks_state := x
        have x2 := congrArg TasksState.state x1
        unfold tasks_run_processing Node.goto
        dsimp only
        generalize set_post_body env { n with dav := (dav_tick crc env.dav n.dav).1 } = B at x2 ⊢
        split_ifs
        · exact fun hh => absurd (a.symm.trans (x2.symm.trans hh))
            (fun y => TasksStateValue.noConfusion y)
        · exact fun hh => TasksStateValue.noConfusion hh
      exact absurd hst hn
    · exact absurd hst a
  · -- in `TASKS_PROCESSING`
    intro hst
    rcases tasks_run_shape crc env n with ⟨a, _⟩ | ⟨_, b, _⟩ | ⟨a, _, c, d, f⟩ | ⟨a, c, d⟩ | ⟨_, b⟩
    · rw [a] at hst; exact TasksStateValue.noConfusion hst
    · rw [b] at hst; exact TasksStateValue.noConfusion hst
    · rw [c]
      rcases i2 a with ⟨hc, hp⟩ | ⟨hs, hne⟩
      · obtain ⟨_, _, c3⟩ := dav_tick_collect crc env.dav n.dav hc hp
        have hni : n.dav.state ≠ .DAV_IDLE := by
          intro hx; rw [hx] at hp; exact absurd hp (by decide)
        rcases dav_tick_outcome crc env.dav n.dav hni with ⟨o1, _, _⟩ | ⟨_, o2, o3⟩
        · exact absurd o1 d
        · refine ⟨o2, ?_⟩
          rcases f with f | f
          · exact fun _ => c3 (o3.symm.trans f)
          · exact f
      · rw [hidle hs] at f d ⊢
        refine ⟨hs, ?_⟩
        rcases f with f | f
        · exact absurd f hne
        · exact f
    · obtain ⟨j1, j2⟩ := i3 a
      rw [c, d, hidle j1]
      exact ⟨j1, j2⟩
    · exact absurd hst b

/-- Every run of the supervisor keeps `data_inv`. -/
theorem tasks_steps_data_inv (crc : List Nat → Nat) (envs : List TasksEnv) : ∀ (n : Node),
    data_inv crc n → data_inv crc (tasks_steps crc envs n) := by
  induction envs with
  | nil => intro n h; exact h
  | cons e envs ih =>
    intro n h
    exact ih (tasks_run crc e n).1 (tasks_run_data_inv crc e n h)

/-- C36: `data_inv` holds when `tasks_init` has run (the supervisor in
`TASKS_IDLE`, a data buffer of 99 bytes, `dav_data_valid` clear) and after
every run of the supervisor from a node where it holds. So whenever the
supervisor is in `TASKS_PROCESSING` with `new_data` set, the collector is at
rest, `dav_data_valid` is set and `dav_data` holds 99 bytes that passed the
LOO, LF CR and CRC tests; the step then made leaves that buffer as it is and
builds the `data` field of the body from it. -/
theorem posted_data_is_checked (crc : List Nat → Nat) (envs : List TasksEnv) (n0 : Node)
    (env : TasksEnv) (h0 : data_inv crc n0) :
    (∀ m : Node, m.tasks_state.state = .TASKS_IDLE → m.dav.dav_data.length = DAV_DATA_LEN →
      m.dav.dav_data_valid = 0 → data_inv crc m) ∧
    data_inv crc (tasks_steps crc envs n0) ∧
    ((tasks_steps crc envs n0).tasks_state.state = .TASKS_PROCESSING →
      (tasks_steps crc envs n0).tasks_state.new_data ≠ 0 →
      (tasks_steps crc envs n0).dav.state = .DAV_IDLE ∧
      (tasks_steps crc envs n0).dav.dav_data_valid ≠ 0 ∧
      (tasks_steps crc envs n0).dav.dav_data.length = DAV_DATA_LEN ∧
      dav_data_checked crc (tasks_steps crc envs n0).dav ∧
      (dav_tick crc env.dav (tasks_steps crc envs n0).dav).1.dav_data
        = (tasks_steps crc envs n0).dav.dav_data ∧
      (add_collected_data
          { tasks_steps crc envs n0 with
            dav := (dav_tick crc env.dav (tasks_steps crc envs n0).dav).1 }) =
        node_add_variable
          { tasks_steps crc envs n0 with
            dav := (dav_tick crc env.dav (tasks_steps crc envs n0).dav).1 }
          (lit "data") (tasks_steps crc envs n0).dav.dav_data DAV_DATA_LEN) := by
  have hinv := tasks_steps_data_inv crc envs n0 h0
  refine ⟨?_, hinv, ?_⟩
  · intro m hs hl hv
    refine ⟨hl, fun h => absurd hv h, fun h => ?_, fun h => ?_⟩
    · rw [hs] at h; exact TasksStateValue.noConfusion h
    · rw [hs] at h; exact TasksStateValue.noConfusion h
  · generalize tasks_steps crc envs n0 = n at hinv ⊢
    intro hst hnd
    obtain ⟨i0, i1, _, i3⟩ := hinv
    obtain ⟨j1, j2⟩ := i3 hst
    have e : dav_tick crc env.dav n.dav = (dav_cleanup n.dav, n.dav.condition) := by
      unfold dav_tick; rw [if_pos j1]
    refine ⟨j1, j2 hnd, i0, i1 (j2 hnd), by rw [e]; rfl, ?_⟩
    rw [e]
    unfold add_collected_data
    rw [if_pos hnd]
    rfl

/-- C36, at a concrete input (with a CRC function that gives 0): the
supervisor is in `TASKS_COLLECTING` with `new_data` and `dav_data_valid` clear
and the collector checks a packet that is in order. After the step the
supervisor is in `TASKS_PROCESSING` with `new_data` and `dav_data_valid` set,
and the packet passes the tests. -/
theorem posted_data_is_checked_witness :
    node_collecting_loop.tasks_state.new_data = 0 ∧
    node_collecting_loop.dav.dav_data_valid = 0 ∧
    (tasks_steps crc_zero [tasks_env_at 1 true] node_collecting_loop).tasks_state.state
      = .TASKS_PROCESSING ∧
    (tasks_steps crc_zero [tasks_env_at 1 true] node_collecting_loop).tasks_state.new_data = 1 ∧
    (tasks_steps crc_zero [tasks_env_at 1 true] node_collecting_loop).dav.dav_data_valid ≠ 0 ∧
    dav_data_checked crc_zero (tasks_steps crc_zero [tasks_env_at 1 true] node_collecting_loop).dav :=
  have h := (posted_data_is_checked crc_zero [tasks_env_at 1 true] node_collecting_loop
    (tasks_env_at 2 true) (by decide)).2.2 (by decide) (by decide)
  ⟨by decide, by decide, by decide, by decide, h.2.1, h.2.2.2.1⟩

end Wx
